import Mathlib

/-!
# PulseAudio daemon bootstrap (`src/daemon/main.c`)

A shallow embedding of the daemon entry point: `signal_callback`, `change_user`,
`set_one_rlimit`, `set_all_rlimits` and `main`.

Conventions of the embedding.

* The build that is modelled is the Linux one: `HAVE_GETUID`, `HAVE_FORK`,
  `HAVE_SYS_RESOURCE_H`, `HAVE_PWD_H`, `HAVE_GRP_H`, `HAVE_SETRESGID`,
  `HAVE_SETRESUID`, `HAVE_SETSID`, `HAVE_SETPGID`, `HAVE_POLKIT`, `HAVE_DBUS`,
  `TIOCNOTTY`, every `SIG*` and every `RLIMIT_*` constant are defined and
  `OS_IS_WIN32` is not.  Whether the block guarded by
  `defined(__linux__) && defined(__OPTIMIZE__)` is compiled in is a field of the
  world (`optimized_linux_build`).
* Every call that leaves `main.c` is answered by a field of `World`; the call
  itself is recorded as an `Event` in the trace of the process.  One `World`
  describes the run of one process: the result of `fork()` says on which side of
  the fork this process continues.
* The logging calls (`pa_log*`, `pa_yes_no`, `pa_cstrerror`) and the calls whose
  result only selects a log message (`pa_can_high_priority`, `pa_can_realtime`,
  `pa_rtclock_hrtimer`, `pa_in_system_mode`, `pa_get_state_dir`, `strcmp`)
  neither change a variable of `main` nor touch a resource that is tracked
  here; they are left out of the trace, as are `pa_xfree` and the `stdio` output
  of `fputs`.
* `goto finish`, a failed `pa_assert_se` (the process aborts and `main` never
  returns) and a successful `execv` are the constructors of `Flow`.
-/

set_option linter.unusedTactic false
set_option linter.unusedVariables false
set_option linter.unnecessarySeqFocus false
set_option linter.unreachableTactic false

namespace PulseDaemon

/-- The values of `pa_daemon_conf_cmd_t` that `main` switches on. -/
inductive pa_daemon_conf_cmd where
  | PA_CMD_DAEMON
  | PA_CMD_START
  | PA_CMD_HELP
  | PA_CMD_VERSION
  | PA_CMD_DUMP_CONF
  | PA_CMD_DUMP_MODULES
  | PA_CMD_KILL
  | PA_CMD_CHECK
  | PA_CMD_DUMP_RESAMPLE_METHODS
  | PA_CMD_CLEANUP_SHM
  deriving DecidableEq, Repr

/-- The resources passed to `setrlimit` and `getrlimit`. -/
inductive Resource where
  | RLIMIT_FSIZE
  | RLIMIT_DATA
  | RLIMIT_STACK
  | RLIMIT_CORE
  | RLIMIT_RSS
  | RLIMIT_NPROC
  | RLIMIT_NOFILE
  | RLIMIT_MEMLOCK
  | RLIMIT_AS
  | RLIMIT_LOCKS
  | RLIMIT_SIGPENDING
  | RLIMIT_MSGQUEUE
  | RLIMIT_NICE
  | RLIMIT_RTPRIO
  | RLIMIT_RTTIME
  deriving DecidableEq, Repr

/-- A configured resource limit, `pa_rlimit`: the value and whether it is set. -/
structure pa_rlimit where
  value : Nat
  is_set : Bool
  deriving DecidableEq, Repr

/-- The fields of `pa_daemon_conf` that `main` reads. -/
structure pa_daemon_conf where
  cmd : pa_daemon_conf_cmd
  daemonize : Bool
  fail : Bool
  high_priority : Bool
  realtime_scheduling : Bool
  disallow_module_loading : Bool
  use_pid_file : Bool
  system_instance : Bool
  no_cpu_limit : Bool
  disable_shm : Bool
  load_default_script_file : Bool
  auto_log_target : Bool
  nice_level : Int
  has_dl_search_path : Bool
  rlimit_fsize : pa_rlimit
  rlimit_data : pa_rlimit
  rlimit_stack : pa_rlimit
  rlimit_core : pa_rlimit
  rlimit_rss : pa_rlimit
  rlimit_nproc : pa_rlimit
  rlimit_nofile : pa_rlimit
  rlimit_memlock : pa_rlimit
  rlimit_as : pa_rlimit
  rlimit_locks : pa_rlimit
  rlimit_sigpending : pa_rlimit
  rlimit_msgqueue : pa_rlimit
  rlimit_nice : pa_rlimit
  rlimit_rtprio : pa_rlimit
  rlimit_rttime : pa_rlimit
  deriving DecidableEq, Repr

/-- The signals that `main.c` names. -/
inductive Signal where
  | SIGHUP
  | SIGINT
  | SIGUSR1
  | SIGUSR2
  | SIGTERM
  | SIGPIPE
  | SIGTTOU
  | SIGTTIN
  | SIGTSTP
  deriving DecidableEq, Repr

/-- The environment variables that `main.c` reads or sets. -/
inductive EnvVar where
  | LD_BIND_NOW
  | PULSE_PASSED_FD
  | PULSE_INTERNAL
  | PULSE_SYSTEM
  | USER
  | USERNAME
  | LOGNAME
  | HOME
  | PULSE_RUNTIME_PATH
  | PULSE_CONFIG_PATH
  | PULSE_STATE_PATH
  deriving DecidableEq, Repr

/-- The two PolicyKit actions that `main` asks for. -/
inductive PolkitAction where
  | acquire_high_priority
  | acquire_real_time
  deriving DecidableEq, Repr

/-- The two directories that `change_user` secures. -/
inductive SystemDir where
  | PA_SYSTEM_RUNTIME_PATH
  | PA_SYSTEM_STATE_PATH
  deriving DecidableEq, Repr

/-- The calls that leave `main.c`, as they appear in the trace of a process.
Arguments are kept where a claim is about them. -/
inductive Event where
  | getenv (v : EnvVar)
  | pa_set_env (v : EnvVar)
  | pa_readlink
  | execv
  | getuid
  | geteuid
  | pa_limit_caps
  | pa_drop_root
  | pa_drop_caps
  | pa_close_all (except_fd : Int)
  | pa_reset_sigs
  | pa_unblock_sigs
  | setlocale
  | pa_daemon_conf_new
  | pa_daemon_conf_load
  | pa_daemon_conf_env
  | pa_cmdline_parse
  | pa_have_caps
  | pa_own_uid_in_group
  | pa_polkit_check (action : PolkitAction)
  | setrlimit (resource : Resource) (rlim_cur rlim_max : Nat)
  | getrlimit (resource : Resource)
  | pa_raise_priority (nice_level : Int)
  | pa_ltdl_init
  | lt_dlsetsearchpath
  | pa_random_seed
  | pa_dump_modules
  | pa_daemon_conf_dump
  | pa_resample_method_supported (i : Nat)
  | printf_resample_method (i : Nat)
  | pa_cmdline_help
  | printf_version
  | pa_pid_file_check_running
  | pa_pid_file_kill
  | pa_shm_cleanup
  | pa_runtime_path
  | pa_lock_lockfile
  | pa_stdio_acquire
  | pipe
  | fork
  | pa_close (fd : Int)
  | pa_loop_read (fd : Int)
  | pa_log_set_target_syslog
  | setsid
  | setpgid
  | open_dev_null
  | signal_ignore (sig : Signal)
  | open_dev_tty
  | ioctl_TIOCNOTTY
  | chdir_root
  | umask
  | getpwnam
  | getgrnam
  | pa_make_secure_dir (dir : SystemDir)
  | initgroups
  | setresgid
  | setresuid
  | pa_get_runtime_dir
  | pa_pid_file_create
  | pa_rtsig_configure
  | pa_mainloop_new
  | pa_core_new
  | pa_signal_init
  | pa_signal_new (sig : Signal)
  | oil_init
  | pa_cpu_limit_init
  | pa_strbuf_new
  | pa_daemon_conf_open_default_script_file
  | pa_cli_command_execute_file_stream
  | fclose
  | pa_cli_command_execute
  | pa_strbuf_tostring_free
  | pa_idxset_size
  | pa_namereg_get
  | pa_loop_write (fd : Int) (word : Int)
  | pa_mainloop_run
  | pa_unlock_lockfile (fd : Int)
  | pa_core_unref
  | pa_cpu_limit_done
  | pa_signal_done
  | pa_close_pipe
  | pa_mainloop_free
  | pa_daemon_conf_free
  | pa_pid_file_remove
  | pa_ltdl_done
  | dbus_shutdown

/-- The entry of the user database that `getpwnam(PA_SYSTEM_USER)` returns. -/
structure passwd where
  pw_uid : Nat
  pw_gid : Nat
  deriving DecidableEq, Repr

/-- The answers of everything outside `main.c` to the calls of one process, in
the order in which `main` makes them. A result is the C return value. -/
structure World where
  /-- the block under `defined(__linux__) && defined(__OPTIMIZE__)` is compiled in -/
  optimized_linux_build : Bool
  /-- `getenv("LD_BIND_NOW")` is not NULL -/
  env_LD_BIND_NOW : Bool
  /-- `pa_readlink("/proc/self/exe")` is not NULL -/
  pa_readlink_ok : Bool
  /-- `execv` replaced the process image (it returns only when it failed) -/
  execv_ok : Bool
  getuid : Nat
  geteuid : Nat
  /-- `atoi(getenv("PULSE_PASSED_FD"))`, `none` when the variable is unset -/
  env_PULSE_PASSED_FD : Option Int
  /-- the configuration that `pa_daemon_conf_new` returns -/
  conf_new : pa_daemon_conf
  pa_daemon_conf_load : Int
  /-- the configuration after `pa_daemon_conf_load` -/
  conf_loaded : pa_daemon_conf
  pa_daemon_conf_env : Int
  /-- the configuration after `pa_daemon_conf_env` -/
  conf_environment : pa_daemon_conf
  pa_cmdline_parse : Int
  /-- the configuration after `pa_cmdline_parse` -/
  conf_cmdline : pa_daemon_conf
  /-- `pa_have_caps()` at line 431 -/
  pa_have_caps_grant : Bool
  /-- `pa_own_uid_in_group` at line 437 -/
  own_uid_in_group_high_priority : Int
  /-- `pa_own_uid_in_group` at line 444 -/
  own_uid_in_group_realtime : Int
  pa_polkit_check : PolkitAction → Int
  /-- `setrlimit` as called by `set_one_rlimit` -/
  setrlimit : Resource → Nat → Nat → Int
  /-- `pa_have_caps()` at line 499 -/
  pa_have_caps_decision : Bool
  /-- `getrlimit(RLIMIT_RTPRIO, &rl)` at line 511 and the `rl.rlim_cur` it stores -/
  getrlimit_rtprio : Int
  rtprio_rlim_cur : Nat
  /-- `setrlimit(RLIMIT_RTPRIO, &rl)` at line 518 -/
  setrlimit_rtprio : Int
  /-- `PA_RESAMPLER_MAX` and `pa_resample_method_supported` -/
  PA_RESAMPLER_MAX : Nat
  pa_resample_method_supported : Nat → Bool
  pa_pid_file_check_running : Int
  pa_pid_file_kill : Int
  pa_shm_cleanup : Int
  /-- `pa_runtime_path(AUTOSPAWN_LOCK)` is not NULL -/
  pa_runtime_path_ok : Bool
  pa_lock_lockfile : Int
  pa_stdio_acquire : Int
  /-- `pipe(daemon_pipe)` and the two descriptors it stores on success -/
  pipe : Int
  pipe_read_fd : Nat
  pipe_write_fd : Nat
  fork : Int
  /-- parent: `pa_close(daemon_pipe[1])` -/
  parent_close_write_end : Int
  /-- parent: `pa_loop_read`, its return value and the word it stored in `retval` -/
  pa_loop_read : Int
  pa_loop_read_word : Int
  /-- child: `pa_close(daemon_pipe[0])` -/
  child_close_read_end : Int
  /-- the three `open("/dev/null", ...)` -/
  open_dev_null_0 : Int
  open_dev_null_1 : Int
  open_dev_null_2 : Int
  /-- `open("/dev/tty", O_RDWR)` and the `pa_close` of that descriptor -/
  open_dev_tty : Int
  close_tty : Int
  chdir_root : Int
  getpwnam : Option passwd
  /-- `gr_gid` of `getgrnam(PA_SYSTEM_GROUP)`, `none` for NULL -/
  getgrnam : Option Nat
  pa_make_secure_dir : SystemDir → Int
  initgroups : Int
  setresgid : Int
  setresuid : Int
  /-- `pa_get_runtime_dir()` is not NULL -/
  pa_get_runtime_dir_ok : Bool
  pa_pid_file_create : Int
  /-- `pa_mainloop_new()` is not NULL -/
  pa_mainloop_new_ok : Bool
  /-- `pa_core_new(...)` is not NULL -/
  pa_core_new_ok : Bool
  pa_signal_init : Int
  pa_cpu_limit_init : Int
  /-- `pa_daemon_conf_open_default_script_file(conf)` is not NULL -/
  default_script_file_ok : Bool
  /-- `pa_cli_command_execute_file_stream` and `conf->fail` after it -/
  pa_cli_command_execute_file_stream : Int
  fail_after_file_stream : Bool
  /-- `pa_cli_command_execute` and `conf->fail` after it -/
  pa_cli_command_execute : Int
  fail_after_execute : Bool
  /-- `c->modules` after the scripts: `none` for NULL, else `pa_idxset_size` -/
  modules : Option Nat
  /-- `c->default_sink_name` is not NULL -/
  has_default_sink_name : Bool
  /-- `pa_namereg_get(c, c->default_sink_name, ...)` is not NULL -/
  pa_namereg_get_ok : Bool
  /-- `pa_mainloop_run(mainloop, &retval)` and the `retval` it stores -/
  pa_mainloop_run : Int
  mainloop_retval : Int

/-- The local variables of `main` that outlive a statement, and the trace of
the calls made so far. A pointer is kept as the flag "is not NULL". `conf` is
NULL only before line 413 and no statement before that line reads it, so the
field holds the configuration object itself. -/
structure St where
  trace : List Event
  retval : Int
  r : Int
  real_root : Bool
  suid_root : Bool
  valid_pid_file : Bool
  ltdl_init : Bool
  passed_fd : Int
  daemon_pipe_0 : Int
  daemon_pipe_1 : Int
  lf : Bool
  autospawn_lock_fd : Int
  c : Bool
  mainloop : Bool
  conf : pa_daemon_conf

/-- Where control goes after a group of statements of `main`. -/
inductive Flow where
  /-- control falls through to the next statement -/
  | next (s : St)
  /-- `goto finish` -/
  | finish (s : St)
  /-- a `pa_assert_se` failed: the process aborts, `main` does not return -/
  | abort (s : St)
  /-- `execv` replaced the process image, `main` does not return -/
  | replaced (s : St)

/-- The state that a flow carries. -/
def Flow.st : Flow → St
  | .next s => s
  | .finish s => s
  | .abort s => s
  | .replaced s => s

/-- Sequencing: the following statements run only when control falls through. -/
def Flow.andThen : Flow → (St → Flow) → Flow
  | .next s, k => k s
  | .finish s, _ => .finish s
  | .abort s, _ => .abort s
  | .replaced s, _ => .replaced s

/-- Record calls in the trace. -/
def St.emit (s : St) (es : List Event) : St :=
  { s with trace := s.trace ++ es }

/-- The declarations at lines 328-348: the initial values of the locals. -/
def initial (w : World) : St :=
  { trace := [], retval := 1, r := 0, real_root := false, suid_root := false,
    valid_pid_file := false, ltdl_init := false, passed_fd := -1,
    daemon_pipe_0 := -1, daemon_pipe_1 := -1, lf := false,
    autospawn_lock_fd := -1, c := false, mainloop := false, conf := w.conf_new }

/-- The signal numbers of `<signal.h>` are not part of the sources: a numbering
is a parameter of `signal_callback`. -/
abbrev SignalNumbers := Signal → Int

/-- The numbering of Linux on x86 and ARM. -/
def linux_signals : SignalNumbers
  | .SIGHUP => 1
  | .SIGINT => 2
  | .SIGUSR1 => 10
  | .SIGUSR2 => 12
  | .SIGTERM => 15
  | .SIGPIPE => 13
  | .SIGTTOU => 22
  | .SIGTTIN => 21
  | .SIGTSTP => 20

/-- The modules that `signal_callback` loads. -/
inductive ModuleName where
  | module_cli
  | module_cli_protocol_unix
  deriving DecidableEq, Repr

/-- What `signal_callback` does, logging included. -/
inductive CallbackAction where
  | pa_log_info_got_signal (sig : Int)
  | pa_module_load (name : ModuleName)
  | pa_full_status_string
  | pa_log_notice_status
  | pa_xfree
  | pa_log_info_exiting
  | quit (retval : Int)
  deriving DecidableEq, Repr

/-- `signal_callback`, lines 133-165. The case labels of a C `switch` are
pairwise distinct, so the order of the tests below is immaterial there. -/
def signal_callback (num : SignalNumbers) (sig : Int) : List CallbackAction :=
  [.pa_log_info_got_signal sig] ++
  if sig = num .SIGUSR1 then [.pa_module_load .module_cli]
  else if sig = num .SIGUSR2 then [.pa_module_load .module_cli_protocol_unix]
  else if sig = num .SIGHUP then [.pa_full_status_string, .pa_log_notice_status, .pa_xfree]
  else [.pa_log_info_exiting, .quit 1]

/-- `change_user`, lines 169-262 (the `HAVE_SETRESGID`, `HAVE_SETRESUID`
branches): the return value and the calls made. -/
def change_user (w : World) : Int × List Event :=
  match w.getpwnam with
  | none => (-1, [.getpwnam])
  | some pw =>
    match w.getgrnam with
    | none => (-1, [.getpwnam, .getgrnam])
    | some gr_gid =>
      if pw.pw_gid ≠ gr_gid then (-1, [.getpwnam, .getgrnam])
      else if w.pa_make_secure_dir .PA_SYSTEM_RUNTIME_PATH < 0 then
        (-1, [.getpwnam, .getgrnam, .pa_make_secure_dir .PA_SYSTEM_RUNTIME_PATH])
      else if w.pa_make_secure_dir .PA_SYSTEM_STATE_PATH < 0 then
        (-1, [.getpwnam, .getgrnam, .pa_make_secure_dir .PA_SYSTEM_RUNTIME_PATH,
              .pa_make_secure_dir .PA_SYSTEM_STATE_PATH])
      else if w.initgroups ≠ 0 then
        (-1, [.getpwnam, .getgrnam, .pa_make_secure_dir .PA_SYSTEM_RUNTIME_PATH,
              .pa_make_secure_dir .PA_SYSTEM_STATE_PATH, .initgroups])
      else if w.setresgid < 0 then
        (-1, [.getpwnam, .getgrnam, .pa_make_secure_dir .PA_SYSTEM_RUNTIME_PATH,
              .pa_make_secure_dir .PA_SYSTEM_STATE_PATH, .initgroups, .setresgid])
      else if w.setresuid < 0 then
        (-1, [.getpwnam, .getgrnam, .pa_make_secure_dir .PA_SYSTEM_RUNTIME_PATH,
              .pa_make_secure_dir .PA_SYSTEM_STATE_PATH, .initgroups, .setresgid,
              .setresuid])
      else
        (0, [.getpwnam, .getgrnam, .pa_make_secure_dir .PA_SYSTEM_RUNTIME_PATH,
             .pa_make_secure_dir .PA_SYSTEM_STATE_PATH, .initgroups, .setresgid,
             .setresuid, .pa_set_env .USER, .pa_set_env .USERNAME,
             .pa_set_env .LOGNAME, .pa_set_env .HOME,
             .pa_set_env .PULSE_RUNTIME_PATH, .pa_set_env .PULSE_CONFIG_PATH,
             .pa_set_env .PULSE_STATE_PATH])

/-- `set_one_rlimit`, lines 275-290: the return value and the calls made.
`setrlimit` is the answer of the system to such a call. -/
def set_one_rlimit (setrlimit : Resource → Nat → Nat → Int) (r : pa_rlimit)
    (resource : Resource) : Int × List Event :=
  if !r.is_set then (0, [])
  else if setrlimit resource r.value r.value < 0 then
    (-1, [.setrlimit resource r.value r.value])
  else (0, [.setrlimit resource r.value r.value])

/-- `set_all_rlimits`, lines 292-324: the calls made, the return values of
`set_one_rlimit` are discarded. -/
def set_all_rlimits (setrlimit : Resource → Nat → Nat → Int)
    (conf : pa_daemon_conf) : List Event :=
  (set_one_rlimit setrlimit conf.rlimit_fsize .RLIMIT_FSIZE).2 ++
  (set_one_rlimit setrlimit conf.rlimit_data .RLIMIT_DATA).2 ++
  (set_one_rlimit setrlimit conf.rlimit_stack .RLIMIT_STACK).2 ++
  (set_one_rlimit setrlimit conf.rlimit_core .RLIMIT_CORE).2 ++
  (set_one_rlimit setrlimit conf.rlimit_rss .RLIMIT_RSS).2 ++
  (set_one_rlimit setrlimit conf.rlimit_nproc .RLIMIT_NPROC).2 ++
  (set_one_rlimit setrlimit conf.rlimit_nofile .RLIMIT_NOFILE).2 ++
  (set_one_rlimit setrlimit conf.rlimit_memlock .RLIMIT_MEMLOCK).2 ++
  (set_one_rlimit setrlimit conf.rlimit_as .RLIMIT_AS).2 ++
  (set_one_rlimit setrlimit conf.rlimit_locks .RLIMIT_LOCKS).2 ++
  (set_one_rlimit setrlimit conf.rlimit_sigpending .RLIMIT_SIGPENDING).2 ++
  (set_one_rlimit setrlimit conf.rlimit_msgqueue .RLIMIT_MSGQUEUE).2 ++
  (set_one_rlimit setrlimit conf.rlimit_nice .RLIMIT_NICE).2 ++
  (set_one_rlimit setrlimit conf.rlimit_rtprio Resource.RLIMIT_RTPRIO).2 ++
  (set_one_rlimit setrlimit conf.rlimit_rttime .RLIMIT_RTTIME).2

/-! ## `main`, lines 327-933, in the order of the source -/

/-- Lines 350-367, compiled in by `defined(__linux__) && defined(__OPTIMIZE__)`:
re-execute with `LD_BIND_NOW` set. -/
def bind_now (w : World) (s : St) : Flow :=
  if w.optimized_linux_build then
    let s := s.emit [.getenv .LD_BIND_NOW]
    if !w.env_LD_BIND_NOW then
      let s := s.emit [.pa_set_env .LD_BIND_NOW, .pa_readlink]
      if !w.pa_readlink_ok then .abort s
      else
        let s := s.emit [.execv]
        if w.execv_ok then .replaced s else .abort s
    else .next s
  else .next s

/-- Line 370: `real_root = getuid() == 0`. -/
def real_root (w : World) : Bool := decide (w.getuid = 0)

/-- Line 371: `suid_root = !real_root && geteuid() == 0`. -/
def suid_root (w : World) : Bool := !real_root w && decide (w.geteuid = 0)

/-- Lines 369-391: classify the credentials and, unless real root, restrict
the capabilities and drop root. `geteuid` is called only when the left operand
of `&&` holds. -/
def drop_privileges (w : World) (s : St) : Flow :=
  let s := s.emit (if real_root w then [.getuid] else [.getuid, .geteuid])
  let s := { s with real_root := real_root w, suid_root := suid_root w }
  if !s.real_root then
    .next (s.emit [.pa_limit_caps, .pa_drop_root, .pa_limit_caps])
  else .next s

/-- Lines 393-398: the descriptor named by `PULSE_PASSED_FD`. -/
def passed_fd (w : World) : Int :=
  match w.env_PULSE_PASSED_FD with
  | none => -1
  | some fd => if fd ≤ 2 then -1 else fd

/-- Lines 393-413: descriptors, signals, locale, a fresh configuration. -/
def early_setup (w : World) (s : St) : Flow :=
  let s := { s.emit [.getenv .PULSE_PASSED_FD] with passed_fd := passed_fd w }
  .next (s.emit [.pa_close_all s.passed_fd, .pa_reset_sigs, .pa_unblock_sigs,
                 .setlocale, .pa_daemon_conf_new])

/-- Lines 415-429: configuration file, environment, command line. -/
def load_configuration (w : World) (s : St) : Flow :=
  let s := { s.emit [.pa_daemon_conf_load] with conf := w.conf_loaded }
  if w.pa_daemon_conf_load < 0 then .finish s
  else
    let s := { s.emit [.pa_daemon_conf_env] with conf := w.conf_environment }
    if w.pa_daemon_conf_env < 0 then .finish s
    else
      let s := { s.emit [.pa_cmdline_parse] with conf := w.conf_cmdline }
      if w.pa_cmdline_parse < 0 then .finish s
      else .next s

/-- The value of `allow_high_priority` after line 448. -/
def group_allows_high_priority (w : World) (conf : pa_daemon_conf) : Bool :=
  conf.high_priority && decide (w.own_uid_in_group_high_priority > 0)

/-- The value of `allow_realtime` after line 448. -/
def group_allows_realtime (w : World) (conf : pa_daemon_conf) : Bool :=
  conf.realtime_scheduling && decide (w.own_uid_in_group_realtime > 0)

/-- The value of `allow_high_priority` at line 468. -/
def allow_high_priority (w : World) (conf : pa_daemon_conf) : Bool :=
  group_allows_high_priority w conf ||
    (conf.high_priority && !group_allows_high_priority w conf &&
      decide (w.pa_polkit_check .acquire_high_priority > 0))

/-- The value of `allow_realtime` at line 468. -/
def allow_realtime (w : World) (conf : pa_daemon_conf) : Bool :=
  group_allows_realtime w conf ||
    (conf.realtime_scheduling && !group_allows_realtime w conf &&
      decide (w.pa_polkit_check .acquire_real_time > 0))

/-- Lines 431-480: the scheduling grant. `pa_have_caps` is called only when the
left operand of `&&` holds; a call that is skipped leaves no event. -/
def scheduling_grant (w : World) (s : St) : Flow :=
  if !s.real_root then
    let s := s.emit [.pa_have_caps]
    if w.pa_have_caps_grant then
      .next (s.emit (
        (if s.conf.high_priority then [.pa_own_uid_in_group] else []) ++
        (if s.conf.realtime_scheduling then [.pa_own_uid_in_group] else []) ++
        (if s.conf.high_priority && !group_allows_high_priority w s.conf then
          [.pa_polkit_check .acquire_high_priority] else []) ++
        (if s.conf.realtime_scheduling && !group_allows_realtime w s.conf then
          [.pa_polkit_check .acquire_real_time] else []) ++
        (if !allow_high_priority w s.conf && !allow_realtime w s.conf then
          [.pa_drop_caps] else [])))
    else .next s
  else .next s

/-- Lines 482-497: resource limits and the priority raise. -/
def apply_rlimits (w : World) (s : St) : Flow :=
  .next (s.emit (set_all_rlimits w.setrlimit s.conf ++
    (if s.conf.high_priority &&
        (s.conf.cmd = .PA_CMD_DAEMON || s.conf.cmd = .PA_CMD_START) then
      [.pa_raise_priority s.conf.nice_level] else [])))

/-- The value of `drop` at line 502. -/
def drop_initially (conf : pa_daemon_conf) : Bool :=
  (conf.cmd ≠ .PA_CMD_DAEMON && conf.cmd ≠ .PA_CMD_START) || !conf.realtime_scheduling

/-- The value of `drop` at line 528. -/
def drop (w : World) (conf : pa_daemon_conf) : Bool :=
  drop_initially conf ||
    (decide (w.getrlimit_rtprio ≥ 0) &&
      (decide (w.rtprio_rlim_cur ≥ 9) || decide (w.setrlimit_rtprio ≥ 0)))

/-- Lines 505-525: the calls made to replace `CAP_NICE` by `RLIMIT_RTPRIO`. -/
def acquire_rtprio (w : World) (conf : pa_daemon_conf) : List Event :=
  if !drop_initially conf then
    (if w.getrlimit_rtprio ≥ 0 then
      (if w.rtprio_rlim_cur ≥ 9 then [.getrlimit Resource.RLIMIT_RTPRIO]
       else [.getrlimit Resource.RLIMIT_RTPRIO, .setrlimit Resource.RLIMIT_RTPRIO 9 9])
     else [.getrlimit Resource.RLIMIT_RTPRIO])
  else []

/-- Lines 499-538: keep or give up `CAP_NICE`. -/
def drop_decision (w : World) (s : St) : Flow :=
  if !s.real_root then
    let s := s.emit [.pa_have_caps]
    if w.pa_have_caps_decision then
      let s := s.emit (acquire_rtprio w s.conf)
      if drop w s.conf then
        .next { s.emit [.pa_drop_caps] with suid_root := false }
      else .next s
    else .next s
  else .next s

/-- Lines 540-554: the module loader and the random seed. -/
def ltdl_setup (_w : World) (s : St) : Flow :=
  .next { s.emit ([.pa_ltdl_init] ++
            (if s.conf.has_dl_search_path then [.lt_dlsetsearchpath] else []) ++
            [.pa_random_seed]) with ltdl_init := true }

/-- The loop of lines 573-575, from index `i` for `n` more rounds. -/
def dump_resample_methods (w : World) : Nat → Nat → List Event
  | _, 0 => []
  | i, n + 1 =>
    (if w.pa_resample_method_supported i then
      [.pa_resample_method_supported i, .printf_resample_method i]
     else [.pa_resample_method_supported i]) ++ dump_resample_methods w (i + 1) n

/-- Lines 556-621: the subcommands that do not start a daemon. -/
def command_switch (w : World) (s : St) : Flow :=
  match s.conf.cmd with
  | .PA_CMD_DUMP_MODULES => .finish { s.emit [.pa_dump_modules] with retval := 0 }
  | .PA_CMD_DUMP_CONF => .finish { s.emit [.pa_daemon_conf_dump] with retval := 0 }
  | .PA_CMD_DUMP_RESAMPLE_METHODS =>
    .finish (s.emit (dump_resample_methods w 0 w.PA_RESAMPLER_MAX))
  | .PA_CMD_HELP => .finish { s.emit [.pa_cmdline_help] with retval := 0 }
  | .PA_CMD_VERSION => .finish { s.emit [.printf_version] with retval := 0 }
  | .PA_CMD_CHECK =>
    if w.pa_pid_file_check_running < 0 then .finish (s.emit [.pa_pid_file_check_running])
    else .finish { s.emit [.pa_pid_file_check_running] with retval := 0 }
  | .PA_CMD_KILL =>
    if w.pa_pid_file_kill < 0 then .finish (s.emit [.pa_pid_file_kill])
    else .finish { s.emit [.pa_pid_file_kill] with retval := 0 }
  | .PA_CMD_CLEANUP_SHM =>
    if w.pa_shm_cleanup ≥ 0 then .finish { s.emit [.pa_shm_cleanup] with retval := 0 }
    else .finish (s.emit [.pa_shm_cleanup])
  | .PA_CMD_DAEMON => .next s
  | .PA_CMD_START => .next s

/-- Lines 623-628: a system instance needs real root. -/
def root_check (_w : World) (s : St) : Flow :=
  if s.real_root && !s.conf.system_instance then .next s
  else if !s.real_root && s.conf.system_instance then .finish s
  else .next s

/-- Lines 630-637: the autospawn lock of `--start`. -/
def autospawn_lock (w : World) (s : St) : Flow :=
  if s.conf.cmd = .PA_CMD_START then
    .next { s.emit [.pa_runtime_path, .pa_lock_lockfile] with
            lf := w.pa_runtime_path_ok, autospawn_lock_fd := w.pa_lock_lockfile }
  else .next s

/-- The size in bytes of the status word, `sizeof(retval)` with `int retval`. -/
def sizeof_retval : Int := 4

/-- Lines 659-680, the father: close the write end, read the status word. -/
def daemonize_parent (w : World) (s : St) : Flow :=
  let s := s.emit [.pa_close s.daemon_pipe_1]
  if w.parent_close_write_end ≠ 0 then .abort s
  else
    let s := { s with daemon_pipe_1 := -1 }
    let s := s.emit [.pa_loop_read s.daemon_pipe_0]
    if w.pa_loop_read ≠ sizeof_retval then .finish { s with retval := 1 }
    else .finish { s with retval := w.pa_loop_read_word }

/-- Lines 697-731: a new session, the null device as standard streams, no
controlling terminal. -/
def detach (w : World) (s : St) : Flow :=
  let s := s.emit [.setsid, .setpgid, .pa_close 0, .pa_close 1, .pa_close 2,
                   .open_dev_null]
  if w.open_dev_null_0 ≠ 0 then .abort s
  else
    let s := s.emit [.open_dev_null]
    if w.open_dev_null_1 ≠ 1 then .abort s
    else
      let s := s.emit [.open_dev_null]
      if w.open_dev_null_2 ≠ 2 then .abort s
      else
        let s := s.emit [.signal_ignore .SIGTTOU, .signal_ignore .SIGTTIN,
                         .signal_ignore .SIGTSTP, .open_dev_tty]
        if w.open_dev_tty ≥ 0 then
          let s := s.emit [.ioctl_TIOCNOTTY, .pa_close w.open_dev_tty]
          if w.close_tty ≠ 0 then .abort s else .next s
        else .next s

/-- Lines 682-688: the child closes its copy of the autospawn lock. -/
def close_autospawn_lock (s : St) : St :=
  if s.autospawn_lock_fd ≥ 0 then
    { s.emit [.pa_close s.autospawn_lock_fd] with autospawn_lock_fd := -1 }
  else s

/-- Lines 682-731, the child: close the lock and the read end, detach. -/
def daemonize_child (w : World) (s : St) : Flow :=
  let s := (close_autospawn_lock s).emit [.pa_close s.daemon_pipe_0]
  if w.child_close_read_end ≠ 0 then .abort s
  else
    detach w { s.emit (if s.conf.auto_log_target then [.pa_log_set_target_syslog] else [])
               with daemon_pipe_0 := -1 }

/-- Lines 639-732: daemonize. -/
def daemonize (w : World) (s : St) : Flow :=
  if s.conf.daemonize then
    let s := s.emit [.pa_stdio_acquire]
    if w.pa_stdio_acquire < 0 then .finish s
    else
      let s := s.emit [.pipe]
      if w.pipe < 0 then .finish s
      else
        let s := { s with daemon_pipe_0 := (w.pipe_read_fd : Int),
                          daemon_pipe_1 := (w.pipe_write_fd : Int) }
        let s := s.emit [.fork]
        if w.fork < 0 then .finish s
        else if w.fork ≠ 0 then daemonize_parent w s
        else daemonize_child w s
  else .next s

/-- Lines 742-754: the runtime directory. -/
def runtime_directory (w : World) (s : St) : Flow :=
  let s := s.emit [.pa_set_env .PULSE_SYSTEM, .pa_get_runtime_dir]
  if !w.pa_get_runtime_dir_ok then .finish s
  else .next s

/-- Lines 734-754: environment, working directory, identity of a system
instance, runtime directory. -/
def environment_setup (w : World) (s : St) : Flow :=
  let s := s.emit [.pa_set_env .PULSE_INTERNAL, .chdir_root]
  if w.chdir_root ≠ 0 then .abort s
  else
    let s := s.emit [.umask]
    if s.conf.system_instance then
      let s := s.emit (change_user w).2
      if (change_user w).1 < 0 then .finish s
      else runtime_directory w s
    else runtime_directory w s

/-- Lines 756-774: the PID file. -/
def pid_file (w : World) (s : St) : Flow :=
  if s.conf.use_pid_file then
    let s := s.emit [.pa_pid_file_create]
    if w.pa_pid_file_create ≠ 0 then
      if s.conf.cmd = .PA_CMD_START && decide (w.pa_pid_file_create > 0) then
        .finish { s with retval := 0 }
      else .finish s
    else .next { s with valid_pid_file := true }
  else .next s

/-- Lines 776-829: event loop, core, signal bindings, CPU limit. -/
def create_core (w : World) (s : St) : Flow :=
  let s := s.emit [.signal_ignore .SIGPIPE, .pa_rtsig_configure, .pa_mainloop_new]
  if !w.pa_mainloop_new_ok then .abort s
  else
    let s := { s with mainloop := true }
    let s := s.emit [.pa_core_new]
    if !w.pa_core_new_ok then .finish s
    else
      let s := { s with c := true }
      let s := s.emit [.pa_signal_init]
      if w.pa_signal_init ≠ 0 then .abort s
      else
        let s := s.emit [.pa_signal_new .SIGINT, .pa_signal_new .SIGTERM,
                         .pa_signal_new .SIGUSR1, .pa_signal_new .SIGUSR2,
                         .pa_signal_new .SIGHUP, .oil_init]
        if !s.conf.no_cpu_limit then
          let s := s.emit [.pa_cpu_limit_init]
          if w.pa_cpu_limit_init ≠ 0 then .abort s else .next s
        else .next s

/-- Lines 832-839: the default script file. The callee may change `conf->fail`
through the pointer it is given. -/
def default_script_file (w : World) (s : St) : St :=
  if s.conf.load_default_script_file then
    (if w.default_script_file_ok then
      { s.emit [.pa_daemon_conf_open_default_script_file,
                .pa_cli_command_execute_file_stream, .fclose] with
        r := w.pa_cli_command_execute_file_stream,
        conf := { s.conf with fail := w.fail_after_file_stream } }
     else s.emit [.pa_daemon_conf_open_default_script_file])
  else s

/-- Lines 841-842: the commands of the command line. -/
def script_commands (w : World) (s : St) : St :=
  if s.r ≥ 0 then
    { s.emit [.pa_cli_command_execute] with
      r := w.pa_cli_command_execute,
      conf := { s.conf with fail := w.fail_after_execute } }
  else s

/-- Lines 831-849: run the start-up scripts. -/
def run_scripts (w : World) (s : St) : St :=
  (script_commands w (default_script_file w (s.emit [.pa_strbuf_new]))).emit
    [.pa_strbuf_tostring_free]

/-- Line 856: `!c->modules || pa_idxset_size(c->modules) == 0`. -/
def no_modules (w : World) : Bool :=
  match w.modules with
  | none => true
  | some n => decide (n = 0)

/-- Lines 856-864: at least one module, and the default sink exists. -/
def check_modules (w : World) (s : St) : Flow :=
  let s := s.emit (if w.modules.isSome then [.pa_idxset_size] else [])
  if no_modules w then .finish s
  else
    let s := s.emit (if w.has_default_sink_name then [.pa_namereg_get] else [])
    if w.has_default_sink_name && !w.pa_namereg_get_ok && s.conf.fail then .finish s
    else .next s

/-- Lines 831-864: bootstrap the modules and check the result. -/
def bootstrap (w : World) (s : St) : Flow :=
  let s := run_scripts w s
  if decide (s.r < 0) && s.conf.fail then .finish s
  else check_modules w s

/-- Lines 866-873: report success to the waiting parent. -/
def handshake_success (_w : World) (s : St) : Flow :=
  if s.daemon_pipe_1 ≥ 0 then
    .next { s.emit [.pa_loop_write s.daemon_pipe_1 0, .pa_close s.daemon_pipe_1] with
            daemon_pipe_1 := -1 }
  else .next s

/-- Lines 875-881: run the event loop; it stores the exit code in `retval`.
Control reaches `finish` whatever `pa_mainloop_run` returns. -/
def run_mainloop (w : World) (s : St) : Flow :=
  .next { s.emit [.pa_mainloop_run] with retval := w.mainloop_retval }

/-- Lines 883-933, the label `finish`: release everything; `main` returns
`retval`. A call that is skipped leaves no event. -/
def finish (s : St) : St :=
  { s.emit (
      (if s.autospawn_lock_fd ≥ 0 then [.pa_unlock_lockfile s.autospawn_lock_fd] else []) ++
      (if s.c then [.pa_core_unref] else []) ++
      (if !s.conf.no_cpu_limit then [.pa_cpu_limit_done] else []) ++
      [.pa_signal_done] ++
      (if s.daemon_pipe_1 ≥ 0 then [.pa_loop_write s.daemon_pipe_1 s.retval] else []) ++
      [.pa_close_pipe] ++
      (if s.mainloop then [.pa_mainloop_free] else []) ++
      [.pa_daemon_conf_free] ++
      (if s.valid_pid_file then [.pa_pid_file_remove] else []) ++
      (if s.ltdl_init then [.pa_ltdl_done] else []) ++
      [.dbus_shutdown])
    with daemon_pipe_0 := -1, daemon_pipe_1 := -1 }

/-- The statements of `main` from line 350 to line 429: everything before the
negotiation of privileges. -/
def prologue (w : World) : Flow :=
  (((bind_now w (initial w)).andThen (drop_privileges w)).andThen (early_setup w)).andThen
    (load_configuration w)

/-- The negotiation phase of `main`, lines 431-538. -/
def negotiate (w : World) (s : St) : Flow :=
  ((scheduling_grant w s).andThen (apply_rlimits w)).andThen (drop_decision w)

/-- The statements of `main` from line 350 to the end of the negotiation of
privileges at line 538. -/
def negotiation (w : World) : Flow :=
  (prologue w).andThen (negotiate w)

/-- The statements of `main` from line 540 up to the label `finish`. -/
def startup (w : World) (s : St) : Flow :=
  ((((((((((ltdl_setup w s).andThen (command_switch w)).andThen (root_check w)).andThen
    (autospawn_lock w)).andThen (daemonize w)).andThen (environment_setup w)).andThen
    (pid_file w)).andThen (create_core w)).andThen (bootstrap w)).andThen
    (handshake_success w)).andThen (run_mainloop w)

/-- The statements of `main` before the label `finish`. -/
def body (w : World) : Flow :=
  (negotiation w).andThen (startup w)

/-- How a process leaves `main`. -/
inductive Exit where
  | returned (retval : Int)
  | aborted
  | replaced
  deriving DecidableEq, Repr

/-- One run of `main`: how it ended and every call it made. -/
structure Run where
  exit : Exit
  trace : List Event

/-- `main`, lines 327-933. -/
def main (w : World) : Run :=
  match body w with
  | .next s => { exit := .returned (finish s).retval, trace := (finish s).trace }
  | .finish s => { exit := .returned (finish s).retval, trace := (finish s).trace }
  | .abort s => { exit := .aborted, trace := s.trace }
  | .replaced s => { exit := .replaced, trace := s.trace }

/-! ## Observations on traces and flows -/

/-- The flow satisfies `N` when control falls through, `F` at `goto finish`
and `A` when `main` does not return. -/
def Flow.sat (f : Flow) (N F A : St → Prop) : Prop :=
  match f with
  | .next s => N s
  | .finish s => F s
  | .abort s => A s
  | .replaced s => A s

/-- A status word is written to the handshake pipe. -/
def Event.is_status_write : Event → Bool
  | .pa_loop_write _ _ => true
  | _ => false

/-- The call `pipe(daemon_pipe)`. -/
def Event.is_pipe : Event → Bool
  | .pipe => true
  | _ => false

/-- The call `fork()`. -/
def Event.is_fork : Event → Bool
  | .fork => true
  | _ => false

/-- The number of status words the process wrote to the handshake pipe. -/
def status_writes (t : List Event) : Nat := t.countP Event.is_status_write

/-- The run created the handshake pipe. -/
def created_pipe (w : World) (t : List Event) : Bool :=
  t.any Event.is_pipe && decide (w.pipe ≥ 0)

/-- The process is the waiting parent of a successful `fork`. -/
def is_parent (w : World) (t : List Event) : Bool :=
  t.any Event.is_fork && decide (w.fork > 0)

/-- The process is the detached child of a successful `fork`. -/
def is_child (w : World) (t : List Event) : Bool :=
  t.any Event.is_fork && decide (w.fork = 0)

/-- The groups of statements of `main`, for saying which of them makes a call. -/
inductive Block where
  | bind_now
  | drop_privileges
  | early_setup
  | load_configuration
  | scheduling_grant
  | apply_rlimits
  | drop_decision
  | ltdl_setup
  | command_switch
  | autospawn_lock
  | daemonize
  | daemonize_parent
  | daemonize_child
  | environment_setup
  | pid_file
  | create_core
  | bootstrap
  | handshake_success
  | run_mainloop
  | finish
  deriving DecidableEq, Repr

/-- The groups of statements of `main` in which a call occurs in the source. -/
def Event.blocks : Event → List Block
  | .getenv _ => [.bind_now, .early_setup]
  | .pa_set_env _ => [.bind_now, .environment_setup]
  | .pa_readlink => [.bind_now]
  | .execv => [.bind_now]
  | .getuid => [.drop_privileges]
  | .geteuid => [.drop_privileges]
  | .pa_limit_caps => [.drop_privileges]
  | .pa_drop_root => [.drop_privileges]
  | .pa_drop_caps => [.scheduling_grant, .drop_decision]
  | .pa_close_all _ => [.early_setup]
  | .pa_reset_sigs => [.early_setup]
  | .pa_unblock_sigs => [.early_setup]
  | .setlocale => [.early_setup]
  | .pa_daemon_conf_new => [.early_setup]
  | .pa_daemon_conf_load => [.load_configuration]
  | .pa_daemon_conf_env => [.load_configuration]
  | .pa_cmdline_parse => [.load_configuration]
  | .pa_have_caps => [.scheduling_grant, .drop_decision]
  | .pa_own_uid_in_group => [.scheduling_grant]
  | .pa_polkit_check _ => [.scheduling_grant]
  | .setrlimit _ _ _ => [.apply_rlimits, .drop_decision]
  | .getrlimit _ => [.drop_decision]
  | .pa_raise_priority _ => [.apply_rlimits]
  | .pa_ltdl_init => [.ltdl_setup]
  | .lt_dlsetsearchpath => [.ltdl_setup]
  | .pa_random_seed => [.ltdl_setup]
  | .pa_dump_modules => [.command_switch]
  | .pa_daemon_conf_dump => [.command_switch]
  | .pa_resample_method_supported _ => [.command_switch]
  | .printf_resample_method _ => [.command_switch]
  | .pa_cmdline_help => [.command_switch]
  | .printf_version => [.command_switch]
  | .pa_pid_file_check_running => [.command_switch]
  | .pa_pid_file_kill => [.command_switch]
  | .pa_shm_cleanup => [.command_switch]
  | .pa_runtime_path => [.autospawn_lock]
  | .pa_lock_lockfile => [.autospawn_lock]
  | .pa_stdio_acquire => [.daemonize]
  | .pipe => [.daemonize]
  | .fork => [.daemonize]
  | .pa_close _ => [.daemonize_parent, .daemonize_child, .handshake_success]
  | .pa_loop_read _ => [.daemonize_parent]
  | .pa_log_set_target_syslog => [.daemonize_child]
  | .setsid => [.daemonize_child]
  | .setpgid => [.daemonize_child]
  | .open_dev_null => [.daemonize_child]
  | .signal_ignore _ => [.daemonize_child, .create_core]
  | .open_dev_tty => [.daemonize_child]
  | .ioctl_TIOCNOTTY => [.daemonize_child]
  | .chdir_root => [.environment_setup]
  | .umask => [.environment_setup]
  | .getpwnam => [.environment_setup]
  | .getgrnam => [.environment_setup]
  | .pa_make_secure_dir _ => [.environment_setup]
  | .initgroups => [.environment_setup]
  | .setresgid => [.environment_setup]
  | .setresuid => [.environment_setup]
  | .pa_get_runtime_dir => [.environment_setup]
  | .pa_pid_file_create => [.pid_file]
  | .pa_rtsig_configure => [.create_core]
  | .pa_mainloop_new => [.create_core]
  | .pa_core_new => [.create_core]
  | .pa_signal_init => [.create_core]
  | .pa_signal_new _ => [.create_core]
  | .oil_init => [.create_core]
  | .pa_cpu_limit_init => [.create_core]
  | .pa_strbuf_new => [.bootstrap]
  | .pa_daemon_conf_open_default_script_file => [.bootstrap]
  | .pa_cli_command_execute_file_stream => [.bootstrap]
  | .fclose => [.bootstrap]
  | .pa_cli_command_execute => [.bootstrap]
  | .pa_strbuf_tostring_free => [.bootstrap]
  | .pa_idxset_size => [.bootstrap]
  | .pa_namereg_get => [.bootstrap]
  | .pa_loop_write _ _ => [.handshake_success, .finish]
  | .pa_mainloop_run => [.run_mainloop]
  | .pa_unlock_lockfile _ => [.finish]
  | .pa_core_unref => [.finish]
  | .pa_cpu_limit_done => [.finish]
  | .pa_signal_done => [.finish]
  | .pa_close_pipe => [.finish]
  | .pa_mainloop_free => [.finish]
  | .pa_daemon_conf_free => [.finish]
  | .pa_pid_file_remove => [.finish]
  | .pa_ltdl_done => [.finish]
  | .dbus_shutdown => [.finish]

/-- The predicate `p` selects no call that the group of statements `b` makes. -/
abbrev Quiet (b : Block) (p : Event → Bool) : Prop :=
  ∀ e, b ∈ e.blocks → p e = false

/-- The predicate `p` selects only calls made by the groups of statements `bs`. -/
abbrev Only (bs : List Block) (p : Event → Bool) : Prop :=
  ∀ e, p e = true → ∀ b ∈ e.blocks, b ∈ bs

/-- Lines 293-323: the limits that `set_all_rlimits` applies, in this order. -/
def rlimit_order (conf : pa_daemon_conf) : List (pa_rlimit × Resource) :=
  [(conf.rlimit_fsize, .RLIMIT_FSIZE), (conf.rlimit_data, .RLIMIT_DATA),
   (conf.rlimit_stack, .RLIMIT_STACK), (conf.rlimit_core, .RLIMIT_CORE),
   (conf.rlimit_rss, .RLIMIT_RSS), (conf.rlimit_nproc, .RLIMIT_NPROC),
   (conf.rlimit_nofile, .RLIMIT_NOFILE), (conf.rlimit_memlock, .RLIMIT_MEMLOCK),
   (conf.rlimit_as, .RLIMIT_AS), (conf.rlimit_locks, .RLIMIT_LOCKS),
   (conf.rlimit_sigpending, .RLIMIT_SIGPENDING), (conf.rlimit_msgqueue, .RLIMIT_MSGQUEUE),
   (conf.rlimit_nice, .RLIMIT_NICE), (conf.rlimit_rtprio, Resource.RLIMIT_RTPRIO),
   (conf.rlimit_rttime, .RLIMIT_RTTIME)]

/-- A request to the event loop to quit. -/
def CallbackAction.is_quit : CallbackAction → Bool
  | .quit _ => true
  | _ => false

/-- A request to load a module. -/
def CallbackAction.is_module_load : CallbackAction → Bool
  | .pa_module_load _ => true
  | _ => false

/-! ## Invariants of the handshake -/

/-- No handshake pipe exists and nothing was written: the state of a process
before it reaches `pipe(daemon_pipe)`. -/
def NoHandshake (s : St) : Prop :=
  s.daemon_pipe_1 = -1 ∧ s.trace.any Event.is_pipe = false ∧
  s.trace.any Event.is_fork = false ∧ status_writes s.trace = 0

/-- The state before the daemonization block, with the final configuration. -/
def BeforeFork (w : World) (s : St) : Prop :=
  NoHandshake s ∧ s.conf = w.conf_cmdline

/-- The process holds the write end of the handshake pipe: it created the pipe
and is not the parent of a successful `fork`. -/
def holds_write_end (w : World) (t : List Event) : Bool :=
  created_pipe w t && !is_parent w t

/-- The handshake invariant over what it observes: whether `pipe` and `fork`
were called, the number of status writes and `daemon_pipe[1]`. A process that
holds the write end either still has it open and has written nothing, or has
closed it after one write; any other process has no write end and has written
nothing. The pipe is only ever created when `conf->daemonize` is set. -/
def HandshakeObs (w : World) (pipe_called fork_called : Bool) (writes : Nat)
    (daemon_pipe_1 : Int) : Prop :=
  ((pipe_called && decide (w.pipe ≥ 0) && !(fork_called && decide (w.fork > 0))) = true →
    (0 ≤ daemon_pipe_1 ∧ writes = 0) ∨ (daemon_pipe_1 < 0 ∧ writes = 1)) ∧
  ((pipe_called && decide (w.pipe ≥ 0) && !(fork_called && decide (w.fork > 0))) = false →
    daemon_pipe_1 < 0 ∧ writes = 0) ∧
  (pipe_called = true → w.conf_cmdline.daemonize = true)

/-- The handshake invariant of a state. -/
def Handshake (w : World) (s : St) : Prop :=
  HandshakeObs w (s.trace.any Event.is_pipe) (s.trace.any Event.is_fork)
    (status_writes s.trace) s.daemon_pipe_1

/-! ## Concrete runs -/

/-- A resource limit that is not set. -/
def rlimit_unset : pa_rlimit := { value := 0, is_set := false }

/-- A plain configuration: run the daemon in the foreground, use the PID file,
no scheduling request, no resource limit. -/
def plain_conf : pa_daemon_conf :=
  { cmd := .PA_CMD_DAEMON, daemonize := false, fail := true, high_priority := false,
    realtime_scheduling := false, disallow_module_loading := false, use_pid_file := true,
    system_instance := false, no_cpu_limit := false, disable_shm := false,
    load_default_script_file := true, auto_log_target := true, nice_level := -11,
    has_dl_search_path := false, rlimit_fsize := rlimit_unset, rlimit_data := rlimit_unset,
    rlimit_stack := rlimit_unset, rlimit_core := rlimit_unset, rlimit_rss := rlimit_unset,
    rlimit_nproc := rlimit_unset, rlimit_nofile := rlimit_unset,
    rlimit_memlock := rlimit_unset, rlimit_as := rlimit_unset, rlimit_locks := rlimit_unset,
    rlimit_sigpending := rlimit_unset, rlimit_msgqueue := rlimit_unset,
    rlimit_nice := rlimit_unset, rlimit_rtprio := rlimit_unset,
    rlimit_rttime := rlimit_unset }

/-- An unprivileged user (UID 1000) starts the daemon in the foreground of a
debug build; every call succeeds, three modules load, and the event loop ends
with exit code 0. -/
def plain_world : World :=
  { optimized_linux_build := false, env_LD_BIND_NOW := false, pa_readlink_ok := true,
    execv_ok := true, getuid := 1000, geteuid := 1000, env_PULSE_PASSED_FD := none,
    conf_new := plain_conf, pa_daemon_conf_load := 0, conf_loaded := plain_conf,
    pa_daemon_conf_env := 0, conf_environment := plain_conf, pa_cmdline_parse := 0,
    conf_cmdline := plain_conf, pa_have_caps_grant := false,
    own_uid_in_group_high_priority := 0, own_uid_in_group_realtime := 0,
    pa_polkit_check := fun _ => 0, setrlimit := fun _ _ _ => 0,
    pa_have_caps_decision := false, getrlimit_rtprio := 0, rtprio_rlim_cur := 0,
    setrlimit_rtprio := -1, PA_RESAMPLER_MAX := 3,
    pa_resample_method_supported := fun _ => true, pa_pid_file_check_running := -1,
    pa_pid_file_kill := -1, pa_shm_cleanup := 0, pa_runtime_path_ok := true,
    pa_lock_lockfile := 5, pa_stdio_acquire := 0, pipe := 0, pipe_read_fd := 3,
    pipe_write_fd := 4, fork := 0, parent_close_write_end := 0, pa_loop_read := 4,
    pa_loop_read_word := 0, child_close_read_end := 0, open_dev_null_0 := 0,
    open_dev_null_1 := 1, open_dev_null_2 := 2, open_dev_tty := -1, close_tty := 0,
    chdir_root := 0, getpwnam := none, getgrnam := none, pa_make_secure_dir := fun _ => 0,
    initgroups := 0, setresgid := 0, setresuid := 0, pa_get_runtime_dir_ok := true,
    pa_pid_file_create := 0, pa_mainloop_new_ok := true, pa_core_new_ok := true,
    pa_signal_init := 0, pa_cpu_limit_init := 0, default_script_file_ok := true,
    pa_cli_command_execute_file_stream := 0, fail_after_file_stream := true,
    pa_cli_command_execute := 0, fail_after_execute := true, modules := some 3,
    has_default_sink_name := false, pa_namereg_get_ok := true, pa_mainloop_run := 1,
    mainloop_retval := 0 }

/-- The same start with `--daemonize`: the configuration of every stage. -/
def daemon_conf : pa_daemon_conf := { plain_conf with daemonize := true }

/-- The detached child of a daemonized start (`fork` returned 0). -/
def child_world : World :=
  { plain_world with conf_new := daemon_conf, conf_loaded := daemon_conf,
                     conf_environment := daemon_conf, conf_cmdline := daemon_conf }

/-- The waiting parent of the same start (`fork` returned the child's PID),
reading the status word 0. -/
def parent_world : World := { child_world with fork := 4242 }

/-! ## Invariants of the waiting parent -/

/-- The work of the daemon proper: creating the PID file, the event loop or the
core, and running the event loop. -/
def Event.is_daemon_work : Event → Bool
  | .pa_pid_file_create => true
  | .pa_mainloop_new => true
  | .pa_core_new => true
  | .pa_mainloop_run => true
  | _ => false

/-- Before the daemonization block: no `fork` yet and no work of the daemon. -/
def NotForked (s : St) : Prop :=
  s.trace.any Event.is_fork = false ∧ s.trace.any Event.is_daemon_work = false

/-- The process is not the waiting parent. -/
def NotParent (w : World) (s : St) : Prop :=
  is_parent w s.trace = false

/-- The exit code of the waiting parent: the word read, or 1 unless a full
word was read. -/
def parent_retval (w : World) : Int :=
  if w.pa_loop_read = sizeof_retval then w.pa_loop_read_word else 1

/-- The state in which the waiting parent reaches `finish`. -/
def ParentDone (w : World) (s : St) : Prop :=
  is_parent w s.trace = true →
    w.parent_close_write_end = 0 ∧ s.retval = parent_retval w ∧
    s.trace.any Event.is_daemon_work = false ∧
    ∃ pre, s.trace = pre ++ [.fork, .pa_close w.pipe_write_fd, .pa_loop_read w.pipe_read_fd]

/-- The state in which the waiting parent aborts. -/
def ParentAborted (w : World) (s : St) : Prop :=
  is_parent w s.trace = true →
    w.parent_close_write_end ≠ 0 ∧ s.trace.any Event.is_daemon_work = false

/-! ## Invariants shared by the claims about the start-up sequence -/

/-- None of the groups of statements `bs` has made a call yet. -/
def Silent (bs : List Block) (s : St) : Prop :=
  ∀ p, Only bs p → s.trace.filter p = []

/-- Control came here by falling through every statement since the command
line was parsed: `retval` still has its initial value 1, `conf` is the parsed
configuration, and none of the groups of statements `bs` has made a call. -/
def Untouched (w : World) (bs : List Block) (s : St) : Prop :=
  s.retval = 1 ∧ s.conf = w.conf_cmdline ∧ Silent bs s

/-- The world `w` in which every stage of the configuration yields `c`. -/
def World.with_conf (w : World) (c : pa_daemon_conf) : World :=
  { w with conf_new := c, conf_loaded := c, conf_environment := c, conf_cmdline := c }

/-! ## Invariants of the PID file -/

/-- The call `pa_pid_file_create`. -/
def Event.is_pid_file_create : Event → Bool
  | .pa_pid_file_create => true
  | _ => false

/-- The creation of the event loop or of the core. -/
def Event.is_core_or_loop : Event → Bool
  | .pa_mainloop_new => true
  | .pa_core_new => true
  | _ => false

/-- The groups of statements from the PID file on. -/
def from_pid_file : List Block :=
  [.pid_file, .create_core, .bootstrap, .handshake_success, .run_mainloop, .finish]

/-- The value of `retval` when `pa_pid_file_create` did not return 0. -/
def pid_conflict_retval (w : World) : Int :=
  if w.conf_cmdline.cmd = .PA_CMD_START ∧ 0 < w.pa_pid_file_create then 0 else 1

/-- If the PID file was asked for, then `conf->use_pid_file` is set and it was
obtained. -/
def PidOk (w : World) (s : St) : Prop :=
  s.trace.any Event.is_pid_file_create = true →
    w.conf_cmdline.use_pid_file = true ∧ w.pa_pid_file_create = 0

/-- At `finish`: if the PID file was asked for and not obtained, neither event
loop nor core exists and `retval` is 0 exactly for `--start` meeting a live
instance. -/
def PidConflict (w : World) (s : St) : Prop :=
  s.trace.any Event.is_pid_file_create = true →
    w.conf_cmdline.use_pid_file = true ∧
    (w.pa_pid_file_create ≠ 0 →
      s.trace.any Event.is_core_or_loop = false ∧ s.retval = pid_conflict_retval w)

/-- `--start` while a live instance (PID 7) holds the PID file. -/
def start_conflict_world : World :=
  { plain_world.with_conf { plain_conf with cmd := .PA_CMD_START } with
    pa_pid_file_create := 7 }

/-- A plain run while a live instance (PID 7) holds the PID file. -/
def run_conflict_world : World := { plain_world with pa_pid_file_create := 7 }

/-! ## Invariants of the module bootstrap -/

/-- The start-up scripts have run: the call at line 844 that collects their
output. -/
def Event.is_scripts_done : Event → Bool
  | .pa_strbuf_tostring_free => true
  | _ => false

/-- The call `pa_mainloop_run`. -/
def Event.is_mainloop_run : Event → Bool
  | .pa_mainloop_run => true
  | _ => false

/-- A status word 0 (success) is written to the handshake pipe. -/
def Event.is_success_write : Event → Bool
  | .pa_loop_write _ word => decide (word = 0)
  | _ => false

/-- The groups of statements from the module bootstrap on. -/
def from_bootstrap : List Block :=
  [.bootstrap, .handshake_success, .run_mainloop, .finish]

/-- At `finish`: if the scripts ran and left no module, `retval` is still 1,
the event loop did not run and no status word was written yet. -/
def ZeroModules (w : World) (s : St) : Prop :=
  s.trace.any Event.is_scripts_done = true → no_modules w = true →
    s.retval = 1 ∧ s.trace.any Event.is_mainloop_run = false ∧ status_writes s.trace = 0

/-- Either a module is loaded or the scripts have not run. -/
def LoadedOrEarly (w : World) (s : St) : Prop :=
  no_modules w = false ∨ s.trace.any Event.is_scripts_done = false

/-- The start-up scripts of the detached child load no module. -/
def no_module_world : World := { child_world with modules := some 0 }

/-! ## The unwind at `finish` -/

/-- The steps of the unwind that the claim about its order names: the signal
bindings, the event loop, the PID file and the handshake write. -/
def Event.is_unwind_step : Event → Bool
  | .pa_signal_done => true
  | .pa_mainloop_free => true
  | .pa_pid_file_remove => true
  | .pa_loop_write _ _ => true
  | _ => false

/-- Before `finish`, the only unwind step in the trace is the success write. -/
def OnlySuccessWritten (s : St) : Prop :=
  (s.trace.filter Event.is_unwind_step).all Event.is_success_write = true

/-- A call that changes the privileges of the process. -/
def Event.is_caps_call : Event → Bool
  | .pa_limit_caps => true
  | .pa_drop_root => true
  | .pa_drop_caps => true
  | _ => false

/-- The two calls of the initial drop, `pa_limit_caps` and `pa_drop_root`. -/
def Event.is_limit_or_drop_root : Event → Bool
  | .pa_limit_caps => true
  | .pa_drop_root => true
  | _ => false

/-- An environment variable, the configuration or the command line is read. -/
def Event.reads_input : Event → Bool
  | .getenv _ => true
  | .pa_daemon_conf_load => true
  | .pa_daemon_conf_env => true
  | .pa_cmdline_parse => true
  | _ => false

/-- No environment variable, configuration or command line is read before the
first call that changes the privileges. -/
def drop_precedes_input (t : List Event) : Bool :=
  !(t.takeWhile (fun e => !e.is_caps_call)).any Event.reads_input

/-- The calls of `main` up to the end of the initial drop of a process that is
not real root. -/
def initial_drop (w : World) : List Event :=
  (if w.optimized_linux_build then [.getenv .LD_BIND_NOW] else []) ++
    [.getuid, .geteuid, .pa_limit_caps, .pa_drop_root, .pa_limit_caps]

/-- The trace starts with `t0` and `p` selects nothing after it. -/
def Extends (t0 : List Event) (p : Event → Bool) (s : St) : Prop :=
  t0 <+: s.trace ∧ s.trace.filter p = t0.filter p

/-- The process is real root and has made no call that changes privileges. -/
def RootUntouched (s : St) : Prop :=
  s.real_root = true ∧ s.trace.any Event.is_caps_call = false

/-- The unprivileged start of an optimised Linux build that was re-executed
with `LD_BIND_NOW` set. -/
def optimized_world : World :=
  { plain_world with optimized_linux_build := true, env_LD_BIND_NOW := true }

/-- Real root starts the daemon with `--system`. -/
def root_world : World :=
  { plain_world.with_conf { plain_conf with system_instance := true } with
    getuid := 0, geteuid := 0, getpwnam := some { pw_uid := 110, pw_gid := 120 },
    getgrnam := some 120 }

/-! ## What the rest of `main` can see of the negotiation -/

/-- The state without the trace and without `suid_root`, the one variable that
no statement after line 429 reads. -/
def St.erase (s : St) : St :=
  { s with trace := [], suid_root := false }

/-- The flow without the traces. -/
def Flow.erase : Flow → Flow
  | .next s => .next s.erase
  | .finish s => .finish s.erase
  | .abort s => .abort s.erase
  | .replaced s => .replaced s.erase

/-- The statements `f` neither read the trace nor `suid_root`: on two states
that differ in nothing else they take the same path and reach states that
differ in nothing else. -/
def Erasable (f : St → Flow) : Prop :=
  ∀ s s2, s.erase = s2.erase → (f s).erase = (f s2).erase

/-- The answers to the calls of the negotiation phase, lines 431-538. -/
structure NegotiationAnswers where
  pa_have_caps_grant : Bool
  own_uid_in_group_high_priority : Int
  own_uid_in_group_realtime : Int
  pa_polkit_check : PolkitAction → Int
  setrlimit : Resource → Nat → Nat → Int
  pa_have_caps_decision : Bool
  getrlimit_rtprio : Int
  rtprio_rlim_cur : Nat
  setrlimit_rtprio : Int

/-- The world `w` with other answers to the calls of the negotiation phase. -/
def World.with_negotiation (w : World) (g : NegotiationAnswers) : World :=
  { w with pa_have_caps_grant := g.pa_have_caps_grant,
           own_uid_in_group_high_priority := g.own_uid_in_group_high_priority,
           own_uid_in_group_realtime := g.own_uid_in_group_realtime,
           pa_polkit_check := g.pa_polkit_check, setrlimit := g.setrlimit,
           pa_have_caps_decision := g.pa_have_caps_decision,
           getrlimit_rtprio := g.getrlimit_rtprio, rtprio_rlim_cur := g.rtprio_rlim_cur,
           setrlimit_rtprio := g.setrlimit_rtprio }

/-- Every check of the negotiation is refused and every limit fails. -/
def refused : NegotiationAnswers :=
  { pa_have_caps_grant := true, own_uid_in_group_high_priority := 0,
    own_uid_in_group_realtime := -1, pa_polkit_check := fun _ => 0,
    setrlimit := fun _ _ _ => -1, pa_have_caps_decision := true, getrlimit_rtprio := -1,
    rtprio_rlim_cur := 0, setrlimit_rtprio := -1 }

/-- A foreground start that asks for high priority, real-time scheduling and a
limit on open files. -/
def demanding_world : World :=
  plain_world.with_conf { plain_conf with high_priority := true,
                                          realtime_scheduling := true,
                                          rlimit_nofile := { value := 256, is_set := true } }

/-! ## The capability set

`caps.c` is not part of the sources. What its functions do to the capability
set of the process is modelled from the specification. -/

/-- Capabilities of the operating system: the scheduling capability, which
`main` may retain, and representatives of the others. -/
inductive Capability where
  | CAP_SYS_NICE
  | CAP_SYS_RESOURCE
  | CAP_SETUID
  | CAP_SETGID
  | CAP_DAC_OVERRIDE
  deriving DecidableEq, Repr

/-- The capabilities a process holds. -/
abbrev CapabilitySet := Capability → Bool

/-- Modelled from the spec: `pa_limit_caps` of `caps.c`, which is missing from
the sources, "restrict[s] the active capability set to the single
scheduling-relevant capability". -/
def pa_limit_caps (c : CapabilitySet) : CapabilitySet :=
  fun k => c k && decide (k = .CAP_SYS_NICE)

/-- Modelled from the spec: `pa_drop_root` of `caps.c`, which is missing from
the sources, "drop[s] all other privilege (setuid/setgid to the real,
unprivileged identity)"; the retained capability stays in the set and is
raised again by the second `pa_limit_caps`. -/
def pa_drop_root (c : CapabilitySet) : CapabilitySet :=
  fun k => c k && decide (k = .CAP_SYS_NICE)

/-- Modelled from the spec: `pa_drop_caps` of `caps.c`, which is missing from
the sources, "drop[s] the capability permanently". -/
def pa_drop_caps (_c : CapabilitySet) : CapabilitySet :=
  fun _ => false

/-- Modelled from the spec: `pa_have_caps` of `caps.c`, which is missing from
the sources, reports whether the retained capability (`retained_capability` of
the credential state) is present. -/
def pa_have_caps (c : CapabilitySet) : Bool :=
  c .CAP_SYS_NICE

/-- The capability set after the calls of a trace, from the set `c`. -/
def capabilities_after (t : List Event) (c : CapabilitySet) : CapabilitySet :=
  t.foldl (fun c e =>
    match e with
    | .pa_limit_caps => pa_limit_caps c
    | .pa_drop_root => pa_drop_root c
    | .pa_drop_caps => pa_drop_caps c
    | _ => c) c

/-- Every capability: the set of a process whose effective UID is 0. -/
def all_capabilities : CapabilitySet := fun _ => true

/-- The calls that change privileges made up to the end of the negotiation by
a process that is not real root. -/
def negotiated_caps_calls (w : World) : List Event :=
  [.pa_limit_caps, .pa_drop_root, .pa_limit_caps] ++
    (if w.pa_have_caps_grant && !allow_high_priority w w.conf_cmdline &&
        !allow_realtime w w.conf_cmdline then [.pa_drop_caps] else []) ++
    (if w.pa_have_caps_decision && drop w w.conf_cmdline then [.pa_drop_caps] else [])

/-- A process started SUID root (real UID 1000, effective UID 0) that asks for
real-time scheduling; it is in the realtime group, and the real-time priority
limit can neither be read nor raised, so it keeps the capability. -/
def suid_world : World :=
  { plain_world.with_conf { plain_conf with realtime_scheduling := true } with
    geteuid := 0, pa_have_caps_grant := true, own_uid_in_group_realtime := 1,
    pa_have_caps_decision := true, getrlimit_rtprio := -1 }

/-- A process started SUID root that asks for real-time scheduling, is not in
the realtime group and is refused by the policy service. -/
def suid_refused_world : World :=
  { plain_world.with_conf { plain_conf with realtime_scheduling := true } with
    geteuid := 0, pa_have_caps_grant := true }

/-- Control falls through the statements to the one after them. -/
def Flow.falls_through : Flow → Bool
  | .next _ => true
  | _ => false

/-! ## The autospawn lock -/

/-- The calls that matter for the lifetime of the autospawn lock held as
descriptor `fd`: taking it, `fork`, closing `fd`, running the event loop and
unlocking. -/
def Event.is_lock_step (fd : Int) : Event → Bool
  | .pa_lock_lockfile => true
  | .fork => true
  | .pa_close f => decide (f = fd)
  | .pa_mainloop_run => true
  | .pa_unlock_lockfile _ => true
  | _ => false

/-- The configuration of `--start`. -/
def start_conf : pa_daemon_conf := { plain_conf with cmd := .PA_CMD_START }

/-- A `--start` in the foreground (`daemonize` off): every call succeeds, the
lock is descriptor 5, the event loop ends with exit code 0. -/
def foreground_start_world : World := plain_world.with_conf start_conf

/-- The detached child of a daemonized `--start`. -/
def child_start_world : World :=
  plain_world.with_conf { start_conf with daemonize := true }

/-- The waiting parent of the same start, reading the status word 0. -/
def parent_start_world : World := { child_start_world with fork := 4242 }

/-! ## The subcommands -/

/-- The start of `plain_world` with the command `cmd`. -/
def command_world (cmd : pa_daemon_conf_cmd) : World :=
  plain_world.with_conf { plain_conf with cmd := cmd }

/-! ## Ownership of the PID file -/

/-- The call `pa_pid_file_remove`. -/
def Event.is_pid_file_remove : Event → Bool
  | .pa_pid_file_remove => true
  | _ => false

/-- Before the PID file: control fell through so far and `valid_pid_file` still
has its initial value. -/
def BeforePidFile (w : World) (s : St) : Prop :=
  Untouched w from_pid_file s ∧ s.valid_pid_file = false

/-- Before the label `finish`: `valid_pid_file` is set exactly when this process
called `pa_pid_file_create` and got 0, the call is only made with
`conf->use_pid_file` set, and the PID file was not removed. -/
def PidOwned (w : World) (s : St) : Prop :=
  (s.valid_pid_file = true ↔
    s.trace.any Event.is_pid_file_create = true ∧ w.pa_pid_file_create = 0) ∧
  (s.trace.any Event.is_pid_file_create = true → w.conf_cmdline.use_pid_file = true) ∧
  s.trace.any Event.is_pid_file_remove = false

/-- The groups of statements after the command switch. -/
def after_switch : List Block :=
  [.autospawn_lock, .daemonize, .daemonize_parent, .daemonize_child, .environment_setup,
   .pid_file, .create_core, .bootstrap, .handshake_success, .run_mainloop, .finish]

/-- A foreground start without a PID file. -/
def no_pid_file_world : World :=
  plain_world.with_conf { plain_conf with use_pid_file := false }

/-! ## Keeping or dropping the capability -/

/-- The call `pa_drop_caps`. -/
def Event.is_drop_caps : Event → Bool
  | .pa_drop_caps => true
  | _ => false

/-- The call `pa_limit_caps`. -/
def Event.is_limit_caps : Event → Bool
  | .pa_limit_caps => true
  | _ => false

/-- A call of `setrlimit`. -/
def Event.is_setrlimit : Event → Bool
  | .setrlimit _ _ _ => true
  | _ => false

/-- The capability was not dropped so far. -/
def NoDrop (s : St) : Prop :=
  s.trace.any Event.is_drop_caps = false

/-- Every `pa_limit_caps` so far was called before the first `pa_drop_caps`:
the trace starts with calls `t0` without a `pa_drop_caps`, and no
`pa_limit_caps` follows them. -/
def DropsLast (s : St) : Prop :=
  ∃ t0, t0 <+: s.trace ∧ t0.any Event.is_drop_caps = false ∧
    s.trace.filter Event.is_limit_caps = t0.filter Event.is_limit_caps

/-- A process started SUID root that asks for real-time scheduling and is in the
realtime group; its `RLIMIT_RTPRIO` is 0 and can be raised to 9. -/
def suid_raised_world : World :=
  { suid_world with getrlimit_rtprio := 0, rtprio_rlim_cur := 0, setrlimit_rtprio := 0 }

/-! ## The identity change of a system instance -/

/-- The calls of a `change_user` in which everything succeeds, in the order of
the source (lines 169-262). -/
def change_user_calls : List Event :=
  [.getpwnam, .getgrnam, .pa_make_secure_dir .PA_SYSTEM_RUNTIME_PATH,
   .pa_make_secure_dir .PA_SYSTEM_STATE_PATH, .initgroups, .setresgid, .setresuid,
   .pa_set_env .USER, .pa_set_env .USERNAME, .pa_set_env .LOGNAME, .pa_set_env .HOME,
   .pa_set_env .PULSE_RUNTIME_PATH, .pa_set_env .PULSE_CONFIG_PATH,
   .pa_set_env .PULSE_STATE_PATH]

/-- Both lookups succeeded and the GID of the user is the GID of the group. -/
def identity_found (w : World) : Bool :=
  match w.getpwnam, w.getgrnam with
  | some pw, some gr_gid => decide (pw.pw_gid = gr_gid)
  | _, _ => false

/-- The call `getpwnam`, the first call of `change_user`. -/
def Event.is_getpwnam : Event → Bool
  | .getpwnam => true
  | _ => false

/-- The call `pa_random_seed` of line 554, the last call before the command
switch. -/
def Event.is_random_seed : Event → Bool
  | .pa_random_seed => true
  | _ => false

/-- The groups of statements from the set-up of the environment on. -/
def from_environment : List Block :=
  [.environment_setup, .pid_file, .create_core, .bootstrap, .handshake_success,
   .run_mainloop, .finish]

/-- The groups of statements from the set-up of the module loader on. -/
def from_ltdl : List Block :=
  [.ltdl_setup, .autospawn_lock, .daemonize, .daemonize_parent, .daemonize_child,
   .environment_setup, .pid_file, .create_core, .bootstrap, .handshake_success,
   .run_mainloop, .finish]

/-- At `finish`: if `change_user` was called, `retval` is still 1 and neither the
PID file step nor any later step has made a call. -/
def ChangeUserFailed (s : St) : Prop :=
  s.trace.any Event.is_getpwnam = true → s.retval = 1 ∧ Silent from_pid_file s

/-- At `finish`: `retval` is still 1 and no step after the command switch has
made a call. -/
def RootRefused (s : St) : Prop :=
  s.retval = 1 ∧ Silent after_switch s

/-- An unprivileged user asks for a system instance. -/
def nonroot_system_world : World :=
  plain_world.with_conf { plain_conf with system_instance := true }

/-- The detached child of a daemonized system instance started by real root, on
a system without the user `pulse`. -/
def no_system_user_world : World :=
  { plain_world.with_conf { plain_conf with system_instance := true, daemonize := true }
    with getuid := 0, geteuid := 0 }

/-- The same start, in the foreground, on a system where the user and the group
exist but the UID change fails. -/
def setresuid_fails_world : World :=
  { root_world with setresuid := -1 }

/-- An unprivileged user runs `--system --version`. -/
def nonroot_system_version_world : World :=
  plain_world.with_conf { plain_conf with system_instance := true, cmd := .PA_CMD_VERSION }

/-- An unprivileged user asks for a daemonized system instance. -/
def nonroot_system_daemonize_world : World :=
  plain_world.with_conf { plain_conf with system_instance := true, daemonize := true }

/-! ## What `finish` releases, and with which code -/

@[simp] theorem Flow.st_next (s : St) : (Flow.next s).st = s := rfl

@[simp] theorem Flow.st_finish (s : St) : (Flow.finish s).st = s := rfl

@[simp] theorem Flow.st_abort (s : St) : (Flow.abort s).st = s := rfl

@[simp] theorem Flow.st_replaced (s : St) : (Flow.replaced s).st = s := rfl

@[simp] theorem St.emit_trace (s : St) (es : List Event) :
    (s.emit es).trace = s.trace ++ es := rfl

@[simp] theorem St.emit_retval (s : St) (es : List Event) :
    (s.emit es).retval = s.retval := rfl

@[simp] theorem St.emit_r (s : St) (es : List Event) :
    (s.emit es).r = s.r := rfl

@[simp] theorem St.emit_real_root (s : St) (es : List Event) :
    (s.emit es).real_root = s.real_root := rfl

@[simp] theorem St.emit_suid_root (s : St) (es : List Event) :
    (s.emit es).suid_root = s.suid_root := rfl

@[simp] theorem St.emit_valid_pid_file (s : St) (es : List Event) :
    (s.emit es).valid_pid_file = s.valid_pid_file := rfl

@[simp] theorem St.emit_ltdl_init (s : St) (es : List Event) :
    (s.emit es).ltdl_init = s.ltdl_init := rfl

@[simp] theorem St.emit_passed_fd (s : St) (es : List Event) :
    (s.emit es).passed_fd = s.passed_fd := rfl

@[simp] theorem St.emit_daemon_pipe_0 (s : St) (es : List Event) :
    (s.emit es).daemon_pipe_0 = s.daemon_pipe_0 := rfl

@[simp] theorem St.emit_daemon_pipe_1 (s : St) (es : List Event) :
    (s.emit es).daemon_pipe_1 = s.daemon_pipe_1 := rfl

@[simp] theorem St.emit_lf (s : St) (es : List Event) :
    (s.emit es).lf = s.lf := rfl

@[simp] theorem St.emit_autospawn_lock_fd (s : St) (es : List Event) :
    (s.emit es).autospawn_lock_fd = s.autospawn_lock_fd := rfl

@[simp] theorem St.emit_c (s : St) (es : List Event) :
    (s.emit es).c = s.c := rfl

@[simp] theorem St.emit_mainloop (s : St) (es : List Event) :
    (s.emit es).mainloop = s.mainloop := rfl

@[simp] theorem St.emit_conf (s : St) (es : List Event) :
    (s.emit es).conf = s.conf := rfl

theorem grows_append {t l : List Event} (r : List Event) (h : t <+: l) :
    t <+: l ++ r :=
  h.trans (List.prefix_append l r)

theorem set_one_rlimit_filter (f : Resource → Nat → Nat → Int) (r : pa_rlimit)
    (res : Resource) (p : Event → Bool) (hp : Quiet .apply_rlimits p) :
    (set_one_rlimit f r res).2.filter p = [] := by
  have q := fun x0 x1 x2 => hp (.setrlimit x0 x1 x2) (by simp [Event.blocks])
  unfold set_one_rlimit
  split_ifs <;> simp only [List.filter_cons, List.filter_nil, q, Bool.false_eq_true, if_false]

theorem set_all_rlimits_filter (f : Resource → Nat → Nat → Int) (conf : pa_daemon_conf)
    (p : Event → Bool) (hp : Quiet .apply_rlimits p) :
    (set_all_rlimits f conf).filter p = [] := by
  unfold set_all_rlimits
  simp only [List.filter_append, set_one_rlimit_filter _ _ _ _ hp, List.append_nil]

theorem acquire_rtprio_filter (w : World) (conf : pa_daemon_conf)
    (p : Event → Bool) (hp : Quiet .drop_decision p) :
    (acquire_rtprio w conf).filter p = [] := by
  have q0 := fun x0 => hp (.getrlimit x0) (by simp [Event.blocks])
  have q1 := fun x0 x1 x2 => hp (.setrlimit x0 x1 x2) (by simp [Event.blocks])
  unfold acquire_rtprio
  split_ifs <;> simp only [List.filter_cons, List.filter_nil, q0, q1, Bool.false_eq_true, if_false]

theorem dump_resample_methods_filter (w : World) (p : Event → Bool)
    (hp : Quiet .command_switch p) (n : Nat) :
    ∀ i, (dump_resample_methods w i n).filter p = [] := by
  have q0 := fun x0 => hp (.pa_resample_method_supported x0) (by simp [Event.blocks])
  have q1 := fun x0 => hp (.printf_resample_method x0) (by simp [Event.blocks])
  induction n with
  | zero => intro i; rfl
  | succ n ih =>
    intro i
    unfold dump_resample_methods
    split_ifs <;>
      simp only [List.filter_append, List.filter_cons, List.filter_nil, q0, q1, ih,
        Bool.false_eq_true, if_false, List.append_nil]

theorem change_user_filter (w : World) (p : Event → Bool)
    (hp : Quiet .environment_setup p) : (change_user w).2.filter p = [] := by
  have q0 := fun x0 => hp (.pa_set_env x0) (by simp [Event.blocks])
  have q1 := hp (.chdir_root) (by simp [Event.blocks])
  have q2 := hp (.umask) (by simp [Event.blocks])
  have q3 := hp (.getpwnam) (by simp [Event.blocks])
  have q4 := hp (.getgrnam) (by simp [Event.blocks])
  have q5 := fun x0 => hp (.pa_make_secure_dir x0) (by simp [Event.blocks])
  have q6 := hp (.initgroups) (by simp [Event.blocks])
  have q7 := hp (.setresgid) (by simp [Event.blocks])
  have q8 := hp (.setresuid) (by simp [Event.blocks])
  have q9 := hp (.pa_get_runtime_dir) (by simp [Event.blocks])
  unfold change_user
  split
  · simp only [List.filter_cons, List.filter_nil, q0, q1, q2, q3, q4, q5, q6, q7, q8, q9, Bool.false_eq_true, if_false]
  · split
    · simp only [List.filter_cons, List.filter_nil, q0, q1, q2, q3, q4, q5, q6, q7, q8, q9, Bool.false_eq_true, if_false]
    · split_ifs <;>
        simp only [List.filter_cons, List.filter_nil, q0, q1, q2, q3, q4, q5, q6, q7, q8, q9, Bool.false_eq_true, if_false]

theorem bind_now_frame (w : World) (s : St) :
    (bind_now w s).st.retval = s.retval ∧
    (bind_now w s).st.r = s.r ∧
    (bind_now w s).st.real_root = s.real_root ∧
    (bind_now w s).st.suid_root = s.suid_root ∧
    (bind_now w s).st.valid_pid_file = s.valid_pid_file ∧
    (bind_now w s).st.ltdl_init = s.ltdl_init ∧
    (bind_now w s).st.passed_fd = s.passed_fd ∧
    (bind_now w s).st.daemon_pipe_0 = s.daemon_pipe_0 ∧
    (bind_now w s).st.daemon_pipe_1 = s.daemon_pipe_1 ∧
    (bind_now w s).st.lf = s.lf ∧
    (bind_now w s).st.autospawn_lock_fd = s.autospawn_lock_fd ∧
    (bind_now w s).st.c = s.c ∧
    (bind_now w s).st.mainloop = s.mainloop ∧
    (bind_now w s).st.conf = s.conf := by
  unfold bind_now
  (try simp only [])
  (try split_ifs)
  all_goals first | exact ⟨rfl, rfl, rfl, rfl, rfl, rfl, rfl, rfl, rfl, rfl, rfl, rfl, rfl, rfl⟩ | simp only [Flow.st_next, Flow.st_finish, Flow.st_abort, Flow.st_replaced, and_self, St.emit_retval, St.emit_r, St.emit_real_root, St.emit_suid_root, St.emit_valid_pid_file, St.emit_ltdl_init, St.emit_passed_fd, St.emit_daemon_pipe_0, St.emit_daemon_pipe_1, St.emit_lf, St.emit_autospawn_lock_fd, St.emit_c, St.emit_mainloop, St.emit_conf]

@[simp] theorem bind_now_retval (w : World) (s : St) :
    (bind_now w s).st.retval = s.retval :=
  (bind_now_frame w s).1

@[simp] theorem bind_now_r (w : World) (s : St) :
    (bind_now w s).st.r = s.r :=
  (bind_now_frame w s).2.1

@[simp] theorem bind_now_real_root (w : World) (s : St) :
    (bind_now w s).st.real_root = s.real_root :=
  (bind_now_frame w s).2.2.1

@[simp] theorem bind_now_suid_root (w : World) (s : St) :
    (bind_now w s).st.suid_root = s.suid_root :=
  (bind_now_frame w s).2.2.2.1

@[simp] theorem bind_now_valid_pid_file (w : World) (s : St) :
    (bind_now w s).st.valid_pid_file = s.valid_pid_file :=
  (bind_now_frame w s).2.2.2.2.1

@[simp] theorem bind_now_ltdl_init (w : World) (s : St) :
    (bind_now w s).st.ltdl_init = s.ltdl_init :=
  (bind_now_frame w s).2.2.2.2.2.1

@[simp] theorem bind_now_passed_fd (w : World) (s : St) :
    (bind_now w s).st.passed_fd = s.passed_fd :=
  (bind_now_frame w s).2.2.2.2.2.2.1

@[simp] theorem bind_now_daemon_pipe_0 (w : World) (s : St) :
    (bind_now w s).st.daemon_pipe_0 = s.daemon_pipe_0 :=
  (bind_now_frame w s).2.2.2.2.2.2.2.1

@[simp] theorem bind_now_daemon_pipe_1 (w : World) (s : St) :
    (bind_now w s).st.daemon_pipe_1 = s.daemon_pipe_1 :=
  (bind_now_frame w s).2.2.2.2.2.2.2.2.1

@[simp] theorem bind_now_lf (w : World) (s : St) :
    (bind_now w s).st.lf = s.lf :=
  (bind_now_frame w s).2.2.2.2.2.2.2.2.2.1

@[simp] theorem bind_now_autospawn_lock_fd (w : World) (s : St) :
    (bind_now w s).st.autospawn_lock_fd = s.autospawn_lock_fd :=
  (bind_now_frame w s).2.2.2.2.2.2.2.2.2.2.1

@[simp] theorem bind_now_c (w : World) (s : St) :
    (bind_now w s).st.c = s.c :=
  (bind_now_frame w s).2.2.2.2.2.2.2.2.2.2.2.1

@[simp] theorem bind_now_conf (w : World) (s : St) :
    (bind_now w s).st.conf = s.conf :=
  (bind_now_frame w s).2.2.2.2.2.2.2.2.2.2.2.2.2

theorem bind_now_filter (w : World) (s : St) (p : Event → Bool)
    (hp : Quiet .bind_now p) :
    (bind_now w s).st.trace.filter p = s.trace.filter p := by
  have q0 := fun x0 => hp (.getenv x0) (by simp [Event.blocks])
  have q1 := fun x0 => hp (.pa_set_env x0) (by simp [Event.blocks])
  have q2 := hp (.pa_readlink) (by simp [Event.blocks])
  have q3 := hp (.execv) (by simp [Event.blocks])
  unfold bind_now
  (try simp only [])
  (try split_ifs)
  all_goals first | rfl | simp only [Flow.st_next, Flow.st_finish, Flow.st_abort, Flow.st_replaced, St.emit_trace, List.filter_append, List.filter_cons, List.filter_nil, List.append_nil, Bool.false_eq_true, if_false, ite_self, List.nil_append, St.emit_retval, St.emit_r, St.emit_real_root, St.emit_suid_root, St.emit_valid_pid_file, St.emit_ltdl_init, St.emit_passed_fd, St.emit_daemon_pipe_0, St.emit_daemon_pipe_1, St.emit_lf, St.emit_autospawn_lock_fd, St.emit_c, St.emit_mainloop, St.emit_conf, q0, q1, q2, q3]

theorem bind_now_grows (w : World) (s : St) {t : List Event} (h : t <+: s.trace) :
    t <+: (bind_now w s).st.trace := by
  unfold bind_now
  (try simp only [])
  (try split_ifs)
  all_goals repeat (first | exact h | apply grows_append | simp only [Flow.st_next, Flow.st_finish, Flow.st_abort, Flow.st_replaced, St.emit_trace])

theorem drop_privileges_frame (w : World) (s : St) :
    (drop_privileges w s).st.retval = s.retval ∧
    (drop_privileges w s).st.r = s.r ∧
    (drop_privileges w s).st.valid_pid_file = s.valid_pid_file ∧
    (drop_privileges w s).st.ltdl_init = s.ltdl_init ∧
    (drop_privileges w s).st.passed_fd = s.passed_fd ∧
    (drop_privileges w s).st.daemon_pipe_0 = s.daemon_pipe_0 ∧
    (drop_privileges w s).st.daemon_pipe_1 = s.daemon_pipe_1 ∧
    (drop_privileges w s).st.lf = s.lf ∧
    (drop_privileges w s).st.autospawn_lock_fd = s.autospawn_lock_fd ∧
    (drop_privileges w s).st.c = s.c ∧
    (drop_privileges w s).st.mainloop = s.mainloop ∧
    (drop_privileges w s).st.conf = s.conf := by
  unfold drop_privileges
  (try simp only [])
  (try split_ifs)
  all_goals first | exact ⟨rfl, rfl, rfl, rfl, rfl, rfl, rfl, rfl, rfl, rfl, rfl, rfl⟩ | simp only [Flow.st_next, Flow.st_finish, Flow.st_abort, Flow.st_replaced, and_self, St.emit_retval, St.emit_r, St.emit_valid_pid_file, St.emit_ltdl_init, St.emit_passed_fd, St.emit_daemon_pipe_0, St.emit_daemon_pipe_1, St.emit_lf, St.emit_autospawn_lock_fd, St.emit_c, St.emit_mainloop, St.emit_conf]

@[simp] theorem drop_privileges_retval (w : World) (s : St) :
    (drop_privileges w s).st.retval = s.retval :=
  (drop_privileges_frame w s).1

@[simp] theorem drop_privileges_r (w : World) (s : St) :
    (drop_privileges w s).st.r = s.r :=
  (drop_privileges_frame w s).2.1

@[simp] theorem drop_privileges_valid_pid_file (w : World) (s : St) :
    (drop_privileges w s).st.valid_pid_file = s.valid_pid_file :=
  (drop_privileges_frame w s).2.2.1

@[simp] theorem drop_privileges_ltdl_init (w : World) (s : St) :
    (drop_privileges w s).st.ltdl_init = s.ltdl_init :=
  (drop_privileges_frame w s).2.2.2.1

@[simp] theorem drop_privileges_passed_fd (w : World) (s : St) :
    (drop_privileges w s).st.passed_fd = s.passed_fd :=
  (drop_privileges_frame w s).2.2.2.2.1

@[simp] theorem drop_privileges_daemon_pipe_0 (w : World) (s : St) :
    (drop_privileges w s).st.daemon_pipe_0 = s.daemon_pipe_0 :=
  (drop_privileges_frame w s).2.2.2.2.2.1

@[simp] theorem drop_privileges_daemon_pipe_1 (w : World) (s : St) :
    (drop_privileges w s).st.daemon_pipe_1 = s.daemon_pipe_1 :=
  (drop_privileges_frame w s).2.2.2.2.2.2.1

@[simp] theorem drop_privileges_lf (w : World) (s : St) :
    (drop_privileges w s).st.lf = s.lf :=
  (drop_privileges_frame w s).2.2.2.2.2.2.2.1

@[simp] theorem drop_privileges_autospawn_lock_fd (w : World) (s : St) :
    (drop_privileges w s).st.autospawn_lock_fd = s.autospawn_lock_fd :=
  (drop_privileges_frame w s).2.2.2.2.2.2.2.2.1

@[simp] theorem drop_privileges_c (w : World) (s : St) :
    (drop_privileges w s).st.c = s.c :=
  (drop_privileges_frame w s).2.2.2.2.2.2.2.2.2.1

@[simp] theorem drop_privileges_conf (w : World) (s : St) :
    (drop_privileges w s).st.conf = s.conf :=
  (drop_privileges_frame w s).2.2.2.2.2.2.2.2.2.2.2

theorem drop_privileges_filter (w : World) (s : St) (p : Event → Bool)
    (hp : Quiet .drop_privileges p) :
    (drop_privileges w s).st.trace.filter p = s.trace.filter p := by
  have q0 := hp (.getuid) (by simp [Event.blocks])
  have q1 := hp (.geteuid) (by simp [Event.blocks])
  have q2 := hp (.pa_limit_caps) (by simp [Event.blocks])
  have q3 := hp (.pa_drop_root) (by simp [Event.blocks])
  unfold drop_privileges
  (try simp only [])
  (try split_ifs)
  all_goals first | rfl | simp only [Flow.st_next, Flow.st_finish, Flow.st_abort, Flow.st_replaced, St.emit_trace, List.filter_append, List.filter_cons, List.filter_nil, List.append_nil, Bool.false_eq_true, if_false, ite_self, List.nil_append, St.emit_retval, St.emit_r, St.emit_real_root, St.emit_suid_root, St.emit_valid_pid_file, St.emit_ltdl_init, St.emit_passed_fd, St.emit_daemon_pipe_0, St.emit_daemon_pipe_1, St.emit_lf, St.emit_autospawn_lock_fd, St.emit_c, St.emit_mainloop, St.emit_conf, q0, q1, q2, q3]

theorem drop_privileges_grows (w : World) (s : St) {t : List Event} (h : t <+: s.trace) :
    t <+: (drop_privileges w s).st.trace := by
  unfold drop_privileges
  (try simp only [])
  (try split_ifs)
  all_goals repeat (first | exact h | apply grows_append | simp only [Flow.st_next, Flow.st_finish, Flow.st_abort, Flow.st_replaced, St.emit_trace])

theorem early_setup_frame (w : World) (s : St) :
    (early_setup w s).st.retval = s.retval ∧
    (early_setup w s).st.r = s.r ∧
    (early_setup w s).st.real_root = s.real_root ∧
    (early_setup w s).st.suid_root = s.suid_root ∧
    (early_setup w s).st.valid_pid_file = s.valid_pid_file ∧
    (early_setup w s).st.ltdl_init = s.ltdl_init ∧
    (early_setup w s).st.daemon_pipe_0 = s.daemon_pipe_0 ∧
    (early_setup w s).st.daemon_pipe_1 = s.daemon_pipe_1 ∧
    (early_setup w s).st.lf = s.lf ∧
    (early_setup w s).st.autospawn_lock_fd = s.autospawn_lock_fd ∧
    (early_setup w s).st.c = s.c ∧
    (early_setup w s).st.mainloop = s.mainloop ∧
    (early_setup w s).st.conf = s.conf := by
  unfold early_setup
  (try simp only [])
  (try split_ifs)
  all_goals first | exact ⟨rfl, rfl, rfl, rfl, rfl, rfl, rfl, rfl, rfl, rfl, rfl, rfl, rfl⟩ | simp only [Flow.st_next, Flow.st_finish, Flow.st_abort, Flow.st_replaced, and_self, St.emit_retval, St.emit_r, St.emit_real_root, St.emit_suid_root, St.emit_valid_pid_file, St.emit_ltdl_init, St.emit_daemon_pipe_0, St.emit_daemon_pipe_1, St.emit_lf, St.emit_autospawn_lock_fd, St.emit_c, St.emit_mainloop, St.emit_conf]

@[simp] theorem early_setup_retval (w : World) (s : St) :
    (early_setup w s).st.retval = s.retval :=
  (early_setup_frame w s).1

@[simp] theorem early_setup_r (w : World) (s : St) :
    (early_setup w s).st.r = s.r :=
  (early_setup_frame w s).2.1

@[simp] theorem early_setup_real_root (w : World) (s : St) :
    (early_setup w s).st.real_root = s.real_root :=
  (early_setup_frame w s).2.2.1

@[simp] theorem early_setup_suid_root (w : World) (s : St) :
    (early_setup w s).st.suid_root = s.suid_root :=
  (early_setup_frame w s).2.2.2.1

@[simp] theorem early_setup_valid_pid_file (w : World) (s : St) :
    (early_setup w s).st.valid_pid_file = s.valid_pid_file :=
  (early_setup_frame w s).2.2.2.2.1

@[simp] theorem early_setup_ltdl_init (w : World) (s : St) :
    (early_setup w s).st.ltdl_init = s.ltdl_init :=
  (early_setup_frame w s).2.2.2.2.2.1

@[simp] theorem early_setup_daemon_pipe_0 (w : World) (s : St) :
    (early_setup w s).st.daemon_pipe_0 = s.daemon_pipe_0 :=
  (early_setup_frame w s).2.2.2.2.2.2.1

@[simp] theorem early_setup_daemon_pipe_1 (w : World) (s : St) :
    (early_setup w s).st.daemon_pipe_1 = s.daemon_pipe_1 :=
  (early_setup_frame w s).2.2.2.2.2.2.2.1

@[simp] theorem early_setup_lf (w : World) (s : St) :
    (early_setup w s).st.lf = s.lf :=
  (early_setup_frame w s).2.2.2.2.2.2.2.2.1

@[simp] theorem early_setup_autospawn_lock_fd (w : World) (s : St) :
    (early_setup w s).st.autospawn_lock_fd = s.autospawn_lock_fd :=
  (early_setup_frame w s).2.2.2.2.2.2.2.2.2.1

@[simp] theorem early_setup_c (w : World) (s : St) :
    (early_setup w s).st.c = s.c :=
  (early_setup_frame w s).2.2.2.2.2.2.2.2.2.2.1

@[simp] theorem early_setup_conf (w : World) (s : St) :
    (early_setup w s).st.conf = s.conf :=
  (early_setup_frame w s).2.2.2.2.2.2.2.2.2.2.2.2

theorem early_setup_filter (w : World) (s : St) (p : Event → Bool)
    (hp : Quiet .early_setup p) :
    (early_setup w s).st.trace.filter p = s.trace.filter p := by
  have q0 := fun x0 => hp (.getenv x0) (by simp [Event.blocks])
  have q1 := fun x0 => hp (.pa_close_all x0) (by simp [Event.blocks])
  have q2 := hp (.pa_reset_sigs) (by simp [Event.blocks])
  have q3 := hp (.pa_unblock_sigs) (by simp [Event.blocks])
  have q4 := hp (.setlocale) (by simp [Event.blocks])
  have q5 := hp (.pa_daemon_conf_new) (by simp [Event.blocks])
  unfold early_setup
  (try simp only [])
  (try split_ifs)
  all_goals first | rfl | simp only [Flow.st_next, Flow.st_finish, Flow.st_abort, Flow.st_replaced, St.emit_trace, List.filter_append, List.filter_cons, List.filter_nil, List.append_nil, Bool.false_eq_true, if_false, ite_self, List.nil_append, St.emit_retval, St.emit_r, St.emit_real_root, St.emit_suid_root, St.emit_valid_pid_file, St.emit_ltdl_init, St.emit_passed_fd, St.emit_daemon_pipe_0, St.emit_daemon_pipe_1, St.emit_lf, St.emit_autospawn_lock_fd, St.emit_c, St.emit_mainloop, St.emit_conf, q0, q1, q2, q3, q4, q5]

theorem early_setup_grows (w : World) (s : St) {t : List Event} (h : t <+: s.trace) :
    t <+: (early_setup w s).st.trace := by
  unfold early_setup
  (try simp only [])
  (try split_ifs)
  all_goals repeat (first | exact h | apply grows_append | simp only [Flow.st_next, Flow.st_finish, Flow.st_abort, Flow.st_replaced, St.emit_trace])

theorem load_configuration_frame (w : World) (s : St) :
    (load_configuration w s).st.retval = s.retval ∧
    (load_configuration w s).st.r = s.r ∧
    (load_configuration w s).st.real_root = s.real_root ∧
    (load_configuration w s).st.suid_root = s.suid_root ∧
    (load_configuration w s).st.valid_pid_file = s.valid_pid_file ∧
    (load_configuration w s).st.ltdl_init = s.ltdl_init ∧
    (load_configuration w s).st.passed_fd = s.passed_fd ∧
    (load_configuration w s).st.daemon_pipe_0 = s.daemon_pipe_0 ∧
    (load_configuration w s).st.daemon_pipe_1 = s.daemon_pipe_1 ∧
    (load_configuration w s).st.lf = s.lf ∧
    (load_configuration w s).st.autospawn_lock_fd = s.autospawn_lock_fd ∧
    (load_configuration w s).st.c = s.c ∧
    (load_configuration w s).st.mainloop = s.mainloop := by
  unfold load_configuration
  (try simp only [])
  (try split_ifs)
  all_goals first | exact ⟨rfl, rfl, rfl, rfl, rfl, rfl, rfl, rfl, rfl, rfl, rfl, rfl, rfl⟩ | simp only [Flow.st_next, Flow.st_finish, Flow.st_abort, Flow.st_replaced, and_self, St.emit_retval, St.emit_r, St.emit_real_root, St.emit_suid_root, St.emit_valid_pid_file, St.emit_ltdl_init, St.emit_passed_fd, St.emit_daemon_pipe_0, St.emit_daemon_pipe_1, St.emit_lf, St.emit_autospawn_lock_fd, St.emit_c, St.emit_mainloop]

@[simp] theorem load_configuration_retval (w : World) (s : St) :
    (load_configuration w s).st.retval = s.retval :=
  (load_configuration_frame w s).1

@[simp] theorem load_configuration_r (w : World) (s : St) :
    (load_configuration w s).st.r = s.r :=
  (load_configuration_frame w s).2.1

@[simp] theorem load_configuration_real_root (w : World) (s : St) :
    (load_configuration w s).st.real_root = s.real_root :=
  (load_configuration_frame w s).2.2.1

@[simp] theorem load_configuration_suid_root (w : World) (s : St) :
    (load_configuration w s).st.suid_root = s.suid_root :=
  (load_configuration_frame w s).2.2.2.1

@[simp] theorem load_configuration_valid_pid_file (w : World) (s : St) :
    (load_configuration w s).st.valid_pid_file = s.valid_pid_file :=
  (load_configuration_frame w s).2.2.2.2.1

@[simp] theorem load_configuration_ltdl_init (w : World) (s : St) :
    (load_configuration w s).st.ltdl_init = s.ltdl_init :=
  (load_configuration_frame w s).2.2.2.2.2.1

@[simp] theorem load_configuration_passed_fd (w : World) (s : St) :
    (load_configuration w s).st.passed_fd = s.passed_fd :=
  (load_configuration_frame w s).2.2.2.2.2.2.1

@[simp] theorem load_configuration_daemon_pipe_0 (w : World) (s : St) :
    (load_configuration w s).st.daemon_pipe_0 = s.daemon_pipe_0 :=
  (load_configuration_frame w s).2.2.2.2.2.2.2.1

@[simp] theorem load_configuration_daemon_pipe_1 (w : World) (s : St) :
    (load_configuration w s).st.daemon_pipe_1 = s.daemon_pipe_1 :=
  (load_configuration_frame w s).2.2.2.2.2.2.2.2.1

@[simp] theorem load_configuration_lf (w : World) (s : St) :
    (load_configuration w s).st.lf = s.lf :=
  (load_configuration_frame w s).2.2.2.2.2.2.2.2.2.1

@[simp] theorem load_configuration_autospawn_lock_fd (w : World) (s : St) :
    (load_configuration w s).st.autospawn_lock_fd = s.autospawn_lock_fd :=
  (load_configuration_frame w s).2.2.2.2.2.2.2.2.2.2.1

@[simp] theorem load_configuration_c (w : World) (s : St) :
    (load_configuration w s).st.c = s.c :=
  (load_configuration_frame w s).2.2.2.2.2.2.2.2.2.2.2.1

theorem load_configuration_filter (w : World) (s : St) (p : Event → Bool)
    (hp : Quiet .load_configuration p) :
    (load_configuration w s).st.trace.filter p = s.trace.filter p := by
  have q0 := hp (.pa_daemon_conf_load) (by simp [Event.blocks])
  have q1 := hp (.pa_daemon_conf_env) (by simp [Event.blocks])
  have q2 := hp (.pa_cmdline_parse) (by simp [Event.blocks])
  unfold load_configuration
  (try simp only [])
  (try split_ifs)
  all_goals first | rfl | simp only [Flow.st_next, Flow.st_finish, Flow.st_abort, Flow.st_replaced, St.emit_trace, List.filter_append, List.filter_cons, List.filter_nil, List.append_nil, Bool.false_eq_true, if_false, ite_self, List.nil_append, St.emit_retval, St.emit_r, St.emit_real_root, St.emit_suid_root, St.emit_valid_pid_file, St.emit_ltdl_init, St.emit_passed_fd, St.emit_daemon_pipe_0, St.emit_daemon_pipe_1, St.emit_lf, St.emit_autospawn_lock_fd, St.emit_c, St.emit_mainloop, St.emit_conf, q0, q1, q2]

theorem load_configuration_grows (w : World) (s : St) {t : List Event} (h : t <+: s.trace) :
    t <+: (load_configuration w s).st.trace := by
  unfold load_configuration
  (try simp only [])
  (try split_ifs)
  all_goals repeat (first | exact h | apply grows_append | simp only [Flow.st_next, Flow.st_finish, Flow.st_abort, Flow.st_replaced, St.emit_trace])

theorem scheduling_grant_frame (w : World) (s : St) :
    (scheduling_grant w s).st.retval = s.retval ∧
    (scheduling_grant w s).st.r = s.r ∧
    (scheduling_grant w s).st.real_root = s.real_root ∧
    (scheduling_grant w s).st.suid_root = s.suid_root ∧
    (scheduling_grant w s).st.valid_pid_file = s.valid_pid_file ∧
    (scheduling_grant w s).st.ltdl_init = s.ltdl_init ∧
    (scheduling_grant w s).st.passed_fd = s.passed_fd ∧
    (scheduling_grant w s).st.daemon_pipe_0 = s.daemon_pipe_0 ∧
    (scheduling_grant w s).st.daemon_pipe_1 = s.daemon_pipe_1 ∧
    (scheduling_grant w s).st.lf = s.lf ∧
    (scheduling_grant w s).st.autospawn_lock_fd = s.autospawn_lock_fd ∧
    (scheduling_grant w s).st.c = s.c ∧
    (scheduling_grant w s).st.mainloop = s.mainloop ∧
    (scheduling_grant w s).st.conf = s.conf := by
  unfold scheduling_grant
  (try simp only [])
  (try split_ifs)
  all_goals first | exact ⟨rfl, rfl, rfl, rfl, rfl, rfl, rfl, rfl, rfl, rfl, rfl, rfl, rfl, rfl⟩ | simp only [Flow.st_next, Flow.st_finish, Flow.st_abort, Flow.st_replaced, and_self, St.emit_retval, St.emit_r, St.emit_real_root, St.emit_suid_root, St.emit_valid_pid_file, St.emit_ltdl_init, St.emit_passed_fd, St.emit_daemon_pipe_0, St.emit_daemon_pipe_1, St.emit_lf, St.emit_autospawn_lock_fd, St.emit_c, St.emit_mainloop, St.emit_conf]

@[simp] theorem scheduling_grant_retval (w : World) (s : St) :
    (scheduling_grant w s).st.retval = s.retval :=
  (scheduling_grant_frame w s).1

@[simp] theorem scheduling_grant_r (w : World) (s : St) :
    (scheduling_grant w s).st.r = s.r :=
  (scheduling_grant_frame w s).2.1

@[simp] theorem scheduling_grant_real_root (w : World) (s : St) :
    (scheduling_grant w s).st.real_root = s.real_root :=
  (scheduling_grant_frame w s).2.2.1

@[simp] theorem scheduling_grant_suid_root (w : World) (s : St) :
    (scheduling_grant w s).st.suid_root = s.suid_root :=
  (scheduling_grant_frame w s).2.2.2.1

@[simp] theorem scheduling_grant_valid_pid_file (w : World) (s : St) :
    (scheduling_grant w s).st.valid_pid_file = s.valid_pid_file :=
  (scheduling_grant_frame w s).2.2.2.2.1

@[simp] theorem scheduling_grant_ltdl_init (w : World) (s : St) :
    (scheduling_grant w s).st.ltdl_init = s.ltdl_init :=
  (scheduling_grant_frame w s).2.2.2.2.2.1

@[simp] theorem scheduling_grant_passed_fd (w : World) (s : St) :
    (scheduling_grant w s).st.passed_fd = s.passed_fd :=
  (scheduling_grant_frame w s).2.2.2.2.2.2.1

@[simp] theorem scheduling_grant_daemon_pipe_0 (w : World) (s : St) :
    (scheduling_grant w s).st.daemon_pipe_0 = s.daemon_pipe_0 :=
  (scheduling_grant_frame w s).2.2.2.2.2.2.2.1

@[simp] theorem scheduling_grant_daemon_pipe_1 (w : World) (s : St) :
    (scheduling_grant w s).st.daemon_pipe_1 = s.daemon_pipe_1 :=
  (scheduling_grant_frame w s).2.2.2.2.2.2.2.2.1

@[simp] theorem scheduling_grant_lf (w : World) (s : St) :
    (scheduling_grant w s).st.lf = s.lf :=
  (scheduling_grant_frame w s).2.2.2.2.2.2.2.2.2.1

@[simp] theorem scheduling_grant_autospawn_lock_fd (w : World) (s : St) :
    (scheduling_grant w s).st.autospawn_lock_fd = s.autospawn_lock_fd :=
  (scheduling_grant_frame w s).2.2.2.2.2.2.2.2.2.2.1

@[simp] theorem scheduling_grant_c (w : World) (s : St) :
    (scheduling_grant w s).st.c = s.c :=
  (scheduling_grant_frame w s).2.2.2.2.2.2.2.2.2.2.2.1

@[simp] theorem scheduling_grant_conf (w : World) (s : St) :
    (scheduling_grant w s).st.conf = s.conf :=
  (scheduling_grant_frame w s).2.2.2.2.2.2.2.2.2.2.2.2.2

theorem scheduling_grant_filter (w : World) (s : St) (p : Event → Bool)
    (hp : Quiet .scheduling_grant p) :
    (scheduling_grant w s).st.trace.filter p = s.trace.filter p := by
  have q0 := hp (.pa_have_caps) (by simp [Event.blocks])
  have q1 := hp (.pa_own_uid_in_group) (by simp [Event.blocks])
  have q2 := fun x0 => hp (.pa_polkit_check x0) (by simp [Event.blocks])
  have q3 := hp (.pa_drop_caps) (by simp [Event.blocks])
  unfold scheduling_grant
  (try simp only [])
  (try split_ifs)
  all_goals first | rfl | simp only [Flow.st_next, Flow.st_finish, Flow.st_abort, Flow.st_replaced, St.emit_trace, List.filter_append, List.filter_cons, List.filter_nil, List.append_nil, Bool.false_eq_true, if_false, ite_self, List.nil_append, St.emit_retval, St.emit_r, St.emit_real_root, St.emit_suid_root, St.emit_valid_pid_file, St.emit_ltdl_init, St.emit_passed_fd, St.emit_daemon_pipe_0, St.emit_daemon_pipe_1, St.emit_lf, St.emit_autospawn_lock_fd, St.emit_c, St.emit_mainloop, St.emit_conf, q0, q1, q2, q3]

theorem scheduling_grant_grows (w : World) (s : St) {t : List Event} (h : t <+: s.trace) :
    t <+: (scheduling_grant w s).st.trace := by
  unfold scheduling_grant
  (try simp only [])
  (try split_ifs)
  all_goals repeat (first | exact h | apply grows_append | simp only [Flow.st_next, Flow.st_finish, Flow.st_abort, Flow.st_replaced, St.emit_trace])

theorem apply_rlimits_frame (w : World) (s : St) :
    (apply_rlimits w s).st.retval = s.retval ∧
    (apply_rlimits w s).st.r = s.r ∧
    (apply_rlimits w s).st.real_root = s.real_root ∧
    (apply_rlimits w s).st.suid_root = s.suid_root ∧
    (apply_rlimits w s).st.valid_pid_file = s.valid_pid_file ∧
    (apply_rlimits w s).st.ltdl_init = s.ltdl_init ∧
    (apply_rlimits w s).st.passed_fd = s.passed_fd ∧
    (apply_rlimits w s).st.daemon_pipe_0 = s.daemon_pipe_0 ∧
    (apply_rlimits w s).st.daemon_pipe_1 = s.daemon_pipe_1 ∧
    (apply_rlimits w s).st.lf = s.lf ∧
    (apply_rlimits w s).st.autospawn_lock_fd = s.autospawn_lock_fd ∧
    (apply_rlimits w s).st.c = s.c ∧
    (apply_rlimits w s).st.mainloop = s.mainloop ∧
    (apply_rlimits w s).st.conf = s.conf := by
  unfold apply_rlimits
  (try simp only [])
  (try split_ifs)
  all_goals first | exact ⟨rfl, rfl, rfl, rfl, rfl, rfl, rfl, rfl, rfl, rfl, rfl, rfl, rfl, rfl⟩ | simp only [Flow.st_next, Flow.st_finish, Flow.st_abort, Flow.st_replaced, and_self, St.emit_retval, St.emit_r, St.emit_real_root, St.emit_suid_root, St.emit_valid_pid_file, St.emit_ltdl_init, St.emit_passed_fd, St.emit_daemon_pipe_0, St.emit_daemon_pipe_1, St.emit_lf, St.emit_autospawn_lock_fd, St.emit_c, St.emit_mainloop, St.emit_conf]

@[simp] theorem apply_rlimits_retval (w : World) (s : St) :
    (apply_rlimits w s).st.retval = s.retval :=
  (apply_rlimits_frame w s).1

@[simp] theorem apply_rlimits_r (w : World) (s : St) :
    (apply_rlimits w s).st.r = s.r :=
  (apply_rlimits_frame w s).2.1

@[simp] theorem apply_rlimits_real_root (w : World) (s : St) :
    (apply_rlimits w s).st.real_root = s.real_root :=
  (apply_rlimits_frame w s).2.2.1

@[simp] theorem apply_rlimits_suid_root (w : World) (s : St) :
    (apply_rlimits w s).st.suid_root = s.suid_root :=
  (apply_rlimits_frame w s).2.2.2.1

@[simp] theorem apply_rlimits_valid_pid_file (w : World) (s : St) :
    (apply_rlimits w s).st.valid_pid_file = s.valid_pid_file :=
  (apply_rlimits_frame w s).2.2.2.2.1

@[simp] theorem apply_rlimits_ltdl_init (w : World) (s : St) :
    (apply_rlimits w s).st.ltdl_init = s.ltdl_init :=
  (apply_rlimits_frame w s).2.2.2.2.2.1

@[simp] theorem apply_rlimits_passed_fd (w : World) (s : St) :
    (apply_rlimits w s).st.passed_fd = s.passed_fd :=
  (apply_rlimits_frame w s).2.2.2.2.2.2.1

@[simp] theorem apply_rlimits_daemon_pipe_0 (w : World) (s : St) :
    (apply_rlimits w s).st.daemon_pipe_0 = s.daemon_pipe_0 :=
  (apply_rlimits_frame w s).2.2.2.2.2.2.2.1

@[simp] theorem apply_rlimits_daemon_pipe_1 (w : World) (s : St) :
    (apply_rlimits w s).st.daemon_pipe_1 = s.daemon_pipe_1 :=
  (apply_rlimits_frame w s).2.2.2.2.2.2.2.2.1

@[simp] theorem apply_rlimits_lf (w : World) (s : St) :
    (apply_rlimits w s).st.lf = s.lf :=
  (apply_rlimits_frame w s).2.2.2.2.2.2.2.2.2.1

@[simp] theorem apply_rlimits_autospawn_lock_fd (w : World) (s : St) :
    (apply_rlimits w s).st.autospawn_lock_fd = s.autospawn_lock_fd :=
  (apply_rlimits_frame w s).2.2.2.2.2.2.2.2.2.2.1

@[simp] theorem apply_rlimits_c (w : World) (s : St) :
    (apply_rlimits w s).st.c = s.c :=
  (apply_rlimits_frame w s).2.2.2.2.2.2.2.2.2.2.2.1

@[simp] theorem apply_rlimits_conf (w : World) (s : St) :
    (apply_rlimits w s).st.conf = s.conf :=
  (apply_rlimits_frame w s).2.2.2.2.2.2.2.2.2.2.2.2.2

theorem apply_rlimits_filter (w : World) (s : St) (p : Event → Bool)
    (hp : Quiet .apply_rlimits p) :
    (apply_rlimits w s).st.trace.filter p = s.trace.filter p := by
  have q0 := fun x0 x1 x2 => hp (.setrlimit x0 x1 x2) (by simp [Event.blocks])
  have q1 := fun x0 => hp (.pa_raise_priority x0) (by simp [Event.blocks])
  unfold apply_rlimits
  (try simp only [])
  (try split_ifs)
  all_goals first | rfl | simp only [Flow.st_next, Flow.st_finish, Flow.st_abort, Flow.st_replaced, St.emit_trace, List.filter_append, List.filter_cons, List.filter_nil, List.append_nil, Bool.false_eq_true, if_false, ite_self, List.nil_append, St.emit_retval, St.emit_r, St.emit_real_root, St.emit_suid_root, St.emit_valid_pid_file, St.emit_ltdl_init, St.emit_passed_fd, St.emit_daemon_pipe_0, St.emit_daemon_pipe_1, St.emit_lf, St.emit_autospawn_lock_fd, St.emit_c, St.emit_mainloop, St.emit_conf, q0, q1, set_all_rlimits_filter _ _ _ hp]

theorem apply_rlimits_grows (w : World) (s : St) {t : List Event} (h : t <+: s.trace) :
    t <+: (apply_rlimits w s).st.trace := by
  unfold apply_rlimits
  (try simp only [])
  (try split_ifs)
  all_goals repeat (first | exact h | apply grows_append | simp only [Flow.st_next, Flow.st_finish, Flow.st_abort, Flow.st_replaced, St.emit_trace])

theorem drop_decision_frame (w : World) (s : St) :
    (drop_decision w s).st.retval = s.retval ∧
    (drop_decision w s).st.r = s.r ∧
    (drop_decision w s).st.real_root = s.real_root ∧
    (drop_decision w s).st.valid_pid_file = s.valid_pid_file ∧
    (drop_decision w s).st.ltdl_init = s.ltdl_init ∧
    (drop_decision w s).st.passed_fd = s.passed_fd ∧
    (drop_decision w s).st.daemon_pipe_0 = s.daemon_pipe_0 ∧
    (drop_decision w s).st.daemon_pipe_1 = s.daemon_pipe_1 ∧
    (drop_decision w s).st.lf = s.lf ∧
    (drop_decision w s).st.autospawn_lock_fd = s.autospawn_lock_fd ∧
    (drop_decision w s).st.c = s.c ∧
    (drop_decision w s).st.mainloop = s.mainloop ∧
    (drop_decision w s).st.conf = s.conf := by
  unfold drop_decision
  (try simp only [])
  (try split_ifs)
  all_goals first | exact ⟨rfl, rfl, rfl, rfl, rfl, rfl, rfl, rfl, rfl, rfl, rfl, rfl, rfl⟩ | simp only [Flow.st_next, Flow.st_finish, Flow.st_abort, Flow.st_replaced, and_self, St.emit_retval, St.emit_r, St.emit_real_root, St.emit_valid_pid_file, St.emit_ltdl_init, St.emit_passed_fd, St.emit_daemon_pipe_0, St.emit_daemon_pipe_1, St.emit_lf, St.emit_autospawn_lock_fd, St.emit_c, St.emit_mainloop, St.emit_conf]

@[simp] theorem drop_decision_retval (w : World) (s : St) :
    (drop_decision w s).st.retval = s.retval :=
  (drop_decision_frame w s).1

@[simp] theorem drop_decision_r (w : World) (s : St) :
    (drop_decision w s).st.r = s.r :=
  (drop_decision_frame w s).2.1

@[simp] theorem drop_decision_real_root (w : World) (s : St) :
    (drop_decision w s).st.real_root = s.real_root :=
  (drop_decision_frame w s).2.2.1

@[simp] theorem drop_decision_valid_pid_file (w : World) (s : St) :
    (drop_decision w s).st.valid_pid_file = s.valid_pid_file :=
  (drop_decision_frame w s).2.2.2.1

@[simp] theorem drop_decision_ltdl_init (w : World) (s : St) :
    (drop_decision w s).st.ltdl_init = s.ltdl_init :=
  (drop_decision_frame w s).2.2.2.2.1

@[simp] theorem drop_decision_passed_fd (w : World) (s : St) :
    (drop_decision w s).st.passed_fd = s.passed_fd :=
  (drop_decision_frame w s).2.2.2.2.2.1

@[simp] theorem drop_decision_daemon_pipe_0 (w : World) (s : St) :
    (drop_decision w s).st.daemon_pipe_0 = s.daemon_pipe_0 :=
  (drop_decision_frame w s).2.2.2.2.2.2.1

@[simp] theorem drop_decision_daemon_pipe_1 (w : World) (s : St) :
    (drop_decision w s).st.daemon_pipe_1 = s.daemon_pipe_1 :=
  (drop_decision_frame w s).2.2.2.2.2.2.2.1

@[simp] theorem drop_decision_lf (w : World) (s : St) :
    (drop_decision w s).st.lf = s.lf :=
  (drop_decision_frame w s).2.2.2.2.2.2.2.2.1

@[simp] theorem drop_decision_autospawn_lock_fd (w : World) (s : St) :
    (drop_decision w s).st.autospawn_lock_fd = s.autospawn_lock_fd :=
  (drop_decision_frame w s).2.2.2.2.2.2.2.2.2.1

@[simp] theorem drop_decision_c (w : World) (s : St) :
    (drop_decision w s).st.c = s.c :=
  (drop_decision_frame w s).2.2.2.2.2.2.2.2.2.2.1

@[simp] theorem drop_decision_conf (w : World) (s : St) :
    (drop_decision w s).st.conf = s.conf :=
  (drop_decision_frame w s).2.2.2.2.2.2.2.2.2.2.2.2

theorem drop_decision_filter (w : World) (s : St) (p : Event → Bool)
    (hp : Quiet .drop_decision p) :
    (drop_decision w s).st.trace.filter p = s.trace.filter p := by
  have q0 := hp (.pa_have_caps) (by simp [Event.blocks])
  have q1 := fun x0 => hp (.getrlimit x0) (by simp [Event.blocks])
  have q2 := fun x0 x1 x2 => hp (.setrlimit x0 x1 x2) (by simp [Event.blocks])
  have q3 := hp (.pa_drop_caps) (by simp [Event.blocks])
  unfold drop_decision
  (try simp only [])
  (try split_ifs)
  all_goals first | rfl | simp only [Flow.st_next, Flow.st_finish, Flow.st_abort, Flow.st_replaced, St.emit_trace, List.filter_append, List.filter_cons, List.filter_nil, List.append_nil, Bool.false_eq_true, if_false, ite_self, List.nil_append, St.emit_retval, St.emit_r, St.emit_real_root, St.emit_suid_root, St.emit_valid_pid_file, St.emit_ltdl_init, St.emit_passed_fd, St.emit_daemon_pipe_0, St.emit_daemon_pipe_1, St.emit_lf, St.emit_autospawn_lock_fd, St.emit_c, St.emit_mainloop, St.emit_conf, q0, q1, q2, q3, acquire_rtprio_filter _ _ _ hp]

theorem drop_decision_grows (w : World) (s : St) {t : List Event} (h : t <+: s.trace) :
    t <+: (drop_decision w s).st.trace := by
  unfold drop_decision
  (try simp only [])
  (try split_ifs)
  all_goals repeat (first | exact h | apply grows_append | simp only [Flow.st_next, Flow.st_finish, Flow.st_abort, Flow.st_replaced, St.emit_trace])

theorem ltdl_setup_frame (w : World) (s : St) :
    (ltdl_setup w s).st.retval = s.retval ∧
    (ltdl_setup w s).st.r = s.r ∧
    (ltdl_setup w s).st.real_root = s.real_root ∧
    (ltdl_setup w s).st.suid_root = s.suid_root ∧
    (ltdl_setup w s).st.valid_pid_file = s.valid_pid_file ∧
    (ltdl_setup w s).st.passed_fd = s.passed_fd ∧
    (ltdl_setup w s).st.daemon_pipe_0 = s.daemon_pipe_0 ∧
    (ltdl_setup w s).st.daemon_pipe_1 = s.daemon_pipe_1 ∧
    (ltdl_setup w s).st.lf = s.lf ∧
    (ltdl_setup w s).st.autospawn_lock_fd = s.autospawn_lock_fd ∧
    (ltdl_setup w s).st.c = s.c ∧
    (ltdl_setup w s).st.mainloop = s.mainloop ∧
    (ltdl_setup w s).st.conf = s.conf := by
  unfold ltdl_setup
  (try simp only [])
  (try split_ifs)
  all_goals first | exact ⟨rfl, rfl, rfl, rfl, rfl, rfl, rfl, rfl, rfl, rfl, rfl, rfl, rfl⟩ | simp only [Flow.st_next, Flow.st_finish, Flow.st_abort, Flow.st_replaced, and_self, St.emit_retval, St.emit_r, St.emit_real_root, St.emit_suid_root, St.emit_valid_pid_file, St.emit_passed_fd, St.emit_daemon_pipe_0, St.emit_daemon_pipe_1, St.emit_lf, St.emit_autospawn_lock_fd, St.emit_c, St.emit_mainloop, St.emit_conf]

@[simp] theorem ltdl_setup_retval (w : World) (s : St) :
    (ltdl_setup w s).st.retval = s.retval :=
  (ltdl_setup_frame w s).1

@[simp] theorem ltdl_setup_r (w : World) (s : St) :
    (ltdl_setup w s).st.r = s.r :=
  (ltdl_setup_frame w s).2.1

@[simp] theorem ltdl_setup_real_root (w : World) (s : St) :
    (ltdl_setup w s).st.real_root = s.real_root :=
  (ltdl_setup_frame w s).2.2.1

@[simp] theorem ltdl_setup_suid_root (w : World) (s : St) :
    (ltdl_setup w s).st.suid_root = s.suid_root :=
  (ltdl_setup_frame w s).2.2.2.1

@[simp] theorem ltdl_setup_valid_pid_file (w : World) (s : St) :
    (ltdl_setup w s).st.valid_pid_file = s.valid_pid_file :=
  (ltdl_setup_frame w s).2.2.2.2.1

@[simp] theorem ltdl_setup_passed_fd (w : World) (s : St) :
    (ltdl_setup w s).st.passed_fd = s.passed_fd :=
  (ltdl_setup_frame w s).2.2.2.2.2.1

@[simp] theorem ltdl_setup_daemon_pipe_0 (w : World) (s : St) :
    (ltdl_setup w s).st.daemon_pipe_0 = s.daemon_pipe_0 :=
  (ltdl_setup_frame w s).2.2.2.2.2.2.1

@[simp] theorem ltdl_setup_daemon_pipe_1 (w : World) (s : St) :
    (ltdl_setup w s).st.daemon_pipe_1 = s.daemon_pipe_1 :=
  (ltdl_setup_frame w s).2.2.2.2.2.2.2.1

@[simp] theorem ltdl_setup_lf (w : World) (s : St) :
    (ltdl_setup w s).st.lf = s.lf :=
  (ltdl_setup_frame w s).2.2.2.2.2.2.2.2.1

@[simp] theorem ltdl_setup_autospawn_lock_fd (w : World) (s : St) :
    (ltdl_setup w s).st.autospawn_lock_fd = s.autospawn_lock_fd :=
  (ltdl_setup_frame w s).2.2.2.2.2.2.2.2.2.1

@[simp] theorem ltdl_setup_c (w : World) (s : St) :
    (ltdl_setup w s).st.c = s.c :=
  (ltdl_setup_frame w s).2.2.2.2.2.2.2.2.2.2.1

@[simp] theorem ltdl_setup_conf (w : World) (s : St) :
    (ltdl_setup w s).st.conf = s.conf :=
  (ltdl_setup_frame w s).2.2.2.2.2.2.2.2.2.2.2.2

theorem ltdl_setup_filter (w : World) (s : St) (p : Event → Bool)
    (hp : Quiet .ltdl_setup p) :
    (ltdl_setup w s).st.trace.filter p = s.trace.filter p := by
  have q0 := hp (.pa_ltdl_init) (by simp [Event.blocks])
  have q1 := hp (.lt_dlsetsearchpath) (by simp [Event.blocks])
  have q2 := hp (.pa_random_seed) (by simp [Event.blocks])
  unfold ltdl_setup
  (try simp only [])
  (try split_ifs)
  all_goals first | rfl | simp only [Flow.st_next, Flow.st_finish, Flow.st_abort, Flow.st_replaced, St.emit_trace, List.filter_append, List.filter_cons, List.filter_nil, List.append_nil, Bool.false_eq_true, if_false, ite_self, List.nil_append, St.emit_retval, St.emit_r, St.emit_real_root, St.emit_suid_root, St.emit_valid_pid_file, St.emit_ltdl_init, St.emit_passed_fd, St.emit_daemon_pipe_0, St.emit_daemon_pipe_1, St.emit_lf, St.emit_autospawn_lock_fd, St.emit_c, St.emit_mainloop, St.emit_conf, q0, q1, q2]

theorem ltdl_setup_grows (w : World) (s : St) {t : List Event} (h : t <+: s.trace) :
    t <+: (ltdl_setup w s).st.trace := by
  unfold ltdl_setup
  (try simp only [])
  (try split_ifs)
  all_goals repeat (first | exact h | apply grows_append | simp only [Flow.st_next, Flow.st_finish, Flow.st_abort, Flow.st_replaced, St.emit_trace])

theorem command_switch_frame (w : World) (s : St) :
    (command_switch w s).st.r = s.r ∧
    (command_switch w s).st.real_root = s.real_root ∧
    (command_switch w s).st.suid_root = s.suid_root ∧
    (command_switch w s).st.valid_pid_file = s.valid_pid_file ∧
    (command_switch w s).st.ltdl_init = s.ltdl_init ∧
    (command_switch w s).st.passed_fd = s.passed_fd ∧
    (command_switch w s).st.daemon_pipe_0 = s.daemon_pipe_0 ∧
    (command_switch w s).st.daemon_pipe_1 = s.daemon_pipe_1 ∧
    (command_switch w s).st.lf = s.lf ∧
    (command_switch w s).st.autospawn_lock_fd = s.autospawn_lock_fd ∧
    (command_switch w s).st.c = s.c ∧
    (command_switch w s).st.mainloop = s.mainloop ∧
    (command_switch w s).st.conf = s.conf := by
  unfold command_switch
  (try simp only [])
  split <;> (try split_ifs)
  all_goals first | exact ⟨rfl, rfl, rfl, rfl, rfl, rfl, rfl, rfl, rfl, rfl, rfl, rfl, rfl⟩ | simp only [Flow.st_next, Flow.st_finish, Flow.st_abort, Flow.st_replaced, and_self, St.emit_r, St.emit_real_root, St.emit_suid_root, St.emit_valid_pid_file, St.emit_ltdl_init, St.emit_passed_fd, St.emit_daemon_pipe_0, St.emit_daemon_pipe_1, St.emit_lf, St.emit_autospawn_lock_fd, St.emit_c, St.emit_mainloop, St.emit_conf]

@[simp] theorem command_switch_r (w : World) (s : St) :
    (command_switch w s).st.r = s.r :=
  (command_switch_frame w s).1

@[simp] theorem command_switch_real_root (w : World) (s : St) :
    (command_switch w s).st.real_root = s.real_root :=
  (command_switch_frame w s).2.1

@[simp] theorem command_switch_suid_root (w : World) (s : St) :
    (command_switch w s).st.suid_root = s.suid_root :=
  (command_switch_frame w s).2.2.1

@[simp] theorem command_switch_valid_pid_file (w : World) (s : St) :
    (command_switch w s).st.valid_pid_file = s.valid_pid_file :=
  (command_switch_frame w s).2.2.2.1

@[simp] theorem command_switch_ltdl_init (w : World) (s : St) :
    (command_switch w s).st.ltdl_init = s.ltdl_init :=
  (command_switch_frame w s).2.2.2.2.1

@[simp] theorem command_switch_passed_fd (w : World) (s : St) :
    (command_switch w s).st.passed_fd = s.passed_fd :=
  (command_switch_frame w s).2.2.2.2.2.1

@[simp] theorem command_switch_daemon_pipe_0 (w : World) (s : St) :
    (command_switch w s).st.daemon_pipe_0 = s.daemon_pipe_0 :=
  (command_switch_frame w s).2.2.2.2.2.2.1

@[simp] theorem command_switch_daemon_pipe_1 (w : World) (s : St) :
    (command_switch w s).st.daemon_pipe_1 = s.daemon_pipe_1 :=
  (command_switch_frame w s).2.2.2.2.2.2.2.1

@[simp] theorem command_switch_lf (w : World) (s : St) :
    (command_switch w s).st.lf = s.lf :=
  (command_switch_frame w s).2.2.2.2.2.2.2.2.1

@[simp] theorem command_switch_autospawn_lock_fd (w : World) (s : St) :
    (command_switch w s).st.autospawn_lock_fd = s.autospawn_lock_fd :=
  (command_switch_frame w s).2.2.2.2.2.2.2.2.2.1

@[simp] theorem command_switch_c (w : World) (s : St) :
    (command_switch w s).st.c = s.c :=
  (command_switch_frame w s).2.2.2.2.2.2.2.2.2.2.1

@[simp] theorem command_switch_conf (w : World) (s : St) :
    (command_switch w s).st.conf = s.conf :=
  (command_switch_frame w s).2.2.2.2.2.2.2.2.2.2.2.2

theorem command_switch_filter (w : World) (s : St) (p : Event → Bool)
    (hp : Quiet .command_switch p) :
    (command_switch w s).st.trace.filter p = s.trace.filter p := by
  have q0 := hp (.pa_dump_modules) (by simp [Event.blocks])
  have q1 := hp (.pa_daemon_conf_dump) (by simp [Event.blocks])
  have q2 := fun x0 => hp (.pa_resample_method_supported x0) (by simp [Event.blocks])
  have q3 := fun x0 => hp (.printf_resample_method x0) (by simp [Event.blocks])
  have q4 := hp (.pa_cmdline_help) (by simp [Event.blocks])
  have q5 := hp (.printf_version) (by simp [Event.blocks])
  have q6 := hp (.pa_pid_file_check_running) (by simp [Event.blocks])
  have q7 := hp (.pa_pid_file_kill) (by simp [Event.blocks])
  have q8 := hp (.pa_shm_cleanup) (by simp [Event.blocks])
  unfold command_switch
  (try simp only [])
  split <;> (try split_ifs)
  all_goals first | rfl | simp only [Flow.st_next, Flow.st_finish, Flow.st_abort, Flow.st_replaced, St.emit_trace, List.filter_append, List.filter_cons, List.filter_nil, List.append_nil, Bool.false_eq_true, if_false, ite_self, List.nil_append, St.emit_retval, St.emit_r, St.emit_real_root, St.emit_suid_root, St.emit_valid_pid_file, St.emit_ltdl_init, St.emit_passed_fd, St.emit_daemon_pipe_0, St.emit_daemon_pipe_1, St.emit_lf, St.emit_autospawn_lock_fd, St.emit_c, St.emit_mainloop, St.emit_conf, q0, q1, q2, q3, q4, q5, q6, q7, q8, dump_resample_methods_filter _ _ hp]

theorem command_switch_grows (w : World) (s : St) {t : List Event} (h : t <+: s.trace) :
    t <+: (command_switch w s).st.trace := by
  unfold command_switch
  (try simp only [])
  split <;> (try split_ifs)
  all_goals repeat (first | exact h | apply grows_append | simp only [Flow.st_next, Flow.st_finish, Flow.st_abort, Flow.st_replaced, St.emit_trace])

theorem root_check_frame (w : World) (s : St) :
    (root_check w s).st.retval = s.retval ∧
    (root_check w s).st.r = s.r ∧
    (root_check w s).st.real_root = s.real_root ∧
    (root_check w s).st.suid_root = s.suid_root ∧
    (root_check w s).st.valid_pid_file = s.valid_pid_file ∧
    (root_check w s).st.ltdl_init = s.ltdl_init ∧
    (root_check w s).st.passed_fd = s.passed_fd ∧
    (root_check w s).st.daemon_pipe_0 = s.daemon_pipe_0 ∧
    (root_check w s).st.daemon_pipe_1 = s.daemon_pipe_1 ∧
    (root_check w s).st.lf = s.lf ∧
    (root_check w s).st.autospawn_lock_fd = s.autospawn_lock_fd ∧
    (root_check w s).st.c = s.c ∧
    (root_check w s).st.mainloop = s.mainloop ∧
    (root_check w s).st.conf = s.conf := by
  unfold root_check
  (try simp only [])
  (try split_ifs)
  all_goals first | exact ⟨rfl, rfl, rfl, rfl, rfl, rfl, rfl, rfl, rfl, rfl, rfl, rfl, rfl, rfl⟩ | simp only [Flow.st_next, Flow.st_finish, Flow.st_abort, Flow.st_replaced, and_self, St.emit_retval, St.emit_r, St.emit_real_root, St.emit_suid_root, St.emit_valid_pid_file, St.emit_ltdl_init, St.emit_passed_fd, St.emit_daemon_pipe_0, St.emit_daemon_pipe_1, St.emit_lf, St.emit_autospawn_lock_fd, St.emit_c, St.emit_mainloop, St.emit_conf]

@[simp] theorem root_check_retval (w : World) (s : St) :
    (root_check w s).st.retval = s.retval :=
  (root_check_frame w s).1

@[simp] theorem root_check_r (w : World) (s : St) :
    (root_check w s).st.r = s.r :=
  (root_check_frame w s).2.1

@[simp] theorem root_check_real_root (w : World) (s : St) :
    (root_check w s).st.real_root = s.real_root :=
  (root_check_frame w s).2.2.1

@[simp] theorem root_check_suid_root (w : World) (s : St) :
    (root_check w s).st.suid_root = s.suid_root :=
  (root_check_frame w s).2.2.2.1

@[simp] theorem root_check_valid_pid_file (w : World) (s : St) :
    (root_check w s).st.valid_pid_file = s.valid_pid_file :=
  (root_check_frame w s).2.2.2.2.1

@[simp] theorem root_check_ltdl_init (w : World) (s : St) :
    (root_check w s).st.ltdl_init = s.ltdl_init :=
  (root_check_frame w s).2.2.2.2.2.1

@[simp] theorem root_check_passed_fd (w : World) (s : St) :
    (root_check w s).st.passed_fd = s.passed_fd :=
  (root_check_frame w s).2.2.2.2.2.2.1

@[simp] theorem root_check_daemon_pipe_0 (w : World) (s : St) :
    (root_check w s).st.daemon_pipe_0 = s.daemon_pipe_0 :=
  (root_check_frame w s).2.2.2.2.2.2.2.1

@[simp] theorem root_check_daemon_pipe_1 (w : World) (s : St) :
    (root_check w s).st.daemon_pipe_1 = s.daemon_pipe_1 :=
  (root_check_frame w s).2.2.2.2.2.2.2.2.1

@[simp] theorem root_check_lf (w : World) (s : St) :
    (root_check w s).st.lf = s.lf :=
  (root_check_frame w s).2.2.2.2.2.2.2.2.2.1

@[simp] theorem root_check_autospawn_lock_fd (w : World) (s : St) :
    (root_check w s).st.autospawn_lock_fd = s.autospawn_lock_fd :=
  (root_check_frame w s).2.2.2.2.2.2.2.2.2.2.1

@[simp] theorem root_check_c (w : World) (s : St) :
    (root_check w s).st.c = s.c :=
  (root_check_frame w s).2.2.2.2.2.2.2.2.2.2.2.1

@[simp] theorem root_check_conf (w : World) (s : St) :
    (root_check w s).st.conf = s.conf :=
  (root_check_frame w s).2.2.2.2.2.2.2.2.2.2.2.2.2

theorem root_check_filter (w : World) (s : St) (p : Event → Bool) :
    (root_check w s).st.trace.filter p = s.trace.filter p := by
  unfold root_check
  (try split_ifs)
  all_goals rfl

theorem root_check_grows (w : World) (s : St) {t : List Event} (h : t <+: s.trace) :
    t <+: (root_check w s).st.trace := by
  unfold root_check
  (try simp only [])
  (try split_ifs)
  all_goals repeat (first | exact h | apply grows_append | simp only [Flow.st_next, Flow.st_finish, Flow.st_abort, Flow.st_replaced, St.emit_trace])

theorem autospawn_lock_frame (w : World) (s : St) :
    (autospawn_lock w s).st.retval = s.retval ∧
    (autospawn_lock w s).st.r = s.r ∧
    (autospawn_lock w s).st.real_root = s.real_root ∧
    (autospawn_lock w s).st.suid_root = s.suid_root ∧
    (autospawn_lock w s).st.valid_pid_file = s.valid_pid_file ∧
    (autospawn_lock w s).st.ltdl_init = s.ltdl_init ∧
    (autospawn_lock w s).st.passed_fd = s.passed_fd ∧
    (autospawn_lock w s).st.daemon_pipe_0 = s.daemon_pipe_0 ∧
    (autospawn_lock w s).st.daemon_pipe_1 = s.daemon_pipe_1 ∧
    (autospawn_lock w s).st.c = s.c ∧
    (autospawn_lock w s).st.mainloop = s.mainloop ∧
    (autospawn_lock w s).st.conf = s.conf := by
  unfold autospawn_lock
  (try simp only [])
  (try split_ifs)
  all_goals first | exact ⟨rfl, rfl, rfl, rfl, rfl, rfl, rfl, rfl, rfl, rfl, rfl, rfl⟩ | simp only [Flow.st_next, Flow.st_finish, Flow.st_abort, Flow.st_replaced, and_self, St.emit_retval, St.emit_r, St.emit_real_root, St.emit_suid_root, St.emit_valid_pid_file, St.emit_ltdl_init, St.emit_passed_fd, St.emit_daemon_pipe_0, St.emit_daemon_pipe_1, St.emit_c, St.emit_mainloop, St.emit_conf]

@[simp] theorem autospawn_lock_retval (w : World) (s : St) :
    (autospawn_lock w s).st.retval = s.retval :=
  (autospawn_lock_frame w s).1

@[simp] theorem autospawn_lock_r (w : World) (s : St) :
    (autospawn_lock w s).st.r = s.r :=
  (autospawn_lock_frame w s).2.1

@[simp] theorem autospawn_lock_real_root (w : World) (s : St) :
    (autospawn_lock w s).st.real_root = s.real_root :=
  (autospawn_lock_frame w s).2.2.1

@[simp] theorem autospawn_lock_suid_root (w : World) (s : St) :
    (autospawn_lock w s).st.suid_root = s.suid_root :=
  (autospawn_lock_frame w s).2.2.2.1

@[simp] theorem autospawn_lock_valid_pid_file (w : World) (s : St) :
    (autospawn_lock w s).st.valid_pid_file = s.valid_pid_file :=
  (autospawn_lock_frame w s).2.2.2.2.1

@[simp] theorem autospawn_lock_ltdl_init (w : World) (s : St) :
    (autospawn_lock w s).st.ltdl_init = s.ltdl_init :=
  (autospawn_lock_frame w s).2.2.2.2.2.1

@[simp] theorem autospawn_lock_passed_fd (w : World) (s : St) :
    (autospawn_lock w s).st.passed_fd = s.passed_fd :=
  (autospawn_lock_frame w s).2.2.2.2.2.2.1

@[simp] theorem autospawn_lock_daemon_pipe_0 (w : World) (s : St) :
    (autospawn_lock w s).st.daemon_pipe_0 = s.daemon_pipe_0 :=
  (autospawn_lock_frame w s).2.2.2.2.2.2.2.1

@[simp] theorem autospawn_lock_daemon_pipe_1 (w : World) (s : St) :
    (autospawn_lock w s).st.daemon_pipe_1 = s.daemon_pipe_1 :=
  (autospawn_lock_frame w s).2.2.2.2.2.2.2.2.1

@[simp] theorem autospawn_lock_c (w : World) (s : St) :
    (autospawn_lock w s).st.c = s.c :=
  (autospawn_lock_frame w s).2.2.2.2.2.2.2.2.2.1

@[simp] theorem autospawn_lock_conf (w : World) (s : St) :
    (autospawn_lock w s).st.conf = s.conf :=
  (autospawn_lock_frame w s).2.2.2.2.2.2.2.2.2.2.2

theorem autospawn_lock_filter (w : World) (s : St) (p : Event → Bool)
    (hp : Quiet .autospawn_lock p) :
    (autospawn_lock w s).st.trace.filter p = s.trace.filter p := by
  have q0 := hp (.pa_runtime_path) (by simp [Event.blocks])
  have q1 := hp (.pa_lock_lockfile) (by simp [Event.blocks])
  unfold autospawn_lock
  (try simp only [])
  (try split_ifs)
  all_goals first | rfl | simp only [Flow.st_next, Flow.st_finish, Flow.st_abort, Flow.st_replaced, St.emit_trace, List.filter_append, List.filter_cons, List.filter_nil, List.append_nil, Bool.false_eq_true, if_false, ite_self, List.nil_append, St.emit_retval, St.emit_r, St.emit_real_root, St.emit_suid_root, St.emit_valid_pid_file, St.emit_ltdl_init, St.emit_passed_fd, St.emit_daemon_pipe_0, St.emit_daemon_pipe_1, St.emit_lf, St.emit_autospawn_lock_fd, St.emit_c, St.emit_mainloop, St.emit_conf, q0, q1]

theorem autospawn_lock_grows (w : World) (s : St) {t : List Event} (h : t <+: s.trace) :
    t <+: (autospawn_lock w s).st.trace := by
  unfold autospawn_lock
  (try simp only [])
  (try split_ifs)
  all_goals repeat (first | exact h | apply grows_append | simp only [Flow.st_next, Flow.st_finish, Flow.st_abort, Flow.st_replaced, St.emit_trace])

theorem daemonize_parent_frame (w : World) (s : St) :
    (daemonize_parent w s).st.r = s.r ∧
    (daemonize_parent w s).st.real_root = s.real_root ∧
    (daemonize_parent w s).st.suid_root = s.suid_root ∧
    (daemonize_parent w s).st.valid_pid_file = s.valid_pid_file ∧
    (daemonize_parent w s).st.ltdl_init = s.ltdl_init ∧
    (daemonize_parent w s).st.passed_fd = s.passed_fd ∧
    (daemonize_parent w s).st.daemon_pipe_0 = s.daemon_pipe_0 ∧
    (daemonize_parent w s).st.lf = s.lf ∧
    (daemonize_parent w s).st.autospawn_lock_fd = s.autospawn_lock_fd ∧
    (daemonize_parent w s).st.c = s.c ∧
    (daemonize_parent w s).st.mainloop = s.mainloop ∧
    (daemonize_parent w s).st.conf = s.conf := by
  unfold daemonize_parent
  (try simp only [])
  (try split_ifs)
  all_goals first | exact ⟨rfl, rfl, rfl, rfl, rfl, rfl, rfl, rfl, rfl, rfl, rfl, rfl⟩ | simp only [Flow.st_next, Flow.st_finish, Flow.st_abort, Flow.st_replaced, and_self, St.emit_r, St.emit_real_root, St.emit_suid_root, St.emit_valid_pid_file, St.emit_ltdl_init, St.emit_passed_fd, St.emit_daemon_pipe_0, St.emit_lf, St.emit_autospawn_lock_fd, St.emit_c, St.emit_mainloop, St.emit_conf]

@[simp] theorem daemonize_parent_r (w : World) (s : St) :
    (daemonize_parent w s).st.r = s.r :=
  (daemonize_parent_frame w s).1

@[simp] theorem daemonize_parent_real_root (w : World) (s : St) :
    (daemonize_parent w s).st.real_root = s.real_root :=
  (daemonize_parent_frame w s).2.1

@[simp] theorem daemonize_parent_suid_root (w : World) (s : St) :
    (daemonize_parent w s).st.suid_root = s.suid_root :=
  (daemonize_parent_frame w s).2.2.1

@[simp] theorem daemonize_parent_valid_pid_file (w : World) (s : St) :
    (daemonize_parent w s).st.valid_pid_file = s.valid_pid_file :=
  (daemonize_parent_frame w s).2.2.2.1

@[simp] theorem daemonize_parent_ltdl_init (w : World) (s : St) :
    (daemonize_parent w s).st.ltdl_init = s.ltdl_init :=
  (daemonize_parent_frame w s).2.2.2.2.1

@[simp] theorem daemonize_parent_passed_fd (w : World) (s : St) :
    (daemonize_parent w s).st.passed_fd = s.passed_fd :=
  (daemonize_parent_frame w s).2.2.2.2.2.1

@[simp] theorem daemonize_parent_daemon_pipe_0 (w : World) (s : St) :
    (daemonize_parent w s).st.daemon_pipe_0 = s.daemon_pipe_0 :=
  (daemonize_parent_frame w s).2.2.2.2.2.2.1

@[simp] theorem daemonize_parent_lf (w : World) (s : St) :
    (daemonize_parent w s).st.lf = s.lf :=
  (daemonize_parent_frame w s).2.2.2.2.2.2.2.1

@[simp] theorem daemonize_parent_autospawn_lock_fd (w : World) (s : St) :
    (daemonize_parent w s).st.autospawn_lock_fd = s.autospawn_lock_fd :=
  (daemonize_parent_frame w s).2.2.2.2.2.2.2.2.1

@[simp] theorem daemonize_parent_c (w : World) (s : St) :
    (daemonize_parent w s).st.c = s.c :=
  (daemonize_parent_frame w s).2.2.2.2.2.2.2.2.2.1

@[simp] theorem daemonize_parent_mainloop (w : World) (s : St) :
    (daemonize_parent w s).st.mainloop = s.mainloop :=
  (daemonize_parent_frame w s).2.2.2.2.2.2.2.2.2.2.1

@[simp] theorem daemonize_parent_conf (w : World) (s : St) :
    (daemonize_parent w s).st.conf = s.conf :=
  (daemonize_parent_frame w s).2.2.2.2.2.2.2.2.2.2.2

theorem daemonize_parent_filter (w : World) (s : St) (p : Event → Bool)
    (hp : Quiet .daemonize_parent p) :
    (daemonize_parent w s).st.trace.filter p = s.trace.filter p := by
  have q0 := fun x0 => hp (.pa_close x0) (by simp [Event.blocks])
  have q1 := fun x0 => hp (.pa_loop_read x0) (by simp [Event.blocks])
  unfold daemonize_parent
  (try simp only [])
  (try split_ifs)
  all_goals first | rfl | simp only [Flow.st_next, Flow.st_finish, Flow.st_abort, Flow.st_replaced, St.emit_trace, List.filter_append, List.filter_cons, List.filter_nil, List.append_nil, Bool.false_eq_true, if_false, ite_self, List.nil_append, St.emit_retval, St.emit_r, St.emit_real_root, St.emit_suid_root, St.emit_valid_pid_file, St.emit_ltdl_init, St.emit_passed_fd, St.emit_daemon_pipe_0, St.emit_daemon_pipe_1, St.emit_lf, St.emit_autospawn_lock_fd, St.emit_c, St.emit_mainloop, St.emit_conf, q0, q1]

theorem daemonize_parent_grows (w : World) (s : St) {t : List Event} (h : t <+: s.trace) :
    t <+: (daemonize_parent w s).st.trace := by
  unfold daemonize_parent
  (try simp only [])
  (try split_ifs)
  all_goals repeat (first | exact h | apply grows_append | simp only [Flow.st_next, Flow.st_finish, Flow.st_abort, Flow.st_replaced, St.emit_trace])

theorem detach_frame (w : World) (s : St) :
    (detach w s).st.retval = s.retval ∧
    (detach w s).st.r = s.r ∧
    (detach w s).st.real_root = s.real_root ∧
    (detach w s).st.suid_root = s.suid_root ∧
    (detach w s).st.valid_pid_file = s.valid_pid_file ∧
    (detach w s).st.ltdl_init = s.ltdl_init ∧
    (detach w s).st.passed_fd = s.passed_fd ∧
    (detach w s).st.daemon_pipe_0 = s.daemon_pipe_0 ∧
    (detach w s).st.daemon_pipe_1 = s.daemon_pipe_1 ∧
    (detach w s).st.lf = s.lf ∧
    (detach w s).st.autospawn_lock_fd = s.autospawn_lock_fd ∧
    (detach w s).st.c = s.c ∧
    (detach w s).st.mainloop = s.mainloop ∧
    (detach w s).st.conf = s.conf := by
  unfold detach
  (try simp only [])
  (try split_ifs)
  all_goals first | exact ⟨rfl, rfl, rfl, rfl, rfl, rfl, rfl, rfl, rfl, rfl, rfl, rfl, rfl, rfl⟩ | simp only [Flow.st_next, Flow.st_finish, Flow.st_abort, Flow.st_replaced, and_self, St.emit_retval, St.emit_r, St.emit_real_root, St.emit_suid_root, St.emit_valid_pid_file, St.emit_ltdl_init, St.emit_passed_fd, St.emit_daemon_pipe_0, St.emit_daemon_pipe_1, St.emit_lf, St.emit_autospawn_lock_fd, St.emit_c, St.emit_mainloop, St.emit_conf]

@[simp] theorem detach_retval (w : World) (s : St) :
    (detach w s).st.retval = s.retval :=
  (detach_frame w s).1

@[simp] theorem detach_r (w : World) (s : St) :
    (detach w s).st.r = s.r :=
  (detach_frame w s).2.1

@[simp] theorem detach_real_root (w : World) (s : St) :
    (detach w s).st.real_root = s.real_root :=
  (detach_frame w s).2.2.1

@[simp] theorem detach_suid_root (w : World) (s : St) :
    (detach w s).st.suid_root = s.suid_root :=
  (detach_frame w s).2.2.2.1

@[simp] theorem detach_valid_pid_file (w : World) (s : St) :
    (detach w s).st.valid_pid_file = s.valid_pid_file :=
  (detach_frame w s).2.2.2.2.1

@[simp] theorem detach_ltdl_init (w : World) (s : St) :
    (detach w s).st.ltdl_init = s.ltdl_init :=
  (detach_frame w s).2.2.2.2.2.1

@[simp] theorem detach_passed_fd (w : World) (s : St) :
    (detach w s).st.passed_fd = s.passed_fd :=
  (detach_frame w s).2.2.2.2.2.2.1

@[simp] theorem detach_daemon_pipe_0 (w : World) (s : St) :
    (detach w s).st.daemon_pipe_0 = s.daemon_pipe_0 :=
  (detach_frame w s).2.2.2.2.2.2.2.1

@[simp] theorem detach_daemon_pipe_1 (w : World) (s : St) :
    (detach w s).st.daemon_pipe_1 = s.daemon_pipe_1 :=
  (detach_frame w s).2.2.2.2.2.2.2.2.1

@[simp] theorem detach_lf (w : World) (s : St) :
    (detach w s).st.lf = s.lf :=
  (detach_frame w s).2.2.2.2.2.2.2.2.2.1

@[simp] theorem detach_autospawn_lock_fd (w : World) (s : St) :
    (detach w s).st.autospawn_lock_fd = s.autospawn_lock_fd :=
  (detach_frame w s).2.2.2.2.2.2.2.2.2.2.1

@[simp] theorem detach_c (w : World) (s : St) :
    (detach w s).st.c = s.c :=
  (detach_frame w s).2.2.2.2.2.2.2.2.2.2.2.1

@[simp] theorem detach_mainloop (w : World) (s : St) :
    (detach w s).st.mainloop = s.mainloop :=
  (detach_frame w s).2.2.2.2.2.2.2.2.2.2.2.2.1

@[simp] theorem detach_conf (w : World) (s : St) :
    (detach w s).st.conf = s.conf :=
  (detach_frame w s).2.2.2.2.2.2.2.2.2.2.2.2.2

theorem detach_filter (w : World) (s : St) (p : Event → Bool)
    (hp : Quiet .daemonize_child p) :
    (detach w s).st.trace.filter p = s.trace.filter p := by
  have q0 := fun x0 => hp (.pa_close x0) (by simp [Event.blocks])
  have q1 := hp (.pa_log_set_target_syslog) (by simp [Event.blocks])
  have q2 := hp (.setsid) (by simp [Event.blocks])
  have q3 := hp (.setpgid) (by simp [Event.blocks])
  have q4 := hp (.open_dev_null) (by simp [Event.blocks])
  have q5 := fun x0 => hp (.signal_ignore x0) (by simp [Event.blocks])
  have q6 := hp (.open_dev_tty) (by simp [Event.blocks])
  have q7 := hp (.ioctl_TIOCNOTTY) (by simp [Event.blocks])
  unfold detach
  (try simp only [])
  (try split_ifs)
  all_goals first | rfl | simp only [Flow.st_next, Flow.st_finish, Flow.st_abort, Flow.st_replaced, St.emit_trace, List.filter_append, List.filter_cons, List.filter_nil, List.append_nil, Bool.false_eq_true, if_false, ite_self, List.nil_append, St.emit_retval, St.emit_r, St.emit_real_root, St.emit_suid_root, St.emit_valid_pid_file, St.emit_ltdl_init, St.emit_passed_fd, St.emit_daemon_pipe_0, St.emit_daemon_pipe_1, St.emit_lf, St.emit_autospawn_lock_fd, St.emit_c, St.emit_mainloop, St.emit_conf, q0, q1, q2, q3, q4, q5, q6, q7]

theorem detach_grows (w : World) (s : St) {t : List Event} (h : t <+: s.trace) :
    t <+: (detach w s).st.trace := by
  unfold detach
  (try simp only [])
  (try split_ifs)
  all_goals repeat (first | exact h | apply grows_append | simp only [Flow.st_next, Flow.st_finish, Flow.st_abort, Flow.st_replaced, St.emit_trace])

theorem close_autospawn_lock_frame (s : St) :
    (close_autospawn_lock s).retval = s.retval ∧
    (close_autospawn_lock s).r = s.r ∧
    (close_autospawn_lock s).real_root = s.real_root ∧
    (close_autospawn_lock s).suid_root = s.suid_root ∧
    (close_autospawn_lock s).valid_pid_file = s.valid_pid_file ∧
    (close_autospawn_lock s).ltdl_init = s.ltdl_init ∧
    (close_autospawn_lock s).passed_fd = s.passed_fd ∧
    (close_autospawn_lock s).daemon_pipe_0 = s.daemon_pipe_0 ∧
    (close_autospawn_lock s).daemon_pipe_1 = s.daemon_pipe_1 ∧
    (close_autospawn_lock s).lf = s.lf ∧
    (close_autospawn_lock s).c = s.c ∧
    (close_autospawn_lock s).mainloop = s.mainloop ∧
    (close_autospawn_lock s).conf = s.conf := by
  unfold close_autospawn_lock
  (try simp only [])
  (try split_ifs)
  all_goals first | exact ⟨rfl, rfl, rfl, rfl, rfl, rfl, rfl, rfl, rfl, rfl, rfl, rfl, rfl⟩ | simp only [Flow.st_next, Flow.st_finish, Flow.st_abort, Flow.st_replaced, and_self, St.emit_retval, St.emit_r, St.emit_real_root, St.emit_suid_root, St.emit_valid_pid_file, St.emit_ltdl_init, St.emit_passed_fd, St.emit_daemon_pipe_0, St.emit_daemon_pipe_1, St.emit_lf, St.emit_c, St.emit_mainloop, St.emit_conf]

@[simp] theorem close_autospawn_lock_retval (s : St) :
    (close_autospawn_lock s).retval = s.retval :=
  (close_autospawn_lock_frame s).1

@[simp] theorem close_autospawn_lock_r (s : St) :
    (close_autospawn_lock s).r = s.r :=
  (close_autospawn_lock_frame s).2.1

@[simp] theorem close_autospawn_lock_real_root (s : St) :
    (close_autospawn_lock s).real_root = s.real_root :=
  (close_autospawn_lock_frame s).2.2.1

@[simp] theorem close_autospawn_lock_suid_root (s : St) :
    (close_autospawn_lock s).suid_root = s.suid_root :=
  (close_autospawn_lock_frame s).2.2.2.1

@[simp] theorem close_autospawn_lock_valid_pid_file (s : St) :
    (close_autospawn_lock s).valid_pid_file = s.valid_pid_file :=
  (close_autospawn_lock_frame s).2.2.2.2.1

@[simp] theorem close_autospawn_lock_ltdl_init (s : St) :
    (close_autospawn_lock s).ltdl_init = s.ltdl_init :=
  (close_autospawn_lock_frame s).2.2.2.2.2.1

@[simp] theorem close_autospawn_lock_passed_fd (s : St) :
    (close_autospawn_lock s).passed_fd = s.passed_fd :=
  (close_autospawn_lock_frame s).2.2.2.2.2.2.1

@[simp] theorem close_autospawn_lock_daemon_pipe_0 (s : St) :
    (close_autospawn_lock s).daemon_pipe_0 = s.daemon_pipe_0 :=
  (close_autospawn_lock_frame s).2.2.2.2.2.2.2.1

@[simp] theorem close_autospawn_lock_daemon_pipe_1 (s : St) :
    (close_autospawn_lock s).daemon_pipe_1 = s.daemon_pipe_1 :=
  (close_autospawn_lock_frame s).2.2.2.2.2.2.2.2.1

@[simp] theorem close_autospawn_lock_lf (s : St) :
    (close_autospawn_lock s).lf = s.lf :=
  (close_autospawn_lock_frame s).2.2.2.2.2.2.2.2.2.1

@[simp] theorem close_autospawn_lock_c (s : St) :
    (close_autospawn_lock s).c = s.c :=
  (close_autospawn_lock_frame s).2.2.2.2.2.2.2.2.2.2.1

@[simp] theorem close_autospawn_lock_mainloop (s : St) :
    (close_autospawn_lock s).mainloop = s.mainloop :=
  (close_autospawn_lock_frame s).2.2.2.2.2.2.2.2.2.2.2.1

@[simp] theorem close_autospawn_lock_conf (s : St) :
    (close_autospawn_lock s).conf = s.conf :=
  (close_autospawn_lock_frame s).2.2.2.2.2.2.2.2.2.2.2.2

theorem close_autospawn_lock_filter (s : St) (p : Event → Bool)
    (hp : Quiet .daemonize_child p) :
    (close_autospawn_lock s).trace.filter p = s.trace.filter p := by
  have q0 := fun x0 => hp (.pa_close x0) (by simp [Event.blocks])
  have q1 := hp (.pa_log_set_target_syslog) (by simp [Event.blocks])
  have q2 := hp (.setsid) (by simp [Event.blocks])
  have q3 := hp (.setpgid) (by simp [Event.blocks])
  have q4 := hp (.open_dev_null) (by simp [Event.blocks])
  have q5 := fun x0 => hp (.signal_ignore x0) (by simp [Event.blocks])
  have q6 := hp (.open_dev_tty) (by simp [Event.blocks])
  have q7 := hp (.ioctl_TIOCNOTTY) (by simp [Event.blocks])
  unfold close_autospawn_lock
  (try simp only [])
  (try split_ifs)
  all_goals first | rfl | simp only [Flow.st_next, Flow.st_finish, Flow.st_abort, Flow.st_replaced, St.emit_trace, List.filter_append, List.filter_cons, List.filter_nil, List.append_nil, Bool.false_eq_true, if_false, ite_self, List.nil_append, St.emit_retval, St.emit_r, St.emit_real_root, St.emit_suid_root, St.emit_valid_pid_file, St.emit_ltdl_init, St.emit_passed_fd, St.emit_daemon_pipe_0, St.emit_daemon_pipe_1, St.emit_lf, St.emit_autospawn_lock_fd, St.emit_c, St.emit_mainloop, St.emit_conf, q0, q1, q2, q3, q4, q5, q6, q7]

theorem close_autospawn_lock_grows (s : St) {t : List Event} (h : t <+: s.trace) :
    t <+: (close_autospawn_lock s).trace := by
  unfold close_autospawn_lock
  (try simp only [])
  (try split_ifs)
  all_goals repeat (first | exact h | apply grows_append | simp only [Flow.st_next, Flow.st_finish, Flow.st_abort, Flow.st_replaced, St.emit_trace])

theorem daemonize_child_frame (w : World) (s : St) :
    (daemonize_child w s).st.retval = s.retval ∧
    (daemonize_child w s).st.r = s.r ∧
    (daemonize_child w s).st.real_root = s.real_root ∧
    (daemonize_child w s).st.suid_root = s.suid_root ∧
    (daemonize_child w s).st.valid_pid_file = s.valid_pid_file ∧
    (daemonize_child w s).st.ltdl_init = s.ltdl_init ∧
    (daemonize_child w s).st.passed_fd = s.passed_fd ∧
    (daemonize_child w s).st.daemon_pipe_1 = s.daemon_pipe_1 ∧
    (daemonize_child w s).st.lf = s.lf ∧
    (daemonize_child w s).st.c = s.c ∧
    (daemonize_child w s).st.mainloop = s.mainloop ∧
    (daemonize_child w s).st.conf = s.conf := by
  unfold daemonize_child
  (try simp only [])
  (try split_ifs)
  all_goals first | exact ⟨rfl, rfl, rfl, rfl, rfl, rfl, rfl, rfl, rfl, rfl, rfl, rfl⟩ | simp only [Flow.st_next, Flow.st_finish, Flow.st_abort, Flow.st_replaced, and_self, St.emit_retval, St.emit_r, St.emit_real_root, St.emit_suid_root, St.emit_valid_pid_file, St.emit_ltdl_init, St.emit_passed_fd, St.emit_daemon_pipe_1, St.emit_lf, St.emit_c, St.emit_mainloop, St.emit_conf, close_autospawn_lock_retval, close_autospawn_lock_r, close_autospawn_lock_real_root, close_autospawn_lock_suid_root, close_autospawn_lock_valid_pid_file, close_autospawn_lock_ltdl_init, close_autospawn_lock_passed_fd, close_autospawn_lock_daemon_pipe_1, close_autospawn_lock_lf, close_autospawn_lock_c, close_autospawn_lock_mainloop, close_autospawn_lock_conf, detach_retval, detach_r, detach_real_root, detach_suid_root, detach_valid_pid_file, detach_ltdl_init, detach_passed_fd, detach_daemon_pipe_1, detach_lf, detach_c, detach_mainloop, detach_conf]

@[simp] theorem daemonize_child_retval (w : World) (s : St) :
    (daemonize_child w s).st.retval = s.retval :=
  (daemonize_child_frame w s).1

@[simp] theorem daemonize_child_r (w : World) (s : St) :
    (daemonize_child w s).st.r = s.r :=
  (daemonize_child_frame w s).2.1

@[simp] theorem daemonize_child_real_root (w : World) (s : St) :
    (daemonize_child w s).st.real_root = s.real_root :=
  (daemonize_child_frame w s).2.2.1

@[simp] theorem daemonize_child_suid_root (w : World) (s : St) :
    (daemonize_child w s).st.suid_root = s.suid_root :=
  (daemonize_child_frame w s).2.2.2.1

@[simp] theorem daemonize_child_valid_pid_file (w : World) (s : St) :
    (daemonize_child w s).st.valid_pid_file = s.valid_pid_file :=
  (daemonize_child_frame w s).2.2.2.2.1

@[simp] theorem daemonize_child_ltdl_init (w : World) (s : St) :
    (daemonize_child w s).st.ltdl_init = s.ltdl_init :=
  (daemonize_child_frame w s).2.2.2.2.2.1

@[simp] theorem daemonize_child_passed_fd (w : World) (s : St) :
    (daemonize_child w s).st.passed_fd = s.passed_fd :=
  (daemonize_child_frame w s).2.2.2.2.2.2.1

@[simp] theorem daemonize_child_daemon_pipe_1 (w : World) (s : St) :
    (daemonize_child w s).st.daemon_pipe_1 = s.daemon_pipe_1 :=
  (daemonize_child_frame w s).2.2.2.2.2.2.2.1

@[simp] theorem daemonize_child_lf (w : World) (s : St) :
    (daemonize_child w s).st.lf = s.lf :=
  (daemonize_child_frame w s).2.2.2.2.2.2.2.2.1

@[simp] theorem daemonize_child_c (w : World) (s : St) :
    (daemonize_child w s).st.c = s.c :=
  (daemonize_child_frame w s).2.2.2.2.2.2.2.2.2.1

@[simp] theorem daemonize_child_mainloop (w : World) (s : St) :
    (daemonize_child w s).st.mainloop = s.mainloop :=
  (daemonize_child_frame w s).2.2.2.2.2.2.2.2.2.2.1

@[simp] theorem daemonize_child_conf (w : World) (s : St) :
    (daemonize_child w s).st.conf = s.conf :=
  (daemonize_child_frame w s).2.2.2.2.2.2.2.2.2.2.2

theorem daemonize_child_filter (w : World) (s : St) (p : Event → Bool)
    (hp : Quiet .daemonize_child p) :
    (daemonize_child w s).st.trace.filter p = s.trace.filter p := by
  have q0 := fun x0 => hp (.pa_close x0) (by simp [Event.blocks])
  have q1 := hp (.pa_log_set_target_syslog) (by simp [Event.blocks])
  have q2 := hp (.setsid) (by simp [Event.blocks])
  have q3 := hp (.setpgid) (by simp [Event.blocks])
  have q4 := hp (.open_dev_null) (by simp [Event.blocks])
  have q5 := fun x0 => hp (.signal_ignore x0) (by simp [Event.blocks])
  have q6 := hp (.open_dev_tty) (by simp [Event.blocks])
  have q7 := hp (.ioctl_TIOCNOTTY) (by simp [Event.blocks])
  unfold daemonize_child
  (try simp only [])
  (try split_ifs)
  all_goals first | rfl | simp only [Flow.st_next, Flow.st_finish, Flow.st_abort, Flow.st_replaced, St.emit_trace, List.filter_append, List.filter_cons, List.filter_nil, List.append_nil, Bool.false_eq_true, if_false, ite_self, List.nil_append, St.emit_retval, St.emit_r, St.emit_real_root, St.emit_suid_root, St.emit_valid_pid_file, St.emit_ltdl_init, St.emit_passed_fd, St.emit_daemon_pipe_0, St.emit_daemon_pipe_1, St.emit_lf, St.emit_autospawn_lock_fd, St.emit_c, St.emit_mainloop, St.emit_conf, q0, q1, q2, q3, q4, q5, q6, q7, close_autospawn_lock_filter _ _ hp, detach_filter _ _ _ hp]

theorem daemonize_child_grows (w : World) (s : St) {t : List Event} (h : t <+: s.trace) :
    t <+: (daemonize_child w s).st.trace := by
  unfold daemonize_child
  (try simp only [])
  (try split_ifs)
  all_goals repeat (first | exact h | apply close_autospawn_lock_grows | apply detach_grows | apply grows_append | simp only [Flow.st_next, Flow.st_finish, Flow.st_abort, Flow.st_replaced, St.emit_trace])

theorem daemonize_frame (w : World) (s : St) :
    (daemonize w s).st.r = s.r ∧
    (daemonize w s).st.real_root = s.real_root ∧
    (daemonize w s).st.suid_root = s.suid_root ∧
    (daemonize w s).st.valid_pid_file = s.valid_pid_file ∧
    (daemonize w s).st.ltdl_init = s.ltdl_init ∧
    (daemonize w s).st.passed_fd = s.passed_fd ∧
    (daemonize w s).st.lf = s.lf ∧
    (daemonize w s).st.c = s.c ∧
    (daemonize w s).st.mainloop = s.mainloop ∧
    (daemonize w s).st.conf = s.conf := by
  unfold daemonize
  (try simp only [])
  (try split_ifs)
  all_goals first | exact ⟨rfl, rfl, rfl, rfl, rfl, rfl, rfl, rfl, rfl, rfl⟩ | simp only [Flow.st_next, Flow.st_finish, Flow.st_abort, Flow.st_replaced, and_self, St.emit_r, St.emit_real_root, St.emit_suid_root, St.emit_valid_pid_file, St.emit_ltdl_init, St.emit_passed_fd, St.emit_lf, St.emit_c, St.emit_mainloop, St.emit_conf, daemonize_parent_r, daemonize_parent_real_root, daemonize_parent_suid_root, daemonize_parent_valid_pid_file, daemonize_parent_ltdl_init, daemonize_parent_passed_fd, daemonize_parent_lf, daemonize_parent_c, daemonize_parent_mainloop, daemonize_parent_conf, daemonize_child_r, daemonize_child_real_root, daemonize_child_suid_root, daemonize_child_valid_pid_file, daemonize_child_ltdl_init, daemonize_child_passed_fd, daemonize_child_lf, daemonize_child_c, daemonize_child_mainloop, daemonize_child_conf]

@[simp] theorem daemonize_r (w : World) (s : St) :
    (daemonize w s).st.r = s.r :=
  (daemonize_frame w s).1

@[simp] theorem daemonize_real_root (w : World) (s : St) :
    (daemonize w s).st.real_root = s.real_root :=
  (daemonize_frame w s).2.1

@[simp] theorem daemonize_suid_root (w : World) (s : St) :
    (daemonize w s).st.suid_root = s.suid_root :=
  (daemonize_frame w s).2.2.1

@[simp] theorem daemonize_valid_pid_file (w : World) (s : St) :
    (daemonize w s).st.valid_pid_file = s.valid_pid_file :=
  (daemonize_frame w s).2.2.2.1

@[simp] theorem daemonize_ltdl_init (w : World) (s : St) :
    (daemonize w s).st.ltdl_init = s.ltdl_init :=
  (daemonize_frame w s).2.2.2.2.1

@[simp] theorem daemonize_passed_fd (w : World) (s : St) :
    (daemonize w s).st.passed_fd = s.passed_fd :=
  (daemonize_frame w s).2.2.2.2.2.1

@[simp] theorem daemonize_lf (w : World) (s : St) :
    (daemonize w s).st.lf = s.lf :=
  (daemonize_frame w s).2.2.2.2.2.2.1

@[simp] theorem daemonize_c (w : World) (s : St) :
    (daemonize w s).st.c = s.c :=
  (daemonize_frame w s).2.2.2.2.2.2.2.1

@[simp] theorem daemonize_conf (w : World) (s : St) :
    (daemonize w s).st.conf = s.conf :=
  (daemonize_frame w s).2.2.2.2.2.2.2.2.2

theorem daemonize_filter (w : World) (s : St) (p : Event → Bool)
    (hp : Quiet .daemonize p) (hp1 : Quiet .daemonize_parent p)
    (hp2 : Quiet .daemonize_child p) :
    (daemonize w s).st.trace.filter p = s.trace.filter p := by
  have q0 := hp (.pa_stdio_acquire) (by simp [Event.blocks])
  have q1 := hp (.pipe) (by simp [Event.blocks])
  have q2 := hp (.fork) (by simp [Event.blocks])
  unfold daemonize
  (try simp only [])
  (try split_ifs)
  all_goals first | rfl | simp only [Flow.st_next, Flow.st_finish, Flow.st_abort, Flow.st_replaced, St.emit_trace, List.filter_append, List.filter_cons, List.filter_nil, List.append_nil, Bool.false_eq_true, if_false, ite_self, List.nil_append, St.emit_retval, St.emit_r, St.emit_real_root, St.emit_suid_root, St.emit_valid_pid_file, St.emit_ltdl_init, St.emit_passed_fd, St.emit_daemon_pipe_0, St.emit_daemon_pipe_1, St.emit_lf, St.emit_autospawn_lock_fd, St.emit_c, St.emit_mainloop, St.emit_conf, q0, q1, q2, daemonize_parent_filter _ _ _ hp1, daemonize_child_filter _ _ _ hp2]

theorem daemonize_grows (w : World) (s : St) {t : List Event} (h : t <+: s.trace) :
    t <+: (daemonize w s).st.trace := by
  unfold daemonize
  (try simp only [])
  (try split_ifs)
  all_goals repeat (first | exact h | apply daemonize_parent_grows | apply daemonize_child_grows | apply grows_append | simp only [Flow.st_next, Flow.st_finish, Flow.st_abort, Flow.st_replaced, St.emit_trace])

theorem runtime_directory_frame (w : World) (s : St) :
    (runtime_directory w s).st.retval = s.retval ∧
    (runtime_directory w s).st.r = s.r ∧
    (runtime_directory w s).st.real_root = s.real_root ∧
    (runtime_directory w s).st.suid_root = s.suid_root ∧
    (runtime_directory w s).st.valid_pid_file = s.valid_pid_file ∧
    (runtime_directory w s).st.ltdl_init = s.ltdl_init ∧
    (runtime_directory w s).st.passed_fd = s.passed_fd ∧
    (runtime_directory w s).st.daemon_pipe_0 = s.daemon_pipe_0 ∧
    (runtime_directory w s).st.daemon_pipe_1 = s.daemon_pipe_1 ∧
    (runtime_directory w s).st.lf = s.lf ∧
    (runtime_directory w s).st.autospawn_lock_fd = s.autospawn_lock_fd ∧
    (runtime_directory w s).st.c = s.c ∧
    (runtime_directory w s).st.mainloop = s.mainloop ∧
    (runtime_directory w s).st.conf = s.conf := by
  unfold runtime_directory
  (try simp only [])
  (try split_ifs)
  all_goals first | exact ⟨rfl, rfl, rfl, rfl, rfl, rfl, rfl, rfl, rfl, rfl, rfl, rfl, rfl, rfl⟩ | simp only [Flow.st_next, Flow.st_finish, Flow.st_abort, Flow.st_replaced, and_self, St.emit_retval, St.emit_r, St.emit_real_root, St.emit_suid_root, St.emit_valid_pid_file, St.emit_ltdl_init, St.emit_passed_fd, St.emit_daemon_pipe_0, St.emit_daemon_pipe_1, St.emit_lf, St.emit_autospawn_lock_fd, St.emit_c, St.emit_mainloop, St.emit_conf]

@[simp] theorem runtime_directory_retval (w : World) (s : St) :
    (runtime_directory w s).st.retval = s.retval :=
  (runtime_directory_frame w s).1

@[simp] theorem runtime_directory_r (w : World) (s : St) :
    (runtime_directory w s).st.r = s.r :=
  (runtime_directory_frame w s).2.1

@[simp] theorem runtime_directory_real_root (w : World) (s : St) :
    (runtime_directory w s).st.real_root = s.real_root :=
  (runtime_directory_frame w s).2.2.1

@[simp] theorem runtime_directory_suid_root (w : World) (s : St) :
    (runtime_directory w s).st.suid_root = s.suid_root :=
  (runtime_directory_frame w s).2.2.2.1

@[simp] theorem runtime_directory_valid_pid_file (w : World) (s : St) :
    (runtime_directory w s).st.valid_pid_file = s.valid_pid_file :=
  (runtime_directory_frame w s).2.2.2.2.1

@[simp] theorem runtime_directory_ltdl_init (w : World) (s : St) :
    (runtime_directory w s).st.ltdl_init = s.ltdl_init :=
  (runtime_directory_frame w s).2.2.2.2.2.1

@[simp] theorem runtime_directory_passed_fd (w : World) (s : St) :
    (runtime_directory w s).st.passed_fd = s.passed_fd :=
  (runtime_directory_frame w s).2.2.2.2.2.2.1

@[simp] theorem runtime_directory_daemon_pipe_0 (w : World) (s : St) :
    (runtime_directory w s).st.daemon_pipe_0 = s.daemon_pipe_0 :=
  (runtime_directory_frame w s).2.2.2.2.2.2.2.1

@[simp] theorem runtime_directory_daemon_pipe_1 (w : World) (s : St) :
    (runtime_directory w s).st.daemon_pipe_1 = s.daemon_pipe_1 :=
  (runtime_directory_frame w s).2.2.2.2.2.2.2.2.1

@[simp] theorem runtime_directory_lf (w : World) (s : St) :
    (runtime_directory w s).st.lf = s.lf :=
  (runtime_directory_frame w s).2.2.2.2.2.2.2.2.2.1

@[simp] theorem runtime_directory_autospawn_lock_fd (w : World) (s : St) :
    (runtime_directory w s).st.autospawn_lock_fd = s.autospawn_lock_fd :=
  (runtime_directory_frame w s).2.2.2.2.2.2.2.2.2.2.1

@[simp] theorem runtime_directory_c (w : World) (s : St) :
    (runtime_directory w s).st.c = s.c :=
  (runtime_directory_frame w s).2.2.2.2.2.2.2.2.2.2.2.1

@[simp] theorem runtime_directory_mainloop (w : World) (s : St) :
    (runtime_directory w s).st.mainloop = s.mainloop :=
  (runtime_directory_frame w s).2.2.2.2.2.2.2.2.2.2.2.2.1

@[simp] theorem runtime_directory_conf (w : World) (s : St) :
    (runtime_directory w s).st.conf = s.conf :=
  (runtime_directory_frame w s).2.2.2.2.2.2.2.2.2.2.2.2.2

theorem runtime_directory_filter (w : World) (s : St) (p : Event → Bool)
    (hp : Quiet .environment_setup p) :
    (runtime_directory w s).st.trace.filter p = s.trace.filter p := by
  have q0 := fun x0 => hp (.pa_set_env x0) (by simp [Event.blocks])
  have q1 := hp (.chdir_root) (by simp [Event.blocks])
  have q2 := hp (.umask) (by simp [Event.blocks])
  have q3 := hp (.getpwnam) (by simp [Event.blocks])
  have q4 := hp (.getgrnam) (by simp [Event.blocks])
  have q5 := fun x0 => hp (.pa_make_secure_dir x0) (by simp [Event.blocks])
  have q6 := hp (.initgroups) (by simp [Event.blocks])
  have q7 := hp (.setresgid) (by simp [Event.blocks])
  have q8 := hp (.setresuid) (by simp [Event.blocks])
  have q9 := hp (.pa_get_runtime_dir) (by simp [Event.blocks])
  unfold runtime_directory
  (try simp only [])
  (try split_ifs)
  all_goals first | rfl | simp only [Flow.st_next, Flow.st_finish, Flow.st_abort, Flow.st_replaced, St.emit_trace, List.filter_append, List.filter_cons, List.filter_nil, List.append_nil, Bool.false_eq_true, if_false, ite_self, List.nil_append, St.emit_retval, St.emit_r, St.emit_real_root, St.emit_suid_root, St.emit_valid_pid_file, St.emit_ltdl_init, St.emit_passed_fd, St.emit_daemon_pipe_0, St.emit_daemon_pipe_1, St.emit_lf, St.emit_autospawn_lock_fd, St.emit_c, St.emit_mainloop, St.emit_conf, q0, q1, q2, q3, q4, q5, q6, q7, q8, q9]

theorem runtime_directory_grows (w : World) (s : St) {t : List Event} (h : t <+: s.trace) :
    t <+: (runtime_directory w s).st.trace := by
  unfold runtime_directory
  (try simp only [])
  (try split_ifs)
  all_goals repeat (first | exact h | apply grows_append | simp only [Flow.st_next, Flow.st_finish, Flow.st_abort, Flow.st_replaced, St.emit_trace])

theorem environment_setup_frame (w : World) (s : St) :
    (environment_setup w s).st.retval = s.retval ∧
    (environment_setup w s).st.r = s.r ∧
    (environment_setup w s).st.real_root = s.real_root ∧
    (environment_setup w s).st.suid_root = s.suid_root ∧
    (environment_setup w s).st.valid_pid_file = s.valid_pid_file ∧
    (environment_setup w s).st.ltdl_init = s.ltdl_init ∧
    (environment_setup w s).st.passed_fd = s.passed_fd ∧
    (environment_setup w s).st.daemon_pipe_0 = s.daemon_pipe_0 ∧
    (environment_setup w s).st.daemon_pipe_1 = s.daemon_pipe_1 ∧
    (environment_setup w s).st.lf = s.lf ∧
    (environment_setup w s).st.autospawn_lock_fd = s.autospawn_lock_fd ∧
    (environment_setup w s).st.c = s.c ∧
    (environment_setup w s).st.mainloop = s.mainloop ∧
    (environment_setup w s).st.conf = s.conf := by
  unfold environment_setup
  (try simp only [])
  (try split_ifs)
  all_goals first | exact ⟨rfl, rfl, rfl, rfl, rfl, rfl, rfl, rfl, rfl, rfl, rfl, rfl, rfl, rfl⟩ | simp only [Flow.st_next, Flow.st_finish, Flow.st_abort, Flow.st_replaced, and_self, St.emit_retval, St.emit_r, St.emit_real_root, St.emit_suid_root, St.emit_valid_pid_file, St.emit_ltdl_init, St.emit_passed_fd, St.emit_daemon_pipe_0, St.emit_daemon_pipe_1, St.emit_lf, St.emit_autospawn_lock_fd, St.emit_c, St.emit_mainloop, St.emit_conf, runtime_directory_retval, runtime_directory_r, runtime_directory_real_root, runtime_directory_suid_root, runtime_directory_valid_pid_file, runtime_directory_ltdl_init, runtime_directory_passed_fd, runtime_directory_daemon_pipe_0, runtime_directory_daemon_pipe_1, runtime_directory_lf, runtime_directory_autospawn_lock_fd, runtime_directory_c, runtime_directory_mainloop, runtime_directory_conf]

@[simp] theorem environment_setup_retval (w : World) (s : St) :
    (environment_setup w s).st.retval = s.retval :=
  (environment_setup_frame w s).1

@[simp] theorem environment_setup_r (w : World) (s : St) :
    (environment_setup w s).st.r = s.r :=
  (environment_setup_frame w s).2.1

@[simp] theorem environment_setup_real_root (w : World) (s : St) :
    (environment_setup w s).st.real_root = s.real_root :=
  (environment_setup_frame w s).2.2.1

@[simp] theorem environment_setup_suid_root (w : World) (s : St) :
    (environment_setup w s).st.suid_root = s.suid_root :=
  (environment_setup_frame w s).2.2.2.1

@[simp] theorem environment_setup_valid_pid_file (w : World) (s : St) :
    (environment_setup w s).st.valid_pid_file = s.valid_pid_file :=
  (environment_setup_frame w s).2.2.2.2.1

@[simp] theorem environment_setup_ltdl_init (w : World) (s : St) :
    (environment_setup w s).st.ltdl_init = s.ltdl_init :=
  (environment_setup_frame w s).2.2.2.2.2.1

@[simp] theorem environment_setup_passed_fd (w : World) (s : St) :
    (environment_setup w s).st.passed_fd = s.passed_fd :=
  (environment_setup_frame w s).2.2.2.2.2.2.1

@[simp] theorem environment_setup_daemon_pipe_0 (w : World) (s : St) :
    (environment_setup w s).st.daemon_pipe_0 = s.daemon_pipe_0 :=
  (environment_setup_frame w s).2.2.2.2.2.2.2.1

@[simp] theorem environment_setup_daemon_pipe_1 (w : World) (s : St) :
    (environment_setup w s).st.daemon_pipe_1 = s.daemon_pipe_1 :=
  (environment_setup_frame w s).2.2.2.2.2.2.2.2.1

@[simp] theorem environment_setup_lf (w : World) (s : St) :
    (environment_setup w s).st.lf = s.lf :=
  (environment_setup_frame w s).2.2.2.2.2.2.2.2.2.1

@[simp] theorem environment_setup_autospawn_lock_fd (w : World) (s : St) :
    (environment_setup w s).st.autospawn_lock_fd = s.autospawn_lock_fd :=
  (environment_setup_frame w s).2.2.2.2.2.2.2.2.2.2.1

@[simp] theorem environment_setup_c (w : World) (s : St) :
    (environment_setup w s).st.c = s.c :=
  (environment_setup_frame w s).2.2.2.2.2.2.2.2.2.2.2.1

@[simp] theorem environment_setup_conf (w : World) (s : St) :
    (environment_setup w s).st.conf = s.conf :=
  (environment_setup_frame w s).2.2.2.2.2.2.2.2.2.2.2.2.2

theorem environment_setup_filter (w : World) (s : St) (p : Event → Bool)
    (hp : Quiet .environment_setup p) :
    (environment_setup w s).st.trace.filter p = s.trace.filter p := by
  have q0 := fun x0 => hp (.pa_set_env x0) (by simp [Event.blocks])
  have q1 := hp (.chdir_root) (by simp [Event.blocks])
  have q2 := hp (.umask) (by simp [Event.blocks])
  have q3 := hp (.getpwnam) (by simp [Event.blocks])
  have q4 := hp (.getgrnam) (by simp [Event.blocks])
  have q5 := fun x0 => hp (.pa_make_secure_dir x0) (by simp [Event.blocks])
  have q6 := hp (.initgroups) (by simp [Event.blocks])
  have q7 := hp (.setresgid) (by simp [Event.blocks])
  have q8 := hp (.setresuid) (by simp [Event.blocks])
  have q9 := hp (.pa_get_runtime_dir) (by simp [Event.blocks])
  unfold environment_setup
  (try simp only [])
  (try split_ifs)
  all_goals first | rfl | simp only [Flow.st_next, Flow.st_finish, Flow.st_abort, Flow.st_replaced, St.emit_trace, List.filter_append, List.filter_cons, List.filter_nil, List.append_nil, Bool.false_eq_true, if_false, ite_self, List.nil_append, St.emit_retval, St.emit_r, St.emit_real_root, St.emit_suid_root, St.emit_valid_pid_file, St.emit_ltdl_init, St.emit_passed_fd, St.emit_daemon_pipe_0, St.emit_daemon_pipe_1, St.emit_lf, St.emit_autospawn_lock_fd, St.emit_c, St.emit_mainloop, St.emit_conf, q0, q1, q2, q3, q4, q5, q6, q7, q8, q9, runtime_directory_filter _ _ _ hp, change_user_filter _ _ hp]

theorem environment_setup_grows (w : World) (s : St) {t : List Event} (h : t <+: s.trace) :
    t <+: (environment_setup w s).st.trace := by
  unfold environment_setup
  (try simp only [])
  (try split_ifs)
  all_goals repeat (first | exact h | apply runtime_directory_grows | apply grows_append | simp only [Flow.st_next, Flow.st_finish, Flow.st_abort, Flow.st_replaced, St.emit_trace])

theorem pid_file_frame (w : World) (s : St) :
    (pid_file w s).st.r = s.r ∧
    (pid_file w s).st.real_root = s.real_root ∧
    (pid_file w s).st.suid_root = s.suid_root ∧
    (pid_file w s).st.ltdl_init = s.ltdl_init ∧
    (pid_file w s).st.passed_fd = s.passed_fd ∧
    (pid_file w s).st.daemon_pipe_0 = s.daemon_pipe_0 ∧
    (pid_file w s).st.daemon_pipe_1 = s.daemon_pipe_1 ∧
    (pid_file w s).st.lf = s.lf ∧
    (pid_file w s).st.autospawn_lock_fd = s.autospawn_lock_fd ∧
    (pid_file w s).st.c = s.c ∧
    (pid_file w s).st.mainloop = s.mainloop ∧
    (pid_file w s).st.conf = s.conf := by
  unfold pid_file
  (try simp only [])
  (try split_ifs)
  all_goals first | exact ⟨rfl, rfl, rfl, rfl, rfl, rfl, rfl, rfl, rfl, rfl, rfl, rfl⟩ | simp only [Flow.st_next, Flow.st_finish, Flow.st_abort, Flow.st_replaced, and_self, St.emit_r, St.emit_real_root, St.emit_suid_root, St.emit_ltdl_init, St.emit_passed_fd, St.emit_daemon_pipe_0, St.emit_daemon_pipe_1, St.emit_lf, St.emit_autospawn_lock_fd, St.emit_c, St.emit_mainloop, St.emit_conf]

@[simp] theorem pid_file_r (w : World) (s : St) :
    (pid_file w s).st.r = s.r :=
  (pid_file_frame w s).1

@[simp] theorem pid_file_real_root (w : World) (s : St) :
    (pid_file w s).st.real_root = s.real_root :=
  (pid_file_frame w s).2.1

@[simp] theorem pid_file_suid_root (w : World) (s : St) :
    (pid_file w s).st.suid_root = s.suid_root :=
  (pid_file_frame w s).2.2.1

@[simp] theorem pid_file_ltdl_init (w : World) (s : St) :
    (pid_file w s).st.ltdl_init = s.ltdl_init :=
  (pid_file_frame w s).2.2.2.1

@[simp] theorem pid_file_passed_fd (w : World) (s : St) :
    (pid_file w s).st.passed_fd = s.passed_fd :=
  (pid_file_frame w s).2.2.2.2.1

@[simp] theorem pid_file_daemon_pipe_0 (w : World) (s : St) :
    (pid_file w s).st.daemon_pipe_0 = s.daemon_pipe_0 :=
  (pid_file_frame w s).2.2.2.2.2.1

@[simp] theorem pid_file_daemon_pipe_1 (w : World) (s : St) :
    (pid_file w s).st.daemon_pipe_1 = s.daemon_pipe_1 :=
  (pid_file_frame w s).2.2.2.2.2.2.1

@[simp] theorem pid_file_lf (w : World) (s : St) :
    (pid_file w s).st.lf = s.lf :=
  (pid_file_frame w s).2.2.2.2.2.2.2.1

@[simp] theorem pid_file_autospawn_lock_fd (w : World) (s : St) :
    (pid_file w s).st.autospawn_lock_fd = s.autospawn_lock_fd :=
  (pid_file_frame w s).2.2.2.2.2.2.2.2.1

@[simp] theorem pid_file_c (w : World) (s : St) :
    (pid_file w s).st.c = s.c :=
  (pid_file_frame w s).2.2.2.2.2.2.2.2.2.1

@[simp] theorem pid_file_conf (w : World) (s : St) :
    (pid_file w s).st.conf = s.conf :=
  (pid_file_frame w s).2.2.2.2.2.2.2.2.2.2.2

theorem pid_file_filter (w : World) (s : St) (p : Event → Bool)
    (hp : Quiet .pid_file p) :
    (pid_file w s).st.trace.filter p = s.trace.filter p := by
  have q0 := hp (.pa_pid_file_create) (by simp [Event.blocks])
  unfold pid_file
  (try simp only [])
  (try split_ifs)
  all_goals first | rfl | simp only [Flow.st_next, Flow.st_finish, Flow.st_abort, Flow.st_replaced, St.emit_trace, List.filter_append, List.filter_cons, List.filter_nil, List.append_nil, Bool.false_eq_true, if_false, ite_self, List.nil_append, St.emit_retval, St.emit_r, St.emit_real_root, St.emit_suid_root, St.emit_valid_pid_file, St.emit_ltdl_init, St.emit_passed_fd, St.emit_daemon_pipe_0, St.emit_daemon_pipe_1, St.emit_lf, St.emit_autospawn_lock_fd, St.emit_c, St.emit_mainloop, St.emit_conf, q0]

theorem pid_file_grows (w : World) (s : St) {t : List Event} (h : t <+: s.trace) :
    t <+: (pid_file w s).st.trace := by
  unfold pid_file
  (try simp only [])
  (try split_ifs)
  all_goals repeat (first | exact h | apply grows_append | simp only [Flow.st_next, Flow.st_finish, Flow.st_abort, Flow.st_replaced, St.emit_trace])

theorem create_core_frame (w : World) (s : St) :
    (create_core w s).st.retval = s.retval ∧
    (create_core w s).st.r = s.r ∧
    (create_core w s).st.real_root = s.real_root ∧
    (create_core w s).st.suid_root = s.suid_root ∧
    (create_core w s).st.valid_pid_file = s.valid_pid_file ∧
    (create_core w s).st.ltdl_init = s.ltdl_init ∧
    (create_core w s).st.passed_fd = s.passed_fd ∧
    (create_core w s).st.daemon_pipe_0 = s.daemon_pipe_0 ∧
    (create_core w s).st.daemon_pipe_1 = s.daemon_pipe_1 ∧
    (create_core w s).st.lf = s.lf ∧
    (create_core w s).st.autospawn_lock_fd = s.autospawn_lock_fd ∧
    (create_core w s).st.conf = s.conf := by
  unfold create_core
  (try simp only [])
  (try split_ifs)
  all_goals first | exact ⟨rfl, rfl, rfl, rfl, rfl, rfl, rfl, rfl, rfl, rfl, rfl, rfl⟩ | simp only [Flow.st_next, Flow.st_finish, Flow.st_abort, Flow.st_replaced, and_self, St.emit_retval, St.emit_r, St.emit_real_root, St.emit_suid_root, St.emit_valid_pid_file, St.emit_ltdl_init, St.emit_passed_fd, St.emit_daemon_pipe_0, St.emit_daemon_pipe_1, St.emit_lf, St.emit_autospawn_lock_fd, St.emit_conf]

@[simp] theorem create_core_retval (w : World) (s : St) :
    (create_core w s).st.retval = s.retval :=
  (create_core_frame w s).1

@[simp] theorem create_core_r (w : World) (s : St) :
    (create_core w s).st.r = s.r :=
  (create_core_frame w s).2.1

@[simp] theorem create_core_real_root (w : World) (s : St) :
    (create_core w s).st.real_root = s.real_root :=
  (create_core_frame w s).2.2.1

@[simp] theorem create_core_suid_root (w : World) (s : St) :
    (create_core w s).st.suid_root = s.suid_root :=
  (create_core_frame w s).2.2.2.1

@[simp] theorem create_core_valid_pid_file (w : World) (s : St) :
    (create_core w s).st.valid_pid_file = s.valid_pid_file :=
  (create_core_frame w s).2.2.2.2.1

@[simp] theorem create_core_ltdl_init (w : World) (s : St) :
    (create_core w s).st.ltdl_init = s.ltdl_init :=
  (create_core_frame w s).2.2.2.2.2.1

@[simp] theorem create_core_passed_fd (w : World) (s : St) :
    (create_core w s).st.passed_fd = s.passed_fd :=
  (create_core_frame w s).2.2.2.2.2.2.1

@[simp] theorem create_core_daemon_pipe_0 (w : World) (s : St) :
    (create_core w s).st.daemon_pipe_0 = s.daemon_pipe_0 :=
  (create_core_frame w s).2.2.2.2.2.2.2.1

@[simp] theorem create_core_daemon_pipe_1 (w : World) (s : St) :
    (create_core w s).st.daemon_pipe_1 = s.daemon_pipe_1 :=
  (create_core_frame w s).2.2.2.2.2.2.2.2.1

@[simp] theorem create_core_lf (w : World) (s : St) :
    (create_core w s).st.lf = s.lf :=
  (create_core_frame w s).2.2.2.2.2.2.2.2.2.1

@[simp] theorem create_core_autospawn_lock_fd (w : World) (s : St) :
    (create_core w s).st.autospawn_lock_fd = s.autospawn_lock_fd :=
  (create_core_frame w s).2.2.2.2.2.2.2.2.2.2.1

@[simp] theorem create_core_conf (w : World) (s : St) :
    (create_core w s).st.conf = s.conf :=
  (create_core_frame w s).2.2.2.2.2.2.2.2.2.2.2

theorem create_core_filter (w : World) (s : St) (p : Event → Bool)
    (hp : Quiet .create_core p) :
    (create_core w s).st.trace.filter p = s.trace.filter p := by
  have q0 := fun x0 => hp (.signal_ignore x0) (by simp [Event.blocks])
  have q1 := hp (.pa_rtsig_configure) (by simp [Event.blocks])
  have q2 := hp (.pa_mainloop_new) (by simp [Event.blocks])
  have q3 := hp (.pa_core_new) (by simp [Event.blocks])
  have q4 := hp (.pa_signal_init) (by simp [Event.blocks])
  have q5 := fun x0 => hp (.pa_signal_new x0) (by simp [Event.blocks])
  have q6 := hp (.oil_init) (by simp [Event.blocks])
  have q7 := hp (.pa_cpu_limit_init) (by simp [Event.blocks])
  unfold create_core
  (try simp only [])
  (try split_ifs)
  all_goals first | rfl | simp only [Flow.st_next, Flow.st_finish, Flow.st_abort, Flow.st_replaced, St.emit_trace, List.filter_append, List.filter_cons, List.filter_nil, List.append_nil, Bool.false_eq_true, if_false, ite_self, List.nil_append, St.emit_retval, St.emit_r, St.emit_real_root, St.emit_suid_root, St.emit_valid_pid_file, St.emit_ltdl_init, St.emit_passed_fd, St.emit_daemon_pipe_0, St.emit_daemon_pipe_1, St.emit_lf, St.emit_autospawn_lock_fd, St.emit_c, St.emit_mainloop, St.emit_conf, q0, q1, q2, q3, q4, q5, q6, q7]

theorem create_core_grows (w : World) (s : St) {t : List Event} (h : t <+: s.trace) :
    t <+: (create_core w s).st.trace := by
  unfold create_core
  (try simp only [])
  (try split_ifs)
  all_goals repeat (first | exact h | apply grows_append | simp only [Flow.st_next, Flow.st_finish, Flow.st_abort, Flow.st_replaced, St.emit_trace])

theorem default_script_file_frame (w : World) (s : St) :
    (default_script_file w s).retval = s.retval ∧
    (default_script_file w s).real_root = s.real_root ∧
    (default_script_file w s).suid_root = s.suid_root ∧
    (default_script_file w s).valid_pid_file = s.valid_pid_file ∧
    (default_script_file w s).ltdl_init = s.ltdl_init ∧
    (default_script_file w s).passed_fd = s.passed_fd ∧
    (default_script_file w s).daemon_pipe_0 = s.daemon_pipe_0 ∧
    (default_script_file w s).daemon_pipe_1 = s.daemon_pipe_1 ∧
    (default_script_file w s).lf = s.lf ∧
    (default_script_file w s).autospawn_lock_fd = s.autospawn_lock_fd ∧
    (default_script_file w s).c = s.c ∧
    (default_script_file w s).mainloop = s.mainloop := by
  unfold default_script_file
  (try simp only [])
  (try split_ifs)
  all_goals first | exact ⟨rfl, rfl, rfl, rfl, rfl, rfl, rfl, rfl, rfl, rfl, rfl, rfl⟩ | simp only [Flow.st_next, Flow.st_finish, Flow.st_abort, Flow.st_replaced, and_self, St.emit_retval, St.emit_real_root, St.emit_suid_root, St.emit_valid_pid_file, St.emit_ltdl_init, St.emit_passed_fd, St.emit_daemon_pipe_0, St.emit_daemon_pipe_1, St.emit_lf, St.emit_autospawn_lock_fd, St.emit_c, St.emit_mainloop]

@[simp] theorem default_script_file_retval (w : World) (s : St) :
    (default_script_file w s).retval = s.retval :=
  (default_script_file_frame w s).1

@[simp] theorem default_script_file_real_root (w : World) (s : St) :
    (default_script_file w s).real_root = s.real_root :=
  (default_script_file_frame w s).2.1

@[simp] theorem default_script_file_suid_root (w : World) (s : St) :
    (default_script_file w s).suid_root = s.suid_root :=
  (default_script_file_frame w s).2.2.1

@[simp] theorem default_script_file_valid_pid_file (w : World) (s : St) :
    (default_script_file w s).valid_pid_file = s.valid_pid_file :=
  (default_script_file_frame w s).2.2.2.1

@[simp] theorem default_script_file_ltdl_init (w : World) (s : St) :
    (default_script_file w s).ltdl_init = s.ltdl_init :=
  (default_script_file_frame w s).2.2.2.2.1

@[simp] theorem default_script_file_passed_fd (w : World) (s : St) :
    (default_script_file w s).passed_fd = s.passed_fd :=
  (default_script_file_frame w s).2.2.2.2.2.1

@[simp] theorem default_script_file_daemon_pipe_0 (w : World) (s : St) :
    (default_script_file w s).daemon_pipe_0 = s.daemon_pipe_0 :=
  (default_script_file_frame w s).2.2.2.2.2.2.1

@[simp] theorem default_script_file_daemon_pipe_1 (w : World) (s : St) :
    (default_script_file w s).daemon_pipe_1 = s.daemon_pipe_1 :=
  (default_script_file_frame w s).2.2.2.2.2.2.2.1

@[simp] theorem default_script_file_lf (w : World) (s : St) :
    (default_script_file w s).lf = s.lf :=
  (default_script_file_frame w s).2.2.2.2.2.2.2.2.1

@[simp] theorem default_script_file_autospawn_lock_fd (w : World) (s : St) :
    (default_script_file w s).autospawn_lock_fd = s.autospawn_lock_fd :=
  (default_script_file_frame w s).2.2.2.2.2.2.2.2.2.1

@[simp] theorem default_script_file_c (w : World) (s : St) :
    (default_script_file w s).c = s.c :=
  (default_script_file_frame w s).2.2.2.2.2.2.2.2.2.2.1

@[simp] theorem default_script_file_mainloop (w : World) (s : St) :
    (default_script_file w s).mainloop = s.mainloop :=
  (default_script_file_frame w s).2.2.2.2.2.2.2.2.2.2.2

theorem default_script_file_filter (w : World) (s : St) (p : Event → Bool)
    (hp : Quiet .bootstrap p) :
    (default_script_file w s).trace.filter p = s.trace.filter p := by
  have q0 := hp (.pa_strbuf_new) (by simp [Event.blocks])
  have q1 := hp (.pa_daemon_conf_open_default_script_file) (by simp [Event.blocks])
  have q2 := hp (.pa_cli_command_execute_file_stream) (by simp [Event.blocks])
  have q3 := hp (.fclose) (by simp [Event.blocks])
  have q4 := hp (.pa_cli_command_execute) (by simp [Event.blocks])
  have q5 := hp (.pa_strbuf_tostring_free) (by simp [Event.blocks])
  have q6 := hp (.pa_idxset_size) (by simp [Event.blocks])
  have q7 := hp (.pa_namereg_get) (by simp [Event.blocks])
  unfold default_script_file
  (try simp only [])
  (try split_ifs)
  all_goals first | rfl | simp only [Flow.st_next, Flow.st_finish, Flow.st_abort, Flow.st_replaced, St.emit_trace, List.filter_append, List.filter_cons, List.filter_nil, List.append_nil, Bool.false_eq_true, if_false, ite_self, List.nil_append, St.emit_retval, St.emit_r, St.emit_real_root, St.emit_suid_root, St.emit_valid_pid_file, St.emit_ltdl_init, St.emit_passed_fd, St.emit_daemon_pipe_0, St.emit_daemon_pipe_1, St.emit_lf, St.emit_autospawn_lock_fd, St.emit_c, St.emit_mainloop, St.emit_conf, q0, q1, q2, q3, q4, q5, q6, q7]

theorem default_script_file_grows (w : World) (s : St) {t : List Event} (h : t <+: s.trace) :
    t <+: (default_script_file w s).trace := by
  unfold default_script_file
  (try simp only [])
  (try split_ifs)
  all_goals repeat (first | exact h | apply grows_append | simp only [Flow.st_next, Flow.st_finish, Flow.st_abort, Flow.st_replaced, St.emit_trace])

theorem script_commands_frame (w : World) (s : St) :
    (script_commands w s).retval = s.retval ∧
    (script_commands w s).real_root = s.real_root ∧
    (script_commands w s).suid_root = s.suid_root ∧
    (script_commands w s).valid_pid_file = s.valid_pid_file ∧
    (script_commands w s).ltdl_init = s.ltdl_init ∧
    (script_commands w s).passed_fd = s.passed_fd ∧
    (script_commands w s).daemon_pipe_0 = s.daemon_pipe_0 ∧
    (script_commands w s).daemon_pipe_1 = s.daemon_pipe_1 ∧
    (script_commands w s).lf = s.lf ∧
    (script_commands w s).autospawn_lock_fd = s.autospawn_lock_fd ∧
    (script_commands w s).c = s.c ∧
    (script_commands w s).mainloop = s.mainloop := by
  unfold script_commands
  (try simp only [])
  (try split_ifs)
  all_goals first | exact ⟨rfl, rfl, rfl, rfl, rfl, rfl, rfl, rfl, rfl, rfl, rfl, rfl⟩ | simp only [Flow.st_next, Flow.st_finish, Flow.st_abort, Flow.st_replaced, and_self, St.emit_retval, St.emit_real_root, St.emit_suid_root, St.emit_valid_pid_file, St.emit_ltdl_init, St.emit_passed_fd, St.emit_daemon_pipe_0, St.emit_daemon_pipe_1, St.emit_lf, St.emit_autospawn_lock_fd, St.emit_c, St.emit_mainloop]

@[simp] theorem script_commands_retval (w : World) (s : St) :
    (script_commands w s).retval = s.retval :=
  (script_commands_frame w s).1

@[simp] theorem script_commands_real_root (w : World) (s : St) :
    (script_commands w s).real_root = s.real_root :=
  (script_commands_frame w s).2.1

@[simp] theorem script_commands_suid_root (w : World) (s : St) :
    (script_commands w s).suid_root = s.suid_root :=
  (script_commands_frame w s).2.2.1

@[simp] theorem script_commands_valid_pid_file (w : World) (s : St) :
    (script_commands w s).valid_pid_file = s.valid_pid_file :=
  (script_commands_frame w s).2.2.2.1

@[simp] theorem script_commands_ltdl_init (w : World) (s : St) :
    (script_commands w s).ltdl_init = s.ltdl_init :=
  (script_commands_frame w s).2.2.2.2.1

@[simp] theorem script_commands_passed_fd (w : World) (s : St) :
    (script_commands w s).passed_fd = s.passed_fd :=
  (script_commands_frame w s).2.2.2.2.2.1

@[simp] theorem script_commands_daemon_pipe_0 (w : World) (s : St) :
    (script_commands w s).daemon_pipe_0 = s.daemon_pipe_0 :=
  (script_commands_frame w s).2.2.2.2.2.2.1

@[simp] theorem script_commands_daemon_pipe_1 (w : World) (s : St) :
    (script_commands w s).daemon_pipe_1 = s.daemon_pipe_1 :=
  (script_commands_frame w s).2.2.2.2.2.2.2.1

@[simp] theorem script_commands_lf (w : World) (s : St) :
    (script_commands w s).lf = s.lf :=
  (script_commands_frame w s).2.2.2.2.2.2.2.2.1

@[simp] theorem script_commands_autospawn_lock_fd (w : World) (s : St) :
    (script_commands w s).autospawn_lock_fd = s.autospawn_lock_fd :=
  (script_commands_frame w s).2.2.2.2.2.2.2.2.2.1

@[simp] theorem script_commands_c (w : World) (s : St) :
    (script_commands w s).c = s.c :=
  (script_commands_frame w s).2.2.2.2.2.2.2.2.2.2.1

@[simp] theorem script_commands_mainloop (w : World) (s : St) :
    (script_commands w s).mainloop = s.mainloop :=
  (script_commands_frame w s).2.2.2.2.2.2.2.2.2.2.2

theorem script_commands_filter (w : World) (s : St) (p : Event → Bool)
    (hp : Quiet .bootstrap p) :
    (script_commands w s).trace.filter p = s.trace.filter p := by
  have q0 := hp (.pa_strbuf_new) (by simp [Event.blocks])
  have q1 := hp (.pa_daemon_conf_open_default_script_file) (by simp [Event.blocks])
  have q2 := hp (.pa_cli_command_execute_file_stream) (by simp [Event.blocks])
  have q3 := hp (.fclose) (by simp [Event.blocks])
  have q4 := hp (.pa_cli_command_execute) (by simp [Event.blocks])
  have q5 := hp (.pa_strbuf_tostring_free) (by simp [Event.blocks])
  have q6 := hp (.pa_idxset_size) (by simp [Event.blocks])
  have q7 := hp (.pa_namereg_get) (by simp [Event.blocks])
  unfold script_commands
  (try simp only [])
  (try split_ifs)
  all_goals first | rfl | simp only [Flow.st_next, Flow.st_finish, Flow.st_abort, Flow.st_replaced, St.emit_trace, List.filter_append, List.filter_cons, List.filter_nil, List.append_nil, Bool.false_eq_true, if_false, ite_self, List.nil_append, St.emit_retval, St.emit_r, St.emit_real_root, St.emit_suid_root, St.emit_valid_pid_file, St.emit_ltdl_init, St.emit_passed_fd, St.emit_daemon_pipe_0, St.emit_daemon_pipe_1, St.emit_lf, St.emit_autospawn_lock_fd, St.emit_c, St.emit_mainloop, St.emit_conf, q0, q1, q2, q3, q4, q5, q6, q7]

theorem script_commands_grows (w : World) (s : St) {t : List Event} (h : t <+: s.trace) :
    t <+: (script_commands w s).trace := by
  unfold script_commands
  (try simp only [])
  (try split_ifs)
  all_goals repeat (first | exact h | apply grows_append | simp only [Flow.st_next, Flow.st_finish, Flow.st_abort, Flow.st_replaced, St.emit_trace])

theorem run_scripts_frame (w : World) (s : St) :
    (run_scripts w s).retval = s.retval ∧
    (run_scripts w s).real_root = s.real_root ∧
    (run_scripts w s).suid_root = s.suid_root ∧
    (run_scripts w s).valid_pid_file = s.valid_pid_file ∧
    (run_scripts w s).ltdl_init = s.ltdl_init ∧
    (run_scripts w s).passed_fd = s.passed_fd ∧
    (run_scripts w s).daemon_pipe_0 = s.daemon_pipe_0 ∧
    (run_scripts w s).daemon_pipe_1 = s.daemon_pipe_1 ∧
    (run_scripts w s).lf = s.lf ∧
    (run_scripts w s).autospawn_lock_fd = s.autospawn_lock_fd ∧
    (run_scripts w s).c = s.c ∧
    (run_scripts w s).mainloop = s.mainloop := by
  unfold run_scripts
  (try simp only [])
  (try split_ifs)
  all_goals first | exact ⟨rfl, rfl, rfl, rfl, rfl, rfl, rfl, rfl, rfl, rfl, rfl, rfl⟩ | simp only [Flow.st_next, Flow.st_finish, Flow.st_abort, Flow.st_replaced, and_self, St.emit_retval, St.emit_real_root, St.emit_suid_root, St.emit_valid_pid_file, St.emit_ltdl_init, St.emit_passed_fd, St.emit_daemon_pipe_0, St.emit_daemon_pipe_1, St.emit_lf, St.emit_autospawn_lock_fd, St.emit_c, St.emit_mainloop, default_script_file_retval, default_script_file_real_root, default_script_file_suid_root, default_script_file_valid_pid_file, default_script_file_ltdl_init, default_script_file_passed_fd, default_script_file_daemon_pipe_0, default_script_file_daemon_pipe_1, default_script_file_lf, default_script_file_autospawn_lock_fd, default_script_file_c, default_script_file_mainloop, script_commands_retval, script_commands_real_root, script_commands_suid_root, script_commands_valid_pid_file, script_commands_ltdl_init, script_commands_passed_fd, script_commands_daemon_pipe_0, script_commands_daemon_pipe_1, script_commands_lf, script_commands_autospawn_lock_fd, script_commands_c, script_commands_mainloop]

@[simp] theorem run_scripts_retval (w : World) (s : St) :
    (run_scripts w s).retval = s.retval :=
  (run_scripts_frame w s).1

@[simp] theorem run_scripts_real_root (w : World) (s : St) :
    (run_scripts w s).real_root = s.real_root :=
  (run_scripts_frame w s).2.1

@[simp] theorem run_scripts_suid_root (w : World) (s : St) :
    (run_scripts w s).suid_root = s.suid_root :=
  (run_scripts_frame w s).2.2.1

@[simp] theorem run_scripts_valid_pid_file (w : World) (s : St) :
    (run_scripts w s).valid_pid_file = s.valid_pid_file :=
  (run_scripts_frame w s).2.2.2.1

@[simp] theorem run_scripts_ltdl_init (w : World) (s : St) :
    (run_scripts w s).ltdl_init = s.ltdl_init :=
  (run_scripts_frame w s).2.2.2.2.1

@[simp] theorem run_scripts_passed_fd (w : World) (s : St) :
    (run_scripts w s).passed_fd = s.passed_fd :=
  (run_scripts_frame w s).2.2.2.2.2.1

@[simp] theorem run_scripts_daemon_pipe_0 (w : World) (s : St) :
    (run_scripts w s).daemon_pipe_0 = s.daemon_pipe_0 :=
  (run_scripts_frame w s).2.2.2.2.2.2.1

@[simp] theorem run_scripts_daemon_pipe_1 (w : World) (s : St) :
    (run_scripts w s).daemon_pipe_1 = s.daemon_pipe_1 :=
  (run_scripts_frame w s).2.2.2.2.2.2.2.1

@[simp] theorem run_scripts_lf (w : World) (s : St) :
    (run_scripts w s).lf = s.lf :=
  (run_scripts_frame w s).2.2.2.2.2.2.2.2.1

@[simp] theorem run_scripts_autospawn_lock_fd (w : World) (s : St) :
    (run_scripts w s).autospawn_lock_fd = s.autospawn_lock_fd :=
  (run_scripts_frame w s).2.2.2.2.2.2.2.2.2.1

@[simp] theorem run_scripts_c (w : World) (s : St) :
    (run_scripts w s).c = s.c :=
  (run_scripts_frame w s).2.2.2.2.2.2.2.2.2.2.1

@[simp] theorem run_scripts_mainloop (w : World) (s : St) :
    (run_scripts w s).mainloop = s.mainloop :=
  (run_scripts_frame w s).2.2.2.2.2.2.2.2.2.2.2

theorem run_scripts_filter (w : World) (s : St) (p : Event → Bool)
    (hp : Quiet .bootstrap p) :
    (run_scripts w s).trace.filter p = s.trace.filter p := by
  have q0 := hp (.pa_strbuf_new) (by simp [Event.blocks])
  have q1 := hp (.pa_daemon_conf_open_default_script_file) (by simp [Event.blocks])
  have q2 := hp (.pa_cli_command_execute_file_stream) (by simp [Event.blocks])
  have q3 := hp (.fclose) (by simp [Event.blocks])
  have q4 := hp (.pa_cli_command_execute) (by simp [Event.blocks])
  have q5 := hp (.pa_strbuf_tostring_free) (by simp [Event.blocks])
  have q6 := hp (.pa_idxset_size) (by simp [Event.blocks])
  have q7 := hp (.pa_namereg_get) (by simp [Event.blocks])
  unfold run_scripts
  (try simp only [])
  (try split_ifs)
  all_goals first | rfl | simp only [Flow.st_next, Flow.st_finish, Flow.st_abort, Flow.st_replaced, St.emit_trace, List.filter_append, List.filter_cons, List.filter_nil, List.append_nil, Bool.false_eq_true, if_false, ite_self, List.nil_append, St.emit_retval, St.emit_r, St.emit_real_root, St.emit_suid_root, St.emit_valid_pid_file, St.emit_ltdl_init, St.emit_passed_fd, St.emit_daemon_pipe_0, St.emit_daemon_pipe_1, St.emit_lf, St.emit_autospawn_lock_fd, St.emit_c, St.emit_mainloop, St.emit_conf, q0, q1, q2, q3, q4, q5, q6, q7, default_script_file_filter _ _ _ hp, script_commands_filter _ _ _ hp]

theorem run_scripts_grows (w : World) (s : St) {t : List Event} (h : t <+: s.trace) :
    t <+: (run_scripts w s).trace := by
  unfold run_scripts
  (try simp only [])
  (try split_ifs)
  all_goals repeat (first | exact h | apply default_script_file_grows | apply script_commands_grows | apply grows_append | simp only [Flow.st_next, Flow.st_finish, Flow.st_abort, Flow.st_replaced, St.emit_trace])

theorem check_modules_frame (w : World) (s : St) :
    (check_modules w s).st.retval = s.retval ∧
    (check_modules w s).st.r = s.r ∧
    (check_modules w s).st.real_root = s.real_root ∧
    (check_modules w s).st.suid_root = s.suid_root ∧
    (check_modules w s).st.valid_pid_file = s.valid_pid_file ∧
    (check_modules w s).st.ltdl_init = s.ltdl_init ∧
    (check_modules w s).st.passed_fd = s.passed_fd ∧
    (check_modules w s).st.daemon_pipe_0 = s.daemon_pipe_0 ∧
    (check_modules w s).st.daemon_pipe_1 = s.daemon_pipe_1 ∧
    (check_modules w s).st.lf = s.lf ∧
    (check_modules w s).st.autospawn_lock_fd = s.autospawn_lock_fd ∧
    (check_modules w s).st.c = s.c ∧
    (check_modules w s).st.mainloop = s.mainloop ∧
    (check_modules w s).st.conf = s.conf := by
  unfold check_modules
  (try simp only [])
  (try split_ifs)
  all_goals first | exact ⟨rfl, rfl, rfl, rfl, rfl, rfl, rfl, rfl, rfl, rfl, rfl, rfl, rfl, rfl⟩ | simp only [Flow.st_next, Flow.st_finish, Flow.st_abort, Flow.st_replaced, and_self, St.emit_retval, St.emit_r, St.emit_real_root, St.emit_suid_root, St.emit_valid_pid_file, St.emit_ltdl_init, St.emit_passed_fd, St.emit_daemon_pipe_0, St.emit_daemon_pipe_1, St.emit_lf, St.emit_autospawn_lock_fd, St.emit_c, St.emit_mainloop, St.emit_conf]

@[simp] theorem check_modules_retval (w : World) (s : St) :
    (check_modules w s).st.retval = s.retval :=
  (check_modules_frame w s).1

@[simp] theorem check_modules_r (w : World) (s : St) :
    (check_modules w s).st.r = s.r :=
  (check_modules_frame w s).2.1

@[simp] theorem check_modules_real_root (w : World) (s : St) :
    (check_modules w s).st.real_root = s.real_root :=
  (check_modules_frame w s).2.2.1

@[simp] theorem check_modules_suid_root (w : World) (s : St) :
    (check_modules w s).st.suid_root = s.suid_root :=
  (check_modules_frame w s).2.2.2.1

@[simp] theorem check_modules_valid_pid_file (w : World) (s : St) :
    (check_modules w s).st.valid_pid_file = s.valid_pid_file :=
  (check_modules_frame w s).2.2.2.2.1

@[simp] theorem check_modules_ltdl_init (w : World) (s : St) :
    (check_modules w s).st.ltdl_init = s.ltdl_init :=
  (check_modules_frame w s).2.2.2.2.2.1

@[simp] theorem check_modules_passed_fd (w : World) (s : St) :
    (check_modules w s).st.passed_fd = s.passed_fd :=
  (check_modules_frame w s).2.2.2.2.2.2.1

@[simp] theorem check_modules_daemon_pipe_0 (w : World) (s : St) :
    (check_modules w s).st.daemon_pipe_0 = s.daemon_pipe_0 :=
  (check_modules_frame w s).2.2.2.2.2.2.2.1

@[simp] theorem check_modules_daemon_pipe_1 (w : World) (s : St) :
    (check_modules w s).st.daemon_pipe_1 = s.daemon_pipe_1 :=
  (check_modules_frame w s).2.2.2.2.2.2.2.2.1

@[simp] theorem check_modules_lf (w : World) (s : St) :
    (check_modules w s).st.lf = s.lf :=
  (check_modules_frame w s).2.2.2.2.2.2.2.2.2.1

@[simp] theorem check_modules_autospawn_lock_fd (w : World) (s : St) :
    (check_modules w s).st.autospawn_lock_fd = s.autospawn_lock_fd :=
  (check_modules_frame w s).2.2.2.2.2.2.2.2.2.2.1

@[simp] theorem check_modules_c (w : World) (s : St) :
    (check_modules w s).st.c = s.c :=
  (check_modules_frame w s).2.2.2.2.2.2.2.2.2.2.2.1

@[simp] theorem check_modules_mainloop (w : World) (s : St) :
    (check_modules w s).st.mainloop = s.mainloop :=
  (check_modules_frame w s).2.2.2.2.2.2.2.2.2.2.2.2.1

@[simp] theorem check_modules_conf (w : World) (s : St) :
    (check_modules w s).st.conf = s.conf :=
  (check_modules_frame w s).2.2.2.2.2.2.2.2.2.2.2.2.2

theorem check_modules_filter (w : World) (s : St) (p : Event → Bool)
    (hp : Quiet .bootstrap p) :
    (check_modules w s).st.trace.filter p = s.trace.filter p := by
  have q0 := hp (.pa_strbuf_new) (by simp [Event.blocks])
  have q1 := hp (.pa_daemon_conf_open_default_script_file) (by simp [Event.blocks])
  have q2 := hp (.pa_cli_command_execute_file_stream) (by simp [Event.blocks])
  have q3 := hp (.fclose) (by simp [Event.blocks])
  have q4 := hp (.pa_cli_command_execute) (by simp [Event.blocks])
  have q5 := hp (.pa_strbuf_tostring_free) (by simp [Event.blocks])
  have q6 := hp (.pa_idxset_size) (by simp [Event.blocks])
  have q7 := hp (.pa_namereg_get) (by simp [Event.blocks])
  unfold check_modules
  (try simp only [])
  (try split_ifs)
  all_goals first | rfl | simp only [Flow.st_next, Flow.st_finish, Flow.st_abort, Flow.st_replaced, St.emit_trace, List.filter_append, List.filter_cons, List.filter_nil, List.append_nil, Bool.false_eq_true, if_false, ite_self, List.nil_append, St.emit_retval, St.emit_r, St.emit_real_root, St.emit_suid_root, St.emit_valid_pid_file, St.emit_ltdl_init, St.emit_passed_fd, St.emit_daemon_pipe_0, St.emit_daemon_pipe_1, St.emit_lf, St.emit_autospawn_lock_fd, St.emit_c, St.emit_mainloop, St.emit_conf, q0, q1, q2, q3, q4, q5, q6, q7]

theorem check_modules_grows (w : World) (s : St) {t : List Event} (h : t <+: s.trace) :
    t <+: (check_modules w s).st.trace := by
  unfold check_modules
  (try simp only [])
  (try split_ifs)
  all_goals repeat (first | exact h | apply grows_append | simp only [Flow.st_next, Flow.st_finish, Flow.st_abort, Flow.st_replaced, St.emit_trace])

theorem bootstrap_frame (w : World) (s : St) :
    (bootstrap w s).st.retval = s.retval ∧
    (bootstrap w s).st.real_root = s.real_root ∧
    (bootstrap w s).st.suid_root = s.suid_root ∧
    (bootstrap w s).st.valid_pid_file = s.valid_pid_file ∧
    (bootstrap w s).st.ltdl_init = s.ltdl_init ∧
    (bootstrap w s).st.passed_fd = s.passed_fd ∧
    (bootstrap w s).st.daemon_pipe_0 = s.daemon_pipe_0 ∧
    (bootstrap w s).st.daemon_pipe_1 = s.daemon_pipe_1 ∧
    (bootstrap w s).st.lf = s.lf ∧
    (bootstrap w s).st.autospawn_lock_fd = s.autospawn_lock_fd ∧
    (bootstrap w s).st.c = s.c ∧
    (bootstrap w s).st.mainloop = s.mainloop := by
  unfold bootstrap
  (try simp only [])
  (try split_ifs)
  all_goals first | exact ⟨rfl, rfl, rfl, rfl, rfl, rfl, rfl, rfl, rfl, rfl, rfl, rfl⟩ | simp only [Flow.st_next, Flow.st_finish, Flow.st_abort, Flow.st_replaced, and_self, St.emit_retval, St.emit_real_root, St.emit_suid_root, St.emit_valid_pid_file, St.emit_ltdl_init, St.emit_passed_fd, St.emit_daemon_pipe_0, St.emit_daemon_pipe_1, St.emit_lf, St.emit_autospawn_lock_fd, St.emit_c, St.emit_mainloop, run_scripts_retval, run_scripts_real_root, run_scripts_suid_root, run_scripts_valid_pid_file, run_scripts_ltdl_init, run_scripts_passed_fd, run_scripts_daemon_pipe_0, run_scripts_daemon_pipe_1, run_scripts_lf, run_scripts_autospawn_lock_fd, run_scripts_c, run_scripts_mainloop, check_modules_retval, check_modules_real_root, check_modules_suid_root, check_modules_valid_pid_file, check_modules_ltdl_init, check_modules_passed_fd, check_modules_daemon_pipe_0, check_modules_daemon_pipe_1, check_modules_lf, check_modules_autospawn_lock_fd, check_modules_c, check_modules_mainloop]

@[simp] theorem bootstrap_retval (w : World) (s : St) :
    (bootstrap w s).st.retval = s.retval :=
  (bootstrap_frame w s).1

@[simp] theorem bootstrap_real_root (w : World) (s : St) :
    (bootstrap w s).st.real_root = s.real_root :=
  (bootstrap_frame w s).2.1

@[simp] theorem bootstrap_suid_root (w : World) (s : St) :
    (bootstrap w s).st.suid_root = s.suid_root :=
  (bootstrap_frame w s).2.2.1

@[simp] theorem bootstrap_valid_pid_file (w : World) (s : St) :
    (bootstrap w s).st.valid_pid_file = s.valid_pid_file :=
  (bootstrap_frame w s).2.2.2.1

@[simp] theorem bootstrap_ltdl_init (w : World) (s : St) :
    (bootstrap w s).st.ltdl_init = s.ltdl_init :=
  (bootstrap_frame w s).2.2.2.2.1

@[simp] theorem bootstrap_passed_fd (w : World) (s : St) :
    (bootstrap w s).st.passed_fd = s.passed_fd :=
  (bootstrap_frame w s).2.2.2.2.2.1

@[simp] theorem bootstrap_daemon_pipe_0 (w : World) (s : St) :
    (bootstrap w s).st.daemon_pipe_0 = s.daemon_pipe_0 :=
  (bootstrap_frame w s).2.2.2.2.2.2.1

@[simp] theorem bootstrap_daemon_pipe_1 (w : World) (s : St) :
    (bootstrap w s).st.daemon_pipe_1 = s.daemon_pipe_1 :=
  (bootstrap_frame w s).2.2.2.2.2.2.2.1

@[simp] theorem bootstrap_lf (w : World) (s : St) :
    (bootstrap w s).st.lf = s.lf :=
  (bootstrap_frame w s).2.2.2.2.2.2.2.2.1

@[simp] theorem bootstrap_autospawn_lock_fd (w : World) (s : St) :
    (bootstrap w s).st.autospawn_lock_fd = s.autospawn_lock_fd :=
  (bootstrap_frame w s).2.2.2.2.2.2.2.2.2.1

@[simp] theorem bootstrap_c (w : World) (s : St) :
    (bootstrap w s).st.c = s.c :=
  (bootstrap_frame w s).2.2.2.2.2.2.2.2.2.2.1

theorem bootstrap_filter (w : World) (s : St) (p : Event → Bool)
    (hp : Quiet .bootstrap p) :
    (bootstrap w s).st.trace.filter p = s.trace.filter p := by
  have q0 := hp (.pa_strbuf_new) (by simp [Event.blocks])
  have q1 := hp (.pa_daemon_conf_open_default_script_file) (by simp [Event.blocks])
  have q2 := hp (.pa_cli_command_execute_file_stream) (by simp [Event.blocks])
  have q3 := hp (.fclose) (by simp [Event.blocks])
  have q4 := hp (.pa_cli_command_execute) (by simp [Event.blocks])
  have q5 := hp (.pa_strbuf_tostring_free) (by simp [Event.blocks])
  have q6 := hp (.pa_idxset_size) (by simp [Event.blocks])
  have q7 := hp (.pa_namereg_get) (by simp [Event.blocks])
  unfold bootstrap
  (try simp only [])
  (try split_ifs)
  all_goals first | rfl | simp only [Flow.st_next, Flow.st_finish, Flow.st_abort, Flow.st_replaced, St.emit_trace, List.filter_append, List.filter_cons, List.filter_nil, List.append_nil, Bool.false_eq_true, if_false, ite_self, List.nil_append, St.emit_retval, St.emit_r, St.emit_real_root, St.emit_suid_root, St.emit_valid_pid_file, St.emit_ltdl_init, St.emit_passed_fd, St.emit_daemon_pipe_0, St.emit_daemon_pipe_1, St.emit_lf, St.emit_autospawn_lock_fd, St.emit_c, St.emit_mainloop, St.emit_conf, q0, q1, q2, q3, q4, q5, q6, q7, run_scripts_filter _ _ _ hp, check_modules_filter _ _ _ hp]

theorem bootstrap_grows (w : World) (s : St) {t : List Event} (h : t <+: s.trace) :
    t <+: (bootstrap w s).st.trace := by
  unfold bootstrap
  (try simp only [])
  (try split_ifs)
  all_goals repeat (first | exact h | apply run_scripts_grows | apply check_modules_grows | apply grows_append | simp only [Flow.st_next, Flow.st_finish, Flow.st_abort, Flow.st_replaced, St.emit_trace])

theorem handshake_success_frame (w : World) (s : St) :
    (handshake_success w s).st.retval = s.retval ∧
    (handshake_success w s).st.r = s.r ∧
    (handshake_success w s).st.real_root = s.real_root ∧
    (handshake_success w s).st.suid_root = s.suid_root ∧
    (handshake_success w s).st.valid_pid_file = s.valid_pid_file ∧
    (handshake_success w s).st.ltdl_init = s.ltdl_init ∧
    (handshake_success w s).st.passed_fd = s.passed_fd ∧
    (handshake_success w s).st.daemon_pipe_0 = s.daemon_pipe_0 ∧
    (handshake_success w s).st.lf = s.lf ∧
    (handshake_success w s).st.autospawn_lock_fd = s.autospawn_lock_fd ∧
    (handshake_success w s).st.c = s.c ∧
    (handshake_success w s).st.mainloop = s.mainloop ∧
    (handshake_success w s).st.conf = s.conf := by
  unfold handshake_success
  (try simp only [])
  (try split_ifs)
  all_goals first | exact ⟨rfl, rfl, rfl, rfl, rfl, rfl, rfl, rfl, rfl, rfl, rfl, rfl, rfl⟩ | simp only [Flow.st_next, Flow.st_finish, Flow.st_abort, Flow.st_replaced, and_self, St.emit_retval, St.emit_r, St.emit_real_root, St.emit_suid_root, St.emit_valid_pid_file, St.emit_ltdl_init, St.emit_passed_fd, St.emit_daemon_pipe_0, St.emit_lf, St.emit_autospawn_lock_fd, St.emit_c, St.emit_mainloop, St.emit_conf]

@[simp] theorem handshake_success_r (w : World) (s : St) :
    (handshake_success w s).st.r = s.r :=
  (handshake_success_frame w s).2.1

@[simp] theorem handshake_success_real_root (w : World) (s : St) :
    (handshake_success w s).st.real_root = s.real_root :=
  (handshake_success_frame w s).2.2.1

@[simp] theorem handshake_success_suid_root (w : World) (s : St) :
    (handshake_success w s).st.suid_root = s.suid_root :=
  (handshake_success_frame w s).2.2.2.1

@[simp] theorem handshake_success_valid_pid_file (w : World) (s : St) :
    (handshake_success w s).st.valid_pid_file = s.valid_pid_file :=
  (handshake_success_frame w s).2.2.2.2.1

@[simp] theorem handshake_success_ltdl_init (w : World) (s : St) :
    (handshake_success w s).st.ltdl_init = s.ltdl_init :=
  (handshake_success_frame w s).2.2.2.2.2.1

@[simp] theorem handshake_success_passed_fd (w : World) (s : St) :
    (handshake_success w s).st.passed_fd = s.passed_fd :=
  (handshake_success_frame w s).2.2.2.2.2.2.1

@[simp] theorem handshake_success_daemon_pipe_0 (w : World) (s : St) :
    (handshake_success w s).st.daemon_pipe_0 = s.daemon_pipe_0 :=
  (handshake_success_frame w s).2.2.2.2.2.2.2.1

@[simp] theorem handshake_success_lf (w : World) (s : St) :
    (handshake_success w s).st.lf = s.lf :=
  (handshake_success_frame w s).2.2.2.2.2.2.2.2.1

@[simp] theorem handshake_success_autospawn_lock_fd (w : World) (s : St) :
    (handshake_success w s).st.autospawn_lock_fd = s.autospawn_lock_fd :=
  (handshake_success_frame w s).2.2.2.2.2.2.2.2.2.1

@[simp] theorem handshake_success_c (w : World) (s : St) :
    (handshake_success w s).st.c = s.c :=
  (handshake_success_frame w s).2.2.2.2.2.2.2.2.2.2.1

@[simp] theorem handshake_success_conf (w : World) (s : St) :
    (handshake_success w s).st.conf = s.conf :=
  (handshake_success_frame w s).2.2.2.2.2.2.2.2.2.2.2.2

theorem handshake_success_filter (w : World) (s : St) (p : Event → Bool)
    (hp : Quiet .handshake_success p) :
    (handshake_success w s).st.trace.filter p = s.trace.filter p := by
  have q0 := fun x0 x1 => hp (.pa_loop_write x0 x1) (by simp [Event.blocks])
  have q1 := fun x0 => hp (.pa_close x0) (by simp [Event.blocks])
  unfold handshake_success
  (try simp only [])
  (try split_ifs)
  all_goals first | rfl | simp only [Flow.st_next, Flow.st_finish, Flow.st_abort, Flow.st_replaced, St.emit_trace, List.filter_append, List.filter_cons, List.filter_nil, List.append_nil, Bool.false_eq_true, if_false, ite_self, List.nil_append, St.emit_retval, St.emit_r, St.emit_real_root, St.emit_suid_root, St.emit_valid_pid_file, St.emit_ltdl_init, St.emit_passed_fd, St.emit_daemon_pipe_0, St.emit_daemon_pipe_1, St.emit_lf, St.emit_autospawn_lock_fd, St.emit_c, St.emit_mainloop, St.emit_conf, q0, q1]

theorem handshake_success_grows (w : World) (s : St) {t : List Event} (h : t <+: s.trace) :
    t <+: (handshake_success w s).st.trace := by
  unfold handshake_success
  (try simp only [])
  (try split_ifs)
  all_goals repeat (first | exact h | apply grows_append | simp only [Flow.st_next, Flow.st_finish, Flow.st_abort, Flow.st_replaced, St.emit_trace])

theorem run_mainloop_frame (w : World) (s : St) :
    (run_mainloop w s).st.r = s.r ∧
    (run_mainloop w s).st.real_root = s.real_root ∧
    (run_mainloop w s).st.suid_root = s.suid_root ∧
    (run_mainloop w s).st.valid_pid_file = s.valid_pid_file ∧
    (run_mainloop w s).st.ltdl_init = s.ltdl_init ∧
    (run_mainloop w s).st.passed_fd = s.passed_fd ∧
    (run_mainloop w s).st.daemon_pipe_0 = s.daemon_pipe_0 ∧
    (run_mainloop w s).st.daemon_pipe_1 = s.daemon_pipe_1 ∧
    (run_mainloop w s).st.lf = s.lf ∧
    (run_mainloop w s).st.autospawn_lock_fd = s.autospawn_lock_fd ∧
    (run_mainloop w s).st.c = s.c ∧
    (run_mainloop w s).st.mainloop = s.mainloop ∧
    (run_mainloop w s).st.conf = s.conf := by
  unfold run_mainloop
  (try simp only [])
  (try split_ifs)
  all_goals first | exact ⟨rfl, rfl, rfl, rfl, rfl, rfl, rfl, rfl, rfl, rfl, rfl, rfl, rfl⟩ | simp only [Flow.st_next, Flow.st_finish, Flow.st_abort, Flow.st_replaced, and_self, St.emit_r, St.emit_real_root, St.emit_suid_root, St.emit_valid_pid_file, St.emit_ltdl_init, St.emit_passed_fd, St.emit_daemon_pipe_0, St.emit_daemon_pipe_1, St.emit_lf, St.emit_autospawn_lock_fd, St.emit_c, St.emit_mainloop, St.emit_conf]

@[simp] theorem run_mainloop_r (w : World) (s : St) :
    (run_mainloop w s).st.r = s.r :=
  (run_mainloop_frame w s).1

@[simp] theorem run_mainloop_real_root (w : World) (s : St) :
    (run_mainloop w s).st.real_root = s.real_root :=
  (run_mainloop_frame w s).2.1

@[simp] theorem run_mainloop_suid_root (w : World) (s : St) :
    (run_mainloop w s).st.suid_root = s.suid_root :=
  (run_mainloop_frame w s).2.2.1

@[simp] theorem run_mainloop_valid_pid_file (w : World) (s : St) :
    (run_mainloop w s).st.valid_pid_file = s.valid_pid_file :=
  (run_mainloop_frame w s).2.2.2.1

@[simp] theorem run_mainloop_ltdl_init (w : World) (s : St) :
    (run_mainloop w s).st.ltdl_init = s.ltdl_init :=
  (run_mainloop_frame w s).2.2.2.2.1

@[simp] theorem run_mainloop_passed_fd (w : World) (s : St) :
    (run_mainloop w s).st.passed_fd = s.passed_fd :=
  (run_mainloop_frame w s).2.2.2.2.2.1

@[simp] theorem run_mainloop_daemon_pipe_0 (w : World) (s : St) :
    (run_mainloop w s).st.daemon_pipe_0 = s.daemon_pipe_0 :=
  (run_mainloop_frame w s).2.2.2.2.2.2.1

@[simp] theorem run_mainloop_daemon_pipe_1 (w : World) (s : St) :
    (run_mainloop w s).st.daemon_pipe_1 = s.daemon_pipe_1 :=
  (run_mainloop_frame w s).2.2.2.2.2.2.2.1

@[simp] theorem run_mainloop_lf (w : World) (s : St) :
    (run_mainloop w s).st.lf = s.lf :=
  (run_mainloop_frame w s).2.2.2.2.2.2.2.2.1

@[simp] theorem run_mainloop_autospawn_lock_fd (w : World) (s : St) :
    (run_mainloop w s).st.autospawn_lock_fd = s.autospawn_lock_fd :=
  (run_mainloop_frame w s).2.2.2.2.2.2.2.2.2.1

@[simp] theorem run_mainloop_c (w : World) (s : St) :
    (run_mainloop w s).st.c = s.c :=
  (run_mainloop_frame w s).2.2.2.2.2.2.2.2.2.2.1

@[simp] theorem run_mainloop_conf (w : World) (s : St) :
    (run_mainloop w s).st.conf = s.conf :=
  (run_mainloop_frame w s).2.2.2.2.2.2.2.2.2.2.2.2

theorem run_mainloop_filter (w : World) (s : St) (p : Event → Bool)
    (hp : Quiet .run_mainloop p) :
    (run_mainloop w s).st.trace.filter p = s.trace.filter p := by
  have q0 := hp (.pa_mainloop_run) (by simp [Event.blocks])
  unfold run_mainloop
  (try simp only [])
  (try split_ifs)
  all_goals first | rfl | simp only [Flow.st_next, Flow.st_finish, Flow.st_abort, Flow.st_replaced, St.emit_trace, List.filter_append, List.filter_cons, List.filter_nil, List.append_nil, Bool.false_eq_true, if_false, ite_self, List.nil_append, St.emit_retval, St.emit_r, St.emit_real_root, St.emit_suid_root, St.emit_valid_pid_file, St.emit_ltdl_init, St.emit_passed_fd, St.emit_daemon_pipe_0, St.emit_daemon_pipe_1, St.emit_lf, St.emit_autospawn_lock_fd, St.emit_c, St.emit_mainloop, St.emit_conf, q0]

theorem run_mainloop_grows (w : World) (s : St) {t : List Event} (h : t <+: s.trace) :
    t <+: (run_mainloop w s).st.trace := by
  unfold run_mainloop
  (try simp only [])
  (try split_ifs)
  all_goals repeat (first | exact h | apply grows_append | simp only [Flow.st_next, Flow.st_finish, Flow.st_abort, Flow.st_replaced, St.emit_trace])

theorem finish_frame (s : St) :
    (finish s).retval = s.retval ∧
    (finish s).r = s.r ∧
    (finish s).real_root = s.real_root ∧
    (finish s).suid_root = s.suid_root ∧
    (finish s).valid_pid_file = s.valid_pid_file ∧
    (finish s).ltdl_init = s.ltdl_init ∧
    (finish s).passed_fd = s.passed_fd ∧
    (finish s).lf = s.lf ∧
    (finish s).autospawn_lock_fd = s.autospawn_lock_fd ∧
    (finish s).c = s.c ∧
    (finish s).mainloop = s.mainloop ∧
    (finish s).conf = s.conf := by
  unfold finish
  (try simp only [])
  (try split_ifs)
  all_goals first | exact ⟨rfl, rfl, rfl, rfl, rfl, rfl, rfl, rfl, rfl, rfl, rfl, rfl⟩ | simp only [Flow.st_next, Flow.st_finish, Flow.st_abort, Flow.st_replaced, and_self, St.emit_retval, St.emit_r, St.emit_real_root, St.emit_suid_root, St.emit_valid_pid_file, St.emit_ltdl_init, St.emit_passed_fd, St.emit_lf, St.emit_autospawn_lock_fd, St.emit_c, St.emit_mainloop, St.emit_conf]

@[simp] theorem finish_retval (s : St) :
    (finish s).retval = s.retval :=
  (finish_frame s).1

@[simp] theorem finish_r (s : St) :
    (finish s).r = s.r :=
  (finish_frame s).2.1

@[simp] theorem finish_real_root (s : St) :
    (finish s).real_root = s.real_root :=
  (finish_frame s).2.2.1

@[simp] theorem finish_suid_root (s : St) :
    (finish s).suid_root = s.suid_root :=
  (finish_frame s).2.2.2.1

@[simp] theorem finish_valid_pid_file (s : St) :
    (finish s).valid_pid_file = s.valid_pid_file :=
  (finish_frame s).2.2.2.2.1

@[simp] theorem finish_ltdl_init (s : St) :
    (finish s).ltdl_init = s.ltdl_init :=
  (finish_frame s).2.2.2.2.2.1

@[simp] theorem finish_passed_fd (s : St) :
    (finish s).passed_fd = s.passed_fd :=
  (finish_frame s).2.2.2.2.2.2.1

@[simp] theorem finish_lf (s : St) :
    (finish s).lf = s.lf :=
  (finish_frame s).2.2.2.2.2.2.2.1

@[simp] theorem finish_autospawn_lock_fd (s : St) :
    (finish s).autospawn_lock_fd = s.autospawn_lock_fd :=
  (finish_frame s).2.2.2.2.2.2.2.2.1

@[simp] theorem finish_c (s : St) :
    (finish s).c = s.c :=
  (finish_frame s).2.2.2.2.2.2.2.2.2.1

@[simp] theorem finish_mainloop (s : St) :
    (finish s).mainloop = s.mainloop :=
  (finish_frame s).2.2.2.2.2.2.2.2.2.2.1

@[simp] theorem finish_conf (s : St) :
    (finish s).conf = s.conf :=
  (finish_frame s).2.2.2.2.2.2.2.2.2.2.2

theorem finish_filter (s : St) (p : Event → Bool)
    (hp : Quiet .finish p) :
    (finish s).trace.filter p = s.trace.filter p := by
  have q0 := fun x0 => hp (.pa_unlock_lockfile x0) (by simp [Event.blocks])
  have q1 := hp (.pa_core_unref) (by simp [Event.blocks])
  have q2 := hp (.pa_cpu_limit_done) (by simp [Event.blocks])
  have q3 := hp (.pa_signal_done) (by simp [Event.blocks])
  have q4 := fun x0 x1 => hp (.pa_loop_write x0 x1) (by simp [Event.blocks])
  have q5 := hp (.pa_close_pipe) (by simp [Event.blocks])
  have q6 := hp (.pa_mainloop_free) (by simp [Event.blocks])
  have q7 := hp (.pa_daemon_conf_free) (by simp [Event.blocks])
  have q8 := hp (.pa_pid_file_remove) (by simp [Event.blocks])
  have q9 := hp (.pa_ltdl_done) (by simp [Event.blocks])
  have q10 := hp (.dbus_shutdown) (by simp [Event.blocks])
  unfold finish
  (try simp only [])
  (try split_ifs)
  all_goals first | rfl | simp only [Flow.st_next, Flow.st_finish, Flow.st_abort, Flow.st_replaced, St.emit_trace, List.filter_append, List.filter_cons, List.filter_nil, List.append_nil, Bool.false_eq_true, if_false, ite_self, List.nil_append, St.emit_retval, St.emit_r, St.emit_real_root, St.emit_suid_root, St.emit_valid_pid_file, St.emit_ltdl_init, St.emit_passed_fd, St.emit_daemon_pipe_0, St.emit_daemon_pipe_1, St.emit_lf, St.emit_autospawn_lock_fd, St.emit_c, St.emit_mainloop, St.emit_conf, q0, q1, q2, q3, q4, q5, q6, q7, q8, q9, q10]

theorem finish_grows (s : St) {t : List Event} (h : t <+: s.trace) :
    t <+: (finish s).trace := by
  unfold finish
  (try simp only [])
  (try split_ifs)
  all_goals repeat (first | exact h | apply grows_append | simp only [Flow.st_next, Flow.st_finish, Flow.st_abort, Flow.st_replaced, St.emit_trace])

/-! ## Reasoning about flows -/

theorem Flow.sat_andThen {f : Flow} {k : St → Flow} {N M F A : St → Prop}
    (h : f.sat M F A) (hk : ∀ s, M s → (k s).sat N F A) : (f.andThen k).sat N F A := by
  cases f <;> simp_all [Flow.andThen, Flow.sat]

theorem Flow.next_andThen (s : St) (k : St → Flow) : (Flow.next s).andThen k = k s := rfl

theorem Flow.sat_mono {f : Flow} {N F A C F2 A2 : St → Prop} (h : f.sat N F A)
    (hN : ∀ s, N s → C s) (hF : ∀ s, F s → F2 s) (hA : ∀ s, A s → A2 s) :
    f.sat C F2 A2 := by
  cases f <;> simp_all [Flow.sat]

theorem Flow.sat_of_st {f : Flow} {P : St → Prop} (h : P f.st) : f.sat P P P := by
  cases f <;> simpa [Flow.sat] using h

theorem Flow.sat_intro {f : Flow} {N F A : St → Prop}
    (hN : ∀ s, f = .next s → N s) (hF : ∀ s, f = .finish s → F s)
    (hA : ∀ s, f = .abort s ∨ f = .replaced s → A s) : f.sat N F A := by
  cases f with
  | next s => exact hN s rfl
  | finish s => exact hF s rfl
  | abort s => exact hA s (Or.inl rfl)
  | replaced s => exact hA s (Or.inr rfl)

theorem Flow.sat_and {f : Flow} {N F A C F2 A2 : St → Prop} (h : f.sat N F A)
    (h2 : f.sat C F2 A2) :
    f.sat (fun s => N s ∧ C s) (fun s => F s ∧ F2 s) (fun s => A s ∧ A2 s) := by
  cases f <;> simp_all [Flow.sat]

theorem Flow.andThen_st {α : Type} (proj : St → α) (f : Flow) (k : St → Flow)
    (h : ∀ s, proj (k s).st = proj s) : proj (f.andThen k).st = proj f.st := by
  cases f <;> simp [Flow.andThen, h]

theorem Flow.andThen_grows (f : Flow) (k : St → Flow) {t : List Event}
    (hf : t <+: f.st.trace) (h : ∀ s, s.trace <+: (k s).st.trace) :
    t <+: (f.andThen k).st.trace := by
  cases f <;> simp only [Flow.andThen] <;> first | exact hf | exact hf.trans (h _)

theorem Only.quiet {bs : List Block} {p : Event → Bool} (h : Only bs p) {b : Block}
    (hb : b ∉ bs) : Quiet b p := by
  intro e he
  cases hp : p e
  · rfl
  · exact absurd (h e hp b he) hb

theorem Only.mono {bs bs2 : List Block} {p : Event → Bool} (h : Only bs p)
    (hs : ∀ b ∈ bs, b ∈ bs2) : Only bs2 p :=
  fun e he b hb => hs b (h e he b hb)

theorem any_of_filter {t u : List Event} {p : Event → Bool}
    (h : u.filter p = t.filter p) : u.any p = t.any p := by
  have key : ∀ l : List Event, l.any p = (l.filter p).any p := by
    intro l
    induction l with
    | nil => rfl
    | cons a l ih =>
      cases hpa : p a
      · simp only [List.filter_cons, hpa, List.any_cons, Bool.false_or, Bool.false_eq_true,
          if_false]
        exact ih
      · simp only [List.filter_cons, hpa, List.any_cons, Bool.true_or, if_true]
  rw [key u, key t, h]

theorem countP_of_filter {t u : List Event} {p : Event → Bool}
    (h : u.filter p = t.filter p) : u.countP p = t.countP p := by
  rw [List.countP_eq_length_filter, List.countP_eq_length_filter, h]

/-- What a group of statements appended to the trace. -/
theorem appended {b : Block} {t t2 : List Event} (hpre : t <+: t2)
    (hfil : ∀ p, Quiet b p → t2.filter p = t.filter p) :
    ∃ es, t2 = t ++ es ∧ ∀ e ∈ es, b ∈ e.blocks := by
  obtain ⟨es, rfl⟩ := hpre
  refine ⟨es, rfl, ?_⟩
  have h := hfil (fun e => !decide (b ∈ e.blocks)) (by intro e he; simp [he])
  rw [List.filter_append] at h
  have h2 : es.filter (fun e => !decide (b ∈ e.blocks)) = [] := by
    have := congrArg List.length h
    simp only [List.length_append] at this
    exact List.length_eq_zero.1 (by omega)
  intro e he
  have := List.filter_eq_nil_iff.1 h2 e he
  simpa using this

/-! ## The run of `main` from its body -/

theorem main_returned {w : World} {rv : Int} (h : (main w).exit = .returned rv) :
    ∃ s, (body w = .next s ∨ body w = .finish s) ∧ rv = (finish s).retval ∧
      (main w).trace = (finish s).trace := by
  unfold main at h ⊢
  cases hb : body w with
  | next s => rw [hb] at h; simp only at h ⊢; exact ⟨s, Or.inl rfl, by injection h with h; exact h.symm, rfl⟩
  | finish s => rw [hb] at h; simp only at h ⊢; exact ⟨s, Or.inr rfl, by injection h with h; exact h.symm, rfl⟩
  | abort s => rw [hb] at h; simp at h
  | replaced s => rw [hb] at h; simp at h

theorem main_of_body {w : World} {rv : Int} {N F A : St → Prop}
    (hs : (body w).sat N F A) (h : (main w).exit = .returned rv) :
    ∃ s, (N s ∨ F s) ∧ rv = (finish s).retval ∧ (main w).trace = (finish s).trace := by
  obtain ⟨s, hb, h1, h2⟩ := main_returned h
  refine ⟨s, ?_, h1, h2⟩
  rcases hb with hb | hb <;> rw [hb] at hs
  · exact Or.inl hs
  · exact Or.inr hs

theorem main_cases (w : World) {N F A : St → Prop} (hs : (body w).sat N F A) :
    (∃ s, (N s ∨ F s) ∧ (main w).exit = .returned s.retval ∧
      (main w).trace = (finish s).trace) ∨
    (∃ s, A s ∧ ((main w).exit = .aborted ∨ (main w).exit = .replaced) ∧
      (main w).trace = s.trace) := by
  unfold main
  cases hb : body w with
  | next s => rw [hb] at hs; exact Or.inl ⟨s, Or.inl hs, rfl, rfl⟩
  | finish s => rw [hb] at hs; exact Or.inl ⟨s, Or.inr hs, rfl, rfl⟩
  | abort s => rw [hb] at hs; exact Or.inr ⟨s, hs, Or.inl rfl, rfl⟩
  | replaced s => rw [hb] at hs; exact Or.inr ⟨s, hs, Or.inr rfl, rfl⟩

/-- The calls of `finish` follow those of the body and are cleanup calls. -/
theorem finish_appended (s : St) :
    ∃ es, (finish s).trace = s.trace ++ es ∧ ∀ e ∈ es, Block.finish ∈ e.blocks :=
  appended (finish_grows s (List.prefix_refl _)) (fun p hp => finish_filter s p hp)

theorem main_trace_of_body (w : World) {N F A : St → Prop} {P : List Event → Prop}
    (hs : (body w).sat N F A) (hN : ∀ s, N s → P (finish s).trace)
    (hF : ∀ s, F s → P (finish s).trace) (hA : ∀ s, A s → P s.trace) :
    P (main w).trace := by
  unfold main
  cases hb : body w with
  | next s => rw [hb] at hs; exact hN s hs
  | finish s => rw [hb] at hs; exact hF s hs
  | abort s => rw [hb] at hs; exact hA s hs
  | replaced s => rw [hb] at hs; exact hA s hs

theorem finish_trace (s : St) : (finish s).trace = s.trace ++
      ((if s.autospawn_lock_fd ≥ 0 then [.pa_unlock_lockfile s.autospawn_lock_fd] else []) ++
      (if s.c then [.pa_core_unref] else []) ++
      (if !s.conf.no_cpu_limit then [.pa_cpu_limit_done] else []) ++
      [.pa_signal_done] ++
      (if s.daemon_pipe_1 ≥ 0 then [.pa_loop_write s.daemon_pipe_1 s.retval] else []) ++
      [.pa_close_pipe] ++
      (if s.mainloop then [.pa_mainloop_free] else []) ++
      [.pa_daemon_conf_free] ++
      (if s.valid_pid_file then [.pa_pid_file_remove] else []) ++
      (if s.ltdl_init then [.pa_ltdl_done] else []) ++
      [.dbus_shutdown]) := rfl

/-! ## The statements before the negotiation, and the negotiation -/

theorem startup_sat (w : World) {F A N0 B C D E G H J K L Q N11 : St → Prop}
    (h1 : ∀ s, N0 s → (ltdl_setup w s).sat B F A)
    (h2 : ∀ s, B s → (command_switch w s).sat C F A)
    (h3 : ∀ s, C s → (root_check w s).sat D F A)
    (h4 : ∀ s, D s → (autospawn_lock w s).sat E F A)
    (h5 : ∀ s, E s → (daemonize w s).sat G F A)
    (h6 : ∀ s, G s → (environment_setup w s).sat H F A)
    (h7 : ∀ s, H s → (pid_file w s).sat J F A)
    (h8 : ∀ s, J s → (create_core w s).sat K F A)
    (h9 : ∀ s, K s → (bootstrap w s).sat L F A)
    (h10 : ∀ s, L s → (handshake_success w s).sat Q F A)
    (h11 : ∀ s, Q s → (run_mainloop w s).sat N11 F A) :
    ∀ s, N0 s → (startup w s).sat N11 F A := by
  intro s hs
  unfold startup
  exact Flow.sat_andThen (Flow.sat_andThen (Flow.sat_andThen (Flow.sat_andThen
    (Flow.sat_andThen (Flow.sat_andThen (Flow.sat_andThen (Flow.sat_andThen
    (Flow.sat_andThen (Flow.sat_andThen (h1 s hs) h2) h3) h4) h5) h6) h7) h8) h9) h10) h11

theorem prologue_sat (w : World) {F A B C D E : St → Prop}
    (h1 : (bind_now w (initial w)).sat B F A)
    (h2 : ∀ s, B s → (drop_privileges w s).sat C F A)
    (h3 : ∀ s, C s → (early_setup w s).sat D F A)
    (h4 : ∀ s, D s → (load_configuration w s).sat E F A) :
    (prologue w).sat E F A := by
  unfold prologue
  exact Flow.sat_andThen (Flow.sat_andThen (Flow.sat_andThen h1 h2) h3) h4

theorem negotiate_sat (w : World) {F A N0 B C D : St → Prop}
    (h1 : ∀ s, N0 s → (scheduling_grant w s).sat B F A)
    (h2 : ∀ s, B s → (apply_rlimits w s).sat C F A)
    (h3 : ∀ s, C s → (drop_decision w s).sat D F A) :
    ∀ s, N0 s → (negotiate w s).sat D F A := by
  intro s hs
  unfold negotiate
  exact Flow.sat_andThen (Flow.sat_andThen (h1 s hs) h2) h3

/-! ## Falling through the start-up sequence -/

theorem silent_of_filter {bs : List Block} {s s2 : St}
    (hf : ∀ p, Only bs p → s2.trace.filter p = s.trace.filter p) (hs : Silent bs s) :
    Silent bs s2 :=
  fun p hp => (hf p hp).trans (hs p hp)

theorem silent_any {bs : List Block} {s : St} (hs : Silent bs s) {p : Event → Bool}
    (hp : Only bs p) : s.trace.any p = false := by
  have h := any_of_filter (t := []) (u := s.trace) (p := p) (by rw [hs p hp]; rfl)
  simpa using h

theorem silent_countP {bs : List Block} {s : St} (hs : Silent bs s) {p : Event → Bool}
    (hp : Only bs p) : s.trace.countP p = 0 := by
  have h := countP_of_filter (t := []) (u := s.trace) (p := p) (by rw [hs p hp]; rfl)
  simpa using h

/-- A group of statements outside `bs` that leaves `retval` and `conf` alone. -/
theorem untouched_boring (w : World) (bs : List Block) (f : Flow) (s : St)
    (hr : f.st.retval = s.retval) (hc : f.st.conf = s.conf)
    (hf : ∀ p, Only bs p → f.st.trace.filter p = s.trace.filter p) :
    Untouched w bs s → f.sat (Untouched w bs) (Silent bs) (Silent bs) := by
  intro hs
  have h : Untouched w bs f.st :=
    ⟨hr.trans hs.1, hc.trans hs.2.1, silent_of_filter hf hs.2.2⟩
  exact Flow.sat_mono (Flow.sat_of_st h) (fun _ x => x) (fun _ x => x.2.2) (fun _ x => x.2.2)

theorem silent_boring (bs : List Block) (f : Flow) (s : St)
    (hf : ∀ p, Only bs p → f.st.trace.filter p = s.trace.filter p) :
    Silent bs s → f.sat (Silent bs) (Silent bs) (Silent bs) :=
  fun hs => Flow.sat_of_st (silent_of_filter hf hs)

theorem prologue_untouched (w : World) (bs : List Block)
    (h1 : Block.bind_now ∉ bs) (h2 : Block.drop_privileges ∉ bs)
    (h3 : Block.early_setup ∉ bs) (h4 : Block.load_configuration ∉ bs) :
    (prologue w).sat (Untouched w bs) (Silent bs) (Silent bs) := by
  have h0 : Silent bs (initial w) := fun p _ => rfl
  have hr : ∀ s : St, s.retval = 1 → (load_configuration w s).sat
      (fun s2 => s2.retval = 1 ∧ s2.conf = w.conf_cmdline) (fun _ => True) (fun _ => True) := by
    intro s hs
    have := load_configuration_retval w s
    unfold load_configuration at this ⊢
    simp only [] at this ⊢
    split_ifs <;> simp_all [Flow.sat]
  refine prologue_sat w (B := fun s => s.retval = 1 ∧ Silent bs s)
    (C := fun s => s.retval = 1 ∧ Silent bs s)
    (D := fun s => s.retval = 1 ∧ Silent bs s) ?_ ?_ ?_ ?_
  · refine Flow.sat_mono (Flow.sat_of_st (P := fun s => s.retval = 1 ∧ Silent bs s) ?_)
      (fun _ x => x) (fun _ x => x.2) (fun _ x => x.2)
    exact ⟨bind_now_retval w _, silent_of_filter
      (fun p hp => bind_now_filter w _ p (hp.quiet h1)) h0⟩
  · intro s hs
    refine Flow.sat_mono (Flow.sat_of_st (P := fun s => s.retval = 1 ∧ Silent bs s) ?_)
      (fun _ x => x) (fun _ x => x.2) (fun _ x => x.2)
    exact ⟨(drop_privileges_retval w _).trans hs.1, silent_of_filter
      (fun p hp => drop_privileges_filter w _ p (hp.quiet h2)) hs.2⟩
  · intro s hs
    refine Flow.sat_mono (Flow.sat_of_st (P := fun s => s.retval = 1 ∧ Silent bs s) ?_)
      (fun _ x => x) (fun _ x => x.2) (fun _ x => x.2)
    exact ⟨(early_setup_retval w _).trans hs.1, silent_of_filter
      (fun p hp => early_setup_filter w _ p (hp.quiet h3)) hs.2⟩
  · intro s hs
    have hsil : Silent bs (load_configuration w s).st := silent_of_filter
      (fun p hp => load_configuration_filter w _ p (hp.quiet h4)) hs.2
    exact Flow.sat_mono (Flow.sat_and (Flow.sat_of_st hsil) (hr s hs.1))
      (fun _ x => ⟨x.2.1, x.2.2, x.1⟩) (fun _ x => x.1) (fun _ x => x.1)

theorem negotiation_untouched (w : World) (bs : List Block)
    (h1 : Block.bind_now ∉ bs) (h2 : Block.drop_privileges ∉ bs)
    (h3 : Block.early_setup ∉ bs) (h4 : Block.load_configuration ∉ bs)
    (h5 : Block.scheduling_grant ∉ bs) (h6 : Block.apply_rlimits ∉ bs)
    (h7 : Block.drop_decision ∉ bs) :
    (negotiation w).sat (Untouched w bs) (Silent bs) (Silent bs) := by
  unfold negotiation
  refine Flow.sat_andThen (prologue_untouched w bs h1 h2 h3 h4) ?_
  refine negotiate_sat w (B := Untouched w bs) (C := Untouched w bs) ?_ ?_ ?_
  · intro s
    exact untouched_boring w bs _ _ (scheduling_grant_retval w _) (scheduling_grant_conf w _)
      (fun p hp => scheduling_grant_filter w _ p (hp.quiet h5))
  · intro s
    exact untouched_boring w bs _ _ (apply_rlimits_retval w _) (apply_rlimits_conf w _)
      (fun p hp => apply_rlimits_filter w _ p (hp.quiet h6))
  · intro s
    exact untouched_boring w bs _ _ (drop_decision_retval w _) (drop_decision_conf w _)
      (fun p hp => drop_decision_filter w _ p (hp.quiet h7))

theorem ltdl_setup_untouched (w : World) (bs : List Block) (h : Block.ltdl_setup ∉ bs)
    (s : St) : Untouched w bs s → (ltdl_setup w s).sat (Untouched w bs) (Silent bs) (Silent bs) :=
  untouched_boring w bs _ _ (ltdl_setup_retval w _) (ltdl_setup_conf w _)
    (fun p hp => ltdl_setup_filter w _ p (hp.quiet h))

theorem command_switch_untouched (w : World) (bs : List Block)
    (h : Block.command_switch ∉ bs) (s : St) :
    Untouched w bs s → (command_switch w s).sat (Untouched w bs) (Silent bs) (Silent bs) := by
  intro hs
  have hsil : Silent bs (command_switch w s).st := silent_of_filter
    (fun p hp => command_switch_filter w _ p (hp.quiet h)) hs.2.2
  have hc := command_switch_conf w s
  have hn : (command_switch w s).sat (fun s2 => s2.retval = s.retval) (fun _ => True)
      (fun _ => True) := by
    unfold command_switch
    split <;> (try split_ifs) <;> simp [Flow.sat]
  refine Flow.sat_intro ?_ ?_ ?_
  · intro s2 h2
    rw [h2] at hsil hc hn
    exact ⟨hn.trans hs.1, hc.trans hs.2.1, hsil⟩
  · intro s2 h2
    rw [h2] at hsil
    exact hsil
  · intro s2 h2
    rcases h2 with h2 | h2 <;> rw [h2] at hsil <;> exact hsil

theorem root_check_untouched (w : World) (bs : List Block) (s : St) :
    Untouched w bs s → (root_check w s).sat (Untouched w bs) (Silent bs) (Silent bs) :=
  untouched_boring w bs _ _ (root_check_retval w _) (root_check_conf w _)
    (fun p _ => root_check_filter w _ p)

theorem autospawn_lock_untouched (w : World) (bs : List Block)
    (h : Block.autospawn_lock ∉ bs) (s : St) :
    Untouched w bs s → (autospawn_lock w s).sat (Untouched w bs) (Silent bs) (Silent bs) :=
  untouched_boring w bs _ _ (autospawn_lock_retval w _) (autospawn_lock_conf w _)
    (fun p hp => autospawn_lock_filter w _ p (hp.quiet h))

theorem daemonize_parent_sat (w : World) (s : St) :
    (daemonize_parent w s).sat (fun _ => False) (fun s2 => s2.daemon_pipe_1 = -1)
      (fun _ => True) := by
  unfold daemonize_parent
  simp only []
  split_ifs <;> simp [Flow.sat]

theorem daemonize_untouched (w : World) (bs : List Block)
    (h1 : Block.daemonize ∉ bs) (h2 : Block.daemonize_parent ∉ bs)
    (h3 : Block.daemonize_child ∉ bs) (s : St) :
    Untouched w bs s → (daemonize w s).sat (Untouched w bs) (Silent bs) (Silent bs) := by
  intro hs
  have hsil : Silent bs (daemonize w s).st := silent_of_filter
    (fun p hp => daemonize_filter w _ p (hp.quiet h1) (hp.quiet h2) (hp.quiet h3)) hs.2.2
  have hc := daemonize_conf w s
  have hn : (daemonize w s).sat (fun s2 => s2.retval = s.retval) (fun _ => True)
      (fun _ => True) := by
    have hp := daemonize_parent_sat w
    unfold daemonize
    simp only []
    split_ifs
    · trivial
    · trivial
    · trivial
    · exact Flow.sat_mono (hp _) (fun _ x => x.elim) (fun _ _ => trivial) (fun _ _ => trivial)
    · exact Flow.sat_mono (Flow.sat_of_st (P := fun s2 => s2.retval = s.retval)
        ((daemonize_child_retval w _).trans rfl)) (fun _ x => x) (fun _ _ => trivial)
        (fun _ _ => trivial)
    · rfl
  refine Flow.sat_intro ?_ ?_ ?_
  · intro s2 h2
    rw [h2] at hsil hc hn
    exact ⟨hn.trans hs.1, hc.trans hs.2.1, hsil⟩
  · intro s2 h2
    rw [h2] at hsil
    exact hsil
  · intro s2 h2
    rcases h2 with h2 | h2 <;> rw [h2] at hsil <;> exact hsil

theorem environment_setup_untouched (w : World) (bs : List Block)
    (h : Block.environment_setup ∉ bs) (s : St) :
    Untouched w bs s →
      (environment_setup w s).sat (Untouched w bs) (Silent bs) (Silent bs) :=
  untouched_boring w bs _ _ (environment_setup_retval w _) (environment_setup_conf w _)
    (fun p hp => environment_setup_filter w _ p (hp.quiet h))

theorem pid_file_untouched (w : World) (bs : List Block) (h : Block.pid_file ∉ bs) (s : St) :
    Untouched w bs s → (pid_file w s).sat (Untouched w bs) (Silent bs) (Silent bs) := by
  intro hs
  have hsil : Silent bs (pid_file w s).st := silent_of_filter
    (fun p hp => pid_file_filter w _ p (hp.quiet h)) hs.2.2
  have hc := pid_file_conf w s
  have hn : (pid_file w s).sat (fun s2 => s2.retval = s.retval) (fun _ => True)
      (fun _ => True) := by
    unfold pid_file
    simp only []
    split_ifs <;> simp [Flow.sat]
  refine Flow.sat_intro ?_ ?_ ?_
  · intro s2 h2
    rw [h2] at hsil hc hn
    exact ⟨hn.trans hs.1, hc.trans hs.2.1, hsil⟩
  · intro s2 h2
    rw [h2] at hsil
    exact hsil
  · intro s2 h2
    rcases h2 with h2 | h2 <;> rw [h2] at hsil <;> exact hsil

theorem create_core_untouched (w : World) (bs : List Block) (h : Block.create_core ∉ bs)
    (s : St) :
    Untouched w bs s → (create_core w s).sat (Untouched w bs) (Silent bs) (Silent bs) :=
  untouched_boring w bs _ _ (create_core_retval w _) (create_core_conf w _)
    (fun p hp => create_core_filter w _ p (hp.quiet h))

/-! ## C1: the handshake is written exactly once -/

theorem only_pipe : Only [.daemonize] Event.is_pipe := by
  intro e he
  cases e <;> first | (simp [Event.is_pipe] at he; done) | (intro b hb; simp_all [Event.blocks])

theorem only_fork : Only [.daemonize] Event.is_fork := by
  intro e he
  cases e <;> first | (simp [Event.is_fork] at he; done) | (intro b hb; simp_all [Event.blocks])

theorem only_status_write : Only [.handshake_success, .finish] Event.is_status_write := by
  intro e he
  cases e <;> first | (simp [Event.is_status_write] at he; done) |
    (intro b hb; simp_all [Event.blocks])

/-- A group of statements that neither touches `daemon_pipe[1]` nor makes a
handshake call keeps the handshake invariants. -/
theorem handshake_frame (w : World) {s s2 : St}
    (hd : s2.daemon_pipe_1 = s.daemon_pipe_1)
    (h1 : s2.trace.filter Event.is_pipe = s.trace.filter Event.is_pipe)
    (h2 : s2.trace.filter Event.is_fork = s.trace.filter Event.is_fork)
    (h3 : s2.trace.filter Event.is_status_write = s.trace.filter Event.is_status_write) :
    (NoHandshake s → NoHandshake s2) ∧ (Handshake w s → Handshake w s2) := by
  have e1 := any_of_filter h1
  have e2 := any_of_filter h2
  have e3 := countP_of_filter h3
  unfold NoHandshake Handshake status_writes
  rw [hd, e1, e2, e3]
  exact ⟨id, id⟩

theorem noHandshake_handshake (w : World) {s : St} (h : NoHandshake s) : Handshake w s := by
  obtain ⟨h1, h2, h3, h4⟩ := h
  unfold Handshake HandshakeObs
  rw [h1, h2, h3, h4]
  simp

theorem handshake_boring (w : World) (f : Flow) (s : St)
    (hd : f.st.daemon_pipe_1 = s.daemon_pipe_1)
    (h1 : f.st.trace.filter Event.is_pipe = s.trace.filter Event.is_pipe)
    (h2 : f.st.trace.filter Event.is_fork = s.trace.filter Event.is_fork)
    (h3 : f.st.trace.filter Event.is_status_write = s.trace.filter Event.is_status_write) :
    (NoHandshake s → f.sat NoHandshake (Handshake w) (fun _ => True)) ∧
    (Handshake w s → f.sat (Handshake w) (Handshake w) (fun _ => True)) := by
  have h := handshake_frame w hd h1 h2 h3
  exact ⟨fun hs => Flow.sat_mono (Flow.sat_of_st (h.1 hs)) (fun _ x => x)
      (fun _ x => noHandshake_handshake w x) (fun _ _ => trivial),
    fun hs => Flow.sat_mono (Flow.sat_of_st (h.2 hs)) (fun _ x => x) (fun _ x => x)
      (fun _ _ => trivial)⟩

theorem beforeFork_boring (w : World) (f : Flow) (s : St)
    (hd : f.st.daemon_pipe_1 = s.daemon_pipe_1) (hc : f.st.conf = s.conf)
    (h1 : f.st.trace.filter Event.is_pipe = s.trace.filter Event.is_pipe)
    (h2 : f.st.trace.filter Event.is_fork = s.trace.filter Event.is_fork)
    (h3 : f.st.trace.filter Event.is_status_write = s.trace.filter Event.is_status_write) :
    BeforeFork w s → f.sat (BeforeFork w) (Handshake w) (fun _ => True) := by
  intro hs
  have h := (handshake_frame w hd h1 h2 h3).1 hs.1
  have h2 : BeforeFork w f.st := ⟨h, hc.trans hs.2⟩
  exact Flow.sat_mono (Flow.sat_of_st h2) (fun _ x => x)
    (fun _ x => noHandshake_handshake w x.1) (fun _ _ => trivial)

theorem load_configuration_conf (w : World) (s : St) :
    (load_configuration w s).sat (fun s2 => s2.conf = w.conf_cmdline) (fun _ => True)
      (fun _ => True) := by
  unfold load_configuration
  simp only []
  split_ifs <;> simp [Flow.sat]

theorem prologue_beforeFork (w : World) :
    (prologue w).sat (BeforeFork w) (Handshake w) (fun _ => True) := by
  have h0 : NoHandshake (initial w) := by
    simp [NoHandshake, initial, status_writes]
  refine prologue_sat w (B := NoHandshake) (C := NoHandshake) (D := NoHandshake) ?_ ?_ ?_ ?_
  · exact (handshake_boring w _ _ (bind_now_daemon_pipe_1 w _)
      (bind_now_filter w _ _ (only_pipe.quiet (by decide)))
      (bind_now_filter w _ _ (only_fork.quiet (by decide)))
      (bind_now_filter w _ _ (only_status_write.quiet (by decide)))).1 h0
  · intro s hs
    exact (handshake_boring w _ _ (drop_privileges_daemon_pipe_1 w _)
      (drop_privileges_filter w _ _ (only_pipe.quiet (by decide)))
      (drop_privileges_filter w _ _ (only_fork.quiet (by decide)))
      (drop_privileges_filter w _ _ (only_status_write.quiet (by decide)))).1 hs
  · intro s hs
    exact (handshake_boring w _ _ (early_setup_daemon_pipe_1 w _)
      (early_setup_filter w _ _ (only_pipe.quiet (by decide)))
      (early_setup_filter w _ _ (only_fork.quiet (by decide)))
      (early_setup_filter w _ _ (only_status_write.quiet (by decide)))).1 hs
  · intro s hs
    exact Flow.sat_mono (Flow.sat_and ((handshake_boring w _ _
      (load_configuration_daemon_pipe_1 w _)
      (load_configuration_filter w _ _ (only_pipe.quiet (by decide)))
      (load_configuration_filter w _ _ (only_fork.quiet (by decide)))
      (load_configuration_filter w _ _ (only_status_write.quiet (by decide)))).1 hs)
      (load_configuration_conf w s))
      (fun _ x => x) (fun _ x => x.1) (fun _ _ => trivial)

theorem negotiation_beforeFork (w : World) :
    (negotiation w).sat (BeforeFork w) (Handshake w) (fun _ => True) := by
  unfold negotiation
  refine Flow.sat_andThen (prologue_beforeFork w) ?_
  refine negotiate_sat w (B := BeforeFork w) (C := BeforeFork w) ?_ ?_ ?_
  · intro s
    exact beforeFork_boring w _ _ (scheduling_grant_daemon_pipe_1 w _)
      (scheduling_grant_conf w _)
      (scheduling_grant_filter w _ _ (only_pipe.quiet (by decide)))
      (scheduling_grant_filter w _ _ (only_fork.quiet (by decide)))
      (scheduling_grant_filter w _ _ (only_status_write.quiet (by decide)))
  · intro s
    exact beforeFork_boring w _ _ (apply_rlimits_daemon_pipe_1 w _)
      (apply_rlimits_conf w _)
      (apply_rlimits_filter w _ _ (only_pipe.quiet (by decide)))
      (apply_rlimits_filter w _ _ (only_fork.quiet (by decide)))
      (apply_rlimits_filter w _ _ (only_status_write.quiet (by decide)))
  · intro s
    exact beforeFork_boring w _ _ (drop_decision_daemon_pipe_1 w _)
      (drop_decision_conf w _)
      (drop_decision_filter w _ _ (only_pipe.quiet (by decide)))
      (drop_decision_filter w _ _ (only_fork.quiet (by decide)))
      (drop_decision_filter w _ _ (only_status_write.quiet (by decide)))

/-- The handshake observations after appending calls to the trace. -/
theorem handshakeObs_emit (w : World) (s : St) (es : List Event) (d : Int)
    (P F : Bool) (n : Nat)
    (e1 : es.any Event.is_pipe = P) (e2 : es.any Event.is_fork = F)
    (e3 : es.countP Event.is_status_write = n)
    (h : HandshakeObs w (s.trace.any Event.is_pipe || P) (s.trace.any Event.is_fork || F)
      (status_writes s.trace + n) d) :
    HandshakeObs w ((s.trace ++ es).any Event.is_pipe) ((s.trace ++ es).any Event.is_fork)
      (status_writes (s.trace ++ es)) d := by
  unfold status_writes at h ⊢
  rw [List.any_append, List.any_append, List.countP_append, e1, e2, e3]
  exact h

theorem daemonize_handshake (w : World) (s : St) (hs : BeforeFork w s) :
    (daemonize w s).sat (Handshake w) (Handshake w) (fun _ => True) := by
  obtain ⟨⟨hd, hp, hf, hw⟩, hc⟩ := hs
  have hnone : Handshake w s := noHandshake_handshake w ⟨hd, hp, hf, hw⟩
  unfold daemonize
  simp only []
  split_ifs with h1 h2 h3 h4 h5
  · -- `pa_stdio_acquire` failed
    refine handshakeObs_emit w s [.pa_stdio_acquire] _ false false 0 rfl rfl rfl ?_
    simpa using hnone
  · -- `pipe` failed
    have hdz : w.conf_cmdline.daemonize = true := hc ▸ h1
    simp only [Flow.sat, Handshake, St.emit_trace, St.emit_daemon_pipe_1, List.append_assoc,
      List.singleton_append]
    refine handshakeObs_emit w s [.pa_stdio_acquire, .pipe] _ true false 0 rfl rfl rfl ?_
    rw [hd, hp, hf, hw]
    simp [HandshakeObs, hdz]
    omega
  · -- `fork` failed
    have hdz : w.conf_cmdline.daemonize = true := hc ▸ h1
    simp only [Flow.sat, Handshake, St.emit_trace, St.emit_daemon_pipe_1, List.append_assoc,
      List.singleton_append]
    refine handshakeObs_emit w s [.pa_stdio_acquire, .pipe, .fork] _ true true 0 rfl rfl
      rfl ?_
    rw [hp, hf, hw]
    simp [HandshakeObs, hdz]
    omega
  · -- the parent
    have hdz : w.conf_cmdline.daemonize = true := hc ▸ h1
    have hpos : 0 < w.fork := by omega
    have hq := daemonize_parent_sat w
      ({ (s.emit [Event.pa_stdio_acquire]).emit [Event.pipe] with
          daemon_pipe_0 := (w.pipe_read_fd : Int),
          daemon_pipe_1 := (w.pipe_write_fd : Int) }.emit [Event.fork])
    have h6 := fun p (hp : Quiet .daemonize_parent p) => daemonize_parent_filter w
      ({ (s.emit [Event.pa_stdio_acquire]).emit [Event.pipe] with
          daemon_pipe_0 := (w.pipe_read_fd : Int),
          daemon_pipe_1 := (w.pipe_write_fd : Int) }.emit [Event.fork]) p hp
    have e1 := any_of_filter (h6 _ (only_pipe.quiet (by decide)))
    have e2 := any_of_filter (h6 _ (only_fork.quiet (by decide)))
    have e3 := countP_of_filter (h6 _ (only_status_write.quiet (by decide)))
    refine Flow.sat_intro ?_ ?_ (fun _ _ => trivial)
    · intro s2 hfl
      rw [hfl] at hq
      exact hq.elim
    · intro s2 hfl
      rw [hfl] at hq e1 e2 e3
      simp only [Flow.sat, Flow.st_finish, St.emit_trace, List.append_assoc,
        List.singleton_append] at hq e1 e2 e3
      unfold Handshake status_writes
      rw [e1, e2, e3, hq]
      refine handshakeObs_emit w s [.pa_stdio_acquire, .pipe, .fork] _ true true 0 rfl rfl
        rfl ?_
      rw [hp, hf, hw]
      simp [HandshakeObs, hdz]
      omega
  · -- the child
    have hdz : w.conf_cmdline.daemonize = true := hc ▸ h1
    have hz : w.fork = 0 := by omega
    refine (handshake_boring w _ _ (daemonize_child_daemon_pipe_1 w _)
      (daemonize_child_filter w _ _ (only_pipe.quiet (by decide)))
      (daemonize_child_filter w _ _ (only_fork.quiet (by decide)))
      (daemonize_child_filter w _ _ (only_status_write.quiet (by decide)))).2 ?_
    unfold Handshake
    simp only [St.emit_trace, St.emit_daemon_pipe_1, List.append_assoc,
      List.singleton_append]
    refine handshakeObs_emit w s [.pa_stdio_acquire, .pipe, .fork] _ true true 0 rfl rfl
      rfl ?_
    rw [hp, hf, hw]
    simp [HandshakeObs, hdz, hz]
    omega
  · exact hnone

theorem handshake_success_handshake (w : World) (s : St) (hs : Handshake w s) :
    (handshake_success w s).sat (Handshake w) (Handshake w) (fun _ => True) := by
  unfold handshake_success
  split_ifs with h1
  · refine handshakeObs_emit w s [.pa_loop_write s.daemon_pipe_1 0, .pa_close s.daemon_pipe_1]
      _ false false 1 rfl rfl rfl ?_
    unfold Handshake HandshakeObs at hs
    unfold HandshakeObs
    obtain ⟨ha, hb, hc⟩ := hs
    simp only [Bool.or_false]
    refine ⟨fun hh => ?_, fun hh => ?_, hc⟩
    · rcases ha hh with h | h
      · exact Or.inr ⟨by omega, by omega⟩
      · omega
    · have := (hb hh).1
      omega
  · exact hs

theorem body_handshake (w : World) :
    (body w).sat (Handshake w) (Handshake w) (fun _ => True) := by
  unfold body
  refine Flow.sat_andThen (negotiation_beforeFork w) ?_
  refine startup_sat w (B := BeforeFork w) (C := BeforeFork w) (D := BeforeFork w)
    (E := BeforeFork w) (G := Handshake w) (H := Handshake w) (J := Handshake w)
    (K := Handshake w) (L := Handshake w) (Q := Handshake w) ?_ ?_ ?_ ?_ ?_ ?_ ?_ ?_ ?_ ?_ ?_
  · intro s
    exact beforeFork_boring w _ _ (ltdl_setup_daemon_pipe_1 w _) (ltdl_setup_conf w _)
      (ltdl_setup_filter w _ _ (only_pipe.quiet (by decide)))
      (ltdl_setup_filter w _ _ (only_fork.quiet (by decide)))
      (ltdl_setup_filter w _ _ (only_status_write.quiet (by decide)))
  · intro s
    exact beforeFork_boring w _ _ (command_switch_daemon_pipe_1 w _) (command_switch_conf w _)
      (command_switch_filter w _ _ (only_pipe.quiet (by decide)))
      (command_switch_filter w _ _ (only_fork.quiet (by decide)))
      (command_switch_filter w _ _ (only_status_write.quiet (by decide)))
  · intro s
    exact beforeFork_boring w _ _ (root_check_daemon_pipe_1 w _) (root_check_conf w _)
      (root_check_filter w _ _) (root_check_filter w _ _) (root_check_filter w _ _)
  · intro s
    exact beforeFork_boring w _ _ (autospawn_lock_daemon_pipe_1 w _)
      (autospawn_lock_conf w _)
      (autospawn_lock_filter w _ _ (only_pipe.quiet (by decide)))
      (autospawn_lock_filter w _ _ (only_fork.quiet (by decide)))
      (autospawn_lock_filter w _ _ (only_status_write.quiet (by decide)))
  · exact daemonize_handshake w
  · intro s
    exact (handshake_boring w _ _ (environment_setup_daemon_pipe_1 w _)
      (environment_setup_filter w _ _ (only_pipe.quiet (by decide)))
      (environment_setup_filter w _ _ (only_fork.quiet (by decide)))
      (environment_setup_filter w _ _ (only_status_write.quiet (by decide)))).2
  · intro s
    exact (handshake_boring w _ _ (pid_file_daemon_pipe_1 w _)
      (pid_file_filter w _ _ (only_pipe.quiet (by decide)))
      (pid_file_filter w _ _ (only_fork.quiet (by decide)))
      (pid_file_filter w _ _ (only_status_write.quiet (by decide)))).2
  · intro s
    exact (handshake_boring w _ _ (create_core_daemon_pipe_1 w _)
      (create_core_filter w _ _ (only_pipe.quiet (by decide)))
      (create_core_filter w _ _ (only_fork.quiet (by decide)))
      (create_core_filter w _ _ (only_status_write.quiet (by decide)))).2
  · intro s
    exact (handshake_boring w _ _ (bootstrap_daemon_pipe_1 w _)
      (bootstrap_filter w _ _ (only_pipe.quiet (by decide)))
      (bootstrap_filter w _ _ (only_fork.quiet (by decide)))
      (bootstrap_filter w _ _ (only_status_write.quiet (by decide)))).2
  · exact handshake_success_handshake w
  · intro s
    exact (handshake_boring w _ _ (run_mainloop_daemon_pipe_1 w _)
      (run_mainloop_filter w _ _ (only_pipe.quiet (by decide)))
      (run_mainloop_filter w _ _ (only_fork.quiet (by decide)))
      (run_mainloop_filter w _ _ (only_status_write.quiet (by decide)))).2

theorem countP_optional (c : Prop) [Decidable c] (x : Event) (p : Event → Bool)
    (hx : p x = false) : List.countP p (if c then [x] else []) = 0 := by
  split_ifs <;> simp [hx]

/-- The status writes of `finish`: one if the write end is still open. -/
theorem finish_status_writes (s : St) :
    status_writes (finish s).trace =
      status_writes s.trace + (if s.daemon_pipe_1 ≥ 0 then 1 else 0) := by
  unfold status_writes
  rw [finish_trace]
  simp only [List.countP_append]
  rw [countP_optional _ (.pa_unlock_lockfile _) _ rfl, countP_optional _ .pa_core_unref _ rfl,
    countP_optional _ .pa_cpu_limit_done _ rfl, countP_optional _ .pa_mainloop_free _ rfl,
    countP_optional _ .pa_pid_file_remove _ rfl, countP_optional _ .pa_ltdl_done _ rfl]
  split_ifs <;> rfl

/-- In a run that returns, the number of status writes is 1 for a process that
holds the write end and 0 for any other. -/
theorem writes_of_returned (w : World) (rv : Int) (h : (main w).exit = .returned rv) :
    status_writes (main w).trace = if holds_write_end w (main w).trace then 1 else 0 := by
  obtain ⟨s, hs, -, ht⟩ := main_of_body (body_handshake w) h
  have hs : Handshake w s := hs.elim id id
  have e1 : (finish s).trace.any Event.is_pipe = s.trace.any Event.is_pipe :=
    any_of_filter (finish_filter s _ (only_pipe.quiet (by decide)))
  have e2 : (finish s).trace.any Event.is_fork = s.trace.any Event.is_fork :=
    any_of_filter (finish_filter s _ (only_fork.quiet (by decide)))
  have e3 := finish_status_writes s
  rw [ht]
  unfold holds_write_end created_pipe is_parent
  rw [e1, e2, e3]
  unfold Handshake HandshakeObs at hs
  obtain ⟨ha, hb, -⟩ := hs
  generalize s.trace.any Event.is_pipe = P at *
  generalize s.trace.any Event.is_fork = F at *
  generalize status_writes s.trace = n at *
  cases hh : (P && decide (w.pipe ≥ 0) && !(F && decide (w.fork > 0)))
  · have := hb hh
    simp only [Bool.false_eq_true, if_false]
    split_ifs <;> omega
  · have := ha hh
    simp only [if_true]
    split_ifs <;> omega

/-- In a run that returns, the handshake pipe is only created when
`conf->daemonize` is set. -/
theorem pipe_needs_daemonize (w : World) (rv : Int) (hx : (main w).exit = .returned rv)
    (h : (main w).trace.any Event.is_pipe = true) : w.conf_cmdline.daemonize = true := by
  obtain ⟨s, hs, -, ht⟩ := main_of_body (body_handshake w) hx
  have hs : Handshake w s := hs.elim id id
  have e1 : (finish s).trace.any Event.is_pipe = s.trace.any Event.is_pipe :=
    any_of_filter (finish_filter s _ (only_pipe.quiet (by decide)))
  rw [ht, e1] at h
  exact hs.2.2 h

/-- C1. In every run of `main` that returns, a process that created the
handshake pipe and is not the waiting parent of the fork (the detached child,
or the original process when `fork` failed) writes exactly one status word to
the pipe, on the success path as on every `goto finish` path; the waiting
parent writes none, and a foreground run (`daemonize` off) writes none. -/
theorem handshake_written_exactly_once (w : World) (rv : Int)
    (h : (main w).exit = .returned rv) :
    (created_pipe w (main w).trace = true → is_parent w (main w).trace = false →
      status_writes (main w).trace = 1) ∧
    (is_parent w (main w).trace = true → status_writes (main w).trace = 0) ∧
    (w.conf_cmdline.daemonize = false → status_writes (main w).trace = 0) := by
  have hw := writes_of_returned w rv h
  refine ⟨?_, ?_, ?_⟩
  · intro h1 h2
    rw [hw, holds_write_end, h1, h2]
    rfl
  · intro h1
    rw [hw, holds_write_end, h1]
    simp
  · intro h1
    have hP : (main w).trace.any Event.is_pipe = false := by
      cases hp : (main w).trace.any Event.is_pipe
      · rfl
      · rw [pipe_needs_daemonize w rv h hp] at h1
        exact absurd h1 (by decide)
    rw [hw, holds_write_end, created_pipe, hP]
    rfl

/-- C1, witness: the detached child of a daemonized start in which every call
succeeds returns 0 and has written the status word once. -/
theorem handshake_written_exactly_once_witness :
    (main child_world).exit = .returned 0 ∧
    is_child child_world (main child_world).trace = true ∧
    created_pipe child_world (main child_world).trace = true ∧
    is_parent child_world (main child_world).trace = false ∧
    status_writes (main child_world).trace = 1 :=
  ⟨by rfl, by decide, by decide, by decide,
    (handshake_written_exactly_once child_world 0 (by rfl)).1 (by decide) (by decide)⟩

/-! ## C10: the order of the unwind -/

theorem only_unwind_step : Only [.handshake_success, .finish] Event.is_unwind_step := by
  intro e he
  cases e <;> first | (simp [Event.is_unwind_step] at he; done) |
    (intro b hb; simp_all [Event.blocks])

theorem onlySuccess_boring (f : Flow) (s : St)
    (hf : f.st.trace.filter Event.is_unwind_step = s.trace.filter Event.is_unwind_step) :
    OnlySuccessWritten s →
      f.sat OnlySuccessWritten OnlySuccessWritten (fun _ => True) := by
  intro hs
  have h : OnlySuccessWritten f.st := by
    unfold OnlySuccessWritten at hs ⊢
    rw [hf]
    exact hs
  exact Flow.sat_mono (Flow.sat_of_st h) (fun _ x => x) (fun _ x => x) (fun _ _ => trivial)

theorem handshake_success_onlySuccess (w : World) (s : St) (hs : OnlySuccessWritten s) :
    (handshake_success w s).sat OnlySuccessWritten OnlySuccessWritten (fun _ => True) := by
  unfold handshake_success
  split_ifs
  · unfold OnlySuccessWritten at hs ⊢
    simp only [Flow.sat, St.emit_trace, List.filter_append, List.all_append, hs]
    rfl
  · exact hs

theorem body_onlySuccess (w : World) :
    (body w).sat OnlySuccessWritten OnlySuccessWritten (fun _ => True) := by
  have h0 : OnlySuccessWritten (initial w) := rfl
  unfold body negotiation
  refine Flow.sat_andThen (M := OnlySuccessWritten)
    (Flow.sat_andThen (M := OnlySuccessWritten) ?_ ?_) ?_
  · refine prologue_sat w (B := OnlySuccessWritten) (C := OnlySuccessWritten)
      (D := OnlySuccessWritten) ?_ ?_ ?_ ?_
    · exact onlySuccess_boring _ _ (bind_now_filter w _ _ (only_unwind_step.quiet (by decide)))
        h0
    · exact fun s => onlySuccess_boring _ _
        (drop_privileges_filter w _ _ (only_unwind_step.quiet (by decide)))
    · exact fun s => onlySuccess_boring _ _
        (early_setup_filter w _ _ (only_unwind_step.quiet (by decide)))
    · exact fun s => onlySuccess_boring _ _
        (load_configuration_filter w _ _ (only_unwind_step.quiet (by decide)))
  · refine negotiate_sat w (B := OnlySuccessWritten) (C := OnlySuccessWritten) ?_ ?_ ?_
    · exact fun s => onlySuccess_boring _ _
        (scheduling_grant_filter w _ _ (only_unwind_step.quiet (by decide)))
    · exact fun s => onlySuccess_boring _ _
        (apply_rlimits_filter w _ _ (only_unwind_step.quiet (by decide)))
    · exact fun s => onlySuccess_boring _ _
        (drop_decision_filter w _ _ (only_unwind_step.quiet (by decide)))
  · refine startup_sat w (B := OnlySuccessWritten) (C := OnlySuccessWritten)
      (D := OnlySuccessWritten) (E := OnlySuccessWritten) (G := OnlySuccessWritten)
      (H := OnlySuccessWritten) (J := OnlySuccessWritten) (K := OnlySuccessWritten)
      (L := OnlySuccessWritten) (Q := OnlySuccessWritten) ?_ ?_ ?_ ?_ ?_ ?_ ?_ ?_ ?_ ?_ ?_
    · exact fun s => onlySuccess_boring _ _
        (ltdl_setup_filter w _ _ (only_unwind_step.quiet (by decide)))
    · exact fun s => onlySuccess_boring _ _
        (command_switch_filter w _ _ (only_unwind_step.quiet (by decide)))
    · exact fun s => onlySuccess_boring _ _ (root_check_filter w _ _)
    · exact fun s => onlySuccess_boring _ _
        (autospawn_lock_filter w _ _ (only_unwind_step.quiet (by decide)))
    · exact fun s => onlySuccess_boring _ _
        (daemonize_filter w _ _ (only_unwind_step.quiet (by decide))
          (only_unwind_step.quiet (by decide)) (only_unwind_step.quiet (by decide)))
    · exact fun s => onlySuccess_boring _ _
        (environment_setup_filter w _ _ (only_unwind_step.quiet (by decide)))
    · exact fun s => onlySuccess_boring _ _
        (pid_file_filter w _ _ (only_unwind_step.quiet (by decide)))
    · exact fun s => onlySuccess_boring _ _
        (create_core_filter w _ _ (only_unwind_step.quiet (by decide)))
    · exact fun s => onlySuccess_boring _ _
        (bootstrap_filter w _ _ (only_unwind_step.quiet (by decide)))
    · exact handshake_success_onlySuccess w
    · exact fun s => onlySuccess_boring _ _
        (run_mainloop_filter w _ _ (only_unwind_step.quiet (by decide)))

theorem filter_optional_false (c : Prop) [Decidable c] (x : Event) (p : Event → Bool)
    (hx : p x = false) : List.filter p (if c then [x] else []) = [] := by
  split_ifs <;> simp [hx]

theorem filter_optional_true (c : Prop) [Decidable c] (x : Event) (p : Event → Bool)
    (hx : p x = true) : List.filter p (if c then [x] else []) = if c then [x] else [] := by
  split_ifs <;> simp [hx]

theorem only_daemon_work :
    Only [.pid_file, .create_core, .run_mainloop] Event.is_daemon_work := by
  intro e he
  cases e <;> first | (simp [Event.is_daemon_work] at he; done) |
    (intro b hb; simp_all [Event.blocks])

theorem notForked_boring (w : World) (f : Flow) (s : St)
    (h1 : f.st.trace.filter Event.is_fork = s.trace.filter Event.is_fork)
    (h2 : f.st.trace.filter Event.is_daemon_work = s.trace.filter Event.is_daemon_work) :
    NotForked s → f.sat NotForked (ParentDone w) (ParentAborted w) := by
  intro hs
  have e1 := any_of_filter h1
  have e2 := any_of_filter h2
  have h : NotForked f.st := by
    unfold NotForked at hs ⊢
    rw [e1, e2]
    exact hs
  refine Flow.sat_mono (Flow.sat_of_st h) (fun _ x => x) ?_ ?_
  · intro s2 hs2 hp
    simp [is_parent, hs2.1] at hp
  · intro s2 hs2 hp
    simp [is_parent, hs2.1] at hp

theorem notParent_boring (w : World) (f : Flow) (s : St)
    (h1 : f.st.trace.filter Event.is_fork = s.trace.filter Event.is_fork) :
    NotParent w s → f.sat (NotParent w) (ParentDone w) (ParentAborted w) := by
  intro hs
  have e1 := any_of_filter h1
  have h : NotParent w f.st := by
    unfold NotParent is_parent at hs ⊢
    rw [e1]
    exact hs
  refine Flow.sat_mono (Flow.sat_of_st h) (fun _ x => x) ?_ ?_
  · intro s2 hs2 hp
    rw [hs2] at hp
    exact absurd hp (by decide)
  · intro s2 hs2 hp
    rw [hs2] at hp
    exact absurd hp (by decide)

theorem negotiation_notForked (w : World) :
    (negotiation w).sat NotForked (ParentDone w) (ParentAborted w) := by
  have h0 : NotForked (initial w) := by simp [NotForked, initial]
  unfold negotiation
  refine Flow.sat_andThen (M := NotForked) ?_ ?_
  · refine prologue_sat w (B := NotForked) (C := NotForked) (D := NotForked) ?_ ?_ ?_ ?_
    · exact notForked_boring w _ _ (bind_now_filter w _ _ (only_fork.quiet (by decide)))
        (bind_now_filter w _ _ (only_daemon_work.quiet (by decide))) h0
    · intro s
      exact notForked_boring w _ _ (drop_privileges_filter w _ _ (only_fork.quiet (by decide)))
        (drop_privileges_filter w _ _ (only_daemon_work.quiet (by decide)))
    · intro s
      exact notForked_boring w _ _ (early_setup_filter w _ _ (only_fork.quiet (by decide)))
        (early_setup_filter w _ _ (only_daemon_work.quiet (by decide)))
    · intro s
      exact notForked_boring w _ _
        (load_configuration_filter w _ _ (only_fork.quiet (by decide)))
        (load_configuration_filter w _ _ (only_daemon_work.quiet (by decide)))
  · refine negotiate_sat w (B := NotForked) (C := NotForked) ?_ ?_ ?_
    · intro s
      exact notForked_boring w _ _
        (scheduling_grant_filter w _ _ (only_fork.quiet (by decide)))
        (scheduling_grant_filter w _ _ (only_daemon_work.quiet (by decide)))
    · intro s
      exact notForked_boring w _ _ (apply_rlimits_filter w _ _ (only_fork.quiet (by decide)))
        (apply_rlimits_filter w _ _ (only_daemon_work.quiet (by decide)))
    · intro s
      exact notForked_boring w _ _ (drop_decision_filter w _ _ (only_fork.quiet (by decide)))
        (drop_decision_filter w _ _ (only_daemon_work.quiet (by decide)))

theorem daemonize_parent_done (w : World) (s : St) (hfork : 0 < w.fork) (pre : List Event)
    (ht : s.trace = pre ++ [.fork]) (hw : s.trace.any Event.is_daemon_work = false)
    (h0 : s.daemon_pipe_0 = w.pipe_read_fd) (h1 : s.daemon_pipe_1 = w.pipe_write_fd) :
    (daemonize_parent w s).sat (NotParent w) (ParentDone w) (ParentAborted w) := by
  unfold daemonize_parent
  simp only []
  split_ifs with h2 h3
  · intro _
    refine ⟨h2, ?_⟩
    simp only [St.emit_trace, List.any_append, hw]
    rfl
  · intro _
    refine ⟨by simpa using h2, ?_, ?_, pre, ?_⟩
    · simp [parent_retval, h3]
    · simp only [St.emit_trace, List.any_append, hw]
      rfl
    · simp [ht, h0, h1]
  · intro _
    refine ⟨by simpa using h2, ?_, ?_, pre, ?_⟩
    · simp only [parent_retval]
      rw [if_pos (by simpa using h3)]
    · simp only [St.emit_trace, List.any_append, hw]
      rfl
    · simp [ht, h0, h1]

theorem daemonize_parent_or_not (w : World) (s : St) (hs : NotForked s) :
    (daemonize w s).sat (NotParent w) (ParentDone w) (ParentAborted w) := by
  obtain ⟨hf, hw⟩ := hs
  have hnp : ∀ t : List Event, t.any Event.is_fork = false →
      is_parent w (s.trace ++ t) = false := by
    intro t ht
    simp only [is_parent, List.any_append, hf, ht]
    rfl
  unfold daemonize
  simp only []
  split_ifs with h1 h2 h3 h4 h5
  · intro hp
    rw [show (s.emit [Event.pa_stdio_acquire]).trace = s.trace ++ [.pa_stdio_acquire] from rfl,
      hnp [.pa_stdio_acquire] rfl] at hp
    exact absurd hp (by decide)
  · intro hp
    simp only [St.emit_trace, List.append_assoc, List.singleton_append] at hp
    rw [hnp [.pa_stdio_acquire, .pipe] rfl] at hp
    exact absurd hp (by decide)
  · intro hp
    have : ¬ (0 < w.fork) := by omega
    simp [is_parent, this] at hp
  · refine daemonize_parent_done w _ (by omega) (s.trace ++ [.pa_stdio_acquire, .pipe]) ?_ ?_
      rfl rfl
    · simp
    · simp only [St.emit_trace, List.any_append, hw]
      rfl
  · have hz : w.fork = 0 := by omega
    refine notParent_boring w _ _ (daemonize_child_filter w _ _ (only_fork.quiet (by decide))) ?_
    simp [NotParent, is_parent, hz]
  · show is_parent w s.trace = false
    simp [is_parent, hf]

theorem body_parent (w : World) :
    (body w).sat (NotParent w) (ParentDone w) (ParentAborted w) := by
  unfold body
  refine Flow.sat_andThen (negotiation_notForked w) ?_
  refine startup_sat w (B := NotForked) (C := NotForked) (D := NotForked)
    (E := NotForked) (G := NotParent w) (H := NotParent w) (J := NotParent w)
    (K := NotParent w) (L := NotParent w) (Q := NotParent w) ?_ ?_ ?_ ?_ ?_ ?_ ?_ ?_ ?_ ?_ ?_
  · intro s
    exact notForked_boring w _ _ (ltdl_setup_filter w _ _ (only_fork.quiet (by decide)))
      (ltdl_setup_filter w _ _ (only_daemon_work.quiet (by decide)))
  · intro s
    exact notForked_boring w _ _ (command_switch_filter w _ _ (only_fork.quiet (by decide)))
      (command_switch_filter w _ _ (only_daemon_work.quiet (by decide)))
  · intro s
    exact notForked_boring w _ _ (root_check_filter w _ _) (root_check_filter w _ _)
  · intro s
    exact notForked_boring w _ _ (autospawn_lock_filter w _ _ (only_fork.quiet (by decide)))
      (autospawn_lock_filter w _ _ (only_daemon_work.quiet (by decide)))
  · exact daemonize_parent_or_not w
  · intro s
    exact notParent_boring w _ _ (environment_setup_filter w _ _ (only_fork.quiet (by decide)))
  · intro s
    exact notParent_boring w _ _ (pid_file_filter w _ _ (only_fork.quiet (by decide)))
  · intro s
    exact notParent_boring w _ _ (create_core_filter w _ _ (only_fork.quiet (by decide)))
  · intro s
    exact notParent_boring w _ _ (bootstrap_filter w _ _ (only_fork.quiet (by decide)))
  · intro s
    exact notParent_boring w _ _ (handshake_success_filter w _ _ (only_fork.quiet (by decide)))
  · intro s
    exact notParent_boring w _ _ (run_mainloop_filter w _ _ (only_fork.quiet (by decide)))

/-- C2. The waiting parent of a successful `fork` closes the write end, reads
one status word and then only cleans up: it returns exactly when the close
succeeded (the close is asserted), its exit code is the word read when
`pa_loop_read` returned `sizeof(int)` and 1 on a short read, end of stream or
error, and it never creates the PID file, the event loop or the core and never
runs the event loop. -/
theorem parent_handshake (w : World) (hp : is_parent w (main w).trace = true) :
    (main w).trace.any Event.is_daemon_work = false ∧
    (∀ rv, (main w).exit = .returned rv → w.parent_close_write_end = 0) ∧
    (w.parent_close_write_end = 0 →
      (w.pa_loop_read = sizeof_retval → (main w).exit = .returned w.pa_loop_read_word) ∧
      (w.pa_loop_read ≠ sizeof_retval → (main w).exit = .returned 1) ∧
      ∃ pre post, (main w).trace =
          pre ++ [.fork, .pa_close w.pipe_write_fd, .pa_loop_read w.pipe_read_fd] ++ post ∧
        ∀ e ∈ post, Block.finish ∈ e.blocks) := by
  rcases main_cases w (body_parent w) with ⟨s, hs, hexit, ht⟩ | ⟨s, hs, hexit, ht⟩
  · have e1 : (finish s).trace.any Event.is_fork = s.trace.any Event.is_fork :=
      any_of_filter (finish_filter s _ (only_fork.quiet (by decide)))
    have e2 : (finish s).trace.any Event.is_daemon_work = s.trace.any Event.is_daemon_work :=
      any_of_filter (finish_filter s _ (only_daemon_work.quiet (by decide)))
    have hp2 : is_parent w s.trace = true := by
      rw [ht] at hp
      unfold is_parent at hp ⊢
      rw [← e1]
      exact hp
    have hd : ParentDone w s := by
      rcases hs with hs | hs
      · rw [hs] at hp2
        exact absurd hp2 (by decide)
      · exact hs
    obtain ⟨h1, h2, h3, pre, h4⟩ := hd hp2
    obtain ⟨post, h5, h6⟩ := finish_appended s
    refine ⟨by rw [ht, e2]; exact h3, fun _ _ => h1, fun _ => ⟨?_, ?_, pre, post, ?_, h6⟩⟩
    · intro hn
      rw [hexit, h2, parent_retval, if_pos hn]
    · intro hn
      rw [hexit, h2, parent_retval, if_neg hn]
    · rw [ht, h5, h4]
  · have hp2 : is_parent w s.trace = true := by
      rw [ht] at hp
      exact hp
    obtain ⟨h1, h2⟩ := hs hp2
    refine ⟨by rw [ht]; exact h2, ?_, fun h => absurd h h1⟩
    intro rv hrv
    rcases hexit with h | h <;> rw [h] at hrv <;> cases hrv

/-- C2, witness: the parent of a daemonized start that reads the full status
word 0 returns 0 and creates neither PID file, event loop nor core. -/
theorem parent_handshake_witness :
    is_parent parent_world (main parent_world).trace = true ∧
    (main parent_world).exit = .returned 0 ∧
    (main parent_world).trace.any Event.is_daemon_work = false :=
  ⟨by decide,
    ((parent_handshake parent_world (by decide)).2.2 (by decide)).1 (by decide),
    (parent_handshake parent_world (by decide)).1⟩

/-! ## C3: the singleton conflict -/

theorem only_pid_file_create : Only from_pid_file Event.is_pid_file_create := by
  intro e he
  cases e <;> first | (simp [Event.is_pid_file_create] at he; done) |
    (intro b hb; simp_all [Event.blocks, from_pid_file])

theorem only_core_or_loop : Only from_pid_file Event.is_core_or_loop := by
  intro e he
  cases e <;> first | (simp [Event.is_core_or_loop] at he; done) |
    (intro b hb; simp_all [Event.blocks, from_pid_file])

theorem only_pid_file_create1 : Only [.pid_file] Event.is_pid_file_create := by
  intro e he
  cases e <;> first | (simp [Event.is_pid_file_create] at he; done) |
    (intro b hb; simp_all [Event.blocks])

theorem silent_pidOk (w : World) {s : St} (h : Silent from_pid_file s) : PidOk w s := by
  intro hp
  rw [silent_any h only_pid_file_create] at hp
  exact absurd hp (by decide)

theorem pidOk_pidConflict (w : World) {s : St} (h : PidOk w s) : PidConflict w s :=
  fun hp => ⟨(h hp).1, fun hz => absurd (h hp).2 hz⟩

theorem pidOk_boring (w : World) (f : Flow) (s : St)
    (hf : f.st.trace.filter Event.is_pid_file_create =
      s.trace.filter Event.is_pid_file_create) :
    PidOk w s → f.sat (PidOk w) (PidConflict w) (PidOk w) := by
  intro hs
  have h : PidOk w f.st := by
    unfold PidOk at hs ⊢
    rw [any_of_filter hf]
    exact hs
  exact Flow.sat_mono (Flow.sat_of_st h) (fun _ x => x) (fun _ x => pidOk_pidConflict w x)
    (fun _ x => x)

theorem pid_file_conflict_sat (w : World) (s : St) (hs : Untouched w from_pid_file s) :
    (pid_file w s).sat (PidOk w) (PidConflict w) (PidOk w) := by
  obtain ⟨hr, hc, hsil⟩ := hs
  have h1 := silent_any hsil only_pid_file_create
  have h2 := silent_any hsil only_core_or_loop
  unfold pid_file
  simp only []
  split_ifs with hu hz hst
  · intro _
    refine ⟨hc ▸ hu, fun _ => ⟨?_, ?_⟩⟩
    · simp only [St.emit_trace, List.any_append, h2]
      rfl
    · rw [St.emit_conf, hc] at hst
      simp only [Bool.and_eq_true, decide_eq_true_eq] at hst
      simp [pid_conflict_retval, hst.1, hst.2]
  · intro _
    refine ⟨hc ▸ hu, fun _ => ⟨?_, ?_⟩⟩
    · simp only [St.emit_trace, List.any_append, h2]
      rfl
    · rw [St.emit_conf, hc] at hst
      simp only [Bool.and_eq_true, decide_eq_true_eq] at hst
      simp only [St.emit_retval, hr, pid_conflict_retval]
      rw [if_neg hst]
  · intro _
    exact ⟨hc ▸ hu, by simpa using hz⟩
  · intro hp
    rw [h1] at hp
    exact absurd hp (by decide)

theorem body_pid (w : World) : (body w).sat (PidOk w) (PidConflict w) (PidOk w) := by
  have hS : ∀ s, Silent from_pid_file s → PidConflict w s :=
    fun s h => pidOk_pidConflict w (silent_pidOk w h)
  have hA : ∀ s, Silent from_pid_file s → PidOk w s := fun s h => silent_pidOk w h
  unfold body
  refine Flow.sat_andThen (Flow.sat_mono (negotiation_untouched w from_pid_file (by decide)
    (by decide) (by decide) (by decide) (by decide) (by decide) (by decide))
    (fun _ x => x) hS hA) ?_
  refine startup_sat w (B := Untouched w from_pid_file) (C := Untouched w from_pid_file)
    (D := Untouched w from_pid_file) (E := Untouched w from_pid_file)
    (G := Untouched w from_pid_file) (H := Untouched w from_pid_file)
    (J := PidOk w) (K := PidOk w) (L := PidOk w) (Q := PidOk w)
    ?_ ?_ ?_ ?_ ?_ ?_ ?_ ?_ ?_ ?_ ?_
  · exact fun s h => Flow.sat_mono (ltdl_setup_untouched w _ (by decide) s h) (fun _ x => x) hS hA
  · exact fun s h => Flow.sat_mono (command_switch_untouched w _ (by decide) s h)
      (fun _ x => x) hS hA
  · exact fun s h => Flow.sat_mono (root_check_untouched w _ s h) (fun _ x => x) hS hA
  · exact fun s h => Flow.sat_mono (autospawn_lock_untouched w _ (by decide) s h)
      (fun _ x => x) hS hA
  · exact fun s h => Flow.sat_mono (daemonize_untouched w _ (by decide) (by decide)
      (by decide) s h) (fun _ x => x) hS hA
  · exact fun s h => Flow.sat_mono (environment_setup_untouched w _ (by decide) s h)
      (fun _ x => x) hS hA
  · exact pid_file_conflict_sat w
  · exact fun s => pidOk_boring w _ _
      (create_core_filter w _ _ (only_pid_file_create1.quiet (by decide)))
  · exact fun s => pidOk_boring w _ _
      (bootstrap_filter w _ _ (only_pid_file_create1.quiet (by decide)))
  · exact fun s => pidOk_boring w _ _
      (handshake_success_filter w _ _ (only_pid_file_create1.quiet (by decide)))
  · exact fun s => pidOk_boring w _ _
      (run_mainloop_filter w _ _ (only_pid_file_create1.quiet (by decide)))

/-- C3. Whenever `main` calls `pa_pid_file_create` (so `use_pid_file` is set):
if the call reports a live instance (result > 0), `main` returns 0 in
`PA_CMD_START` mode and 1 in any other mode (`PA_CMD_DAEMON`); if it fails
otherwise (result < 0), `main` returns 1 in both modes; and whenever the result
is not 0 neither the event loop nor the core is created. -/
theorem pid_file_conflict (w : World)
    (hr : (main w).trace.any Event.is_pid_file_create = true) :
    w.conf_cmdline.use_pid_file = true ∧
    (0 < w.pa_pid_file_create → w.conf_cmdline.cmd = .PA_CMD_START →
      (main w).exit = .returned 0) ∧
    (0 < w.pa_pid_file_create → w.conf_cmdline.cmd ≠ .PA_CMD_START →
      (main w).exit = .returned 1) ∧
    (w.pa_pid_file_create < 0 → (main w).exit = .returned 1) ∧
    (w.pa_pid_file_create ≠ 0 → (main w).trace.any Event.is_core_or_loop = false) := by
  rcases main_cases w (body_pid w) with ⟨s, hs, hexit, ht⟩ | ⟨s, hs, hexit, ht⟩
  · have e1 : (finish s).trace.any Event.is_pid_file_create =
        s.trace.any Event.is_pid_file_create :=
      any_of_filter (finish_filter s _ (only_pid_file_create1.quiet (by decide)))
    have e2 : (finish s).trace.any Event.is_core_or_loop = s.trace.any Event.is_core_or_loop :=
      any_of_filter (finish_filter s _ (fun e he => by
        cases e <;> first | rfl | simp [Event.blocks] at he))
    rw [ht, e1] at hr
    have hc : PidConflict w s := hs.elim (pidOk_pidConflict w) id
    obtain ⟨h1, h2⟩ := hc hr
    refine ⟨h1, ?_, ?_, ?_, ?_⟩
    · intro hz hst
      rw [hexit, (h2 (by omega)).2, pid_conflict_retval, if_pos ⟨hst, hz⟩]
    · intro hz hst
      rw [hexit, (h2 (by omega)).2, pid_conflict_retval, if_neg (fun h => hst h.1)]
    · intro hz
      rw [hexit, (h2 (by omega)).2, pid_conflict_retval, if_neg (fun h => by omega)]
    · intro hz
      rw [ht, e2]
      exact (h2 hz).1
  · rw [ht] at hr
    obtain ⟨h1, h2⟩ := hs hr
    exact ⟨h1, fun hz => by omega, fun hz => by omega, fun hz => by omega,
      fun hz => absurd h2 hz⟩

/-- C3, witness: with the PID file held by a live instance, `--start` returns
0 and a plain run returns 1, neither creating an event loop or a core. -/
theorem pid_file_conflict_witness :
    (main start_conflict_world).trace.any Event.is_pid_file_create = true ∧
    (main start_conflict_world).exit = .returned 0 ∧
    (main start_conflict_world).trace.any Event.is_core_or_loop = false ∧
    (main run_conflict_world).trace.any Event.is_pid_file_create = true ∧
    (main run_conflict_world).exit = .returned 1 ∧
    (main run_conflict_world).trace.any Event.is_core_or_loop = false :=
  ⟨by decide,
    (pid_file_conflict start_conflict_world (by decide)).2.1 (by decide) (by decide),
    (pid_file_conflict start_conflict_world (by decide)).2.2.2.2 (by decide),
    by decide,
    (pid_file_conflict run_conflict_world (by decide)).2.2.1 (by decide) (by decide),
    (pid_file_conflict run_conflict_world (by decide)).2.2.2.2 (by decide)⟩

/-! ## C4: zero modules is a start-up failure -/

theorem only_scripts_done : Only from_bootstrap Event.is_scripts_done := by
  intro e he
  cases e <;> first | (simp [Event.is_scripts_done] at he; done) |
    (intro b hb; simp_all [Event.blocks, from_bootstrap])

theorem only_scripts_done1 : Only [.bootstrap] Event.is_scripts_done := by
  intro e he
  cases e <;> first | (simp [Event.is_scripts_done] at he; done) |
    (intro b hb; simp_all [Event.blocks])

theorem only_mainloop_run : Only from_bootstrap Event.is_mainloop_run := by
  intro e he
  cases e <;> first | (simp [Event.is_mainloop_run] at he; done) |
    (intro b hb; simp_all [Event.blocks, from_bootstrap])

theorem only_mainloop_run1 : Only [.run_mainloop] Event.is_mainloop_run := by
  intro e he
  cases e <;> first | (simp [Event.is_mainloop_run] at he; done) |
    (intro b hb; simp_all [Event.blocks])

theorem only_status_write4 : Only from_bootstrap Event.is_status_write :=
  only_status_write.mono (by decide)

theorem silent_loadedOrEarly (w : World) {s : St} (h : Silent from_bootstrap s) :
    LoadedOrEarly w s :=
  Or.inr (silent_any h only_scripts_done)

theorem loadedOrEarly_zeroModules (w : World) {s : St} (h : LoadedOrEarly w s) :
    ZeroModules w s := by
  intro h1 h2
  rcases h with h | h
  · rw [h] at h2
    exact absurd h2 (by decide)
  · rw [h] at h1
    exact absurd h1 (by decide)

theorem bootstrap_next (w : World) (s : St) :
    (bootstrap w s).sat (fun _ => no_modules w = false) (fun _ => True) (fun _ => True) := by
  unfold bootstrap check_modules
  simp only []
  split_ifs <;> simp_all [Flow.sat]

theorem bootstrap_zero_modules (w : World) (s : St) (hs : Untouched w from_bootstrap s) :
    (bootstrap w s).sat (fun _ => no_modules w = false) (ZeroModules w)
      (fun _ => no_modules w = false) := by
  obtain ⟨hr, -, hsil⟩ := hs
  have h1 := silent_any hsil only_mainloop_run
  have h2 := silent_countP hsil only_status_write4
  have e1 := any_of_filter (bootstrap_filter w s _ (only_mainloop_run1.quiet (by decide)))
  have e2 := countP_of_filter (bootstrap_filter w s _ (only_status_write.quiet (by decide)))
  have e3 := bootstrap_retval w s
  have hn := bootstrap_next w s
  have hna : (bootstrap w s).sat (fun _ => True) (fun _ => True) (fun _ => False) := by
    unfold bootstrap check_modules
    simp only []
    split_ifs <;> simp [Flow.sat]
  refine Flow.sat_intro ?_ ?_ ?_
  · intro s2 h
    rw [h] at hn
    exact hn
  · intro s2 h
    rw [h] at e1 e2 e3
    intro _ _
    exact ⟨e3.trans hr, e1.trans h1, e2.trans h2⟩
  · intro s2 h
    rcases h with h | h <;> rw [h] at hna <;> exact hna.elim

theorem body_modules (w : World) :
    (body w).sat (fun _ => no_modules w = false) (ZeroModules w) (LoadedOrEarly w) := by
  have hS : ∀ s, Silent from_bootstrap s → ZeroModules w s :=
    fun s h => loadedOrEarly_zeroModules w (silent_loadedOrEarly w h)
  have hA : ∀ s, Silent from_bootstrap s → LoadedOrEarly w s :=
    fun s h => silent_loadedOrEarly w h
  have hL : ∀ f : Flow, no_modules w = false →
      f.sat (fun _ => no_modules w = false) (ZeroModules w) (LoadedOrEarly w) :=
    fun f h => Flow.sat_mono (Flow.sat_of_st (P := fun _ => no_modules w = false) h)
      (fun _ x => x) (fun _ x => loadedOrEarly_zeroModules w (Or.inl x)) (fun _ x => Or.inl x)
  unfold body
  refine Flow.sat_andThen (Flow.sat_mono (negotiation_untouched w from_bootstrap (by decide)
    (by decide) (by decide) (by decide) (by decide) (by decide) (by decide))
    (fun _ x => x) hS hA) ?_
  refine startup_sat w (B := Untouched w from_bootstrap) (C := Untouched w from_bootstrap)
    (D := Untouched w from_bootstrap) (E := Untouched w from_bootstrap)
    (G := Untouched w from_bootstrap) (H := Untouched w from_bootstrap)
    (J := Untouched w from_bootstrap) (K := Untouched w from_bootstrap)
    (L := fun _ => no_modules w = false) (Q := fun _ => no_modules w = false)
    ?_ ?_ ?_ ?_ ?_ ?_ ?_ ?_ ?_ ?_ ?_
  · exact fun s h => Flow.sat_mono (ltdl_setup_untouched w _ (by decide) s h) (fun _ x => x) hS hA
  · exact fun s h => Flow.sat_mono (command_switch_untouched w _ (by decide) s h)
      (fun _ x => x) hS hA
  · exact fun s h => Flow.sat_mono (root_check_untouched w _ s h) (fun _ x => x) hS hA
  · exact fun s h => Flow.sat_mono (autospawn_lock_untouched w _ (by decide) s h)
      (fun _ x => x) hS hA
  · exact fun s h => Flow.sat_mono (daemonize_untouched w _ (by decide) (by decide)
      (by decide) s h) (fun _ x => x) hS hA
  · exact fun s h => Flow.sat_mono (environment_setup_untouched w _ (by decide) s h)
      (fun _ x => x) hS hA
  · exact fun s h => Flow.sat_mono (pid_file_untouched w _ (by decide) s h) (fun _ x => x) hS hA
  · exact fun s h => Flow.sat_mono (create_core_untouched w _ (by decide) s h)
      (fun _ x => x) hS hA
  · exact fun s h => Flow.sat_mono (bootstrap_zero_modules w s h) (fun _ x => x)
      (fun _ x => x) (fun _ x => Or.inl x)
  · exact fun s h => hL _ h
  · exact fun s h => hL _ h

theorem any_optional (c : Prop) [Decidable c] (x : Event) (p : Event → Bool)
    (hx : p x = false) : List.any (if c then [x] else []) p = false := by
  split_ifs <;> simp [hx]

/-- No success word is among the status writes of `finish` when `retval` is
not 0. -/
theorem finish_success_write (s : St) (h0 : s.retval ≠ 0)
    (h : s.trace.any Event.is_success_write = false) :
    (finish s).trace.any Event.is_success_write = false := by
  have hw : Event.is_success_write (.pa_loop_write s.daemon_pipe_1 s.retval) = false := by
    simp [Event.is_success_write, h0]
  rw [finish_trace]
  simp only [List.any_append, h,
    any_optional _ (.pa_unlock_lockfile _) Event.is_success_write rfl,
    any_optional _ .pa_core_unref Event.is_success_write rfl,
    any_optional _ .pa_cpu_limit_done Event.is_success_write rfl,
    any_optional _ .pa_mainloop_free Event.is_success_write rfl,
    any_optional _ .pa_pid_file_remove Event.is_success_write rfl,
    any_optional _ .pa_ltdl_done Event.is_success_write rfl,
    any_optional _ _ Event.is_success_write hw]
  rfl

theorem success_write_of_status_writes (t : List Event) (h : status_writes t = 0) :
    t.any Event.is_success_write = false := by
  unfold status_writes at h
  rw [List.countP_eq_zero] at h
  rw [List.any_eq_false]
  intro e he
  have := h e he
  cases e <;> first | (simp [Event.is_success_write]; done) |
    (simp [Event.is_status_write] at this)

/-- C4. If the start-up scripts have run and the core then has no module set
or an empty one, `main` does not run the event loop and returns 1; no success
word is ever written to the handshake pipe, and a process that holds the write
end (the daemonized child) writes exactly one status word, so that word is the
failure code. -/
theorem zero_modules_is_failure (w : World)
    (hr : (main w).trace.any Event.is_scripts_done = true) (hz : no_modules w = true) :
    (main w).trace.any Event.is_mainloop_run = false ∧
    (main w).exit = .returned 1 ∧
    (main w).trace.any Event.is_success_write = false ∧
    (holds_write_end w (main w).trace = true → status_writes (main w).trace = 1) := by
  rcases main_cases w (body_modules w) with ⟨s, hs, hexit, ht⟩ | ⟨s, hs, hexit, ht⟩
  · have e1 : (finish s).trace.any Event.is_scripts_done = s.trace.any Event.is_scripts_done :=
      any_of_filter (finish_filter s _ (only_scripts_done1.quiet (by decide)))
    have e2 : (finish s).trace.any Event.is_mainloop_run = s.trace.any Event.is_mainloop_run :=
      any_of_filter (finish_filter s _ (only_mainloop_run1.quiet (by decide)))
    rw [ht, e1] at hr
    have hzm : ZeroModules w s := by
      rcases hs with hs | hs
      · rw [hs] at hz
        exact absurd hz (by decide)
      · exact hs
    obtain ⟨h1, h2, h3⟩ := hzm hr hz
    have hx : (main w).exit = .returned 1 := by rw [hexit, h1]
    refine ⟨by rw [ht, e2]; exact h2, hx, ?_, ?_⟩
    · rw [ht]
      exact finish_success_write s (by rw [h1]; decide) (success_write_of_status_writes _ h3)
    · intro hh
      rw [writes_of_returned w 1 hx, hh]
      rfl
  · rw [ht] at hr
    rcases hs with hs | hs
    · rw [hs] at hz
      exact absurd hz (by decide)
    · rw [hs] at hr
      exact absurd hr (by decide)

/-- C4, witness: the daemonized child whose scripts load no module returns 1,
never runs the event loop and writes the failure code once. -/
theorem zero_modules_is_failure_witness :
    (main no_module_world).trace.any Event.is_scripts_done = true ∧
    no_modules no_module_world = true ∧
    (main no_module_world).exit = .returned 1 ∧
    (main no_module_world).trace.any Event.is_mainloop_run = false ∧
    status_writes (main no_module_world).trace = 1 :=
  ⟨by decide, by decide,
    (zero_modules_is_failure no_module_world (by decide) (by decide)).2.1,
    (zero_modules_is_failure no_module_world (by decide) (by decide)).1,
    (zero_modules_is_failure no_module_world (by decide) (by decide)).2.2.2 (by decide)⟩

/-! ## C6: credential classification and the initial drop -/

theorem only_caps_call :
    Only [.drop_privileges, .scheduling_grant, .drop_decision] Event.is_caps_call := by
  intro e he
  cases e <;> first | (simp [Event.is_caps_call] at he; done) |
    (intro b hb; simp_all [Event.blocks])

theorem only_limit_or_drop_root : Only [.drop_privileges] Event.is_limit_or_drop_root := by
  intro e he
  cases e <;> first | (simp [Event.is_limit_or_drop_root] at he; done) |
    (intro b hb; simp_all [Event.blocks])

theorem rootUntouched_boring (f : Flow) (s : St) (hr : f.st.real_root = s.real_root)
    (hf : f.st.trace.filter Event.is_caps_call = s.trace.filter Event.is_caps_call) :
    RootUntouched s → f.sat RootUntouched RootUntouched RootUntouched := by
  intro hs
  refine Flow.sat_of_st ?_
  unfold RootUntouched at hs ⊢
  rw [hr, any_of_filter hf]
  exact hs

theorem scheduling_grant_root (w : World) (s : St) (h : s.real_root = true) :
    scheduling_grant w s = .next s := by
  unfold scheduling_grant
  simp [h]

theorem drop_decision_root (w : World) (s : St) (h : s.real_root = true) :
    drop_decision w s = .next s := by
  unfold drop_decision
  simp [h]

theorem body_root (w : World) (hroot : real_root w = true) :
    (body w).sat RootUntouched RootUntouched
      (fun s => s.trace.any Event.is_caps_call = false) := by
  have hA : ∀ s, RootUntouched s → s.trace.any Event.is_caps_call = false := fun _ h => h.2
  have hB : ∀ (f : Flow) (s : St), f.st.real_root = s.real_root →
      f.st.trace.filter Event.is_caps_call = s.trace.filter Event.is_caps_call →
      RootUntouched s → f.sat RootUntouched RootUntouched
        (fun s => s.trace.any Event.is_caps_call = false) :=
    fun f s h1 h2 h3 => Flow.sat_mono (rootUntouched_boring f s h1 h2 h3) (fun _ x => x)
      (fun _ x => x) hA
  have h0 : (initial w).trace.any Event.is_caps_call = false := rfl
  unfold body negotiation
  refine Flow.sat_andThen (M := RootUntouched) (Flow.sat_andThen (M := RootUntouched) ?_ ?_) ?_
  · refine prologue_sat w (B := fun s => s.trace.any Event.is_caps_call = false)
      (C := RootUntouched) (D := RootUntouched) ?_ ?_ ?_ ?_
    · have e := any_of_filter (bind_now_filter w (initial w) _ (only_caps_call.quiet (by decide)))
      have h1 : (bind_now w (initial w)).sat (fun _ => True) (fun _ => False)
          (fun _ => True) := by
        unfold bind_now
        simp only []
        split_ifs <;> simp [Flow.sat]
      refine Flow.sat_intro ?_ ?_ ?_
      · intro s h
        rw [h] at e
        exact e.trans h0
      · intro s h
        rw [h] at h1
        exact h1.elim
      · intro s h
        rcases h with h | h <;> rw [h] at e <;> exact e.trans h0
    · intro s hs
      unfold drop_privileges
      simp only [hroot]
      simp [Flow.sat, RootUntouched, List.any_append, hs, Event.is_caps_call]
    · exact fun s => hB _ _ (early_setup_real_root w _)
        (early_setup_filter w _ _ (only_caps_call.quiet (by decide)))
    · exact fun s => hB _ _ (load_configuration_real_root w _)
        (load_configuration_filter w _ _ (only_caps_call.quiet (by decide)))
  · refine negotiate_sat w (B := RootUntouched) (C := RootUntouched) ?_ ?_ ?_
    · intro s hs
      rw [scheduling_grant_root w s hs.1]
      exact hs
    · exact fun s => hB _ _ (apply_rlimits_real_root w _)
        (apply_rlimits_filter w _ _ (only_caps_call.quiet (by decide)))
    · intro s hs
      rw [drop_decision_root w s hs.1]
      exact hs
  · refine startup_sat w (B := RootUntouched) (C := RootUntouched) (D := RootUntouched)
      (E := RootUntouched) (G := RootUntouched) (H := RootUntouched) (J := RootUntouched)
      (K := RootUntouched) (L := RootUntouched) (Q := RootUntouched)
      ?_ ?_ ?_ ?_ ?_ ?_ ?_ ?_ ?_ ?_ ?_
    · exact fun s => hB _ _ (ltdl_setup_real_root w _)
        (ltdl_setup_filter w _ _ (only_caps_call.quiet (by decide)))
    · exact fun s => hB _ _ (command_switch_real_root w _)
        (command_switch_filter w _ _ (only_caps_call.quiet (by decide)))
    · exact fun s => hB _ _ (root_check_real_root w _) (root_check_filter w _ _)
    · exact fun s => hB _ _ (autospawn_lock_real_root w _)
        (autospawn_lock_filter w _ _ (only_caps_call.quiet (by decide)))
    · exact fun s => hB _ _ (daemonize_real_root w _)
        (daemonize_filter w _ _ (only_caps_call.quiet (by decide))
          (only_caps_call.quiet (by decide)) (only_caps_call.quiet (by decide)))
    · exact fun s => hB _ _ (environment_setup_real_root w _)
        (environment_setup_filter w _ _ (only_caps_call.quiet (by decide)))
    · exact fun s => hB _ _ (pid_file_real_root w _)
        (pid_file_filter w _ _ (only_caps_call.quiet (by decide)))
    · exact fun s => hB _ _ (create_core_real_root w _)
        (create_core_filter w _ _ (only_caps_call.quiet (by decide)))
    · exact fun s => hB _ _ (bootstrap_real_root w _)
        (bootstrap_filter w _ _ (only_caps_call.quiet (by decide)))
    · exact fun s => hB _ _ (handshake_success_real_root w _)
        (handshake_success_filter w _ _ (only_caps_call.quiet (by decide)))
    · exact fun s => hB _ _ (run_mainloop_real_root w _)
        (run_mainloop_filter w _ _ (only_caps_call.quiet (by decide)))

theorem extends_boring (t0 : List Event) (p : Event → Bool) (f : Flow) (s : St)
    (hpre : t0 <+: s.trace → t0 <+: f.st.trace)
    (hf : f.st.trace.filter p = s.trace.filter p) :
    Extends t0 p s → f.sat (Extends t0 p) (Extends t0 p) (Extends t0 p) :=
  fun hs => Flow.sat_of_st ⟨hpre hs.1, hf.trans hs.2⟩

theorem extends_rest {t0 : List Event} {p : Event → Bool} {t : List Event}
    (h1 : t0 <+: t) (h2 : t.filter p = t0.filter p) :
    ∃ rest, t = t0 ++ rest ∧ rest.any p = false := by
  obtain ⟨rest, rfl⟩ := h1
  refine ⟨rest, rfl, ?_⟩
  rw [List.filter_append] at h2
  have h3 : rest.filter p = [] := by
    have := congrArg List.length h2
    simp only [List.length_append] at this
    exact List.length_eq_zero.1 (by omega)
  have := any_of_filter (t := []) (u := rest) (p := p) (by rw [h3]; rfl)
  simpa using this

theorem initial_drop_state (w : World) (hnr : real_root w = false)
    (hb : w.optimized_linux_build = true → w.env_LD_BIND_NOW = true) :
    ∃ s2, (bind_now w (initial w)).andThen (drop_privileges w) = .next s2 ∧
      s2.trace = initial_drop w := by
  unfold bind_now drop_privileges initial_drop
  cases ho : w.optimized_linux_build
  · simp [Flow.andThen, hnr, St.emit, initial]
  · simp [Flow.andThen, hnr, St.emit, initial, hb ho]

theorem body_extends (w : World) (hnr : real_root w = false)
    (hb : w.optimized_linux_build = true → w.env_LD_BIND_NOW = true) :
    (body w).sat (Extends (initial_drop w) Event.is_limit_or_drop_root)
      (Extends (initial_drop w) Event.is_limit_or_drop_root)
      (Extends (initial_drop w) Event.is_limit_or_drop_root) := by
  obtain ⟨s2, h2, ht⟩ := initial_drop_state w hnr hb
  have hB : ∀ (f : Flow) (s : St),
      (initial_drop w <+: s.trace → initial_drop w <+: f.st.trace) →
      f.st.trace.filter Event.is_limit_or_drop_root =
        s.trace.filter Event.is_limit_or_drop_root →
      Extends (initial_drop w) Event.is_limit_or_drop_root s →
      f.sat (Extends (initial_drop w) Event.is_limit_or_drop_root)
        (Extends (initial_drop w) Event.is_limit_or_drop_root)
        (Extends (initial_drop w) Event.is_limit_or_drop_root) :=
    fun f s => extends_boring _ _ f s
  have h0 : Extends (initial_drop w) Event.is_limit_or_drop_root s2 := by
    unfold Extends
    rw [ht]
    exact ⟨List.prefix_refl _, rfl⟩
  unfold body negotiation prologue
  rw [h2, Flow.next_andThen]
  refine Flow.sat_andThen (M := Extends (initial_drop w) Event.is_limit_or_drop_root)
    (Flow.sat_andThen (M := Extends (initial_drop w) Event.is_limit_or_drop_root)
      (Flow.sat_andThen (M := Extends (initial_drop w) Event.is_limit_or_drop_root)
        ?_ ?_) ?_) ?_
  · exact hB _ _ (early_setup_grows w _)
      (early_setup_filter w _ _ (only_limit_or_drop_root.quiet (by decide))) h0
  · exact fun s => hB _ _ (load_configuration_grows w _)
      (load_configuration_filter w _ _ (only_limit_or_drop_root.quiet (by decide)))
  · refine negotiate_sat w (B := Extends (initial_drop w) Event.is_limit_or_drop_root)
      (C := Extends (initial_drop w) Event.is_limit_or_drop_root) ?_ ?_ ?_
    · exact fun s => hB _ _ (scheduling_grant_grows w _)
        (scheduling_grant_filter w _ _ (only_limit_or_drop_root.quiet (by decide)))
    · exact fun s => hB _ _ (apply_rlimits_grows w _)
        (apply_rlimits_filter w _ _ (only_limit_or_drop_root.quiet (by decide)))
    · exact fun s => hB _ _ (drop_decision_grows w _)
        (drop_decision_filter w _ _ (only_limit_or_drop_root.quiet (by decide)))
  · refine startup_sat w (B := Extends (initial_drop w) Event.is_limit_or_drop_root)
      (C := Extends (initial_drop w) Event.is_limit_or_drop_root)
      (D := Extends (initial_drop w) Event.is_limit_or_drop_root)
      (E := Extends (initial_drop w) Event.is_limit_or_drop_root)
      (G := Extends (initial_drop w) Event.is_limit_or_drop_root)
      (H := Extends (initial_drop w) Event.is_limit_or_drop_root)
      (J := Extends (initial_drop w) Event.is_limit_or_drop_root)
      (K := Extends (initial_drop w) Event.is_limit_or_drop_root)
      (L := Extends (initial_drop w) Event.is_limit_or_drop_root)
      (Q := Extends (initial_drop w) Event.is_limit_or_drop_root)
      ?_ ?_ ?_ ?_ ?_ ?_ ?_ ?_ ?_ ?_ ?_
    · exact fun s => hB _ _ (ltdl_setup_grows w _)
        (ltdl_setup_filter w _ _ (only_limit_or_drop_root.quiet (by decide)))
    · exact fun s => hB _ _ (command_switch_grows w _)
        (command_switch_filter w _ _ (only_limit_or_drop_root.quiet (by decide)))
    · exact fun s => hB _ _ (root_check_grows w _) (root_check_filter w _ _)
    · exact fun s => hB _ _ (autospawn_lock_grows w _)
        (autospawn_lock_filter w _ _ (only_limit_or_drop_root.quiet (by decide)))
    · exact fun s => hB _ _ (daemonize_grows w _)
        (daemonize_filter w _ _ (only_limit_or_drop_root.quiet (by decide))
          (only_limit_or_drop_root.quiet (by decide))
          (only_limit_or_drop_root.quiet (by decide)))
    · exact fun s => hB _ _ (environment_setup_grows w _)
        (environment_setup_filter w _ _ (only_limit_or_drop_root.quiet (by decide)))
    · exact fun s => hB _ _ (pid_file_grows w _)
        (pid_file_filter w _ _ (only_limit_or_drop_root.quiet (by decide)))
    · exact fun s => hB _ _ (create_core_grows w _)
        (create_core_filter w _ _ (only_limit_or_drop_root.quiet (by decide)))
    · exact fun s => hB _ _ (bootstrap_grows w _)
        (bootstrap_filter w _ _ (only_limit_or_drop_root.quiet (by decide)))
    · exact fun s => hB _ _ (handshake_success_grows w _)
        (handshake_success_filter w _ _ (only_limit_or_drop_root.quiet (by decide)))
    · exact fun s => hB _ _ (run_mainloop_grows w _)
        (run_mainloop_filter w _ _ (only_limit_or_drop_root.quiet (by decide)))

/-- C6, as amended. `real_root` holds iff the real UID is 0 and `suid_root` iff
the real UID is not 0 and the effective UID is 0, so never both. A real-root
process never calls `pa_limit_caps`, `pa_drop_root` or `pa_drop_caps`. A
process that is not real root (and was not re-executed by the `LD_BIND_NOW`
block) calls `getuid`, `geteuid`, `pa_limit_caps`, `pa_drop_root`,
`pa_limit_caps` in this order and never again `pa_limit_caps` or
`pa_drop_root`; the only call before them is the `getenv("LD_BIND_NOW")` of an
optimised Linux build, every other read of the environment, the configuration
or the command line comes later. -/
theorem credential_drop (w : World) :
    (real_root w = true ↔ w.getuid = 0) ∧
    (suid_root w = true ↔ w.getuid ≠ 0 ∧ w.geteuid = 0) ∧
    ¬ (real_root w = true ∧ suid_root w = true) ∧
    (real_root w = true → (main w).trace.any Event.is_caps_call = false) ∧
    (real_root w = false →
      (w.optimized_linux_build = true → w.env_LD_BIND_NOW = true) →
      ∃ rest, (main w).trace =
          (if w.optimized_linux_build then [.getenv .LD_BIND_NOW] else []) ++
          [.getuid, .geteuid, .pa_limit_caps, .pa_drop_root, .pa_limit_caps] ++ rest ∧
        rest.any Event.is_limit_or_drop_root = false) := by
  refine ⟨by simp [real_root], by simp [suid_root, real_root],
    fun h => by simp [suid_root, h.1] at h, ?_, ?_⟩
  · intro hroot
    rcases main_cases w (body_root w hroot) with ⟨s, hs, -, ht⟩ | ⟨s, hs, -, ht⟩
    · have hs : RootUntouched s := hs.elim id id
      rw [ht, any_of_filter (finish_filter s _ (only_caps_call.quiet (by decide)))]
      exact hs.2
    · rw [ht]
      exact hs
  · intro hnr hb
    have key : Extends (initial_drop w) Event.is_limit_or_drop_root
        { (initial w) with trace := (main w).trace } := by
      rcases main_cases w (body_extends w hnr hb) with ⟨s, hs, -, ht⟩ | ⟨s, hs, -, ht⟩
      · have hs := hs.elim id id
        unfold Extends
        rw [ht]
        exact ⟨finish_grows s hs.1, (finish_filter s _
          (only_limit_or_drop_root.quiet (by decide))).trans hs.2⟩
      · unfold Extends
        rw [ht]
        exact hs
    exact extends_rest key.1 key.2

/-- C6, witness: an unprivileged start of a debug build makes the five calls
first; a real-root start makes no call that changes privileges. -/
theorem credential_drop_witness :
    real_root plain_world = false ∧
    (∃ rest, (main plain_world).trace =
        (if plain_world.optimized_linux_build then [.getenv .LD_BIND_NOW] else []) ++
        [.getuid, .geteuid, .pa_limit_caps, .pa_drop_root, .pa_limit_caps] ++ rest ∧
      rest.any Event.is_limit_or_drop_root = false) ∧
    real_root root_world = true ∧
    (main root_world).trace.any Event.is_caps_call = false :=
  ⟨by decide, (credential_drop plain_world).2.2.2.2 (by decide) (by decide), by decide,
    (credential_drop root_world).2.2.2.1 (by decide)⟩

/-- C6, counterexample to "before any environment variable is read": in an
optimised Linux build, a process that is not real root reads `LD_BIND_NOW`
before its first `pa_limit_caps`. -/
theorem credential_drop_counterexample :
    real_root optimized_world = false ∧
    (main optimized_world).trace.take 4 =
      [.getenv .LD_BIND_NOW, .getuid, .geteuid, .pa_limit_caps] ∧
    drop_precedes_input (main optimized_world).trace = false :=
  ⟨by decide, by rfl, by decide⟩

/-! ## C5: the capabilities held after the negotiation -/

theorem capabilities_after_filter (t : List Event) (c : CapabilitySet) :
    capabilities_after t c = capabilities_after (t.filter Event.is_caps_call) c := by
  induction t generalizing c with
  | nil => rfl
  | cons e t ih =>
    cases e <;>
      first
      | (simp only [List.filter_cons, Event.is_caps_call.eq_1, Event.is_caps_call.eq_2,
          Event.is_caps_call.eq_3, if_true]
         exact ih _)
      | (simp only [List.filter_cons, Event.is_caps_call, Bool.false_eq_true, if_false]
         exact ih _)

theorem scheduling_grant_caps (w : World) (s : St) :
    ∃ s2, scheduling_grant w s = .next s2 ∧
      s2.trace.filter Event.is_caps_call = s.trace.filter Event.is_caps_call ++
        (if !s.real_root && w.pa_have_caps_grant && !allow_high_priority w s.conf &&
            !allow_realtime w s.conf then [.pa_drop_caps] else []) := by
  cases hr : s.real_root <;> cases hg : w.pa_have_caps_grant <;>
    simp only [scheduling_grant, hr, hg, Bool.not_true, Bool.not_false, if_true, if_false,
      Bool.false_eq_true, Bool.true_and, Bool.false_and, Bool.and_false] <;>
    refine ⟨_, rfl, ?_⟩ <;>
    simp only [St.emit_trace, St.emit_conf, List.filter_append,
      filter_optional_false _ _ Event.is_caps_call (rfl : Event.is_caps_call
        .pa_own_uid_in_group = false),
      filter_optional_false _ _ Event.is_caps_call (rfl : Event.is_caps_call
        (.pa_polkit_check .acquire_high_priority) = false),
      filter_optional_false _ _ Event.is_caps_call (rfl : Event.is_caps_call
        (.pa_polkit_check .acquire_real_time) = false),
      filter_optional_true _ _ Event.is_caps_call (rfl : Event.is_caps_call
        .pa_drop_caps = true), List.append_nil, List.nil_append, List.filter_cons,
      List.filter_nil, Event.is_caps_call, Bool.false_eq_true, if_false]

theorem acquire_rtprio_caps (w : World) (conf : pa_daemon_conf) :
    (acquire_rtprio w conf).filter Event.is_caps_call = [] := by
  unfold acquire_rtprio
  split_ifs <;> rfl

theorem drop_decision_caps (w : World) (s : St) :
    ∃ s2, drop_decision w s = .next s2 ∧
      s2.trace.filter Event.is_caps_call = s.trace.filter Event.is_caps_call ++
        (if !s.real_root && w.pa_have_caps_decision && drop w s.conf
          then [.pa_drop_caps] else []) := by
  cases hr : s.real_root <;> cases hg : w.pa_have_caps_decision <;>
    cases hd : drop w s.conf <;>
    simp only [drop_decision, hr, hg, hd, St.emit_conf, Bool.not_true, Bool.not_false,
      if_true, if_false, Bool.false_eq_true, Bool.true_and, Bool.false_and,
      Bool.and_false] <;>
    refine ⟨_, rfl, ?_⟩ <;>
    simp only [St.emit_trace, St.emit_conf, List.filter_append, acquire_rtprio_caps,
      List.append_nil, List.nil_append, List.filter_cons,
      List.filter_nil, Event.is_caps_call, Bool.false_eq_true, if_false, if_true]

theorem negotiation_caps_calls (w : World) (hnr : real_root w = false) :
    (negotiation w).sat
      (fun s => s.trace.filter Event.is_caps_call = negotiated_caps_calls w)
      (fun _ => True) (fun _ => True) := by
  have hT : ∀ {f : Flow} {P : St → Prop}, f.sat P P P → f.sat P (fun _ => True)
      (fun _ => True) := fun h => Flow.sat_mono h (fun _ x => x) (fun _ _ => trivial)
        (fun _ _ => trivial)
  unfold negotiation
  refine Flow.sat_andThen (M := fun s => s.real_root = false ∧ s.conf = w.conf_cmdline ∧
    s.trace.filter Event.is_caps_call = [.pa_limit_caps, .pa_drop_root, .pa_limit_caps])
    ?_ ?_
  · refine prologue_sat w (B := fun s => s.trace.filter Event.is_caps_call = [])
      (C := fun s => s.real_root = false ∧
        s.trace.filter Event.is_caps_call = [.pa_limit_caps, .pa_drop_root, .pa_limit_caps])
      (D := fun s => s.real_root = false ∧
        s.trace.filter Event.is_caps_call = [.pa_limit_caps, .pa_drop_root, .pa_limit_caps])
      ?_ ?_ ?_ ?_
    · exact hT (Flow.sat_of_st (P := fun s => s.trace.filter Event.is_caps_call = [])
        (bind_now_filter w (initial w) _ (only_caps_call.quiet (by decide))))
    · intro s hs
      unfold drop_privileges
      simp only [hnr, Bool.not_false, if_true, Bool.false_eq_true, if_false]
      simp only [Flow.sat, St.emit, List.filter_append, hs, List.filter_cons,
        Event.is_caps_call, Bool.false_eq_true, if_false, if_true, List.filter_nil,
        List.nil_append, and_self]
    · intro s hs
      refine hT (Flow.sat_of_st (P := fun s => s.real_root = false ∧
        s.trace.filter Event.is_caps_call =
          [.pa_limit_caps, .pa_drop_root, .pa_limit_caps]) ?_)
      exact ⟨(early_setup_real_root w _).trans hs.1,
        (early_setup_filter w _ _ (only_caps_call.quiet (by decide))).trans hs.2⟩
    · intro s hs
      have h1 : (load_configuration w s).st.real_root = false ∧
          (load_configuration w s).st.trace.filter Event.is_caps_call =
            [.pa_limit_caps, .pa_drop_root, .pa_limit_caps] :=
        ⟨(load_configuration_real_root w _).trans hs.1,
          (load_configuration_filter w _ _ (only_caps_call.quiet (by decide))).trans hs.2⟩
      exact Flow.sat_mono (Flow.sat_and (Flow.sat_of_st (P := fun s => s.real_root = false ∧
          s.trace.filter Event.is_caps_call =
            [.pa_limit_caps, .pa_drop_root, .pa_limit_caps]) h1)
          (load_configuration_conf w s))
        (fun _ x => ⟨x.1.1, x.2, x.1.2⟩) (fun _ _ => trivial) (fun _ _ => trivial)
  · intro s hs
    obtain ⟨s1, e1, f1⟩ := scheduling_grant_caps w s
    have r1 : s1.real_root = s.real_root := by
      have := scheduling_grant_real_root w s
      rwa [e1] at this
    have c1 : s1.conf = s.conf := by
      have := scheduling_grant_conf w s
      rwa [e1] at this
    have e2 : apply_rlimits w s1 = .next (apply_rlimits w s1).st := by
      unfold apply_rlimits
      rfl
    obtain ⟨s3, e3, f3⟩ := drop_decision_caps w (apply_rlimits w s1).st
    unfold negotiate
    rw [e1, Flow.next_andThen, e2, Flow.next_andThen, e3]
    show s3.trace.filter Event.is_caps_call = negotiated_caps_calls w
    rw [f3, apply_rlimits_filter w _ _ (only_caps_call.quiet (by decide)), f1,
      apply_rlimits_real_root, apply_rlimits_conf, r1, c1, hs.1, hs.2.1, hs.2.2]
    unfold negotiated_caps_calls
    simp only [Bool.not_false, Bool.true_and]

/-- C5, as amended. A process that is not real root holds, at the end of the
negotiation of privileges, no capability other than the scheduling capability
`CAP_SYS_NICE`, and only if it held it at the start; and if neither the group
memberships nor the policy checks allowed high-priority or real-time
scheduling, and `pa_have_caps` at line 431 reported the capability set
faithfully, it holds none. (A real-root process is left as it is.) -/
theorem capabilities_after_negotiation (w : World) (c0 : CapabilitySet) (s : St)
    (hnr : real_root w = false) (h : negotiation w = .next s) :
    (∀ k, capabilities_after s.trace c0 k = true → k = .CAP_SYS_NICE ∧ c0 k = true) ∧
    (w.pa_have_caps_grant = pa_have_caps (capabilities_after (initial_drop w) c0) →
      allow_high_priority w w.conf_cmdline = false →
      allow_realtime w w.conf_cmdline = false →
      ∀ k, capabilities_after s.trace c0 k = false) := by
  have hf : s.trace.filter Event.is_caps_call = negotiated_caps_calls w := by
    have := negotiation_caps_calls w hnr
    rwa [h] at this
  have hi : capabilities_after (initial_drop w) c0 =
      pa_limit_caps (pa_drop_root (pa_limit_caps c0)) := by
    unfold initial_drop
    split_ifs <;> rfl
  rw [capabilities_after_filter, hf, hi]
  unfold negotiated_caps_calls
  refine ⟨?_, ?_⟩
  · intro k
    split_ifs <;>
      simp [capabilities_after, pa_limit_caps, pa_drop_root, pa_drop_caps] <;>
      exact fun a b => ⟨b, a⟩
  · intro ht hhp hrt k
    rw [hhp, hrt] at *
    cases hg : w.pa_have_caps_grant
    · rw [hg] at ht
      have hn : c0 .CAP_SYS_NICE = false := by
        simpa [pa_have_caps, pa_limit_caps, pa_drop_root] using ht.symm
      have hb : pa_limit_caps (pa_drop_root (pa_limit_caps c0)) = fun _ => false := by
        funext k
        cases k <;> simp [pa_limit_caps, pa_drop_root, hn]
      split_ifs <;>
        simp only [capabilities_after, List.foldl_cons, List.foldl_nil, List.append_nil,
          List.cons_append, List.nil_append, hb, pa_drop_caps]
    · split_ifs <;>
        simp_all [capabilities_after, pa_limit_caps, pa_drop_root, pa_drop_caps]

/-- C5, witness: a SUID-root start that is in the realtime group keeps
`CAP_SYS_NICE` and nothing else; one that is refused by the group check and by
the policy service holds nothing. -/
theorem capabilities_after_negotiation_witness :
    (real_root suid_world = false ∧
      negotiation suid_world = .next (negotiation suid_world).st ∧
      capabilities_after (negotiation suid_world).st.trace all_capabilities
        .CAP_SYS_NICE = true ∧
      ∀ k, capabilities_after (negotiation suid_world).st.trace all_capabilities k = true →
        k = .CAP_SYS_NICE ∧ all_capabilities k = true) ∧
    (real_root suid_refused_world = false ∧
      allow_high_priority suid_refused_world suid_refused_world.conf_cmdline = false ∧
      allow_realtime suid_refused_world suid_refused_world.conf_cmdline = false ∧
      ∀ k, capabilities_after (negotiation suid_refused_world).st.trace
        all_capabilities k = false) :=
  ⟨⟨by decide, by rfl, by rfl,
      (capabilities_after_negotiation suid_world all_capabilities _ (by decide)
        (by rfl)).1⟩,
    ⟨by decide, by decide, by decide,
      (capabilities_after_negotiation suid_refused_world all_capabilities _ (by decide)
        (by rfl)).2 (by rfl) (by decide) (by decide)⟩⟩

/-- C5, counterexample to "for all starting credential states": a real-root
start makes none of the capability calls, so after the negotiation it still
holds every capability it started with, and none of them was justified by a
group membership or a policy check. -/
theorem capabilities_after_negotiation_counterexample :
    real_root root_world = true ∧
    negotiation root_world = .next (negotiation root_world).st ∧
    allow_high_priority root_world root_world.conf_cmdline = false ∧
    allow_realtime root_world root_world.conf_cmdline = false ∧
    capabilities_after (negotiation root_world).st.trace
      all_capabilities .CAP_SYS_NICE = true ∧
    capabilities_after (negotiation root_world).st.trace
      all_capabilities .CAP_SYS_RESOURCE = true ∧
    capabilities_after (negotiation root_world).st.trace
      all_capabilities .CAP_SETUID = true :=
  ⟨by decide, by rfl, by decide, by decide, by rfl, by rfl, by rfl⟩

/-! ## C7: a degraded capability is never fatal -/

theorem erase_eq_iff (s s2 : St) :
    s.erase = s2.erase ↔
      s.retval = s2.retval ∧ s.r = s2.r ∧ s.real_root = s2.real_root ∧
      s.valid_pid_file = s2.valid_pid_file ∧ s.ltdl_init = s2.ltdl_init ∧
      s.passed_fd = s2.passed_fd ∧ s.daemon_pipe_0 = s2.daemon_pipe_0 ∧
      s.daemon_pipe_1 = s2.daemon_pipe_1 ∧ s.lf = s2.lf ∧
      s.autospawn_lock_fd = s2.autospawn_lock_fd ∧ s.c = s2.c ∧
      s.mainloop = s2.mainloop ∧ s.conf = s2.conf := by
  cases s
  cases s2
  simp only [St.erase, St.mk.injEq, true_and]

theorem erase_emit (s s2 : St) (es es2 : List Event) (h : s.erase = s2.erase) :
    (s.emit es).erase = (s2.emit es2).erase := by
  rw [erase_eq_iff] at h ⊢
  exact h

theorem Flow.erase_next {s s2 : St} (h : s.erase = s2.erase) :
    (Flow.next s).erase = (Flow.next s2).erase :=
  congrArg Flow.next h

theorem Flow.erase_finish {s s2 : St} (h : s.erase = s2.erase) :
    (Flow.finish s).erase = (Flow.finish s2).erase :=
  congrArg Flow.finish h

theorem Flow.erase_abort {s s2 : St} (h : s.erase = s2.erase) :
    (Flow.abort s).erase = (Flow.abort s2).erase :=
  congrArg Flow.abort h

theorem erase_set_daemon_pipe_0 (s s2 : St) (v : Int) (h : s.erase = s2.erase) :
    ({ s with daemon_pipe_0 := v } : St).erase = ({ s2 with daemon_pipe_0 := v } : St).erase := by
  rw [erase_eq_iff] at h ⊢
  exact ⟨h.1, h.2.1, h.2.2.1, h.2.2.2.1, h.2.2.2.2.1, h.2.2.2.2.2.1, rfl,
    h.2.2.2.2.2.2.2⟩

theorem erase_set_daemon_pipe (s s2 : St) (v v2 : Int) (h : s.erase = s2.erase) :
    ({ s with daemon_pipe_0 := v, daemon_pipe_1 := v2 } : St).erase =
      ({ s2 with daemon_pipe_0 := v, daemon_pipe_1 := v2 } : St).erase := by
  rw [erase_eq_iff] at h ⊢
  exact ⟨h.1, h.2.1, h.2.2.1, h.2.2.2.1, h.2.2.2.2.1, h.2.2.2.2.2.1, rfl, rfl,
    h.2.2.2.2.2.2.2.2⟩

theorem erasable_ltdl_setup (w : World) : Erasable (ltdl_setup w) := by
  intro s s2 h
  cases s
  cases s2
  simp only [St.erase, St.mk.injEq, true_and] at h
  obtain ⟨h1, h2, h3, h4, h5, h6, h7, h8, h9, h10, h11, h12, h13⟩ := h
  subst h1 h2 h3 h4 h5 h6 h7 h8 h9 h10 h11 h12 h13
  unfold ltdl_setup
  simp only [St.emit]
  (try split_ifs) <;> rfl

theorem erasable_root_check (w : World) : Erasable (root_check w) := by
  intro s s2 h
  cases s
  cases s2
  simp only [St.erase, St.mk.injEq, true_and] at h
  obtain ⟨h1, h2, h3, h4, h5, h6, h7, h8, h9, h10, h11, h12, h13⟩ := h
  subst h1 h2 h3 h4 h5 h6 h7 h8 h9 h10 h11 h12 h13
  unfold root_check
  simp only [St.emit]
  (try split_ifs) <;> rfl

theorem erasable_autospawn_lock (w : World) : Erasable (autospawn_lock w) := by
  intro s s2 h
  cases s
  cases s2
  simp only [St.erase, St.mk.injEq, true_and] at h
  obtain ⟨h1, h2, h3, h4, h5, h6, h7, h8, h9, h10, h11, h12, h13⟩ := h
  subst h1 h2 h3 h4 h5 h6 h7 h8 h9 h10 h11 h12 h13
  unfold autospawn_lock
  simp only [St.emit]
  (try split_ifs) <;> rfl

theorem erasable_daemonize_parent (w : World) : Erasable (daemonize_parent w) := by
  intro s s2 h
  cases s
  cases s2
  simp only [St.erase, St.mk.injEq, true_and] at h
  obtain ⟨h1, h2, h3, h4, h5, h6, h7, h8, h9, h10, h11, h12, h13⟩ := h
  subst h1 h2 h3 h4 h5 h6 h7 h8 h9 h10 h11 h12 h13
  unfold daemonize_parent
  simp only [St.emit]
  (try split_ifs) <;> rfl

theorem erasable_detach (w : World) : Erasable (detach w) := by
  intro s s2 h
  cases s
  cases s2
  simp only [St.erase, St.mk.injEq, true_and] at h
  obtain ⟨h1, h2, h3, h4, h5, h6, h7, h8, h9, h10, h11, h12, h13⟩ := h
  subst h1 h2 h3 h4 h5 h6 h7 h8 h9 h10 h11 h12 h13
  unfold detach
  simp only [St.emit]
  (try split_ifs) <;> rfl

theorem erasable_runtime_directory (w : World) : Erasable (runtime_directory w) := by
  intro s s2 h
  cases s
  cases s2
  simp only [St.erase, St.mk.injEq, true_and] at h
  obtain ⟨h1, h2, h3, h4, h5, h6, h7, h8, h9, h10, h11, h12, h13⟩ := h
  subst h1 h2 h3 h4 h5 h6 h7 h8 h9 h10 h11 h12 h13
  unfold runtime_directory
  simp only [St.emit]
  (try split_ifs) <;> rfl

theorem erasable_pid_file (w : World) : Erasable (pid_file w) := by
  intro s s2 h
  cases s
  cases s2
  simp only [St.erase, St.mk.injEq, true_and] at h
  obtain ⟨h1, h2, h3, h4, h5, h6, h7, h8, h9, h10, h11, h12, h13⟩ := h
  subst h1 h2 h3 h4 h5 h6 h7 h8 h9 h10 h11 h12 h13
  unfold pid_file
  simp only [St.emit]
  (try split_ifs) <;> rfl

theorem erasable_create_core (w : World) : Erasable (create_core w) := by
  intro s s2 h
  cases s
  cases s2
  simp only [St.erase, St.mk.injEq, true_and] at h
  obtain ⟨h1, h2, h3, h4, h5, h6, h7, h8, h9, h10, h11, h12, h13⟩ := h
  subst h1 h2 h3 h4 h5 h6 h7 h8 h9 h10 h11 h12 h13
  unfold create_core
  simp only [St.emit]
  (try split_ifs) <;> rfl

theorem erasable_check_modules (w : World) : Erasable (check_modules w) := by
  intro s s2 h
  cases s
  cases s2
  simp only [St.erase, St.mk.injEq, true_and] at h
  obtain ⟨h1, h2, h3, h4, h5, h6, h7, h8, h9, h10, h11, h12, h13⟩ := h
  subst h1 h2 h3 h4 h5 h6 h7 h8 h9 h10 h11 h12 h13
  unfold check_modules
  simp only [St.emit]
  (try split_ifs) <;> rfl

theorem erasable_handshake_success (w : World) : Erasable (handshake_success w) := by
  intro s s2 h
  cases s
  cases s2
  simp only [St.erase, St.mk.injEq, true_and] at h
  obtain ⟨h1, h2, h3, h4, h5, h6, h7, h8, h9, h10, h11, h12, h13⟩ := h
  subst h1 h2 h3 h4 h5 h6 h7 h8 h9 h10 h11 h12 h13
  unfold handshake_success
  simp only [St.emit]
  (try split_ifs) <;> rfl

theorem erasable_run_mainloop (w : World) : Erasable (run_mainloop w) := by
  intro s s2 h
  cases s
  cases s2
  simp only [St.erase, St.mk.injEq, true_and] at h
  obtain ⟨h1, h2, h3, h4, h5, h6, h7, h8, h9, h10, h11, h12, h13⟩ := h
  subst h1 h2 h3 h4 h5 h6 h7 h8 h9 h10 h11 h12 h13
  unfold run_mainloop
  simp only [St.emit]
  (try split_ifs) <;> rfl

theorem erasable_command_switch (w : World) : Erasable (command_switch w) := by
  intro s s2 h
  have hc : s.conf = s2.conf := ((erase_eq_iff s s2).1 h).2.2.2.2.2.2.2.2.2.2.2.2
  have hr : s.retval = s2.retval := ((erase_eq_iff s s2).1 h).1
  have e0 : ∀ es, ({ s.emit es with retval := 0 } : St).erase =
      ({ s2.emit es with retval := 0 } : St).erase := by
    intro es
    rw [erase_eq_iff] at h ⊢
    exact ⟨rfl, h.2⟩
  unfold command_switch
  rw [← hc]
  cases s.conf.cmd <;> simp only [] <;> (try split_ifs) <;>
    simp only [Flow.erase, Flow.finish.injEq, Flow.next.injEq] <;>
    first | exact e0 _ | exact erase_emit _ _ _ _ h | exact h

theorem erasable_default_script_file (w : World) (s s2 : St) (h : s.erase = s2.erase) :
    (default_script_file w s).erase = (default_script_file w s2).erase := by
  revert s s2
  intro s s2 h
  cases s
  cases s2
  simp only [St.erase, St.mk.injEq, true_and] at h
  obtain ⟨h1, h2, h3, h4, h5, h6, h7, h8, h9, h10, h11, h12, h13⟩ := h
  subst h1 h2 h3 h4 h5 h6 h7 h8 h9 h10 h11 h12 h13
  unfold default_script_file
  simp only [St.emit]
  (try split_ifs) <;> rfl

theorem erasable_script_commands (w : World) (s s2 : St) (h : s.erase = s2.erase) :
    (script_commands w s).erase = (script_commands w s2).erase := by
  revert s s2
  intro s s2 h
  cases s
  cases s2
  simp only [St.erase, St.mk.injEq, true_and] at h
  obtain ⟨h1, h2, h3, h4, h5, h6, h7, h8, h9, h10, h11, h12, h13⟩ := h
  subst h1 h2 h3 h4 h5 h6 h7 h8 h9 h10 h11 h12 h13
  unfold script_commands
  simp only [St.emit]
  (try split_ifs) <;> rfl

theorem erasable_close_autospawn_lock (s s2 : St) (h : s.erase = s2.erase) :
    (close_autospawn_lock s).erase = (close_autospawn_lock s2).erase := by
  revert s s2
  intro s s2 h
  cases s
  cases s2
  simp only [St.erase, St.mk.injEq, true_and] at h
  obtain ⟨h1, h2, h3, h4, h5, h6, h7, h8, h9, h10, h11, h12, h13⟩ := h
  subst h1 h2 h3 h4 h5 h6 h7 h8 h9 h10 h11 h12 h13
  unfold close_autospawn_lock
  simp only [St.emit]
  (try split_ifs) <;> rfl

theorem erasable_run_scripts (w : World) (s s2 : St) (h : s.erase = s2.erase) :
    (run_scripts w s).erase = (run_scripts w s2).erase := by
  unfold run_scripts
  exact erase_emit _ _ _ _ (erasable_script_commands w _ _
    (erasable_default_script_file w _ _ (erase_emit _ _ _ _ h)))

theorem erasable_bootstrap (w : World) : Erasable (bootstrap w) := by
  intro s s2 h
  have h2 := erasable_run_scripts w s s2 h
  unfold bootstrap
  simp only []
  generalize run_scripts w s = t at h2 ⊢
  generalize run_scripts w s2 = t2 at h2 ⊢
  have hr : t.r = t2.r := ((erase_eq_iff t t2).1 h2).2.1
  have hc : t.conf = t2.conf := ((erase_eq_iff t t2).1 h2).2.2.2.2.2.2.2.2.2.2.2.2
  rw [hr, hc]
  split_ifs
  · exact Flow.erase_finish h2
  · exact erasable_check_modules w t t2 h2

theorem erasable_daemonize_child (w : World) : Erasable (daemonize_child w) := by
  intro s s2 h
  have h2 := erasable_close_autospawn_lock s s2 h
  unfold daemonize_child
  simp only []
  split_ifs <;>
    first
    | exact Flow.erase_abort (erase_emit _ _ _ _ h2)
    | exact erasable_detach w _ _
        (erase_set_daemon_pipe_0 _ _ _ (erase_emit _ _ _ _ (erase_emit _ _ _ _ h2)))

theorem erasable_daemonize (w : World) : Erasable (daemonize w) := by
  intro s s2 h
  have hc : s.conf = s2.conf := ((erase_eq_iff s s2).1 h).2.2.2.2.2.2.2.2.2.2.2.2
  unfold daemonize
  simp only []
  rw [hc]
  split_ifs
  · exact Flow.erase_finish (erase_emit _ _ _ _ h)
  · exact Flow.erase_finish (erase_emit _ _ _ _ (erase_emit _ _ _ _ h))
  · exact Flow.erase_finish (erase_emit _ _ _ _
      (erase_set_daemon_pipe _ _ _ _ (erase_emit _ _ _ _ (erase_emit _ _ _ _ h))))
  · exact erasable_daemonize_parent w _ _ (erase_emit _ _ _ _
      (erase_set_daemon_pipe _ _ _ _ (erase_emit _ _ _ _ (erase_emit _ _ _ _ h))))
  · exact erasable_daemonize_child w _ _ (erase_emit _ _ _ _
      (erase_set_daemon_pipe _ _ _ _ (erase_emit _ _ _ _ (erase_emit _ _ _ _ h))))
  · exact Flow.erase_next h

theorem erasable_environment_setup (w : World) : Erasable (environment_setup w) := by
  intro s s2 h
  have hc : s.conf = s2.conf := ((erase_eq_iff s s2).1 h).2.2.2.2.2.2.2.2.2.2.2.2
  unfold environment_setup
  simp only [St.emit_conf]
  rw [hc]
  split_ifs
  · exact Flow.erase_abort (erase_emit _ _ _ _ h)
  · exact Flow.erase_finish
      (erase_emit _ _ _ _ (erase_emit _ _ _ _ (erase_emit _ _ _ _ h)))
  · exact erasable_runtime_directory w _ _
      (erase_emit _ _ _ _ (erase_emit _ _ _ _ (erase_emit _ _ _ _ h)))
  · exact erasable_runtime_directory w _ _ (erase_emit _ _ _ _ (erase_emit _ _ _ _ h))

theorem Flow.erase_andThen {f f2 : Flow} {k : St → Flow} (h : f.erase = f2.erase)
    (hk : Erasable k) : (f.andThen k).erase = (f2.andThen k).erase := by
  cases f <;> cases f2 <;> simp only [Flow.erase, Flow.next.injEq, Flow.finish.injEq,
    Flow.abort.injEq, Flow.replaced.injEq, reduceCtorEq] at h <;>
    simp only [Flow.andThen, Flow.erase, h]
  exact hk _ _ h

theorem erasable_startup (w : World) : Erasable (startup w) := by
  intro s s2 h
  unfold startup
  exact Flow.erase_andThen (Flow.erase_andThen (Flow.erase_andThen (Flow.erase_andThen
    (Flow.erase_andThen (Flow.erase_andThen (Flow.erase_andThen (Flow.erase_andThen
    (Flow.erase_andThen (Flow.erase_andThen (erasable_ltdl_setup w s s2 h)
    (erasable_command_switch w)) (erasable_root_check w)) (erasable_autospawn_lock w))
    (erasable_daemonize w)) (erasable_environment_setup w)) (erasable_pid_file w))
    (erasable_create_core w)) (erasable_bootstrap w)) (erasable_handshake_success w))
    (erasable_run_mainloop w)

theorem Flow.falls_through_erase {f f2 : Flow} (h : f.erase = f2.erase) :
    f.falls_through = f2.falls_through := by
  cases f <;> cases f2 <;> simp only [Flow.erase, reduceCtorEq] at h <;> rfl

theorem Flow.erase_andThen_left (f : Flow) {k k2 : St → Flow}
    (h : ∀ s, (k s).erase = (k2 s).erase) : (f.andThen k).erase = (f.andThen k2).erase := by
  cases f <;> first | exact h _ | rfl

theorem prologue_with_negotiation (w : World) (g : NegotiationAnswers) :
    prologue (w.with_negotiation g) = prologue w := rfl

theorem dump_resample_methods_with_negotiation (w : World) (g : NegotiationAnswers)
    (i n : Nat) :
    dump_resample_methods (w.with_negotiation g) i n = dump_resample_methods w i n := by
  induction n generalizing i with
  | zero => rfl
  | succ n ih =>
    unfold dump_resample_methods
    rw [ih]
    rfl

theorem command_switch_with_negotiation (w : World) (g : NegotiationAnswers) :
    command_switch (w.with_negotiation g) = command_switch w := by
  funext s
  unfold command_switch
  rw [dump_resample_methods_with_negotiation]
  rfl

theorem startup_with_negotiation (w : World) (g : NegotiationAnswers) (s : St) :
    startup (w.with_negotiation g) s = startup w s := by
  unfold startup
  rw [command_switch_with_negotiation]
  rfl

/-- The negotiation always falls through, and changes nothing but the trace and
`suid_root`. -/
theorem negotiate_next (w : World) (s : St) :
    ∃ s2, negotiate w s = .next s2 ∧ s2.erase = s.erase := by
  obtain ⟨s1, e1, -⟩ := scheduling_grant_caps w s
  have e2 : apply_rlimits w s1 = .next (apply_rlimits w s1).st := by
    unfold apply_rlimits
    rfl
  obtain ⟨s3, e3, -⟩ := drop_decision_caps w (apply_rlimits w s1).st
  refine ⟨s3, ?_, ?_⟩
  · unfold negotiate
    rw [e1, Flow.next_andThen, e2, Flow.next_andThen, e3]
  · have d1 : s1 = (scheduling_grant w s).st := by rw [e1]; rfl
    have d3 : s3 = (drop_decision w (apply_rlimits w s1).st).st := by rw [e3]; rfl
    have f1 := scheduling_grant_frame w s
    have f2 := apply_rlimits_frame w s1
    have f3 := drop_decision_frame w (apply_rlimits w s1).st
    rw [← d1] at f1
    rw [← d3] at f3
    rw [erase_eq_iff]
    exact ⟨(f3.1).trans ((f2.1).trans (f1.1)),
      (f3.2.1).trans ((f2.2.1).trans (f1.2.1)),
      (f3.2.2.1).trans ((f2.2.2.1).trans (f1.2.2.1)),
      (f3.2.2.2.1).trans ((f2.2.2.2.2.1).trans (f1.2.2.2.2.1)),
      (f3.2.2.2.2.1).trans ((f2.2.2.2.2.2.1).trans (f1.2.2.2.2.2.1)),
      (f3.2.2.2.2.2.1).trans ((f2.2.2.2.2.2.2.1).trans (f1.2.2.2.2.2.2.1)),
      (f3.2.2.2.2.2.2.1).trans ((f2.2.2.2.2.2.2.2.1).trans (f1.2.2.2.2.2.2.2.1)),
      (f3.2.2.2.2.2.2.2.1).trans ((f2.2.2.2.2.2.2.2.2.1).trans (f1.2.2.2.2.2.2.2.2.1)),
      (f3.2.2.2.2.2.2.2.2.1).trans ((f2.2.2.2.2.2.2.2.2.2.1).trans (f1.2.2.2.2.2.2.2.2.2.1)),
      (f3.2.2.2.2.2.2.2.2.2.1).trans ((f2.2.2.2.2.2.2.2.2.2.2.1).trans (f1.2.2.2.2.2.2.2.2.2.2.1)),
      (f3.2.2.2.2.2.2.2.2.2.2.1).trans ((f2.2.2.2.2.2.2.2.2.2.2.2.1).trans (f1.2.2.2.2.2.2.2.2.2.2.2.1)),
      (f3.2.2.2.2.2.2.2.2.2.2.2.1).trans ((f2.2.2.2.2.2.2.2.2.2.2.2.2.1).trans (f1.2.2.2.2.2.2.2.2.2.2.2.2.1)),
      (f3.2.2.2.2.2.2.2.2.2.2.2.2).trans ((f2.2.2.2.2.2.2.2.2.2.2.2.2.2).trans (f1.2.2.2.2.2.2.2.2.2.2.2.2.2))⟩

theorem body_erase (w : World) (g : NegotiationAnswers) :
    (body (w.with_negotiation g)).erase = (body w).erase := by
  unfold body negotiation
  rw [prologue_with_negotiation]
  have hk : ∀ s, ((negotiate (w.with_negotiation g) s).andThen
      (startup (w.with_negotiation g))).erase =
      ((negotiate w s).andThen (startup w)).erase := by
    intro s
    obtain ⟨s2, e2, h2⟩ := negotiate_next (w.with_negotiation g) s
    obtain ⟨s3, e3, h3⟩ := negotiate_next w s
    rw [e2, e3, Flow.next_andThen, Flow.next_andThen, startup_with_negotiation]
    exact erasable_startup w _ _ (h2.trans h3.symm)
  cases hp : prologue w <;> simp only [Flow.andThen]
  exact hk _

theorem main_exit_of_erase {w w2 : World} (h : (body w).erase = (body w2).erase) :
    (main w).exit = (main w2).exit := by
  unfold main
  cases hb : body w <;> cases hb2 : body w2 <;> rw [hb, hb2] at h <;>
    simp only [Flow.erase, reduceCtorEq, Flow.next.injEq, Flow.finish.injEq] at h <;>
    simp only [finish_retval, Exit.returned.injEq] <;>
    exact ((erase_eq_iff _ _).1 h).1

theorem body_event_loop (w : World) :
    (body w).sat (fun s => s.trace.any Event.is_mainloop_run = true)
      (fun s => s.trace.any Event.is_mainloop_run = false)
      (fun s => s.trace.any Event.is_mainloop_run = false) := by
  have hS : ∀ s, Silent [.run_mainloop] s → s.trace.any Event.is_mainloop_run = false :=
    fun s h => silent_any h only_mainloop_run1
  have hB : ∀ (f : Flow) (s : St),
      (∀ p, Only [.run_mainloop] p → f.st.trace.filter p = s.trace.filter p) →
      Silent [.run_mainloop] s → f.sat (Silent [.run_mainloop])
        (fun s => s.trace.any Event.is_mainloop_run = false)
        (fun s => s.trace.any Event.is_mainloop_run = false) :=
    fun f s hf h => Flow.sat_mono (silent_boring _ f s hf h) (fun _ x => x) hS hS
  unfold body
  refine Flow.sat_andThen (Flow.sat_mono (negotiation_untouched w [.run_mainloop] (by decide)
    (by decide) (by decide) (by decide) (by decide) (by decide) (by decide))
    (fun _ x => x.2.2) hS hS) ?_
  refine startup_sat w (B := Silent [.run_mainloop]) (C := Silent [.run_mainloop])
    (D := Silent [.run_mainloop]) (E := Silent [.run_mainloop])
    (G := Silent [.run_mainloop]) (H := Silent [.run_mainloop])
    (J := Silent [.run_mainloop]) (K := Silent [.run_mainloop])
    (L := Silent [.run_mainloop]) (Q := Silent [.run_mainloop])
    ?_ ?_ ?_ ?_ ?_ ?_ ?_ ?_ ?_ ?_ ?_
  · exact fun s => hB _ _ (fun p hp => ltdl_setup_filter w _ _ (hp.quiet (by decide)))
  · exact fun s => hB _ _ (fun p hp => command_switch_filter w _ _ (hp.quiet (by decide)))
  · exact fun s => hB _ _ (fun p hp => root_check_filter w _ _)
  · exact fun s => hB _ _ (fun p hp => autospawn_lock_filter w _ _ (hp.quiet (by decide)))
  · exact fun s => hB _ _ (fun p hp => daemonize_filter w _ _ (hp.quiet (by decide))
      (hp.quiet (by decide)) (hp.quiet (by decide)))
  · exact fun s => hB _ _ (fun p hp => environment_setup_filter w _ _ (hp.quiet (by decide)))
  · exact fun s => hB _ _ (fun p hp => pid_file_filter w _ _ (hp.quiet (by decide)))
  · exact fun s => hB _ _ (fun p hp => create_core_filter w _ _ (hp.quiet (by decide)))
  · exact fun s => hB _ _ (fun p hp => bootstrap_filter w _ _ (hp.quiet (by decide)))
  · exact fun s => hB _ _ (fun p hp => handshake_success_filter w _ _ (hp.quiet (by decide)))
  · intro s _
    unfold run_mainloop
    simp [Flow.sat, St.emit, Event.is_mainloop_run]

/-- The event loop runs exactly when control falls through the whole body of
`main`. -/
theorem main_event_loop (w : World) :
    (main w).trace.any Event.is_mainloop_run = (body w).falls_through := by
  have hs := body_event_loop w
  have hf : ∀ s, (finish s).trace.any Event.is_mainloop_run =
      s.trace.any Event.is_mainloop_run :=
    fun s => any_of_filter (finish_filter s _ (only_mainloop_run1.quiet (by decide)))
  unfold main
  cases hb : body w <;> rw [hb] at hs <;> simp only [Flow.falls_through, hf] <;> exact hs

/-- C7. The negotiation of privileges (scheduling grant, resource limits,
priority raise, decision to keep or drop the capability) falls through from
every state and under every answer of its calls, with `retval`, `conf` and
every other variable but `suid_root` unchanged; so does the set-up of the module
loader that follows, and the next statement is the command switch. No answer to
a call of the negotiation changes how `main` ends or whether the event loop
runs. -/
theorem degraded_capability_not_fatal (w : World) (s : St) (g : NegotiationAnswers) :
    (∃ s2, negotiate w s = .next s2 ∧ s2.retval = s.retval ∧ s2.conf = s.conf ∧
      s2.erase = s.erase ∧
      ∃ s3, (negotiate w s).andThen (ltdl_setup w) = .next s3 ∧ s3.retval = s.retval ∧
        s3.conf = s.conf) ∧
    (main (w.with_negotiation g)).exit = (main w).exit ∧
    (main (w.with_negotiation g)).trace.any Event.is_mainloop_run =
      (main w).trace.any Event.is_mainloop_run := by
  refine ⟨?_, main_exit_of_erase (body_erase w g), ?_⟩
  · obtain ⟨s2, e2, h2⟩ := negotiate_next w s
    have hr : s2.retval = s.retval := ((erase_eq_iff _ _).1 h2).1
    have hc : s2.conf = s.conf := ((erase_eq_iff _ _).1 h2).2.2.2.2.2.2.2.2.2.2.2.2
    refine ⟨s2, e2, hr, hc, h2, (ltdl_setup w s2).st, ?_, ?_, ?_⟩
    · rw [e2, Flow.next_andThen]
      unfold ltdl_setup
      rfl
    · exact (ltdl_setup_retval w s2).trans hr
    · exact (ltdl_setup_conf w s2).trans hc
  · rw [main_event_loop, main_event_loop]
    exact Flow.falls_through_erase (body_erase w g)

/-- C7, scenario: a start that asks for high priority, real-time scheduling and
a limit on open files, is refused by the group checks and by the policy service,
and whose every `setrlimit` and `getrlimit` fails, still runs the event loop and
returns its exit code 0. -/
theorem degraded_capability_not_fatal_witness :
    (main (demanding_world.with_negotiation refused)).exit = .returned 0 ∧
    (main (demanding_world.with_negotiation refused)).trace.any
      Event.is_mainloop_run = true ∧
    allow_high_priority (demanding_world.with_negotiation refused)
      demanding_world.conf_cmdline = false ∧
    allow_realtime (demanding_world.with_negotiation refused)
      demanding_world.conf_cmdline = false :=
  ⟨(degraded_capability_not_fatal demanding_world (initial demanding_world) refused).2.1.trans
      (by rfl),
    (degraded_capability_not_fatal demanding_world (initial demanding_world)
      refused).2.2.trans (by rfl), by decide, by decide⟩

/-! ## C8: `set_one_rlimit` and `set_all_rlimits` -/

/-- C8. `set_one_rlimit` returns 0 and calls nothing when the entry is not set;
when it is set it calls `setrlimit` exactly once, for that resource, with the
soft and the hard limit both equal to the configured value, and returns -1 when
that call fails and 0 otherwise. `set_all_rlimits` does this for every kind in
the fixed order of the source, and the calls it makes do not depend on the
outcome of any of them. -/
theorem set_rlimits_contract (setrlimit other : Resource → Nat → Nat → Int)
    (r : pa_rlimit) (resource : Resource) (conf : pa_daemon_conf) :
    (r.is_set = false → set_one_rlimit setrlimit r resource = (0, [])) ∧
    (r.is_set = true →
      (set_one_rlimit setrlimit r resource).2 = [Event.setrlimit resource r.value r.value] ∧
      (setrlimit resource r.value r.value < 0 →
        (set_one_rlimit setrlimit r resource).1 = -1) ∧
      (¬ setrlimit resource r.value r.value < 0 →
        (set_one_rlimit setrlimit r resource).1 = 0)) ∧
    set_all_rlimits setrlimit conf =
      (rlimit_order conf).flatMap (fun x => (set_one_rlimit setrlimit x.1 x.2).2) ∧
    set_all_rlimits setrlimit conf =
      (rlimit_order conf).flatMap
        (fun x => if x.1.is_set then [Event.setrlimit x.2 x.1.value x.1.value] else []) ∧
    set_all_rlimits setrlimit conf = set_all_rlimits other conf := by
  have one : ∀ (f : Resource → Nat → Nat → Int) (x : pa_rlimit) (y : Resource),
      (set_one_rlimit f x y).2 =
        if x.is_set then [Event.setrlimit y x.value x.value] else [] := by
    intro f x y
    unfold set_one_rlimit
    cases x.is_set <;> simp
    split_ifs <;> rfl
  refine ⟨?_, ?_, ?_, ?_, ?_⟩
  · intro h
    simp [set_one_rlimit, h]
  · intro h
    refine ⟨?_, ?_, ?_⟩
    · rw [one, h]; rfl
    · intro hf; simp [set_one_rlimit, h, hf]
    · intro hf; simp [set_one_rlimit, h, hf]
  · simp [set_all_rlimits, rlimit_order, List.flatMap_cons]
  · simp only [set_all_rlimits, rlimit_order, List.flatMap_cons, List.flatMap_nil, one,
      List.append_nil, List.append_assoc]
  · simp only [set_all_rlimits, one]

/-! ## C9: `signal_callback` -/

/-- C9. Under any numbering in which the signals are pairwise distinct,
`SIGHUP` only produces the status dump and logs it, `SIGUSR1` loads
`module-cli`, `SIGUSR2` loads `module-cli-protocol-unix`, none of the three
asks the event loop to quit, and `SIGINT`, `SIGTERM` and every other number ask
it to quit with status 1. The event loop is asked to quit exactly when the
signal is none of `SIGUSR1`, `SIGUSR2`, `SIGHUP`. -/
theorem signal_callback_mapping (num : SignalNumbers) (hnum : Function.Injective num)
    (sig : Int) :
    signal_callback num (num .SIGHUP) =
      [.pa_log_info_got_signal (num .SIGHUP), .pa_full_status_string,
       .pa_log_notice_status, .pa_xfree] ∧
    signal_callback num (num .SIGUSR1) =
      [.pa_log_info_got_signal (num .SIGUSR1), .pa_module_load .module_cli] ∧
    signal_callback num (num .SIGUSR2) =
      [.pa_log_info_got_signal (num .SIGUSR2), .pa_module_load .module_cli_protocol_unix] ∧
    signal_callback num (num .SIGINT) =
      [.pa_log_info_got_signal (num .SIGINT), .pa_log_info_exiting, .quit 1] ∧
    signal_callback num (num .SIGTERM) =
      [.pa_log_info_got_signal (num .SIGTERM), .pa_log_info_exiting, .quit 1] ∧
    (sig ≠ num .SIGUSR1 → sig ≠ num .SIGUSR2 → sig ≠ num .SIGHUP →
      signal_callback num sig =
        [.pa_log_info_got_signal sig, .pa_log_info_exiting, .quit 1]) ∧
    ((signal_callback num sig).any CallbackAction.is_quit = true ↔
      sig ≠ num .SIGUSR1 ∧ sig ≠ num .SIGUSR2 ∧ sig ≠ num .SIGHUP) ∧
    ((signal_callback num sig).any CallbackAction.is_module_load = true ↔
      sig = num .SIGUSR1 ∨ sig = num .SIGUSR2) := by
  have h1 : num .SIGHUP ≠ num .SIGUSR1 := fun h => by cases hnum h
  have h2 : num .SIGHUP ≠ num .SIGUSR2 := fun h => by cases hnum h
  have h3 : num .SIGUSR2 ≠ num .SIGUSR1 := fun h => by cases hnum h
  have h4 : num .SIGINT ≠ num .SIGUSR1 := fun h => by cases hnum h
  have h5 : num .SIGINT ≠ num .SIGUSR2 := fun h => by cases hnum h
  have h6 : num .SIGINT ≠ num .SIGHUP := fun h => by cases hnum h
  have h7 : num .SIGTERM ≠ num .SIGUSR1 := fun h => by cases hnum h
  have h8 : num .SIGTERM ≠ num .SIGUSR2 := fun h => by cases hnum h
  have h9 : num .SIGTERM ≠ num .SIGHUP := fun h => by cases hnum h
  refine ⟨?_, ?_, ?_, ?_, ?_, ?_, ?_, ?_⟩
  · simp [signal_callback, h1, h2]
  · simp [signal_callback]
  · simp [signal_callback, h3]
  · simp [signal_callback, h4, h5, h6]
  · simp [signal_callback, h7, h8, h9]
  · intro a b c
    simp [signal_callback, a, b, c]
  · unfold signal_callback
    split_ifs <;> simp_all [CallbackAction.is_quit]
  · unfold signal_callback
    split_ifs <;> simp_all [CallbackAction.is_module_load]

/-- C9, witness: the Linux numbering is injective, and there signal 1
(`SIGHUP`) does not ask the event loop to quit while signal 3 (`SIGQUIT`, not
bound by `main`) does. -/
theorem signal_callback_mapping_witness :
    Function.Injective linux_signals ∧
    (signal_callback linux_signals 1).any CallbackAction.is_quit = false ∧
    (signal_callback linux_signals 3).any CallbackAction.is_quit = true := by
  have hinj : Function.Injective linux_signals := by
    intro a b h
    cases a <;> cases b <;> first | rfl | (exact absurd h (by decide))
  have h := signal_callback_mapping linux_signals hinj
  refine ⟨hinj, ?_, ?_⟩
  · have := (h 1).2.2.2.2.2.2.1
    cases hq : (signal_callback linux_signals 1).any CallbackAction.is_quit
    · rfl
    · exact absurd (this.1 hq).2.2 (by decide)
  · exact ((h 3).2.2.2.2.2.2.1).2 (by decide)

/-! ## C11: the lifetime of the autospawn lock -/

/-- C11, the run in which the code departs from the claim. A `--start` in the
foreground takes the autospawn lock (descriptor 5), neither unlocks nor closes
it before `pa_mainloop_run`, and unlocks it only at `finish`, after the event
loop has ended: the process holds the lock while it runs the event loop. The
daemonized sibling path does what the claim says: the detached child closes its
copy of the lock before it runs the event loop, and the waiting parent, which
never runs the event loop, unlocks it once it has read the outcome. -/
theorem autospawn_lock_held_in_event_loop :
    foreground_start_world.conf_cmdline.cmd = .PA_CMD_START ∧
    foreground_start_world.conf_cmdline.daemonize = false ∧
    foreground_start_world.pa_lock_lockfile = 5 ∧
    (main foreground_start_world).exit = .returned 0 ∧
    (main foreground_start_world).trace.filter (Event.is_lock_step 5) =
      [.pa_lock_lockfile, .pa_mainloop_run, .pa_unlock_lockfile 5] ∧
    (main child_start_world).trace.filter (Event.is_lock_step 5) =
      [.pa_lock_lockfile, .fork, .pa_close 5, .pa_mainloop_run] ∧
    (main parent_start_world).trace.filter (Event.is_lock_step 5) =
      [.pa_lock_lockfile, .fork, .pa_unlock_lockfile 5] :=
  ⟨by rfl, by rfl, by rfl, by rfl, by rfl, by rfl, by rfl⟩

/-! ## C12: the identity change of a system instance -/

theorem change_user_result (w : World) :
    ((change_user w).1 = 0 ∨ (change_user w).1 = -1) ∧
    ((change_user w).1 = 0 ↔
      identity_found w = true ∧ 0 ≤ w.pa_make_secure_dir .PA_SYSTEM_RUNTIME_PATH ∧
      0 ≤ w.pa_make_secure_dir .PA_SYSTEM_STATE_PATH ∧ w.initgroups = 0 ∧
      0 ≤ w.setresgid ∧ 0 ≤ w.setresuid) ∧
    ((change_user w).1 = 0 → (change_user w).2 = change_user_calls) ∧
    ((change_user w).1 ≠ 0 → ∀ v, Event.pa_set_env v ∉ (change_user w).2) := by
  unfold change_user identity_found change_user_calls
  cases w.getpwnam with
  | none => simp
  | some pw =>
    cases w.getgrnam with
    | none => simp
    | some g =>
      simp only []
      split_ifs <;> simp_all <;> omega

theorem change_user_order (w : World) :
    (change_user w).2 <+: change_user_calls ∧
    Event.getpwnam ∈ (change_user w).2 ∧
    (Event.getgrnam ∈ (change_user w).2 ↔ w.getpwnam.isSome = true) ∧
    (Event.pa_make_secure_dir .PA_SYSTEM_RUNTIME_PATH ∈ (change_user w).2 ↔
      identity_found w = true) ∧
    (Event.pa_make_secure_dir .PA_SYSTEM_STATE_PATH ∈ (change_user w).2 ↔
      identity_found w = true ∧ 0 ≤ w.pa_make_secure_dir .PA_SYSTEM_RUNTIME_PATH) ∧
    (Event.initgroups ∈ (change_user w).2 ↔
      identity_found w = true ∧ 0 ≤ w.pa_make_secure_dir .PA_SYSTEM_RUNTIME_PATH ∧
      0 ≤ w.pa_make_secure_dir .PA_SYSTEM_STATE_PATH) ∧
    (Event.setresgid ∈ (change_user w).2 ↔
      identity_found w = true ∧ 0 ≤ w.pa_make_secure_dir .PA_SYSTEM_RUNTIME_PATH ∧
      0 ≤ w.pa_make_secure_dir .PA_SYSTEM_STATE_PATH ∧ w.initgroups = 0) ∧
    (Event.setresuid ∈ (change_user w).2 ↔
      identity_found w = true ∧ 0 ≤ w.pa_make_secure_dir .PA_SYSTEM_RUNTIME_PATH ∧
      0 ≤ w.pa_make_secure_dir .PA_SYSTEM_STATE_PATH ∧ w.initgroups = 0 ∧
      0 ≤ w.setresgid) := by
  unfold change_user identity_found change_user_calls
  cases w.getpwnam with
  | none => simp [List.prefix_iff_eq_take]
  | some pw =>
    cases w.getgrnam with
    | none => simp [List.prefix_iff_eq_take]
    | some g =>
      simp only []
      split_ifs <;> simp_all [List.prefix_iff_eq_take] <;> omega

theorem only_getpwnam : Only [.environment_setup] Event.is_getpwnam := by
  intro e he
  cases e <;> first | (simp [Event.is_getpwnam] at he; done) |
    (intro b hb; simp_all [Event.blocks])

theorem only_random_seed : Only [.ltdl_setup] Event.is_random_seed := by
  intro e he
  cases e <;> first | (simp [Event.is_random_seed] at he; done) |
    (intro b hb; simp_all [Event.blocks])

theorem silent_mono {bs bs2 : List Block} {s : St} (h : Silent bs s)
    (hs : ∀ b ∈ bs2, b ∈ bs) : Silent bs2 s :=
  fun p hp => h p (hp.mono hs)

theorem negotiation_real_root (w : World) :
    (negotiation w).sat (fun s => s.real_root = real_root w) (fun _ => True)
      (fun _ => True) := by
  have hT : ∀ (f : Flow) (s : St), f.st.real_root = s.real_root →
      s.real_root = real_root w →
      f.sat (fun s => s.real_root = real_root w) (fun _ => True) (fun _ => True) :=
    fun f s h1 h2 => Flow.sat_mono
      (Flow.sat_of_st (P := fun s => s.real_root = real_root w) (h1.trans h2))
      (fun _ x => x) (fun _ _ => trivial) (fun _ _ => trivial)
  unfold negotiation
  refine Flow.sat_andThen (M := fun s => s.real_root = real_root w) ?_ ?_
  · refine prologue_sat w (B := fun _ => True) (C := fun s => s.real_root = real_root w)
      (D := fun s => s.real_root = real_root w) ?_ ?_ ?_ ?_
    · exact Flow.sat_of_st (P := fun _ => True) trivial
    · intro s _
      unfold drop_privileges
      simp only []
      split_ifs <;> simp only [Flow.sat, St.emit_real_root]
    · exact fun s => hT _ _ (early_setup_real_root w s)
    · exact fun s => hT _ _ (load_configuration_real_root w s)
  · refine negotiate_sat w (B := fun s => s.real_root = real_root w)
      (C := fun s => s.real_root = real_root w) ?_ ?_ ?_
    · exact fun s => hT _ _ (scheduling_grant_real_root w s)
    · exact fun s => hT _ _ (apply_rlimits_real_root w s)
    · exact fun s => hT _ _ (drop_decision_real_root w s)

theorem command_switch_daemon (w : World) (s : St)
    (h : s.conf.cmd = .PA_CMD_DAEMON ∨ s.conf.cmd = .PA_CMD_START) :
    command_switch w s = .next s := by
  unfold command_switch
  rcases h with h | h <;> rw [h]

theorem root_check_refused (w : World) (s : St) (h1 : s.real_root = false)
    (h2 : s.conf.system_instance = true) : root_check w s = .finish s := by
  unfold root_check
  simp [h1, h2]

theorem negotiate_retval (w : World) (s : St) :
    (negotiate w s).st.retval = s.retval := by
  unfold negotiate
  rw [Flow.andThen_st St.retval _ _ (drop_decision_retval w),
    Flow.andThen_st St.retval _ _ (apply_rlimits_retval w), scheduling_grant_retval]

theorem negotiation_retval (w : World) : (negotiation w).st.retval = 1 := by
  unfold negotiation prologue
  rw [Flow.andThen_st St.retval _ _ (negotiate_retval w),
    Flow.andThen_st St.retval _ _ (load_configuration_retval w),
    Flow.andThen_st St.retval _ _ (early_setup_retval w),
    Flow.andThen_st St.retval _ _ (drop_privileges_retval w), bind_now_retval]
  rfl

/-- A run or start by a process that is not real root and asks for a system
instance never gets past the check of lines 623-628: it reaches `finish` there
or earlier, with `retval` still 1, or it never returns (the re-execution of
lines 350-367). -/
theorem body_root_refused (w : World)
    (hcmd : w.conf_cmdline.cmd = .PA_CMD_DAEMON ∨ w.conf_cmdline.cmd = .PA_CMD_START)
    (hnr : real_root w = false) (hsys : w.conf_cmdline.system_instance = true) :
    (body w).sat (fun _ => False) RootRefused (Silent from_ltdl) := by
  unfold body
  refine Flow.sat_andThen
    (M := fun s => Untouched w from_ltdl s ∧ s.real_root = real_root w)
    (Flow.sat_mono (Flow.sat_and (Flow.sat_and (negotiation_untouched w from_ltdl (by decide)
      (by decide) (by decide) (by decide) (by decide) (by decide) (by decide))
      (negotiation_real_root w))
      (Flow.sat_of_st (P := fun s => s.retval = 1) (negotiation_retval w)))
      (fun _ x => x.1) (fun _ x => ⟨x.2, silent_mono x.1.1 (by decide)⟩)
      (fun _ x => x.1.1)) ?_
  refine startup_sat w
    (B := fun s => Untouched w after_switch s ∧ s.real_root = real_root w)
    (C := fun s => Untouched w after_switch s ∧ s.real_root = real_root w)
    (D := fun _ => False) (E := fun _ => False) (G := fun _ => False) (H := fun _ => False)
    (J := fun _ => False) (K := fun _ => False) (L := fun _ => False) (Q := fun _ => False)
    ?_ ?_ ?_ ?_ ?_ ?_ ?_ ?_ ?_ ?_ ?_
  · intro s h
    have e : ltdl_setup w s = .next (ltdl_setup w s).st := by
      unfold ltdl_setup
      rfl
    rw [e]
    refine ⟨⟨(ltdl_setup_retval w s).trans h.1.1, (ltdl_setup_conf w s).trans h.1.2.1, ?_⟩,
      (ltdl_setup_real_root w s).trans h.2⟩
    exact silent_of_filter (fun p hp => ltdl_setup_filter w _ p (hp.quiet (by decide)))
      (silent_mono h.1.2.2 (by decide))
  · intro s h
    rw [command_switch_daemon w s (by rw [h.1.2.1]; exact hcmd)]
    exact h
  · intro s h
    rw [root_check_refused w s (h.2.trans hnr) (by rw [h.1.2.1]; exact hsys)]
    exact ⟨h.1.1, h.1.2.2⟩
  all_goals exact fun s h => h.elim

theorem environment_setup_getpwnam (w : World) (s : St) (hfail : (change_user w).1 < 0)
    (h : s.trace.any Event.is_getpwnam = false) :
    (environment_setup w s).sat (fun s => s.trace.any Event.is_getpwnam = false)
      (fun _ => True) (fun s => s.trace.any Event.is_getpwnam = false) := by
  unfold environment_setup runtime_directory
  simp only []
  split_ifs <;>
    simp only [Flow.sat, St.emit_trace, List.any_append, h, List.any_cons, List.any_nil,
      Event.is_getpwnam, Bool.or_false]

/-- A failing `change_user` sends `main` to `finish` before the PID file. -/
theorem body_change_user (w : World) (hfail : (change_user w).1 < 0) :
    (body w).sat (fun s => s.trace.any Event.is_getpwnam = false) ChangeUserFailed
      (fun s => s.trace.any Event.is_getpwnam = false) := by
  have hS : ∀ s, Silent from_environment s → s.trace.any Event.is_getpwnam = false :=
    fun s h => silent_any h (only_getpwnam.mono (by decide))
  have hF : ∀ s, s.trace.any Event.is_getpwnam = false → ChangeUserFailed s := by
    intro s h hp
    rw [h] at hp
    exact absurd hp (by decide)
  have hB : ∀ (f : Flow) (s : St),
      f.st.trace.filter Event.is_getpwnam = s.trace.filter Event.is_getpwnam →
      s.trace.any Event.is_getpwnam = false →
      f.sat (fun s => s.trace.any Event.is_getpwnam = false) ChangeUserFailed
        (fun s => s.trace.any Event.is_getpwnam = false) :=
    fun f s hf h => Flow.sat_mono
      (Flow.sat_of_st (P := fun s => s.trace.any Event.is_getpwnam = false)
        ((any_of_filter hf).trans h)) (fun _ x => x) hF (fun _ x => x)
  unfold body
  refine Flow.sat_andThen (Flow.sat_mono (negotiation_untouched w from_environment (by decide)
    (by decide) (by decide) (by decide) (by decide) (by decide) (by decide))
    (fun _ x => x) (fun _ x => hF _ (hS _ x)) hS) ?_
  refine startup_sat w (B := Untouched w from_environment) (C := Untouched w from_environment)
    (D := Untouched w from_environment) (E := Untouched w from_environment)
    (G := Untouched w from_environment)
    (H := fun s => s.trace.any Event.is_getpwnam = false)
    (J := fun s => s.trace.any Event.is_getpwnam = false)
    (K := fun s => s.trace.any Event.is_getpwnam = false)
    (L := fun s => s.trace.any Event.is_getpwnam = false)
    (Q := fun s => s.trace.any Event.is_getpwnam = false)
    ?_ ?_ ?_ ?_ ?_ ?_ ?_ ?_ ?_ ?_ ?_
  · exact fun s h => Flow.sat_mono (ltdl_setup_untouched w _ (by decide) s h) (fun _ x => x)
      (fun _ x => hF _ (hS _ x)) hS
  · exact fun s h => Flow.sat_mono (command_switch_untouched w _ (by decide) s h)
      (fun _ x => x) (fun _ x => hF _ (hS _ x)) hS
  · exact fun s h => Flow.sat_mono (root_check_untouched w _ s h) (fun _ x => x)
      (fun _ x => hF _ (hS _ x)) hS
  · exact fun s h => Flow.sat_mono (autospawn_lock_untouched w _ (by decide) s h)
      (fun _ x => x) (fun _ x => hF _ (hS _ x)) hS
  · exact fun s h => Flow.sat_mono (daemonize_untouched w _ (by decide) (by decide)
      (by decide) s h) (fun _ x => x) (fun _ x => hF _ (hS _ x)) hS
  · intro s h
    have h1 : (environment_setup w s).st.retval = 1 ∧
        Silent from_pid_file (environment_setup w s).st :=
      ⟨(environment_setup_retval w s).trans h.1, silent_of_filter
        (fun p hp => environment_setup_filter w _ p (hp.quiet (by decide)))
        (silent_mono h.2.2 (by decide))⟩
    exact Flow.sat_mono (Flow.sat_and (environment_setup_getpwnam w s hfail (hS _ h.2.2))
      (Flow.sat_of_st (P := fun s => s.retval = 1 ∧ Silent from_pid_file s) h1))
      (fun _ x => x.1) (fun _ x _ => x.2) (fun _ x => x.1)
  · exact fun s => hB _ _ (pid_file_filter w _ _ (only_getpwnam.quiet (by decide)))
  · exact fun s => hB _ _ (create_core_filter w _ _ (only_getpwnam.quiet (by decide)))
  · exact fun s => hB _ _ (bootstrap_filter w _ _ (only_getpwnam.quiet (by decide)))
  · exact fun s => hB _ _ (handshake_success_filter w _ _ (only_getpwnam.quiet (by decide)))
  · exact fun s => hB _ _ (run_mainloop_filter w _ _ (only_getpwnam.quiet (by decide)))

theorem change_user_failed_main (w : World)
    (hget : (main w).trace.any Event.is_getpwnam = true) (hfail : (change_user w).1 < 0) :
    (main w).exit = .returned 1 ∧
    (main w).trace.any Event.is_daemon_work = false ∧
    (main w).trace.any Event.is_success_write = false ∧
    (holds_write_end w (main w).trace = true → status_writes (main w).trace = 1) := by
  rcases main_cases w (body_change_user w hfail) with ⟨s, hs, hexit, ht⟩ | ⟨s, hs, -, ht⟩
  · have e1 : (finish s).trace.any Event.is_getpwnam = s.trace.any Event.is_getpwnam :=
      any_of_filter (finish_filter s _ (only_getpwnam.quiet (by decide)))
    have e2 : (finish s).trace.any Event.is_daemon_work = s.trace.any Event.is_daemon_work :=
      any_of_filter (finish_filter s _ (only_daemon_work.quiet (by decide)))
    rw [ht, e1] at hget
    have hf : ChangeUserFailed s := by
      rcases hs with hs | hs
      · rw [hs] at hget
        exact absurd hget (by decide)
      · exact hs
    obtain ⟨h1, h2⟩ := hf hget
    have hx : (main w).exit = .returned 1 := by rw [hexit, h1]
    refine ⟨hx, ?_, ?_, ?_⟩
    · rw [ht, e2]
      exact silent_any h2 (only_daemon_work.mono (by decide))
    · rw [ht]
      exact finish_success_write s (by rw [h1]; decide)
        (success_write_of_status_writes _
          (silent_countP h2 (only_status_write.mono (by decide))))
    · intro hh
      rw [writes_of_returned w 1 hx, hh]
      rfl
  · rw [ht, hs] at hget
    exact absurd hget (by decide)

theorem root_refused_main (w : World)
    (hcmd : w.conf_cmdline.cmd = .PA_CMD_DAEMON ∨ w.conf_cmdline.cmd = .PA_CMD_START)
    (hnr : real_root w = false) (hsys : w.conf_cmdline.system_instance = true) :
    (∀ rv, (main w).exit = .returned rv → rv = 1) ∧
    ((main w).trace.any Event.is_random_seed = true → (main w).exit = .returned 1) ∧
    (main w).trace.any Event.is_daemon_work = false ∧
    (main w).trace.any Event.is_fork = false ∧
    (main w).trace.any Event.is_pipe = false ∧
    status_writes (main w).trace = 0 := by
  rcases main_cases w (body_root_refused w hcmd hnr hsys) with
    ⟨s, hs, hexit, ht⟩ | ⟨s, hs, hexit, ht⟩
  · have e2 : (finish s).trace.any Event.is_daemon_work = s.trace.any Event.is_daemon_work :=
      any_of_filter (finish_filter s _ (only_daemon_work.quiet (by decide)))
    have e3 : (finish s).trace.any Event.is_fork = s.trace.any Event.is_fork :=
      any_of_filter (finish_filter s _ (only_fork.quiet (by decide)))
    have e4 : (finish s).trace.any Event.is_pipe = s.trace.any Event.is_pipe :=
      any_of_filter (finish_filter s _ (only_pipe.quiet (by decide)))
    obtain ⟨h1, h2⟩ := hs.elim (fun h => h.elim) id
    have hx : (main w).exit = .returned 1 := by rw [hexit, h1]
    have hp : s.trace.any Event.is_pipe = false :=
      silent_any h2 (only_pipe.mono (by decide))
    refine ⟨?_, fun _ => hx, ?_, ?_, ?_, ?_⟩
    · intro rv hrv
      rw [hx] at hrv
      injection hrv with hrv
      exact hrv.symm
    · rw [ht, e2]
      exact silent_any h2 (only_daemon_work.mono (by decide))
    · rw [ht, e3]
      exact silent_any h2 (only_fork.mono (by decide))
    · rw [ht, e4]
      exact hp
    · rw [writes_of_returned w 1 hx, ht]
      unfold holds_write_end created_pipe
      rw [e4, hp]
      rfl
  · refine ⟨?_, ?_, ?_, ?_, ?_, ?_⟩
    · intro rv hrv
      rcases hexit with e | e <;> rw [e] at hrv <;> cases hrv
    · intro hseed
      rw [ht, silent_any hs (only_random_seed.mono (by decide))] at hseed
      exact absurd hseed (by decide)
    · rw [ht]
      exact silent_any hs (only_daemon_work.mono (by decide))
    · rw [ht]
      exact silent_any hs (only_fork.mono (by decide))
    · rw [ht]
      exact silent_any hs (only_pipe.mono (by decide))
    · rw [ht]
      exact silent_countP hs (only_status_write.mono (by decide))

/-- C12, as amended. `change_user` returns 0 or -1, and 0 exactly when both
lookups succeeded with matching GIDs, both directories were made, and
`initgroups`, the GID change and the UID change succeeded. Its calls are an
initial part of the fixed sequence of the source, and each call is made exactly
when every earlier step succeeded: the GID is changed only after the lookups,
the directories and `initgroups`, the UID only after the GID change as well, and
the environment is set only on success. When `main` calls `change_user` and it
fails, `main` returns 1 without creating the PID file, the event loop or the
core; no success word is written, and a process that holds the write end of the
handshake pipe writes exactly one status word, the failure code. When a run or
start command asks for a system instance as a process that is not real root,
`main` never returns anything but 1 (and does return 1 once it has reached the
command switch), creates neither PID file, event loop nor core, and, the check
of lines 623-628 being before the daemonization, neither creates the handshake
pipe nor forks nor writes a status word. -/
theorem system_instance_all_or_abort (w : World) :
    (((change_user w).1 = 0 ∨ (change_user w).1 = -1) ∧
      ((change_user w).1 = 0 ↔
        identity_found w = true ∧ 0 ≤ w.pa_make_secure_dir .PA_SYSTEM_RUNTIME_PATH ∧
        0 ≤ w.pa_make_secure_dir .PA_SYSTEM_STATE_PATH ∧ w.initgroups = 0 ∧
        0 ≤ w.setresgid ∧ 0 ≤ w.setresuid) ∧
      ((change_user w).1 = 0 → (change_user w).2 = change_user_calls) ∧
      ((change_user w).1 ≠ 0 → ∀ v, Event.pa_set_env v ∉ (change_user w).2)) ∧
    ((change_user w).2 <+: change_user_calls ∧
      Event.getpwnam ∈ (change_user w).2 ∧
      (Event.getgrnam ∈ (change_user w).2 ↔ w.getpwnam.isSome = true) ∧
      (Event.pa_make_secure_dir .PA_SYSTEM_RUNTIME_PATH ∈ (change_user w).2 ↔
        identity_found w = true) ∧
      (Event.pa_make_secure_dir .PA_SYSTEM_STATE_PATH ∈ (change_user w).2 ↔
        identity_found w = true ∧ 0 ≤ w.pa_make_secure_dir .PA_SYSTEM_RUNTIME_PATH) ∧
      (Event.initgroups ∈ (change_user w).2 ↔
        identity_found w = true ∧ 0 ≤ w.pa_make_secure_dir .PA_SYSTEM_RUNTIME_PATH ∧
        0 ≤ w.pa_make_secure_dir .PA_SYSTEM_STATE_PATH) ∧
      (Event.setresgid ∈ (change_user w).2 ↔
        identity_found w = true ∧ 0 ≤ w.pa_make_secure_dir .PA_SYSTEM_RUNTIME_PATH ∧
        0 ≤ w.pa_make_secure_dir .PA_SYSTEM_STATE_PATH ∧ w.initgroups = 0) ∧
      (Event.setresuid ∈ (change_user w).2 ↔
        identity_found w = true ∧ 0 ≤ w.pa_make_secure_dir .PA_SYSTEM_RUNTIME_PATH ∧
        0 ≤ w.pa_make_secure_dir .PA_SYSTEM_STATE_PATH ∧ w.initgroups = 0 ∧
        0 ≤ w.setresgid)) ∧
    ((main w).trace.any Event.is_getpwnam = true → (change_user w).1 < 0 →
      (main w).exit = .returned 1 ∧
      (main w).trace.any Event.is_daemon_work = false ∧
      (main w).trace.any Event.is_success_write = false ∧
      (holds_write_end w (main w).trace = true → status_writes (main w).trace = 1)) ∧
    (w.conf_cmdline.cmd = .PA_CMD_DAEMON ∨ w.conf_cmdline.cmd = .PA_CMD_START →
      real_root w = false → w.conf_cmdline.system_instance = true →
      (∀ rv, (main w).exit = .returned rv → rv = 1) ∧
      ((main w).trace.any Event.is_random_seed = true → (main w).exit = .returned 1) ∧
      (main w).trace.any Event.is_daemon_work = false ∧
      (main w).trace.any Event.is_fork = false ∧
      (main w).trace.any Event.is_pipe = false ∧
      status_writes (main w).trace = 0) :=
  ⟨change_user_result w, change_user_order w, change_user_failed_main w,
    root_refused_main w⟩

/-- C12, witness: the daemonized child of a system instance on a system without
the user returns 1 after one failure word and no daemon work; a foreground start
whose UID change fails has changed the GID before and returns 1; an unprivileged
user asking for a system instance gets 1 without a fork. -/
theorem system_instance_all_or_abort_witness :
    ((change_user no_system_user_world).1 = -1 ∧
      (main no_system_user_world).trace.any Event.is_getpwnam = true ∧
      (main no_system_user_world).exit = .returned 1 ∧
      (main no_system_user_world).trace.any Event.is_daemon_work = false ∧
      status_writes (main no_system_user_world).trace = 1) ∧
    ((change_user setresuid_fails_world).1 = -1 ∧
      (change_user setresuid_fails_world).2 = change_user_calls.take 7 ∧
      (main setresuid_fails_world).exit = .returned 1) ∧
    (real_root nonroot_system_world = false ∧
      (main nonroot_system_world).exit = .returned 1 ∧
      (main nonroot_system_world).trace.any Event.is_fork = false) :=
  ⟨⟨by decide, by decide,
      ((system_instance_all_or_abort no_system_user_world).2.2.1 (by decide)
        (by decide)).1,
      ((system_instance_all_or_abort no_system_user_world).2.2.1 (by decide)
        (by decide)).2.1,
      ((system_instance_all_or_abort no_system_user_world).2.2.1 (by decide)
        (by decide)).2.2.2 (by decide)⟩,
    ⟨by decide, by rfl,
      ((system_instance_all_or_abort setresuid_fails_world).2.2.1 (by decide)
        (by decide)).1⟩,
    ⟨by decide,
      ((system_instance_all_or_abort nonroot_system_world).2.2.2 (by decide)
        (by decide) (by decide)).2.1 (by decide),
      ((system_instance_all_or_abort nonroot_system_world).2.2.2 (by decide)
        (by decide) (by decide)).2.2.2.1⟩⟩

/-- C12, counterexample to the claim as the specification states it. An
unprivileged user who runs `--system --version` is not refused: the command
switch of lines 556-621 comes before the check of lines 623-628, and `main`
returns 0. An unprivileged user who asks for a daemonized system instance is
refused with exit code 1, but before the daemonization: no pipe is created, the
process does not fork, and no failure word is written to a handshake pipe. -/
theorem system_instance_all_or_abort_counterexample :
    (real_root nonroot_system_version_world = false ∧
      nonroot_system_version_world.conf_cmdline.system_instance = true ∧
      (main nonroot_system_version_world).exit = .returned 0) ∧
    (real_root nonroot_system_daemonize_world = false ∧
      nonroot_system_daemonize_world.conf_cmdline.system_instance = true ∧
      nonroot_system_daemonize_world.conf_cmdline.daemonize = true ∧
      (main nonroot_system_daemonize_world).exit = .returned 1 ∧
      (main nonroot_system_daemonize_world).trace.any Event.is_fork = false ∧
      status_writes (main nonroot_system_daemonize_world).trace = 0) :=
  ⟨⟨by decide, by decide, by rfl⟩, ⟨by decide, by decide, by decide, by rfl, by decide,
    by decide⟩⟩

/-! ## C13: the exit codes of the subcommands -/

/-- C13, the run in which the code departs from the claim. With every call
succeeding, `--dump-resample-methods` asks for each of the three methods, prints
each of them and returns 1: its case of the switch (lines 570-578) goes to
`finish` without `retval = 0`. The sibling cases set `retval = 0`: dumping the
modules or the configuration, the help and the version return 0; `--check` and
`--kill` return 1 when `pa_pid_file_check_running` or `pa_pid_file_kill` fails
and `--cleanup-shm` returns 0 when `pa_shm_cleanup` succeeds. None of the
subcommands forks or creates the PID file, the event loop or the core. -/
theorem dump_resample_methods_returns_failure :
    (main (command_world .PA_CMD_DUMP_RESAMPLE_METHODS)).exit = .returned 1 ∧
    (main (command_world .PA_CMD_DUMP_RESAMPLE_METHODS)).trace.filter
        (fun e => (Block.command_switch ∈ e.blocks : Bool)) =
      [.pa_resample_method_supported 0, .printf_resample_method 0,
       .pa_resample_method_supported 1, .printf_resample_method 1,
       .pa_resample_method_supported 2, .printf_resample_method 2] ∧
    (main (command_world .PA_CMD_DUMP_MODULES)).exit = .returned 0 ∧
    (main (command_world .PA_CMD_DUMP_CONF)).exit = .returned 0 ∧
    (main (command_world .PA_CMD_HELP)).exit = .returned 0 ∧
    (main (command_world .PA_CMD_VERSION)).exit = .returned 0 ∧
    (main (command_world .PA_CMD_CHECK)).exit = .returned 1 ∧
    (main { command_world .PA_CMD_CHECK with pa_pid_file_check_running := 0 }).exit =
      .returned 0 ∧
    (main (command_world .PA_CMD_KILL)).exit = .returned 1 ∧
    (main { command_world .PA_CMD_KILL with pa_pid_file_kill := 0 }).exit = .returned 0 ∧
    (main (command_world .PA_CMD_CLEANUP_SHM)).exit = .returned 0 ∧
    (main { command_world .PA_CMD_CLEANUP_SHM with pa_shm_cleanup := -1 }).exit =
      .returned 1 ∧
    (main (command_world .PA_CMD_DUMP_RESAMPLE_METHODS)).trace.any Event.is_fork = false ∧
    (main (command_world .PA_CMD_DUMP_RESAMPLE_METHODS)).trace.any
      Event.is_daemon_work = false :=
  ⟨by rfl, by rfl, by rfl, by rfl, by rfl, by rfl, by rfl, by rfl, by rfl, by rfl, by rfl,
    by rfl, by rfl, by rfl⟩

/-! ## C14: keeping or dropping the capability -/

theorem only_drop_caps : Only [.scheduling_grant, .drop_decision] Event.is_drop_caps := by
  intro e he
  cases e <;> first | (simp [Event.is_drop_caps] at he; done) |
    (intro b hb; simp_all [Event.blocks])

theorem only_limit_caps : Only [.drop_privileges] Event.is_limit_caps := by
  intro e he
  cases e <;> first | (simp [Event.is_limit_caps] at he; done) |
    (intro b hb; simp_all [Event.blocks])

theorem noDrop_dropsLast {s : St} (h : NoDrop s) : DropsLast s :=
  ⟨s.trace, List.prefix_refl _, h, rfl⟩

theorem noDrop_boring (f : Flow) (s : St)
    (hf : f.st.trace.filter Event.is_drop_caps = s.trace.filter Event.is_drop_caps) :
    NoDrop s → f.sat NoDrop DropsLast DropsLast := by
  intro hs
  have h : NoDrop f.st := by
    unfold NoDrop at hs ⊢
    rw [any_of_filter hf]
    exact hs
  exact Flow.sat_mono (Flow.sat_of_st h) (fun _ x => x) (fun _ x => noDrop_dropsLast x)
    (fun _ x => noDrop_dropsLast x)

theorem dropsLast_boring (f : Flow) (s : St)
    (hg : ∀ t, t <+: s.trace → t <+: f.st.trace)
    (hf : f.st.trace.filter Event.is_limit_caps = s.trace.filter Event.is_limit_caps) :
    DropsLast s → f.sat DropsLast DropsLast DropsLast := by
  intro hs
  obtain ⟨t0, h1, h2, h3⟩ := hs
  exact Flow.sat_of_st ⟨t0, hg t0 h1, h2, hf.trans h3⟩

theorem body_dropsLast (w : World) : (body w).sat DropsLast DropsLast DropsLast := by
  have h0 : NoDrop (initial w) := rfl
  have hN : ∀ (f : Flow) (s : St),
      f.st.trace.filter Event.is_drop_caps = s.trace.filter Event.is_drop_caps →
      NoDrop s → f.sat NoDrop DropsLast DropsLast := noDrop_boring
  have hD : ∀ (f : Flow) (s : St), (∀ t, t <+: s.trace → t <+: f.st.trace) →
      f.st.trace.filter Event.is_limit_caps = s.trace.filter Event.is_limit_caps →
      DropsLast s → f.sat DropsLast DropsLast DropsLast := dropsLast_boring
  unfold body negotiation
  refine Flow.sat_andThen (M := DropsLast) (Flow.sat_andThen (M := NoDrop) ?_ ?_) ?_
  · refine prologue_sat w (B := NoDrop) (C := NoDrop) (D := NoDrop) ?_ ?_ ?_ ?_
    · exact hN _ _ (bind_now_filter w _ _ (only_drop_caps.quiet (by decide))) h0
    · exact fun s => hN _ _ (drop_privileges_filter w _ _ (only_drop_caps.quiet (by decide)))
    · exact fun s => hN _ _ (early_setup_filter w _ _ (only_drop_caps.quiet (by decide)))
    · exact fun s => hN _ _
        (load_configuration_filter w _ _ (only_drop_caps.quiet (by decide)))
  · intro s hs
    refine negotiate_sat w (B := DropsLast) (C := DropsLast) ?_ ?_ ?_ s (noDrop_dropsLast hs)
    · exact fun s => hD _ _ (fun t => scheduling_grant_grows w s)
        (scheduling_grant_filter w _ _ (only_limit_caps.quiet (by decide)))
    · exact fun s => hD _ _ (fun t => apply_rlimits_grows w s)
        (apply_rlimits_filter w _ _ (only_limit_caps.quiet (by decide)))
    · exact fun s => hD _ _ (fun t => drop_decision_grows w s)
        (drop_decision_filter w _ _ (only_limit_caps.quiet (by decide)))
  · refine startup_sat w (B := DropsLast) (C := DropsLast) (D := DropsLast) (E := DropsLast)
      (G := DropsLast) (H := DropsLast) (J := DropsLast) (K := DropsLast) (L := DropsLast)
      (Q := DropsLast) ?_ ?_ ?_ ?_ ?_ ?_ ?_ ?_ ?_ ?_ ?_
    · exact fun s => hD _ _ (fun t => ltdl_setup_grows w s)
        (ltdl_setup_filter w _ _ (only_limit_caps.quiet (by decide)))
    · exact fun s => hD _ _ (fun t => command_switch_grows w s)
        (command_switch_filter w _ _ (only_limit_caps.quiet (by decide)))
    · exact fun s => hD _ _ (fun t => root_check_grows w s) (root_check_filter w _ _)
    · exact fun s => hD _ _ (fun t => autospawn_lock_grows w s)
        (autospawn_lock_filter w _ _ (only_limit_caps.quiet (by decide)))
    · exact fun s => hD _ _ (fun t => daemonize_grows w s)
        (daemonize_filter w _ _ (only_limit_caps.quiet (by decide))
          (only_limit_caps.quiet (by decide)) (only_limit_caps.quiet (by decide)))
    · exact fun s => hD _ _ (fun t => environment_setup_grows w s)
        (environment_setup_filter w _ _ (only_limit_caps.quiet (by decide)))
    · exact fun s => hD _ _ (fun t => pid_file_grows w s)
        (pid_file_filter w _ _ (only_limit_caps.quiet (by decide)))
    · exact fun s => hD _ _ (fun t => create_core_grows w s)
        (create_core_filter w _ _ (only_limit_caps.quiet (by decide)))
    · exact fun s => hD _ _ (fun t => bootstrap_grows w s)
        (bootstrap_filter w _ _ (only_limit_caps.quiet (by decide)))
    · exact fun s => hD _ _ (fun t => handshake_success_grows w s)
        (handshake_success_filter w _ _ (only_limit_caps.quiet (by decide)))
    · exact fun s => hD _ _ (fun t => run_mainloop_grows w s)
        (run_mainloop_filter w _ _ (only_limit_caps.quiet (by decide)))

theorem any_of_suffix {p : Event → Bool} {a b : List Event} (h : (a ++ b).any p = false) :
    b.any p = false := by
  rw [List.any_append, Bool.or_eq_false_iff] at h
  exact h.2

/-- In a trace that starts with calls `t0` without a `pa_drop_caps` and has no
`pa_limit_caps` after them, no `pa_limit_caps` follows a `pa_drop_caps`. -/
theorem no_limit_after_drop {t t0 : List Event} (h1 : t0 <+: t)
    (h2 : t0.any Event.is_drop_caps = false)
    (h3 : t.filter Event.is_limit_caps = t0.filter Event.is_limit_caps)
    (pre post : List Event) (ht : t = pre ++ Event.pa_drop_caps :: post) :
    post.any Event.is_limit_caps = false := by
  obtain ⟨r, hr, hrp⟩ := extends_rest h1 h3
  rw [hr] at ht
  rcases List.append_eq_append_iff.1 ht with ⟨a, ha, hb⟩ | ⟨c, hc, hd⟩
  · rw [hb] at hrp
    have := any_of_suffix hrp
    rw [List.any_cons, Bool.or_eq_false_iff] at this
    exact this.2
  · cases c with
    | nil =>
      rw [List.nil_append] at hd
      rw [← hd, List.any_cons, Bool.or_eq_false_iff] at hrp
      exact hrp.2
    | cons x c =>
      rw [List.cons_append] at hd
      injection hd with hx hd
      rw [hc, ← hx] at h2
      have := any_of_suffix h2
      rw [List.any_cons] at this
      exact absurd this (by simp [Event.is_drop_caps])

theorem main_dropsLast (w : World) :
    ∃ t0, t0 <+: (main w).trace ∧ t0.any Event.is_drop_caps = false ∧
      (main w).trace.filter Event.is_limit_caps = t0.filter Event.is_limit_caps := by
  rcases main_cases w (body_dropsLast w) with ⟨s, hs, -, ht⟩ | ⟨s, hs, -, ht⟩
  · obtain ⟨t0, h1, h2, h3⟩ := hs.elim id id
    rw [ht]
    exact ⟨t0, finish_grows s h1, h2,
      (finish_filter s _ (only_limit_caps.quiet (by decide))).trans h3⟩
  · rw [ht]
    exact hs

theorem drop_iff (w : World) (conf : pa_daemon_conf) :
    drop w conf = true ↔
      (conf.cmd ≠ .PA_CMD_DAEMON ∧ conf.cmd ≠ .PA_CMD_START) ∨
      conf.realtime_scheduling = false ∨
      (0 ≤ w.getrlimit_rtprio ∧ 9 ≤ w.rtprio_rlim_cur) ∨
      (0 ≤ w.getrlimit_rtprio ∧ w.rtprio_rlim_cur < 9 ∧ 0 ≤ w.setrlimit_rtprio) := by
  unfold drop drop_initially
  simp only [Bool.or_eq_true, Bool.and_eq_true, decide_eq_true_eq, Bool.not_eq_true',
    bne_iff_ne, ne_eq, ge_iff_le]
  constructor
  · rintro ((h | h) | ⟨h1, h2 | h2⟩)
    · exact Or.inl h
    · exact Or.inr (Or.inl h)
    · exact Or.inr (Or.inr (Or.inl ⟨h1, h2⟩))
    · by_cases h9 : 9 ≤ w.rtprio_rlim_cur
      · exact Or.inr (Or.inr (Or.inl ⟨h1, h9⟩))
      · exact Or.inr (Or.inr (Or.inr ⟨h1, by omega, h2⟩))
  · rintro (h | h | ⟨h1, h2⟩ | ⟨h1, -, h3⟩)
    · exact Or.inl (Or.inl h)
    · exact Or.inl (Or.inr h)
    · exact Or.inr ⟨h1, Or.inl h2⟩
    · exact Or.inr ⟨h1, Or.inr h3⟩

theorem acquire_rtprio_setrlimit (w : World) (conf : pa_daemon_conf) :
    (acquire_rtprio w conf).filter Event.is_setrlimit =
      if drop_initially conf = false ∧ 0 ≤ w.getrlimit_rtprio ∧ w.rtprio_rlim_cur < 9
      then [.setrlimit Resource.RLIMIT_RTPRIO 9 9] else [] := by
  unfold acquire_rtprio
  split_ifs <;> first | rfl | (exfalso; simp_all; done) | (exfalso; simp_all; omega)

/-- C14. For a process that is not real root and holds the capability
(`pa_have_caps` answers yes), the grant stage calls `pa_drop_caps` exactly when
neither high-priority nor real-time scheduling was allowed, and the decision
stage calls it exactly when `drop` holds: the command is neither run nor start,
or real-time scheduling is not requested, or `RLIMIT_RTPRIO` could be read and
its soft limit is at least 9, or it could be read, is below 9 and `setrlimit`
to 9 (soft and hard, the only `setrlimit` of that stage) succeeds; otherwise the
capability is kept. These are the only calls that change privileges after the
initial `pa_limit_caps`, `pa_drop_root`, `pa_limit_caps`, and in no run of
`main` does a `pa_limit_caps` follow a `pa_drop_caps`. -/
theorem capability_keep_or_drop (w : World) :
    (∀ s : St, ∃ s2, scheduling_grant w s = .next s2 ∧
      s2.trace.filter Event.is_caps_call = s.trace.filter Event.is_caps_call ++
        (if !s.real_root && w.pa_have_caps_grant && !allow_high_priority w s.conf &&
            !allow_realtime w s.conf then [.pa_drop_caps] else [])) ∧
    (∀ s : St, ∃ s2, drop_decision w s = .next s2 ∧
      s2.trace.filter Event.is_caps_call = s.trace.filter Event.is_caps_call ++
        (if !s.real_root && w.pa_have_caps_decision && drop w s.conf
          then [.pa_drop_caps] else [])) ∧
    (∀ conf : pa_daemon_conf, drop w conf = true ↔
      (conf.cmd ≠ .PA_CMD_DAEMON ∧ conf.cmd ≠ .PA_CMD_START) ∨
      conf.realtime_scheduling = false ∨
      (0 ≤ w.getrlimit_rtprio ∧ 9 ≤ w.rtprio_rlim_cur) ∨
      (0 ≤ w.getrlimit_rtprio ∧ w.rtprio_rlim_cur < 9 ∧ 0 ≤ w.setrlimit_rtprio)) ∧
    (∀ conf : pa_daemon_conf, (acquire_rtprio w conf).filter Event.is_setrlimit =
      if drop_initially conf = false ∧ 0 ≤ w.getrlimit_rtprio ∧ w.rtprio_rlim_cur < 9
      then [.setrlimit Resource.RLIMIT_RTPRIO 9 9] else []) ∧
    (∀ s : St, real_root w = false → negotiation w = .next s →
      s.trace.filter Event.is_caps_call =
        [.pa_limit_caps, .pa_drop_root, .pa_limit_caps] ++
        (if w.pa_have_caps_grant && !allow_high_priority w w.conf_cmdline &&
            !allow_realtime w w.conf_cmdline then [.pa_drop_caps] else []) ++
        (if w.pa_have_caps_decision && drop w w.conf_cmdline
          then [.pa_drop_caps] else [])) ∧
    (∀ pre post : List Event, (main w).trace = pre ++ Event.pa_drop_caps :: post →
      post.any Event.is_limit_caps = false) := by
  refine ⟨scheduling_grant_caps w, drop_decision_caps w, drop_iff w,
    acquire_rtprio_setrlimit w, ?_, ?_⟩
  · intro s hnr h
    have := negotiation_caps_calls w hnr
    rw [h] at this
    exact this
  · obtain ⟨t0, h1, h2, h3⟩ := main_dropsLast w
    exact no_limit_after_drop h1 h2 h3

/-- C14, witness: three starts as SUID root that ask for real-time scheduling. In
the realtime group with an `RLIMIT_RTPRIO` that can neither be read nor raised,
the capability is kept; when the limit can be raised to 9 it is dropped at the
decision; refused by group and policy service it is dropped in the grant
stage. -/
theorem capability_keep_or_drop_witness :
    (real_root suid_world = false ∧ drop suid_world suid_world.conf_cmdline = false ∧
      (negotiation suid_world).st.trace.filter Event.is_caps_call =
        [.pa_limit_caps, .pa_drop_root, .pa_limit_caps]) ∧
    (drop suid_raised_world suid_raised_world.conf_cmdline = true ∧
      (negotiation suid_raised_world).st.trace.filter Event.is_caps_call =
        [.pa_limit_caps, .pa_drop_root, .pa_limit_caps, .pa_drop_caps] ∧
      (negotiation suid_raised_world).st.trace.filter Event.is_setrlimit =
        [.setrlimit Resource.RLIMIT_RTPRIO 9 9]) ∧
    (allow_realtime suid_refused_world suid_refused_world.conf_cmdline = false ∧
      (negotiation suid_refused_world).st.trace.filter Event.is_caps_call =
        [.pa_limit_caps, .pa_drop_root, .pa_limit_caps, .pa_drop_caps]) ∧
    (∀ pre post : List Event,
      (main suid_raised_world).trace = pre ++ Event.pa_drop_caps :: post →
      post.any Event.is_limit_caps = false) :=
  ⟨⟨by decide, by decide,
      ((capability_keep_or_drop suid_world).2.2.2.2.1 _ (by decide) (by rfl)).trans
        (by rfl)⟩,
    ⟨by decide,
      ((capability_keep_or_drop suid_raised_world).2.2.2.2.1 _ (by decide) (by rfl)).trans
        (by rfl), by rfl⟩,
    ⟨by decide,
      ((capability_keep_or_drop suid_refused_world).2.2.2.2.1 _ (by decide) (by rfl)).trans
        (by rfl)⟩,
    (capability_keep_or_drop suid_raised_world).2.2.2.2.2⟩

/-! ## C15: ownership of the PID file -/

theorem only_pid_file_remove : Only [.finish] Event.is_pid_file_remove := by
  intro e he
  cases e <;> first | (simp [Event.is_pid_file_remove] at he; done) |
    (intro b hb; simp_all [Event.blocks])

theorem silent_pidOwned (w : World) {s : St} (h : Silent from_pid_file s)
    (hv : s.valid_pid_file = false) : PidOwned w s := by
  have h1 := silent_any h only_pid_file_create
  have h2 := silent_any h (only_pid_file_remove.mono (by decide))
  refine ⟨?_, ?_, h2⟩
  · rw [hv, h1]
    simp
  · rw [h1]
    intro hp
    exact absurd hp (by decide)

theorem beforePidFile_of (w : World) (f : Flow)
    (hU : f.sat (Untouched w from_pid_file) (Silent from_pid_file) (Silent from_pid_file))
    (hv : f.st.valid_pid_file = false) :
    f.sat (BeforePidFile w) (PidOwned w) (PidOwned w) :=
  Flow.sat_mono
    (Flow.sat_and hU (Flow.sat_of_st (P := fun s => s.valid_pid_file = false) hv))
    (fun _ x => x) (fun _ x => silent_pidOwned w x.1 x.2) (fun _ x => silent_pidOwned w x.1 x.2)

theorem pidOwned_boring (w : World) (f : Flow) (s : St)
    (hv : f.st.valid_pid_file = s.valid_pid_file)
    (hc : f.st.trace.filter Event.is_pid_file_create =
      s.trace.filter Event.is_pid_file_create)
    (hr : f.st.trace.filter Event.is_pid_file_remove =
      s.trace.filter Event.is_pid_file_remove) :
    PidOwned w s → f.sat (PidOwned w) (PidOwned w) (PidOwned w) := by
  intro hs
  refine Flow.sat_of_st ?_
  unfold PidOwned at hs ⊢
  rw [hv, any_of_filter hc, any_of_filter hr]
  exact hs

theorem negotiate_valid_pid_file (w : World) (s : St) :
    (negotiate w s).st.valid_pid_file = s.valid_pid_file := by
  unfold negotiate
  rw [Flow.andThen_st St.valid_pid_file _ _ (drop_decision_valid_pid_file w),
    Flow.andThen_st St.valid_pid_file _ _ (apply_rlimits_valid_pid_file w),
    scheduling_grant_valid_pid_file]

theorem negotiation_valid_pid_file (w : World) :
    (negotiation w).st.valid_pid_file = false := by
  unfold negotiation prologue
  rw [Flow.andThen_st St.valid_pid_file _ _ (negotiate_valid_pid_file w),
    Flow.andThen_st St.valid_pid_file _ _ (load_configuration_valid_pid_file w),
    Flow.andThen_st St.valid_pid_file _ _ (early_setup_valid_pid_file w),
    Flow.andThen_st St.valid_pid_file _ _ (drop_privileges_valid_pid_file w),
    bind_now_valid_pid_file]
  rfl

theorem pid_file_owned (w : World) (s : St) (hs : BeforePidFile w s) :
    (pid_file w s).sat (PidOwned w) (PidOwned w) (PidOwned w) := by
  obtain ⟨⟨-, hc, hsil⟩, hv⟩ := hs
  have h1 := silent_any hsil only_pid_file_create
  have h2 := silent_any hsil (only_pid_file_remove.mono (by decide))
  have hp : Event.is_pid_file_create .pa_pid_file_create = true := rfl
  have hq : Event.is_pid_file_remove .pa_pid_file_create = false := rfl
  unfold pid_file
  simp only []
  split_ifs with hu hz hst <;>
    simp only [Flow.sat, PidOwned, St.emit_trace, St.emit_valid_pid_file, List.any_append,
      List.any_cons, List.any_nil, hp, hq, h1, h2, hv, Bool.or_false, Bool.or_true,
      Bool.false_or, true_and, Bool.false_eq_true, false_and, and_true, iff_true,
      false_iff, not_and, forall_const, true_implies, false_implies, implies_true] <;>
    first
    | exact ⟨hz, hc ▸ hu⟩
    | exact ⟨by simpa using hz, hc ▸ hu⟩
    | trivial

theorem body_pidOwned (w : World) : (body w).sat (PidOwned w) (PidOwned w) (PidOwned w) := by
  unfold body
  refine Flow.sat_andThen (beforePidFile_of w _ (negotiation_untouched w from_pid_file
    (by decide) (by decide) (by decide) (by decide) (by decide) (by decide) (by decide))
    (negotiation_valid_pid_file w)) ?_
  refine startup_sat w (B := BeforePidFile w) (C := BeforePidFile w) (D := BeforePidFile w)
    (E := BeforePidFile w) (G := BeforePidFile w) (H := BeforePidFile w)
    (J := PidOwned w) (K := PidOwned w) (L := PidOwned w) (Q := PidOwned w)
    ?_ ?_ ?_ ?_ ?_ ?_ ?_ ?_ ?_ ?_ ?_
  · exact fun s h => beforePidFile_of w _ (ltdl_setup_untouched w _ (by decide) s h.1)
      ((ltdl_setup_valid_pid_file w s).trans h.2)
  · exact fun s h => beforePidFile_of w _ (command_switch_untouched w _ (by decide) s h.1)
      ((command_switch_valid_pid_file w s).trans h.2)
  · exact fun s h => beforePidFile_of w _ (root_check_untouched w _ s h.1)
      ((root_check_valid_pid_file w s).trans h.2)
  · exact fun s h => beforePidFile_of w _ (autospawn_lock_untouched w _ (by decide) s h.1)
      ((autospawn_lock_valid_pid_file w s).trans h.2)
  · exact fun s h => beforePidFile_of w _ (daemonize_untouched w _ (by decide) (by decide)
      (by decide) s h.1) ((daemonize_valid_pid_file w s).trans h.2)
  · exact fun s h => beforePidFile_of w _ (environment_setup_untouched w _ (by decide) s h.1)
      ((environment_setup_valid_pid_file w s).trans h.2)
  · exact pid_file_owned w
  · exact fun s => pidOwned_boring w _ _ (create_core_valid_pid_file w s)
      (create_core_filter w _ _ (only_pid_file_create1.quiet (by decide)))
      (create_core_filter w _ _ (only_pid_file_remove.quiet (by decide)))
  · exact fun s => pidOwned_boring w _ _ (bootstrap_valid_pid_file w s)
      (bootstrap_filter w _ _ (only_pid_file_create1.quiet (by decide)))
      (bootstrap_filter w _ _ (only_pid_file_remove.quiet (by decide)))
  · exact fun s => pidOwned_boring w _ _ (handshake_success_valid_pid_file w s)
      (handshake_success_filter w _ _ (only_pid_file_create1.quiet (by decide)))
      (handshake_success_filter w _ _ (only_pid_file_remove.quiet (by decide)))
  · exact fun s => pidOwned_boring w _ _ (run_mainloop_valid_pid_file w s)
      (run_mainloop_filter w _ _ (only_pid_file_create1.quiet (by decide)))
      (run_mainloop_filter w _ _ (only_pid_file_remove.quiet (by decide)))

theorem command_switch_next (w : World) (s s2 : St) (h : command_switch w s = .next s2) :
    s.conf.cmd = .PA_CMD_DAEMON ∨ s.conf.cmd = .PA_CMD_START := by
  unfold command_switch at h
  split at h <;> (try split_ifs at h) <;>
    first | exact Or.inl ‹_› | exact Or.inr ‹_› | cases h

/-- A subcommand never gets past the command switch. -/
theorem body_subcommand (w : World) (h1 : w.conf_cmdline.cmd ≠ .PA_CMD_DAEMON)
    (h2 : w.conf_cmdline.cmd ≠ .PA_CMD_START) :
    (body w).sat (fun _ => False) (Silent after_switch) (Silent after_switch) := by
  unfold body
  refine Flow.sat_andThen (Flow.sat_mono (negotiation_untouched w after_switch (by decide)
    (by decide) (by decide) (by decide) (by decide) (by decide) (by decide))
    (fun _ x => x) (fun _ x => x) (fun _ x => x)) ?_
  refine startup_sat w (B := Untouched w after_switch) (C := fun _ => False)
    (D := fun _ => False) (E := fun _ => False) (G := fun _ => False) (H := fun _ => False)
    (J := fun _ => False) (K := fun _ => False) (L := fun _ => False) (Q := fun _ => False)
    ?_ ?_ ?_ ?_ ?_ ?_ ?_ ?_ ?_ ?_ ?_
  · exact fun s h => ltdl_setup_untouched w _ (by decide) s h
  · intro s h
    have hu := command_switch_untouched w after_switch (by decide) s h
    refine Flow.sat_intro ?_ ?_ ?_
    · intro s2 e
      have := command_switch_next w s s2 e
      rw [h.2.1] at this
      exact this.elim h1 h2
    · intro s2 e
      rw [e] at hu
      exact hu
    · intro s2 e
      rcases e with e | e <;> rw [e] at hu <;> exact hu
  all_goals exact fun s h => h.elim

/-- The waiting parent does none of the work of the daemon. -/
theorem parent_no_daemon_work (w : World) (hp : is_parent w (main w).trace = true) :
    (main w).trace.any Event.is_daemon_work = false := by
  rcases main_cases w (body_parent w) with ⟨s, hs, -, ht⟩ | ⟨s, hs, -, ht⟩
  · have e1 : (finish s).trace.any Event.is_fork = s.trace.any Event.is_fork :=
      any_of_filter (finish_filter s _ (only_fork.quiet (by decide)))
    have e2 : (finish s).trace.any Event.is_daemon_work = s.trace.any Event.is_daemon_work :=
      any_of_filter (finish_filter s _ (only_daemon_work.quiet (by decide)))
    have hp2 : is_parent w s.trace = true := by
      rw [ht] at hp
      unfold is_parent at hp ⊢
      rw [← e1]
      exact hp
    rw [ht, e2]
    rcases hs with hs | hs
    · rw [hs] at hp2
      exact absurd hp2 (by decide)
    · exact (hs hp2).2.2.1
  · rw [ht] at hp ⊢
    exact (hs hp).2

theorem daemon_work_of_pid_file_create {t : List Event}
    (h : t.any Event.is_daemon_work = false) : t.any Event.is_pid_file_create = false := by
  rw [List.any_eq_false] at h ⊢
  intro e he
  have := h e he
  cases e <;> first | (simp [Event.is_pid_file_create]; done) |
    (simp [Event.is_daemon_work] at this)

theorem finish_pid_file_remove (s : St) (h : s.trace.any Event.is_pid_file_remove = false) :
    (finish s).trace.any Event.is_pid_file_remove = s.valid_pid_file := by
  rw [finish_trace]
  simp only [List.any_append, h,
    any_optional _ (.pa_unlock_lockfile _) Event.is_pid_file_remove rfl,
    any_optional _ .pa_core_unref Event.is_pid_file_remove rfl,
    any_optional _ .pa_cpu_limit_done Event.is_pid_file_remove rfl,
    any_optional _ (.pa_loop_write _ _) Event.is_pid_file_remove rfl,
    any_optional _ .pa_mainloop_free Event.is_pid_file_remove rfl,
    any_optional _ .pa_ltdl_done Event.is_pid_file_remove rfl]
  cases s.valid_pid_file <;> rfl

/-- The PID file is removed exactly in a run that returns after this process
obtained it; it is asked for only with `use_pid_file` set. -/
theorem pid_file_removed_iff (w : World) :
    ((main w).trace.any Event.is_pid_file_remove = true ↔
      (∃ rv, (main w).exit = .returned rv) ∧
      (main w).trace.any Event.is_pid_file_create = true ∧ w.pa_pid_file_create = 0) ∧
    ((main w).trace.any Event.is_pid_file_create = true →
      w.conf_cmdline.use_pid_file = true) := by
  rcases main_cases w (body_pidOwned w) with ⟨s, hs, hexit, ht⟩ | ⟨s, hs, hexit, ht⟩
  · have hs : PidOwned w s := hs.elim id id
    have e1 : (finish s).trace.any Event.is_pid_file_create =
        s.trace.any Event.is_pid_file_create :=
      any_of_filter (finish_filter s _ (only_pid_file_create1.quiet (by decide)))
    rw [ht, e1, finish_pid_file_remove s hs.2.2, hs.1]
    exact ⟨⟨fun h => ⟨⟨_, hexit⟩, h⟩, fun h => h.2⟩, hs.2.1⟩
  · rw [ht, hs.2.2]
    refine ⟨⟨fun h => absurd h (by decide), fun h => ?_⟩, hs.2.1⟩
    obtain ⟨⟨rv, hrv⟩, -⟩ := h
    rcases hexit with e | e <;> rw [e] at hrv <;> cases hrv

/-- C15. `main` removes the PID file exactly when it reaches its cleanup (it
returns) after this same process called `pa_pid_file_create` and got 0, and it
makes that call only with `use_pid_file` set. So the file is never removed by a
process for which the call did not return 0 (another live instance, an error),
by a process that never made the call, by the waiting parent of a daemonized
start, or by a subcommand, none of which creates it either; and with
`use_pid_file` off it is neither created nor removed. -/
theorem pid_file_ownership (w : World) :
    ((main w).trace.any Event.is_pid_file_remove = true ↔
      (∃ rv, (main w).exit = .returned rv) ∧
      (main w).trace.any Event.is_pid_file_create = true ∧ w.pa_pid_file_create = 0) ∧
    ((main w).trace.any Event.is_pid_file_create = true →
      w.conf_cmdline.use_pid_file = true) ∧
    (w.pa_pid_file_create ≠ 0 → (main w).trace.any Event.is_pid_file_remove = false) ∧
    ((main w).trace.any Event.is_pid_file_create = false →
      (main w).trace.any Event.is_pid_file_remove = false) ∧
    (is_parent w (main w).trace = true →
      (main w).trace.any Event.is_pid_file_create = false ∧
      (main w).trace.any Event.is_pid_file_remove = false) ∧
    (w.conf_cmdline.cmd ≠ .PA_CMD_DAEMON → w.conf_cmdline.cmd ≠ .PA_CMD_START →
      (main w).trace.any Event.is_pid_file_create = false ∧
      (main w).trace.any Event.is_pid_file_remove = false) ∧
    (w.conf_cmdline.use_pid_file = false →
      (main w).trace.any Event.is_pid_file_create = false ∧
      (main w).trace.any Event.is_pid_file_remove = false) := by
  obtain ⟨hiff, huse⟩ := pid_file_removed_iff w
  have hno : (main w).trace.any Event.is_pid_file_create = false →
      (main w).trace.any Event.is_pid_file_remove = false := by
    intro hc
    cases hr : (main w).trace.any Event.is_pid_file_remove
    · rfl
    · rw [(hiff.1 hr).2.1] at hc
      exact absurd hc (by decide)
  refine ⟨hiff, huse, ?_, hno, ?_, ?_, ?_⟩
  · intro hz
    cases hr : (main w).trace.any Event.is_pid_file_remove
    · rfl
    · exact absurd (hiff.1 hr).2.2 hz
  · intro hp
    have hc := daemon_work_of_pid_file_create (parent_no_daemon_work w hp)
    exact ⟨hc, hno hc⟩
  · intro h1 h2
    have hc : (main w).trace.any Event.is_pid_file_create = false := by
      rcases main_cases w (body_subcommand w h1 h2) with ⟨s, hs, -, ht⟩ | ⟨s, hs, -, ht⟩
      · have hs : Silent after_switch s := hs.elim (fun h => h.elim) id
        rw [ht, any_of_filter (finish_filter s _ (only_pid_file_create1.quiet (by decide)))]
        exact silent_any hs (only_pid_file_create1.mono (by decide))
      · rw [ht]
        exact silent_any hs (only_pid_file_create1.mono (by decide))
    exact ⟨hc, hno hc⟩
  · intro hu
    have hc : (main w).trace.any Event.is_pid_file_create = false := by
      cases hc : (main w).trace.any Event.is_pid_file_create
      · rfl
      · rw [huse hc] at hu
        exact absurd hu (by decide)
    exact ⟨hc, hno hc⟩

/-- C15, witness: a plain start that obtains the PID file removes it at
`finish`; a start that meets a live instance, the waiting parent, `--version`
and a start with `use_pid_file` off do not. -/
theorem pid_file_ownership_witness :
    ((main plain_world).trace.any Event.is_pid_file_remove = true ↔
      (∃ rv, (main plain_world).exit = .returned rv) ∧
      (main plain_world).trace.any Event.is_pid_file_create = true ∧
      plain_world.pa_pid_file_create = 0) ∧
    (main plain_world).trace.any Event.is_pid_file_remove = true ∧
    (main run_conflict_world).trace.any Event.is_pid_file_create = true ∧
    (main run_conflict_world).trace.any Event.is_pid_file_remove = false ∧
    (main parent_world).trace.any Event.is_pid_file_remove = false ∧
    (main (command_world .PA_CMD_VERSION)).trace.any Event.is_pid_file_remove = false ∧
    (main no_pid_file_world).trace.any Event.is_pid_file_create = false ∧
    (main no_pid_file_world).trace.any Event.is_pid_file_remove = false ∧
    (main no_pid_file_world).trace.any Event.is_mainloop_run = true :=
  ⟨(pid_file_ownership plain_world).1, by decide, by decide,
    (pid_file_ownership run_conflict_world).2.2.1 (by decide),
    ((pid_file_ownership parent_world).2.2.2.2.1 (by decide)).2,
    ((pid_file_ownership (command_world .PA_CMD_VERSION)).2.2.2.2.2.1 (by decide)
      (by decide)).2,
    ((pid_file_ownership no_pid_file_world).2.2.2.2.2.2 (by decide)).1,
    ((pid_file_ownership no_pid_file_world).2.2.2.2.2.2 (by decide)).2, by decide⟩

/-! ## C10: what the unwind releases, and with which code -/

end PulseDaemon
